import Mathlib

/-!
# Embedded HTTP server: ESP8266 modem driver

A shallow embedding of the modem protocol engine (`CircularBuffer.c`,
`ESP8266_Interface.c`, `My_hal_uart_stm32f1xx.c`, `ESP8266.cpp`) together with
the properties proved about it.

Conventions of the embedding

* C objects become Lean structures and every C function becomes a Lean function
  that takes the object and returns the updated object next to the C return
  value.
* Machine integers are natural numbers; where a C operation can wrap, the
  modulus is written out (`size_t` and `unsigned int` are 32 bit on the target,
  `uint16_t` is 16 bit, `uint8_t` is 8 bit).
* Memory reached through a pointer is a function from addresses to bytes.
* `esp_debug_print` has no effect on the state and is left out.
-/

set_option autoImplicit false

/-! ## User_typedefs.h -/

/-- `typedef uint32_t STATUS;` -/
abbrev STATUS := Nat

/-- `#define SUCCESS (0)` -/
def SUCCESS : STATUS := 0

/-- `#define ERROR (-1)`, converted to the 32 bit unsigned `STATUS`. -/
def ERROR : STATUS := 4294967295

/-- Number of values of a `size_t` / `unsigned int` / `uint32_t` (32 bit target). -/
def SIZE_MOD : Nat := 4294967296

/-- Number of values of a `uint16_t`. -/
def U16_MOD : Nat := 65536

/-- Number of values of a `uint8_t`. -/
def U8_MOD : Nat := 256

/-! ## libc helpers -/

/-- `memcpy(dst + d, src, n)`: the memory `dst` after copying the `n` bytes
`src 0 .. src (n-1)` to the addresses `d .. d+n-1`. -/
def memcpy (dst : Nat → Nat) (d : Nat) (src : Nat → Nat) (n : Nat) : Nat → Nat :=
  fun a => if d ≤ a ∧ a < d + n then src (a - d) else dst a

/-- The `n` bytes stored at the addresses `a .. a+n-1` of a memory. -/
def bytesAt (m : Nat → Nat) (a n : Nat) : List Nat :=
  (List.range n).map (fun i => m (a + i))

/-- The memory seen through the pointer `p + k` when `p` sees `m`. -/
def ptrAdd (m : Nat → Nat) (k : Nat) : Nat → Nat :=
  fun i => m (k + i)

/-- Write a list of bytes into a memory, the first byte at address `a`. -/
def writeBytes (m : Nat → Nat) (a : Nat) : List Nat → Nat → Nat
  | [], x => m x
  | b :: bs, x => if x = a then b else writeBytes m (a + 1) bs x

/-! ## CircularBuffer.h / CircularBuffer.c -/

/-- `struct circular_buffer`. The pointers `buffer`, `buffer_end`, `head` and
`tail` are addresses (`0` is `NULL`); `mem` is the memory they point into. -/
structure circular_buffer where
  buffer : Nat
  buffer_end : Nat
  capacity : Nat
  count : Nat
  sz : Nat
  head : Nat
  tail : Nat
  mem : Nat → Nat

/-- `cb_init`. The allocator `memmgr_alloc` (declared in `memmgr.h`) is a
parameter: it maps the requested number of bytes to the address of the block,
`0` when the allocation fails. The product `capacity * sz` is a `size_t`. -/
def cb_init (memmgr_alloc : Nat → Nat) (cb : circular_buffer) (capacity sz : Nat) :
    STATUS × circular_buffer :=
  let cb := { cb with buffer := memmgr_alloc (capacity * sz % SIZE_MOD) }
  if cb.buffer = 0 then (ERROR, cb)
  else
    let cb := { cb with buffer_end := cb.buffer + capacity * sz % SIZE_MOD }
    let cb := { cb with capacity := capacity }
    let cb := { cb with count := 0 }
    let cb := { cb with sz := sz }
    let cb := { cb with head := cb.buffer }
    let cb := { cb with tail := cb.buffer }
    (SUCCESS, cb)

/-- `cb_push_back`. `item` is the memory seen through the pointer `item`. -/
def cb_push_back (cb : circular_buffer) (item : Nat → Nat) : STATUS × circular_buffer :=
  if cb.count = cb.capacity then (ERROR, cb)
  else
    let cb := { cb with mem := memcpy cb.mem cb.head item cb.sz }
    let cb := { cb with head := cb.head + cb.sz }
    let cb := if cb.head = cb.buffer_end then { cb with head := cb.buffer } else cb
    let cb := { cb with count := (cb.count + 1) % SIZE_MOD }
    (SUCCESS, cb)

/-- `cb_pop_front`. The second component holds the `sz` bytes that the call
copies to `item`; on `ERROR` nothing is copied and it is empty. -/
def cb_pop_front (cb : circular_buffer) : STATUS × List Nat × circular_buffer :=
  if cb.count = 0 then (ERROR, [], cb)
  else
    let item := bytesAt cb.mem cb.tail cb.sz
    let cb := { cb with tail := cb.tail + cb.sz }
    let cb := if cb.tail = cb.buffer_end then { cb with tail := cb.buffer } else cb
    let cb := { cb with count := cb.count - 1 }
    (SUCCESS, item, cb)

/-- `cb_space_left`: `capacity - count` in `size_t` arithmetic. -/
def cb_space_left (cb : circular_buffer) : Nat :=
  (cb.capacity + SIZE_MOD - cb.count % SIZE_MOD) % SIZE_MOD

/-- `cb_space_occupied`. -/
def cb_space_occupied (cb : circular_buffer) : Nat :=
  cb.count

/-! ### Sequences of ring buffer calls -/

/-- One call on a ring buffer: `cb_push_back(cb, item)` or `cb_pop_front(cb, out)`. -/
inductive cb_op where
  | push_back (item : Nat → Nat)
  | pop_front

/-- Perform one call; the result is the returned status, the bytes handed back
to the caller (empty for a push) and the buffer after the call. -/
def cb_step (cb : circular_buffer) : cb_op → STATUS × List Nat × circular_buffer
  | .push_back item => ((cb_push_back cb item).1, [], (cb_push_back cb item).2)
  | .pop_front => cb_pop_front cb

/-- Perform a sequence of calls, collecting what each call returned. -/
def cb_run (cb : circular_buffer) : List cb_op → List (STATUS × List Nat) × circular_buffer
  | [] => ([], cb)
  | op :: ops =>
    let r := cb_step cb op
    let rest := cb_run r.2.2 ops
    ((r.1, r.2.1) :: rest.1, rest.2)

/-- The buffer after a sequence of calls. -/
def cb_after (cb : circular_buffer) (ops : List cb_op) : circular_buffer :=
  (cb_run cb ops).2

/-! ### The bounded FIFO queue the ring buffer is compared with -/

/-- A bounded first-in first-out queue of elements (each a list of bytes):
the oldest element is the head of `items`. -/
structure bounded_fifo where
  capacity : Nat
  items : List (List Nat)

/-- Specification of push: succeeds iff fewer than `capacity` elements are
stored, and then appends the element at the back; otherwise nothing changes. -/
def fifo_push (q : bounded_fifo) (x : List Nat) : STATUS × bounded_fifo :=
  if q.items.length < q.capacity then (SUCCESS, { q with items := q.items ++ [x] })
  else (ERROR, q)

/-- Specification of pop: succeeds iff at least one element is stored, and then
returns and removes the oldest element; otherwise nothing changes. -/
def fifo_pop (q : bounded_fifo) : STATUS × List Nat × bounded_fifo :=
  match q.items with
  | [] => (ERROR, [], q)
  | x :: rest => (SUCCESS, x, { q with items := rest })

/-- One call on the queue specification; a pushed element is the `sz` bytes
found at the `item` pointer. -/
def fifo_step (sz : Nat) (q : bounded_fifo) : cb_op → STATUS × List Nat × bounded_fifo
  | .push_back item => ((fifo_push q (bytesAt item 0 sz)).1, [], (fifo_push q (bytesAt item 0 sz)).2)
  | .pop_front => fifo_pop q

/-- A sequence of calls on the queue specification. -/
def fifo_run (sz : Nat) (q : bounded_fifo) : List cb_op → List (STATUS × List Nat) × bounded_fifo
  | [] => ([], q)
  | op :: ops =>
    let r := fifo_step sz q op
    let rest := fifo_run sz r.2.2 ops
    ((r.1, r.2.1) :: rest.1, rest.2)

/-- Address reached from `a` by one advance of a ring buffer cursor. -/
def cb_next (cb : circular_buffer) (a : Nat) : Nat :=
  if a + cb.sz = cb.buffer_end then cb.buffer else a + cb.sz

/-- The elements found by walking `n` cells from address `a`. -/
def cb_walk (cb : circular_buffer) : Nat → Nat → List (List Nat)
  | 0, _ => []
  | n + 1, a => bytesAt cb.mem a cb.sz :: cb_walk cb n (cb_next cb a)

/-- The stored elements, oldest first: the `count` cells starting at `tail`. -/
def cb_contents (cb : circular_buffer) : List (List Nat) :=
  cb_walk cb cb.count cb.tail

/-- Address of cell number `i` of a ring buffer. -/
def cb_addr (cb : circular_buffer) (i : Nat) : Nat :=
  cb.buffer + i * cb.sz

/-- Well-formedness of a ring buffer whose read cursor stands at cell `t`:
the block holds `capacity` cells of `sz` bytes, at most `capacity` elements are
stored, and the write cursor stands `count` cells after the read cursor. -/
def cb_inv (cb : circular_buffer) (t : Nat) : Prop :=
  cb.buffer_end = cb.buffer + cb.capacity * cb.sz ∧
  cb.capacity < SIZE_MOD ∧
  cb.count ≤ cb.capacity ∧
  (t < cb.capacity ∨ (cb.capacity = 0 ∧ t = 0)) ∧
  cb.tail = cb_addr cb t ∧
  cb.head = cb_addr cb ((t + cb.count) % cb.capacity)

/-- A ring buffer is well formed when it is for some position of the read cursor. -/
def cb_wf (cb : circular_buffer) : Prop :=
  ∃ t, cb_inv cb t

/-! ## C strings and the libc functions the driver calls

`strlen`, `strcmp`, `strstr` and `sscanf` belong to the C library, not to the
repository; they are modelled here after ISO C (7.21.6.2 for `fscanf`), and
after newlib, the C library of the target toolchain, where ISO C leaves the
behaviour open. -/

/-- The bytes of a string literal. -/
def cs (s : String) : List Nat :=
  s.toList.map Char.toNat

/-- The C string found in memory `m` at address `a`: the bytes up to the first
NUL, looking at no more than `n` bytes. -/
def cstr_upto (m : Nat → Nat) : Nat → Nat → List Nat
  | 0, _ => []
  | n + 1, a => if m a = 0 then [] else m a :: cstr_upto m n (a + 1)

/-- `strstr(hay, needle) != NULL` on the string contents: `needle` occurs in `hay`. -/
def strstr : List Nat → List Nat → Bool
  | [], needle => needle.isEmpty
  | h :: hs, needle => needle.isPrefixOf (h :: hs) || strstr hs needle

/-- `strcmp(a, b) == 0` on the string contents. -/
def strcmp_eq (a b : List Nat) : Bool :=
  a == b

/-- `isspace` in the C locale: space, `\t`, `\n`, `\v`, `\f`, `\r`. -/
def isspace (c : Nat) : Bool :=
  c == 32 || (9 ≤ c && c ≤ 13)

/-- `isdigit`. -/
def isdigit (c : Nat) : Bool :=
  48 ≤ c && c ≤ 57

/-- Value of a hexadecimal digit character, if it is one. -/
def hexval (c : Nat) : Option Nat :=
  if 48 ≤ c && c ≤ 57 then some (c - 48)
  else if 97 ≤ c && c ≤ 102 then some (c - 87)
  else if 65 ≤ c && c ≤ 70 then some (c - 55)
  else none

/-- Drop leading white space. -/
def skipSpace : List Nat → List Nat
  | [] => []
  | c :: rest => if isspace c then skipSpace rest else c :: rest

/-- Read decimal digits: the value accumulated so far becomes the value of the
whole digit sequence; the result also holds the unread rest of the input. -/
def scan_digits : List Nat → Nat → Nat × List Nat
  | [], acc => (acc, [])
  | c :: rest, acc => if isdigit c then scan_digits rest (acc * 10 + (c - 48)) else (acc, c :: rest)

/-- Read hexadecimal digits, as `scan_digits`. -/
def scan_hexdigits : List Nat → Nat → Nat × List Nat
  | [], acc => (acc, [])
  | c :: rest, acc =>
    match hexval c with
    | some v => scan_hexdigits rest (acc * 16 + v)
    | none => (acc, c :: rest)

/-- Conversion specifiers used by the driver's formats. -/
inductive scan_spec where
  | u
  | d
  | x
  | s
  | set (negate : Bool) (members : List Nat)

/-- A directive of a `scanf` format. -/
inductive scan_directive where
  | white
  | lit (c : Nat)
  | conv (suppress : Bool) (width : Option Nat) (spec : scan_spec)

/-- A value assigned by a conversion: a number (stored through an
`unsigned int *`) or a string (stored with a terminating NUL). -/
inductive scan_val where
  | num (n : Nat)
  | str (s : List Nat)

/-- Outcome of one conversion. -/
inductive scan_outcome where
  | inputFailure
  | matchFailure
  | ok (v : scan_val) (rest : List Nat)

/-- Read the members of a scanset up to the closing bracket; the result is the
members and the format after the bracket. -/
def scan_format_set : List Nat → List Nat → List Nat × List Nat
  | [], acc => (acc, [])
  | c :: rest, acc => if c = ']'.toNat then (acc, rest) else scan_format_set rest (acc ++ [c])

/-- Parse a format string into directives (`n` bounds the number of directives;
the length of the format is always enough). -/
def scan_format : Nat → List Nat → List scan_directive
  | 0, _ => []
  | _, [] => []
  | n + 1, c :: rest =>
    if c = '%'.toNat then
      let suppress := rest.head? = some '*'.toNat
      let rest := if suppress then rest.drop 1 else rest
      let w := scan_digits rest 0
      let width := if w.2.length = rest.length then none else some w.1
      match w.2 with
      | [] => []
      | k :: rest =>
        if k = 'u'.toNat then scan_directive.conv suppress width .u :: scan_format n rest
        else if k = 'd'.toNat then scan_directive.conv suppress width .d :: scan_format n rest
        else if k = 'x'.toNat then scan_directive.conv suppress width .x :: scan_format n rest
        else if k = 's'.toNat then scan_directive.conv suppress width .s :: scan_format n rest
        else if k = '['.toNat then
          let negate := rest.head? = some '^'.toNat
          let rest := if negate then rest.drop 1 else rest
          let r := scan_format_set rest []
          scan_directive.conv suppress width (.set negate r.1) :: scan_format n r.2
        else if k = '%'.toNat then scan_directive.lit k :: scan_format n rest
        else []
    else if isspace c then scan_directive.white :: scan_format n rest
    else scan_directive.lit c :: scan_format n rest

/-- The longest prefix of the input, of at most `w` characters when a width is
given, whose characters satisfy `p`; and the rest of the input. -/
def scan_span (p : Nat → Bool) : Option Nat → List Nat → List Nat × List Nat
  | _, [] => ([], [])
  | some 0, input => ([], input)
  | some (w + 1), c :: rest =>
    if p c then ((c :: (scan_span p (some w) rest).1), (scan_span p (some w) rest).2)
    else ([], c :: rest)
  | none, c :: rest =>
    if p c then ((c :: (scan_span p none rest).1), (scan_span p none rest).2)
    else ([], c :: rest)

/-- `strtoul` result for a sign and a magnitude: `ULONG_MAX` when the magnitude
is out of range, otherwise the magnitude, negated modulo 2^32 after a minus. -/
def strtoul_val (neg : Bool) (v : Nat) : Nat :=
  if v ≥ SIZE_MOD then SIZE_MOD - 1
  else if neg then (SIZE_MOD - v) % SIZE_MOD else v

/-- `strtol` result for a sign and a magnitude, as the 32 bit pattern stored:
clamped to `LONG_MIN .. LONG_MAX`. -/
def strtol_val (neg : Bool) (v : Nat) : Nat :=
  if neg then (if v ≥ 2147483648 then 2147483648 else (SIZE_MOD - v) % SIZE_MOD)
  else (if v ≥ 2147483648 then 2147483647 else v)

/-- An integer conversion (`%u`, `%d`, `%x`): white space is skipped, an
optional sign is read, then the digits; without a digit the conversion fails. -/
def scan_int (spec : scan_spec) (input : List Nat) : scan_outcome :=
  match skipSpace input with
  | [] => .inputFailure
  | c :: rest =>
    let neg := c = '-'.toNat
    let body := if c = '-'.toNat ∨ c = '+'.toNat then rest else c :: rest
    match spec with
    | .x =>
      let body := match body with
        | z :: k :: h :: more =>
          if z = '0'.toNat ∧ (k = 'x'.toNat ∨ k = 'X'.toNat) ∧ (hexval h).isSome then h :: more
          else body
        | _ => body
      (match body with
       | [] => .matchFailure
       | h :: more =>
         if (hexval h).isSome then
           .ok (.num (strtoul_val neg (scan_hexdigits (h :: more) 0).1)) (scan_hexdigits (h :: more) 0).2
         else .matchFailure)
    | .d =>
      (match body with
       | [] => .matchFailure
       | h :: more =>
         if isdigit h then
           .ok (.num (strtol_val neg (scan_digits (h :: more) 0).1)) (scan_digits (h :: more) 0).2
         else .matchFailure)
    | _ =>
      (match body with
       | [] => .matchFailure
       | h :: more =>
         if isdigit h then
           .ok (.num (strtoul_val neg (scan_digits (h :: more) 0).1)) (scan_digits (h :: more) 0).2
         else .matchFailure)

/-- One conversion on the input. -/
def scan_conv (width : Option Nat) (spec : scan_spec) (input : List Nat) : scan_outcome :=
  match spec with
  | .s =>
    (match skipSpace input with
     | [] => .inputFailure
     | c :: rest =>
       .ok (.str (scan_span (fun x => !isspace x) width (c :: rest)).1)
         (scan_span (fun x => !isspace x) width (c :: rest)).2)
  | .set negate members =>
    (match input with
     | [] => .inputFailure
     | c :: rest =>
       if (scan_span (fun x => (members.contains x) != negate) width (c :: rest)).1 = [] then
         .matchFailure
       else
         .ok (.str (scan_span (fun x => (members.contains x) != negate) width (c :: rest)).1)
           (scan_span (fun x => (members.contains x) != negate) width (c :: rest)).2)
  | spec => scan_int spec input

/-- Return value when the input ends: `EOF` if nothing has been assigned yet. -/
def scan_eof (vals : List scan_val) : Int × List scan_val :=
  if vals.isEmpty then (-1, vals) else (vals.length, vals)

/-- Execute the directives of a format on the input. The result is the value
`sscanf` returns and the values assigned, in order. -/
def scan_exec : List scan_directive → List Nat → List scan_val → Int × List scan_val
  | [], _, vals => (vals.length, vals)
  | .white :: ds, input, vals => scan_exec ds (skipSpace input) vals
  | .lit c :: ds, input, vals =>
    (match input with
     | [] => scan_eof vals
     | x :: rest => if x = c then scan_exec ds rest vals else (vals.length, vals))
  | .conv suppress width spec :: ds, input, vals =>
    (match scan_conv width spec input with
     | .inputFailure => scan_eof vals
     | .matchFailure => (vals.length, vals)
     | .ok v rest => scan_exec ds rest (if suppress then vals else vals ++ [v]))

/-- `sscanf(str, format, ...)`: the returned count (`-1` is `EOF`) and the
assigned values in the order of the pointer arguments. -/
def sscanf (str : List Nat) (format : String) : Int × List scan_val :=
  scan_exec (scan_format (cs format).length (cs format)) str []

/-- The number at position `i` of the assigned values (`0` when that argument
was not assigned a number). -/
def scan_num_at (vals : List scan_val) (i : Nat) : Nat :=
  match vals.get? i with
  | some (.num n) => n
  | _ => 0

/-- The string at position `i` of the assigned values. -/
def scan_str_at (vals : List scan_val) (i : Nat) : List Nat :=
  match vals.get? i with
  | some (.str s) => s
  | _ => []

/-- The value of `sscanf` as stored in the `uint8_t res`. -/
def scan_res (r : Int × List scan_val) : Nat :=
  (r.1 % 256).toNat

/-! ## Timer.h / Timer.cpp -/

/-- `enum Type{Down = 0, Up}` of class `Timer`. -/
inductive Timer_Type where
  | Down
  | Up
  deriving DecidableEq, Repr

/-- The data members of class `Timer` (the links of the list of all timers are
left out). -/
structure Timer where
  RanOutFlag : Bool
  Value : Nat
  InitVal : Nat
  Enable : Bool
  type : Timer_Type
  deriving DecidableEq, Repr

/-- `Timer::Timer(Type tType, unsigned long Time, bool enable)`. -/
def Timer.ctor (tType : Timer_Type) (Time : Nat) (enable : Bool) : Timer :=
  { RanOutFlag := false, InitVal := Time, Enable := enable, type := tType,
    Value := match tType with
      | .Up => 0
      | .Down => Time }

/-- `Timer::Set`. -/
def Timer.Set (t : Timer) (InitValue : Nat) : Timer :=
  { t with InitVal := InitValue }

/-- `Timer::Reset`. -/
def Timer.Reset (t : Timer) : Timer :=
  let t := if t.type = .Up then { t with Value := 0 } else { t with Value := t.InitVal }
  let t := { t with RanOutFlag := false }
  { t with Enable := true }

/-- `Timer::Elapsed`: the returned flag and the timer with the flag cleared. -/
def Timer.Elapsed (t : Timer) : Bool × Timer :=
  let tmp := t.RanOutFlag
  (tmp, if tmp then { t with RanOutFlag := false } else t)

/-- `Timer::Stop`. -/
def Timer.Stop (t : Timer) : Timer :=
  { t with Enable := false }

/-- The effect of `Timer::Tick` on one timer of the list. -/
def Timer.Tick (t : Timer) : Timer :=
  if t.Enable = true then
    match t.type with
    | .Up =>
      let t := { t with Value := (t.Value + 1) % SIZE_MOD }
      if t.InitVal ≠ 0 then
        (if t.Value = t.InitVal then { t with RanOutFlag := true } else t)
      else t
    | .Down =>
      if t.Value ≠ 0 then
        let t := { t with Value := t.Value - 1 }
        if t.Value = 0 then { t with RanOutFlag := true, Value := t.InitVal } else t
      else t
  else t

/-- `_10ms_` .. `_3sec_` with `HW_TIMER_TIME = 1`. -/
def _10ms_ : Nat := 10
def _30ms_ : Nat := 30
def _100ms_ : Nat := 100
def _200ms_ : Nat := 200
def _500ms_ : Nat := 500
def _1sec_ : Nat := 1000
def _2sec_ : Nat := 2000
def _3sec_ : Nat := 3000
def _5sec_ : Nat := 5000
def _10sec_ : Nat := 10000
def _20sec_ : Nat := 20000

/-! ## ESP8266_def.hpp -/

/-- `enum class eAT`: the events the recognizer can store. -/
inductive eAT where
  | NO_COMMAND_RECEIVED
  | ECHO_AT
  | ECHO_ECHO_OFF
  | ECHO_ECHO_ON
  | ECHO_RST
  | ECHO_CWMODE
  | ECHO_CWJAP
  | ECHO_CWLAP
  | ECHO_CWQAP
  | ECHO_CWSAP
  | ECHO_CIPSTATUS
  | ECHO_CIPSTART
  | ECHO_CIPCLOSE
  | ECHO_CIFSR
  | ECHO_CIPMUX
  | ECHO_CIPSERVER
  | ECHO_CIOBAUD_QM
  | ECHO_UART_CUR
  | ECHO_UNKNOWN
  | READY
  | OK
  | CIOBAUD
  | CIOBAUD_RANGE
  | BAUDRATE_CONFIRMATION
  | NOCHANGE
  | IP
  | FAIL
  | ALREADY_CONNECT
  | SEND_OK
  | CIPSTATUS
  | WRONG_SYNTAX
  | AT_ERROR
  | LINKED
  | LINK
  | LINKISBUILDED
  | UNLINK
  | BUSY
  | BUSY_P
  | BUSY_S
  | LINKISNOT
  | NOIP
  | NO_THIS_FUNCTION
  | CWJAP
  | CWJAP_FAULT
  | CWSAP_CUR
  | CWMODE
  | CWLAP
  | CIFSR_APIP
  | CIFSR_APMAC
  | SOCKET_CONNECT
  | SOCKET_CLOSED
  | SOCKET_CONNECT_FAIL
  | REBOOT_DETECTED
  | WDT_RESET
  | BAD_STRUCTURE
  | UNKNOWN
  | INTERNAL_ERROR
  deriving DecidableEq, Repr

/-! ## ESP8266.hpp -/

/-- `#define ESP8266_UART_SPEED`. -/
def ESP8266_UART_SPEED : Nat := 230400

/-- `#define ESP8266_SOCKETS_MAX`. -/
def ESP8266_SOCKETS_MAX : Nat := 5

/-- `#define ESP8266_RX_BUFF_LEN`. -/
def ESP8266_RX_BUFF_LEN : Nat := 100

/-- `#define ESP8266_AP_NAME_LEN`. -/
def ESP8266_AP_NAME_LEN : Nat := 40

/-- `#define ESP8266_AP_PWD_LEN`. -/
def ESP8266_AP_PWD_LEN : Nat := 40

/-- `#define ESP8266_RECEIVED_COMMAND_NUM_OF_PARAM`. -/
def ESP8266_RECEIVED_COMMAND_NUM_OF_PARAM : Nat := 6

/-- `#define ESP8266_RECEIVED_COMMAND_PARAM_STR_LEN`. -/
def ESP8266_RECEIVED_COMMAND_PARAM_STR_LEN : Nat :=
  ESP8266_AP_NAME_LEN + 4 + ESP8266_AP_PWD_LEN + 20

/-- `#define ESP8266_RECEIVED_COMMAND_PARAM_STR2_LEN`. -/
def ESP8266_RECEIVED_COMMAND_PARAM_STR2_LEN : Nat := 20

/-- `enum class eModuleToggle`. -/
inductive eModuleToggle where
  | Enable
  | Disable
  deriving DecidableEq, Repr

/-- `enum class eModuleMode`. -/
inductive eModuleMode where
  | Undefined
  | Station
  | AccessPoint
  | StationAndAccessPoint
  deriving DecidableEq, Repr

/-- `enum class eModuleConnectionType`. -/
inductive eModuleConnectionType where
  | Undefined
  | Single
  | Multiple
  deriving DecidableEq, Repr

/-- `enum class eSocketState`. -/
inductive eSocketState where
  | Closed
  | Open
  | ConnectRequested
  | Connecting
  | Connected
  | CloseRequested
  | Closing
  | Error
  deriving DecidableEq, Repr

/-- `enum class eSocketErrorFlag`. -/
inductive eSocketErrorFlag where
  | NoError
  | FailToConnect
  | Timeout
  | NoAccessPoint
  | InternalError
  deriving DecidableEq, Repr

/-- `enum class eSocketType {UDP = 0, TCP}`. -/
inductive eSocketType where
  | UDP
  | TCP
  deriving DecidableEq, Repr

/-- The value of an `eSocketType` as an integer. -/
def eSocketType.toNat : eSocketType → Nat
  | .UDP => 0
  | .TCP => 1

/-- `enum class eSocketSendDataStatus`. -/
inductive eSocketSendDataStatus where
  | Idle
  | SendRequested
  | InProgress
  | SendFail
  | SendSuccess
  deriving DecidableEq, Repr

/-- The state objects `smModuleReset` .. `smGetConnectionsInfo` that
`CurrentState` and `LastState` can point to. -/
inductive eState where
  | smModuleReset
  | smStartModule
  | smTestModule
  | smDetectModuleBaudrate
  | smModuleInitialization
  | smSelectModuleMode
  | smFindFreeSSID
  | smSetApParameters
  | smJoinAP
  | smStandby
  | smChangeConnectionType
  | smSendData
  | smOpenSocket
  | smCloseSocket
  | smStartServer
  | smGetApIP
  | smChangeAPIP
  | smGetConnectionsInfo
  deriving DecidableEq, Repr

/-- The data members of class `module`. -/
structure module where
  ModuleReady : Bool
  ModeActual : eModuleMode
  ModeRequest : eModuleMode
  ConnectionTypeActual : eModuleConnectionType
  ConnectionTypeRequest : eModuleConnectionType
  BaudRateIndex : Nat
  BaudRate : Nat
  EchoIsOnFlag : Bool
  AP_NamePostfix : Nat
  deriving DecidableEq, Repr

/-- `ESP::module::module()` with the default member initialisers. -/
def module.ctor : module :=
  { ModuleReady := false, ModeActual := .Undefined, ModeRequest := .Undefined,
    ConnectionTypeActual := .Undefined, ConnectionTypeRequest := .Undefined,
    BaudRateIndex := 0, BaudRate := ESP8266_UART_SPEED, EchoIsOnFlag := true,
    AP_NamePostfix := 0 }

/-- The data members of class `io`. `RxBuffer`, `ReceivedParameter`,
`ReceivedParameterStr` and `ReceivedParameterStr2` are the arrays (index to
element); `pCurrentSocketData` is an address in the application's memory. -/
structure io where
  ReceivedCommand : eAT
  RxSocketId : Nat
  RxBuffCounter : Nat
  RxIgnoreCounter : Nat
  CurrentSocketDataLeft : Nat
  pCurrentSocketData : Nat
  DoEmptyRxStream : Bool
  RxOverflowEvent : Bool
  RxOverflowFlag : Bool
  ReceiveError : Bool
  ListenToTxData : Bool
  ReceivingDataStream : Bool
  RxBuffer : Nat → Nat
  CommandString : Nat → Nat
  ReceivedParameter : Nat → Nat
  ReceivedParameterStr : Nat → Nat
  ReceivedParameterStr2 : Nat → Nat

/-- `ESP::io::io()`; the arrays `RxBuffer` and `CommandString` start as `""`,
the other arrays keep what they held (`old`). -/
def io.ctor (old : io) : io :=
  { old with
    pCurrentSocketData := 0, ReceivedCommand := .NO_COMMAND_RECEIVED, RxBuffCounter := 0,
    RxIgnoreCounter := 0, CurrentSocketDataLeft := 0, RxSocketId := 0, ReceiveError := false,
    DoEmptyRxStream := false, ListenToTxData := false, ReceivingDataStream := false,
    RxOverflowEvent := false, RxOverflowFlag := false,
    RxBuffer := fun _ => 0, CommandString := fun _ => 0 }

/-- `ESP::io::ClearReceivingErrors`. -/
def io.ClearReceivingErrors (x : io) : io :=
  if x.ReceiveError then { x with DoEmptyRxStream := true } else x

/-- `ESP::io::ClearRxStream`. -/
def io.ClearRxStream (x : io) : io :=
  { x with DoEmptyRxStream := true }

/-- The data members of class `socket`; `Address`, `DataRx` and `DataTx` are
addresses (`0` is the null pointer). The member `Type` is the field `Type_`. -/
structure socket where
  State : eSocketState
  ErrorFlag : eSocketErrorFlag
  Type_ : eSocketType
  Address : Nat
  Port : Nat
  DataRx : Nat
  RxBuffSize : Nat
  RxDataLen : Nat
  RxLock : Bool
  DataTx : Nat
  TxDataLen : Nat
  TxPacketLen : Nat
  TxLock : Bool
  TxState : eSocketSendDataStatus
  DataCutFlag : Bool
  CloseAfterSending : Bool
  deriving DecidableEq, Repr

/-- `ESP::socket::socket()`. -/
def socket.ctor : socket :=
  { State := .Closed, ErrorFlag := .NoError, Type_ := .UDP, Address := 0, Port := 0,
    DataRx := 0, RxBuffSize := 0, RxDataLen := 0, RxLock := false, DataTx := 0,
    TxDataLen := 0, TxPacketLen := 0, TxLock := false, TxState := .Idle,
    DataCutFlag := false, CloseAfterSending := false }

/-! ## ESP8266_Interface.h / ESP8266_Interface.c / My_hal_uart_stm32f1xx.c -/

/-- `#define ESP1_HUART_NUM`. -/
def ESP1_HUART_NUM : Nat := 1

/-- `#define ESP8266_CB_RX_SIZE`. -/
def ESP8266_CB_RX_SIZE : Nat := 200

/-- `#define ESP8266_CB_TX_SIZE`. -/
def ESP8266_CB_TX_SIZE : Nat := 200

/-- The parts of the UART handle `ESP1_HUART` the driver works with: the ring
buffers `ESP1_cb_Rx` and `ESP1_cb_Tx` that `pRxBuffPtr` and `pTxBuffPtr` point to
once `Init_USART_CB` has run, the bit `MY_HAL_UART_STATE_RX_OVERFLOW` of
`gState`, and `Init.BaudRate`. -/
structure UART_HandleTypeDef where
  pRxBuffPtr : circular_buffer
  pTxBuffPtr : circular_buffer
  RX_OVERFLOW : Bool
  BaudRate : Nat

/-- `Init_USART_CB`. -/
def Init_USART_CB (memmgr_alloc : Nat → Nat) (huart : UART_HandleTypeDef)
    (cb_size_rx cb_size_tx data_size : Nat) : STATUS × UART_HandleTypeDef :=
  if data_size ≠ 1 ∧ data_size ≠ 2 then (ERROR, huart)
  else
    let r := cb_init memmgr_alloc huart.pRxBuffPtr cb_size_rx data_size
    let huart := { huart with pRxBuffPtr := r.2 }
    if SUCCESS = r.1 then
      let huart := { huart with RX_OVERFLOW := false }
      let t := cb_init memmgr_alloc huart.pTxBuffPtr cb_size_tx data_size
      let huart := { huart with pTxBuffPtr := t.2 }
      if SUCCESS = t.1 then (SUCCESS, huart) else (ERROR, huart)
    else (ERROR, huart)

/-- `UART_RxDataOverflow`: the returned value (`-1` as an `int` is nonzero; here
`1` stands for it) and the handle with the flag cleared. -/
def UART_RxDataOverflow (huart : UART_HandleTypeDef) : Nat × UART_HandleTypeDef :=
  if huart.RX_OVERFLOW then (1, { huart with RX_OVERFLOW := false }) else (0, huart)

/-- `My_UART_Receive_IT` in 8 bit mode (the mode `ESP_SetBaudRate` configures):
the receive interrupt stores the byte read from the data register. -/
def My_UART_Receive_IT (huart : UART_HandleTypeDef) (DR : Nat) : UART_HandleTypeDef :=
  let tmp8 := DR % 256
  let r := cb_push_back huart.pRxBuffPtr (fun _ => tmp8)
  let huart := { huart with pRxBuffPtr := r.2 }
  if SUCCESS ≠ r.1 then { huart with RX_OVERFLOW := true } else huart

/-- `ESP_HuartInit`. -/
def ESP_HuartInit (memmgr_alloc : Nat → Nat) (HuartNumber : Nat) (huart : UART_HandleTypeDef) :
    STATUS × UART_HandleTypeDef :=
  if HuartNumber = ESP1_HUART_NUM then
    let r := Init_USART_CB memmgr_alloc huart ESP8266_CB_RX_SIZE ESP8266_CB_TX_SIZE 1
    if SUCCESS ≠ r.1 then (ERROR, r.2) else (SUCCESS, r.2)
  else (ERROR, huart)

/-- The `while(Size)` loop of `ESP_HuartSend`. -/
def ESP_HuartSend_loop (cb_Tx : circular_buffer) (data : Nat → Nat) :
    Nat → STATUS × circular_buffer
  | 0 => (SUCCESS, cb_Tx)
  | Size + 1 =>
    if SUCCESS ≠ (cb_push_back cb_Tx data).1 then (ERROR, (cb_push_back cb_Tx data).2)
    else ESP_HuartSend_loop (cb_push_back cb_Tx data).2 (ptrAdd data 1) Size

/-- `ESP_HuartSend`. `pData` is the memory seen through the pointer `pData`.
Disabling and enabling the transmit interrupt leaves the buffers unchanged. -/
def ESP_HuartSend (huart : UART_HandleTypeDef) (HuartNumber : Nat) (pData : Nat → Nat)
    (Size : Nat) : STATUS × UART_HandleTypeDef :=
  if HuartNumber = ESP1_HUART_NUM then
    let cb_Tx := huart.pTxBuffPtr
    if cb_space_left cb_Tx ≥ Size then
      let r := ESP_HuartSend_loop cb_Tx pData Size
      (r.1, { huart with pTxBuffPtr := r.2 })
    else (ERROR, huart)
  else (ERROR, huart)

/-- `ESP_GetChar`: the status, the bytes copied to `sym`, and the handle. -/
def ESP_GetChar (huart : UART_HandleTypeDef) (HuartNumber : Nat) :
    STATUS × List Nat × UART_HandleTypeDef :=
  if HuartNumber = ESP1_HUART_NUM then
    let r := cb_pop_front huart.pRxBuffPtr
    (r.1, r.2.1, { huart with pRxBuffPtr := r.2.2 })
  else (ERROR, [], huart)

/-- `ESP_NumOfDataReceived`. -/
def ESP_NumOfDataReceived (huart : UART_HandleTypeDef) (HuartNumber : Nat) : Nat :=
  if HuartNumber = ESP1_HUART_NUM then cb_space_occupied huart.pRxBuffPtr else ERROR

/-- `ESP_TransmitBufferSpaceLeft`. -/
def ESP_TransmitBufferSpaceLeft (huart : UART_HandleTypeDef) (HuartNumber : Nat) : Nat :=
  if HuartNumber = ESP1_HUART_NUM then cb_space_left huart.pTxBuffPtr else ERROR

/-- `ESP_HuartRxOverflow`: the returned status and the handle. -/
def ESP_HuartRxOverflow (huart : UART_HandleTypeDef) (HuartNumber : Nat) :
    STATUS × UART_HandleTypeDef :=
  if HuartNumber = ESP1_HUART_NUM then
    if (UART_RxDataOverflow huart).1 ≠ 0 then (ERROR, (UART_RxDataOverflow huart).2)
    else (0, (UART_RxDataOverflow huart).2)
  else (0, huart)

/-- `ESP_SetBaudRate`: `Init.BaudRate` is set and `HAL_UART_Init` is called.
`HAL_UART_Init` belongs to the vendor's library; it is taken to leave the ring
buffers and the overflow flag as they are. -/
def ESP_SetBaudRate (huart : UART_HandleTypeDef) (HuartNumber Baud : Nat) : UART_HandleTypeDef :=
  if HuartNumber = ESP1_HUART_NUM then { huart with BaudRate := Baud } else huart

/-- `My_UART_Transmit_IT` in 8 bit mode: the transmit interrupt takes the oldest
byte of the transmit queue and writes it to the data register. The result is
the byte written, if there was one, and the handle. -/
def My_UART_Transmit_IT (huart : UART_HandleTypeDef) : Option Nat × UART_HandleTypeDef :=
  if SUCCESS = (cb_pop_front huart.pTxBuffPtr).1 then
    (some ((cb_pop_front huart.pTxBuffPtr).2.1.getD 0 0 % 256),
     { huart with pTxBuffPtr := (cb_pop_front huart.pTxBuffPtr).2.2 })
  else (none, { huart with pTxBuffPtr := (cb_pop_front huart.pTxBuffPtr).2.2 })

/-! ## class ESP -/

/-- `enum class eAccessPointState{NotStarted = 0, Starting, Timeout, Failed, Started}`. -/
inductive eAccessPointState where
  | NotStarted
  | Starting
  | Timeout
  | Failed
  | Started
  deriving DecidableEq, Repr

/-- `enum class eECNType{Open = 0, WPA_PSK = 2, WPA2_PSK = 3, WPA_WPA2_PSK = 4}`. -/
inductive eECNType where
  | Open
  | WPA_PSK
  | WPA2_PSK
  | WPA_WPA2_PSK
  deriving DecidableEq, Repr

/-- The value of an `eECNType`, as `(unsigned int)ecn` gives it. -/
def eECNType.toNat : eECNType → Nat
  | .Open => 0
  | .WPA_PSK => 2
  | .WPA2_PSK => 3
  | .WPA_WPA2_PSK => 4

/-- `struct AccessPoint : AccessPointCredentials`: the members that the state
handlers of the access point and the API use. `Name` and `Password` are the
arrays (index to element) that `pName` and `pPassword` point to. -/
structure AccessPoint where
  Name : Nat → Nat
  Password : Nat → Nat
  IP : Nat
  NetMask : Nat
  Gateway : Nat
  MAC : Nat
  NewIP : Nat
  NewNetMask : Nat
  NewGateway : Nat
  Channel : Nat
  ecn : eECNType
  State : eAccessPointState
  NewName : Nat
  ChangeIPRequest : Bool

/-- `ESP::AccessPoint::AccessPoint()` after `AccessPointCredentials()`, with the
default member initialisers `Name = ""` and `Password = ""`. -/
def AccessPoint.ctor : AccessPoint :=
  { Name := fun _ => 0, Password := fun _ => 0, IP := 0, NetMask := 0, Gateway := 0, MAC := 0,
    NewIP := 0, NewNetMask := 0, NewGateway := 0, Channel := 0, ecn := .Open,
    State := .NotStarted, NewName := 0, ChangeIPRequest := false }

/-- `enum class eStationConnectionState`. -/
inductive eStationConnectionState where
  | NotConnected
  | Connecting
  | Connected
  | ConnectFailed
  | ConnectTimeout
  | Disconnected
  deriving DecidableEq, Repr

/-- `struct Station : AccessPointCredentials`: the members that the state handlers
and the API use. `Name` and `Password` are the arrays that `pName` and
`pPassword` point to. -/
structure Station where
  Name : Nat → Nat
  Password : Nat → Nat
  StationState : eStationConnectionState

/-- `ESP::Station::Station()` after `AccessPointCredentials()`, with the default
member initialisers `Name = ""` and `Password = ""`. -/
def Station.ctor : Station :=
  { Name := fun _ => 0, Password := fun _ => 0, StationState := .NotConnected }

/-- `enum class eServerState{Undefined = 0, GotIP = 2, Connected = 3,
Disconnected = 4, Connecting = 200, ConnectTimeout = 254, Error = 255}`. -/
inductive eServerState where
  | Undefined
  | GotIP
  | Connected
  | Disconnected
  | Connecting
  | ConnectTimeout
  | Error
  deriving DecidableEq, Repr

/-- `class server`. -/
structure server where
  State : eServerState
  StartRequest : Bool
  Port : Nat
  deriving DecidableEq, Repr

/-- `ESP::server::server()`. -/
def server.ctor : server :=
  { State := .Undefined, StartRequest := false, Port := 0 }

/-- `NameSize = sizeof(Name)` with `char Name[ESP8266_AP_NAME_LEN + 4]`. -/
def AccessPoint.NameSize : Nat := ESP8266_AP_NAME_LEN + 4

/-- `PasswordSize = sizeof(Name)`. -/
def AccessPoint.PasswordSize : Nat := ESP8266_AP_NAME_LEN + 4

/-- `CommandStringSize = sizeof(CommandString)` with
`char CommandString[ESP8266_AP_NAME_LEN+ESP8266_AP_PWD_LEN+40]`. -/
def io.CommandStringSize : Nat := ESP8266_AP_NAME_LEN + ESP8266_AP_PWD_LEN + 40

/-- The state the driver works on: the data members of class `ESP`, the UART
handle `ESP1_HUART` with its ring buffers, and `app_mem`, the memory of the
application that the sockets' `DataRx` / `DataTx` pointers point into.
`smStandby_SocketId` .. `smCloseSocket_SocketId` are the private members
`SocketId` and `RetryCounter` of the state objects `smStandby`, `smSendData`,
`smOpenSocket` and `smCloseSocket`.
`StoreCommand_calls` counts the calls of `StoreCommand`; no code reads it. -/
structure ESP where
  HuartNumber : Nat
  HuartConfigured : Bool
  ModuleToggleFlag : eModuleToggle
  STEP : Nat
  StateTimer : Timer
  RxOverflowTimer : Timer
  SMStateChanged : Bool
  DebugFlag_RxStreamToStdOut : Bool
  NewCommandSemaphore : Bool
  FirstTime : Bool
  CurrentState : eState
  LastState : Option eState
  Module : module
  IO_ : io
  LocalAP : AccessPoint
  RemoteAP : Station
  Server : server
  Socket : Nat → socket
  smStandby_SocketId : Nat
  smSendData_SocketId : Nat
  smSendData_RetryCounter : Nat
  smOpenSocket_SocketId : Nat
  smCloseSocket_SocketId : Nat
  ESP1_HUART : UART_HandleTypeDef
  app_mem : Nat → Nat
  StoreCommand_calls : Nat

/-- `const uint8_t SocketsNum = ESP8266_SOCKETS_MAX`. -/
def SocketsNum : Nat := ESP8266_SOCKETS_MAX

/-- Replace socket record `i`. -/
def ESP.setSocket (s : ESP) (i : Nat) (k : socket) : ESP :=
  { s with Socket := fun j => if j = i then k else s.Socket j }

/-- `ESP::ESP(uint8_t HuartNumber)` with the default member initialisers; `env`
supplies what the constructor does not touch (hardware and application memory). -/
def ESP.ctor (env : ESP) (HuartNumber : Nat) : ESP :=
  { env with
    HuartNumber := HuartNumber, CurrentState := .smStartModule, LastState := none,
    SMStateChanged := true, STEP := 0, FirstTime := true, HuartConfigured := false,
    DebugFlag_RxStreamToStdOut := false, NewCommandSemaphore := false,
    ModuleToggleFlag := .Disable,
    StateTimer := Timer.ctor .Down _1sec_ false,
    RxOverflowTimer := Timer.ctor .Down _500ms_ false,
    Module := module.ctor, IO_ := io.ctor env.IO_, LocalAP := AccessPoint.ctor,
    RemoteAP := Station.ctor, Server := server.ctor, Socket := fun _ => socket.ctor }

/-- `ESP::isCommandReceived`: the returned flag and the state. -/
def ESP.isCommandReceived (s : ESP) (cmd : eAT) : Bool × ESP :=
  if cmd = s.IO_.ReceivedCommand then
    (true, { s with IO_ := { s.IO_ with ReceivedCommand := .NO_COMMAND_RECEIVED } })
  else (false, s)

/-- `ESP::StoreCommand`. -/
def ESP.StoreCommand (s : ESP) (cmd : eAT) : ESP :=
  { s with IO_ := { s.IO_ with ReceivedCommand := cmd }, NewCommandSemaphore := true,
           StoreCommand_calls := s.StoreCommand_calls + 1 }

/-- `ESP::ClearLastCommand`. -/
def ESP.ClearLastCommand (s : ESP) : ESP :=
  { s with IO_ := { s.IO_ with ReceivedCommand := .NO_COMMAND_RECEIVED } }

/-- The `for` loop of `ESP::OpenSocket`, from index `i`, with `n` indices left
to look at; `SocketID` is the current value of the reference argument. -/
def ESP.OpenSocket_loop (s : ESP) (SocketID : Nat) (Type_ : eSocketType) :
    Nat → Nat → STATUS × Nat × ESP
  | 0, _ => (ERROR, SocketID, s)
  | n + 1, i =>
    if (s.Socket i).State = .Closed then
      (SUCCESS, i, s.setSocket i
        { s.Socket i with State := .Open, Address := 0, Port := 0, Type_ := Type_, DataRx := 0,
                          DataTx := 0, RxBuffSize := 0, RxDataLen := 0 })
    else ESP.OpenSocket_loop s SocketID Type_ n (i + 1)

/-- `ESP::OpenSocket`: the status, the value of `SocketID` after the call, and
the state. -/
def ESP.OpenSocket (s : ESP) (SocketID : Nat) (Type_ : eSocketType) : STATUS × Nat × ESP :=
  ESP.OpenSocket_loop s SocketID Type_ SocketsNum 0

/-- `ESP::ConnectSocket`. -/
def ESP.ConnectSocket (s : ESP) (SocketID Address Port : Nat) : STATUS × ESP :=
  if SocketID ≥ SocketsNum ∨ Address = 0 ∨ Port = 0 then (ERROR, s)
  else if (s.Socket SocketID).State = .Open then
    (SUCCESS, s.setSocket SocketID
      { s.Socket SocketID with State := .ConnectRequested, Address := Address,
                               Port := Port % U16_MOD, DataRx := 0, DataTx := 0,
                               RxBuffSize := 0, RxDataLen := 0 })
  else (ERROR, s)

/-- `ESP::CloseSocket`. -/
def ESP.CloseSocket (s : ESP) (SocketID : Nat) : STATUS × ESP :=
  if SocketID ≥ SocketsNum then (ERROR, s)
  else if (s.Socket SocketID).State = .Open then
    (SUCCESS, s.setSocket SocketID
      { s.Socket SocketID with State := .Closed, Address := 0, Port := 0, DataRx := 0,
                               DataTx := 0, RxBuffSize := 0, RxDataLen := 0 })
  else if (s.Socket SocketID).State ≠ .Closed then
    (SUCCESS, s.setSocket SocketID
      { s.Socket SocketID with State := .CloseRequested, Address := 0, Port := 0, DataRx := 0,
                               DataTx := 0, RxBuffSize := 0, RxDataLen := 0 })
  else (SUCCESS, s)

/-- `ESP::GetSocketState`. -/
def ESP.GetSocketState (s : ESP) (SocketID : Nat) : eSocketState :=
  if SocketID ≥ SocketsNum then .Error else (s.Socket SocketID).State

/-- `ESP::GetDataSendStatus`. -/
def ESP.GetDataSendStatus (s : ESP) (SocketID : Nat) : eSocketSendDataStatus :=
  if SocketID ≥ SocketsNum then .SendFail else (s.Socket SocketID).TxState

/-- `ESP::ListenSocket`. -/
def ESP.ListenSocket (s : ESP) (SocketID RxBuffer BufferSize : Nat) : STATUS × ESP :=
  if SocketID ≥ SocketsNum ∨ 0 = RxBuffer then (ERROR, s)
  else
    (SUCCESS, s.setSocket SocketID
      { s.Socket SocketID with DataRx := RxBuffer, RxBuffSize := BufferSize, RxLock := false })

/-- `ESP::SocketRecv`; `-1` is returned as the `uint16_t` 65535. -/
def ESP.SocketRecv (s : ESP) (SocketID : Nat) : Nat :=
  if SocketID ≥ SocketsNum then 0
  else if (s.Socket SocketID).RxLock ∧ s.IO_.RxIgnoreCounter = 0 ∧
      (s.Socket SocketID).ErrorFlag = .NoError then
    (if (s.Socket SocketID).DataCutFlag then 65535 else (s.Socket SocketID).RxDataLen)
  else 0

/-- `ESP::SocketSend`. -/
def ESP.SocketSend (s : ESP) (SocketID Data DataLen : Nat) : STATUS × ESP :=
  if SocketID ≥ SocketsNum then (ERROR, s)
  else
    let s := s.setSocket SocketID { s.Socket SocketID with CloseAfterSending := false }
    if (s.Socket SocketID).State = .Connected ∧ (s.Socket SocketID).TxLock = false then
      (SUCCESS, s.setSocket SocketID
        { s.Socket SocketID with DataTx := Data, TxDataLen := DataLen, TxLock := true })
    else (ERROR, s)

/-- `ESP::SocketSendClose`. -/
def ESP.SocketSendClose (s : ESP) (SocketID Data DataLen : Nat) : STATUS × ESP :=
  if SUCCESS = (s.SocketSend SocketID Data DataLen).1 then
    let s := (s.SocketSend SocketID Data DataLen).2
    (SUCCESS, s.setSocket SocketID { s.Socket SocketID with CloseAfterSending := true })
  else (ERROR, (s.SocketSend SocketID Data DataLen).2)

/-! ## ESP::RxHandler -/

/-- The byte `*(IO.pRxBuffer + i)`. The members of class `io` lie in memory in
the order of their declaration, so the byte before `RxBuffer[0]` is the flag
`ReceivingDataStream` and the one before that is `ListenToTxData`; bytes further
down are not read by the driver and are given as `0`. -/
def io.RxBuffer_at (x : io) (i : Int) : Nat :=
  if 0 ≤ i then x.RxBuffer i.toNat
  else if i = -1 then (if x.ReceivingDataStream then 1 else 0)
  else if i = -2 then (if x.ListenToTxData then 1 else 0)
  else 0

/-- The C string held in `IO.RxBuffer`. -/
def ESP.rxLine (s : ESP) : List Nat :=
  cstr_upto s.IO_.RxBuffer ESP8266_RX_BUFF_LEN 0

/-- Where a `sscanf` call of `RxHandler` stores a value: one of
`IO.pReceivedParameter[i]`, `IO.pReceivedParameterStr`,
`IO.pReceivedParameterStr2`, or a local variable of `RxHandler`. -/
inductive scan_target where
  | param (i : Nat)
  | pReceivedParameterStr
  | pReceivedParameterStr2
  | local_var

/-- Store one assigned value at its target. -/
def io.assign1 (x : io) : scan_target → scan_val → io
  | .param i, .num n =>
    { x with ReceivedParameter := fun j => if j = i then n else x.ReceivedParameter j }
  | .pReceivedParameterStr, .str b =>
    { x with ReceivedParameterStr := writeBytes x.ReceivedParameterStr 0 (b ++ [0]) }
  | .pReceivedParameterStr2, .str b =>
    { x with ReceivedParameterStr2 := writeBytes x.ReceivedParameterStr2 0 (b ++ [0]) }
  | _, _ => x

/-- Store the assigned values at the targets, in order. -/
def io.assign (x : io) : List scan_target → List scan_val → io
  | t :: ts, v :: vs => io.assign (x.assign1 t v) ts vs
  | _, _ => x

/-- `res = sscanf(IO.pRxBuffer, format, targets...)`: the value of `res`, the
assigned values, and the state after the assignments. -/
def ESP.sscanf_rx (s : ESP) (format : String) (targets : List scan_target) :
    Nat × List scan_val × ESP :=
  (scan_res (sscanf s.rxLine format), (sscanf s.rxLine format).2,
   { s with IO_ := s.IO_.assign targets (sscanf s.rxLine format).2 })

/-- `IO.pReceivedParameter[i] = v`. -/
def ESP.setParam (s : ESP) (i v : Nat) : ESP :=
  { s with IO_ := { s.IO_ with
      ReceivedParameter := fun j => if j = i then v else s.IO_.ReceivedParameter j } }

/-- `IO.RxBuffCounter = 0`. -/
def ESP.resetCounter (s : ESP) : ESP :=
  { s with IO_ := { s.IO_ with RxBuffCounter := 0 } }

/-- The value of `call` when `res` equals `n`, of `StoreCommand(BAD_STRUCTURE)`
otherwise: `if(n == res) { StoreCommand(cmd); } else { StoreCommand(eAT::BAD_STRUCTURE); }`. -/
def ESP.storeIfRes (r : Nat × List scan_val × ESP) (n : Nat) (cmd : eAT) : ESP :=
  if n = r.1 then r.2.2.StoreCommand cmd else r.2.2.StoreCommand .BAD_STRUCTURE

/-- `if(1 == res) { StoreCommand(cmd); }` after a `sscanf` with result `r`. -/
def ESP.storeIfResOnly (r : Nat × List scan_val × ESP) (n : Nat) (cmd : eAT) : ESP :=
  if n = r.1 then r.2.2.StoreCommand cmd else r.2.2

/-- Lines 2769-2788: what follows the `sscanf` of a `+CIPSTATUS:` record, whose
result is `r`; the second assigned value is the local array `str`. -/
def ESP.RxHandler_cipstatus (r : Nat × List scan_val × ESP) : ESP :=
  if r.1 = 6 then
    if strstr ((scan_str_at r.2.1 1).take 5) (cs "TCP") then
      r.2.2.setParam 1 eSocketType.TCP.toNat
    else if strstr ((scan_str_at r.2.1 1).take 5) (cs "UDP") then
      r.2.2.setParam 1 eSocketType.UDP.toNat
    else r.2.2.StoreCommand .BAD_STRUCTURE
  else r.2.2.StoreCommand .BAD_STRUCTURE

/-- Lines 2892-2899: what follows the first `sscanf` of a `+CWSAP_CUR:` record,
whose result is `r`. -/
def ESP.RxHandler_cwsap (r : Nat × List scan_val × ESP) : ESP :=
  if 5 = r.1 then r.2.2.StoreCommand .CWSAP_CUR
  else
    ESP.storeIfRes (r.2.2.sscanf_rx "+CWSAP_CUR:\"%80[^\"]\",\"\",%u,%u,%u,%u"
      [.pReceivedParameterStr, .param 0, .param 1, .param 2, .param 3]) 5 .CWSAP_CUR

/-- The inner `switch(*IO.pRxBuffer)` that stores the socket number. -/
def socket_digit (c : Nat) : Nat :=
  if c = '0'.toNat then 0
  else if c = '1'.toNat then 1
  else if c = '2'.toNat then 2
  else if c = '3'.toNat then 3
  else if c = '4'.toNat then 4
  else 255

/-- Lines 2490-2526: the `switch(*IO.pRxBuffer)` of the echo branch. The result
is the state and the value of `NoMatchFound`. -/
def ESP.RxHandler_echo (s : ESP) (NoMatchFound : Nat) : ESP × Nat :=
  if s.IO_.RxBuffer 0 = 'A'.toNat then
    if s.IO_.RxBuffer 1 = 'T'.toNat then
      if s.IO_.RxBuffer 2 = '\r'.toNat then
        if strstr s.rxLine (cs "AT\r\r\n") then (s.StoreCommand .ECHO_AT, NoMatchFound)
        else (s, 1)
      else if s.IO_.RxBuffer 2 = 'E'.toNat then
        if strstr s.rxLine (cs "ATE0\r\r\n") then (s.StoreCommand .ECHO_ECHO_OFF, NoMatchFound)
        else if strstr s.rxLine (cs "ATE1\r\r\n") then (s.StoreCommand .ECHO_ECHO_ON, NoMatchFound)
        else (s, 1)
      else (s, 1)
    else (s, 1)
  else (s, 1)

/-- Lines 2688-2928: `case '+'` of the response switch. -/
def ESP.RxHandler_plus (s : ESP) (NoMatchFound : Nat) : ESP × Nat :=
  if s.IO_.RxBuffer 1 = 'C'.toNat then
    if s.IO_.RxBuffer 2 = 'I'.toNat then
      if s.IO_.RxBuffer 3 = 'F'.toNat then
        if strstr s.rxLine (cs "+CIFSR:APIP") then
          (ESP.storeIfRes (s.sscanf_rx "+CIFSR:APIP,\"%u.%u.%u.%u"
            [.param 0, .param 1, .param 2, .param 3]) 4 .CIFSR_APIP, NoMatchFound)
        else if strstr s.rxLine (cs "+CIFSR:APMAC") then
          (ESP.storeIfRes (s.sscanf_rx "+CIFSR:APMAC,\"%x:%x:%x:%x:%x:%x"
            [.param 0, .param 1, .param 2, .param 3, .param 4, .param 5]) 6 .CIFSR_APMAC,
           NoMatchFound)
        else (s, 1)
      else if s.IO_.RxBuffer 3 = 'O'.toNat then
        if strstr s.rxLine (cs "+CIOBAUD:(") then
          if ESP8266_RECEIVED_COMMAND_NUM_OF_PARAM ≥ 2 then
            (ESP.storeIfRes (s.sscanf_rx "+CIOBAUD:(%u-%u)" [.param 0, .param 1]) 2 .CIOBAUD_RANGE,
             NoMatchFound)
          else (s.StoreCommand .INTERNAL_ERROR, NoMatchFound)
        else if strstr s.rxLine (cs "+CIOBAUD:") then
          if ESP8266_RECEIVED_COMMAND_NUM_OF_PARAM ≥ 1 then
            (ESP.storeIfRes (s.sscanf_rx "+CIOBAUD:%u" [.param 0]) 1 .CIOBAUD, NoMatchFound)
          else (s.StoreCommand .INTERNAL_ERROR, NoMatchFound)
        else (s, 1)
      else if s.IO_.RxBuffer 3 = 'P'.toNat then
        if s.IO_.RxBuffer 4 = 'S'.toNat then
          if strstr s.rxLine (cs "+CIPSTATUS:") then
            if ESP8266_RECEIVED_COMMAND_PARAM_STR_LEN > 80 ∧
                ESP8266_RECEIVED_COMMAND_NUM_OF_PARAM ≥ 5 then
              (ESP.RxHandler_cipstatus
                (s.sscanf_rx "+CIPSTATUS:%u,\"%5[^\"]\",\"%80[^\"]\",%u,%u,%u"
                  [.param 0, .local_var, .pReceivedParameterStr, .param 2, .param 3, .param 4]),
               NoMatchFound)
            else (s.StoreCommand .INTERNAL_ERROR, NoMatchFound)
          else (s, 1)
        else (s, 1)
      else (s, 1)
    else if s.IO_.RxBuffer 2 = 'W'.toNat then
      if s.IO_.RxBuffer 3 = 'J'.toNat then
        if strstr s.rxLine (cs "+CWJAP:") then
          (ESP.storeIfRes (s.sscanf_rx "+CWJAP:%u" [.param 0]) 1 .CWJAP_FAULT, NoMatchFound)
        else if strstr s.rxLine (cs "+CWJAP_CUR:") then
          if ESP8266_RECEIVED_COMMAND_PARAM_STR_LEN > 40 then
            (ESP.storeIfRes (s.sscanf_rx "+CWJAP_CUR:(\"%40[^\"]\",\"%19[^\"]\",%u,%u"
              [.pReceivedParameterStr, .pReceivedParameterStr2, .param 0, .param 1]) 4 .CWJAP,
             NoMatchFound)
          else (s.StoreCommand .INTERNAL_ERROR, NoMatchFound)
        else (s, 1)
      else if s.IO_.RxBuffer 3 = 'L'.toNat then
        if strstr s.rxLine (cs "+CWLAP:(") then
          if ESP8266_RECEIVED_COMMAND_PARAM_STR_LEN > 80 ∧
              ESP8266_RECEIVED_COMMAND_PARAM_STR2_LEN ≥ 20 then
            (ESP.storeIfRes (s.sscanf_rx "+CWLAP:(%u,\"%80[^\"]\",%d,\"%19[^\"]\",%u,%u,%u"
              [.param 0, .pReceivedParameterStr, .param 1, .pReceivedParameterStr2,
               .param 2, .param 3, .param 4]) 7 .CWLAP, NoMatchFound)
          else (s.StoreCommand .INTERNAL_ERROR, NoMatchFound)
        else (s, 1)
      else if s.IO_.RxBuffer 3 = 'M'.toNat then
        if strstr s.rxLine (cs "+CWMODE_CUR:") then
          (ESP.storeIfRes (s.sscanf_rx "+CWJAP:%u" [.param 0]) 1 .CWMODE, NoMatchFound)
        else (s, 1)
      else if s.IO_.RxBuffer 3 = 'S'.toNat then
        if strstr s.rxLine (cs "+CWSAP_CUR:") then
          if ESP8266_RECEIVED_COMMAND_PARAM_STR_LEN > 80 then
            (ESP.RxHandler_cwsap
              (s.sscanf_rx "+CWSAP_CUR:\"%80[^\"]\",\"%*[^\"]\",%u,%u,%u,%u"
                [.pReceivedParameterStr, .param 0, .param 1, .param 2, .param 3]),
             NoMatchFound)
          else (s.StoreCommand .INTERNAL_ERROR, NoMatchFound)
        else (s, 1)
      else (s, 1)
    else (s, 1)
  else (s, 1)

/-- Lines 2552-2940: the `switch(*IO.pRxBuffer)` of the response branch. The
result is the state and the value of `NoMatchFound`. -/
def ESP.RxHandler_response (s : ESP) (NoMatchFound : Nat) : ESP × Nat :=
  if s.IO_.RxBuffer 0 = '0'.toNat ∨ s.IO_.RxBuffer 0 = '1'.toNat ∨ s.IO_.RxBuffer 0 = '2'.toNat ∨ s.IO_.RxBuffer 0 = '3'.toNat ∨ s.IO_.RxBuffer 0 = '4'.toNat then
    if strcmp_eq (cstr_upto s.IO_.RxBuffer (ESP8266_RX_BUFF_LEN - 1) 1) (cs ",CONNECT\r\n") then
      ((s.StoreCommand .SOCKET_CONNECT).setParam 0 (socket_digit (s.IO_.RxBuffer 0)), NoMatchFound)
    else if strcmp_eq (cstr_upto s.IO_.RxBuffer (ESP8266_RX_BUFF_LEN - 1) 1) (cs ",CLOSED\r\n") then
      ((s.StoreCommand .SOCKET_CLOSED).setParam 0 (socket_digit (s.IO_.RxBuffer 0)), NoMatchFound)
    else if strcmp_eq (cstr_upto s.IO_.RxBuffer (ESP8266_RX_BUFF_LEN - 1) 1) (cs ",CONNECT FAIL\r\n") then
      ((s.StoreCommand .SOCKET_CONNECT_FAIL).setParam 0 (socket_digit (s.IO_.RxBuffer 0)), NoMatchFound)
    else (s, 1)
  else if s.IO_.RxBuffer 0 = 'A'.toNat then
    if strstr s.rxLine (cs "ALREAY CONNECT\r\n") then (s.StoreCommand .ALREADY_CONNECT, NoMatchFound)
    else if strstr s.rxLine (cs "ALREADY CONNECT\r\n") then
      (s.StoreCommand .ALREADY_CONNECT, NoMatchFound)
    else (s, 1)
  else if s.IO_.RxBuffer 0 = 'b'.toNat then
    if strstr s.rxLine (cs "busy\r\n") then (s.StoreCommand .BUSY, NoMatchFound)
    else if strstr s.rxLine (cs "busy p...\r\n") then (s.StoreCommand .BUSY_P, NoMatchFound)
    else if strstr s.rxLine (cs "busy s...\r\n") then (s.StoreCommand .BUSY_S, NoMatchFound)
    else (s, 1)
  else if s.IO_.RxBuffer 0 = 'B'.toNat then
    if strstr s.rxLine (cs "BAUD->") then
      (ESP.storeIfResOnly (s.sscanf_rx "BAUD->%u" [.param 0]) 1 .BAUDRATE_CONFIRMATION,
       NoMatchFound)
    else (s, 1)
  else if s.IO_.RxBuffer 0 = 'E'.toNat then
    if strstr s.rxLine (cs "ERROR\r\n") then (s.StoreCommand .AT_ERROR, NoMatchFound)
    else (s, 1)
  else if s.IO_.RxBuffer 0 = 'F'.toNat then
    if strstr s.rxLine (cs "FAIL\r\n") then (s.StoreCommand .FAIL, NoMatchFound)
    else (s, 1)
  else if s.IO_.RxBuffer 0 = 'l'.toNat ∨ s.IO_.RxBuffer 0 = 'L'.toNat then
    if strstr s.rxLine (cs "Linked\r\n") then (s.StoreCommand .LINKED, NoMatchFound)
    else if strstr s.rxLine (cs "link is not\r\n") then (s.StoreCommand .LINKISNOT, NoMatchFound)
    else if strstr s.rxLine (cs "link\r\n") then (s.StoreCommand .LINK, NoMatchFound)
    else if strstr s.rxLine (cs "Link is builded\r\n") then
      (s.StoreCommand .LINKISBUILDED, NoMatchFound)
    else (s, 1)
  else if s.IO_.RxBuffer 0 = 'n'.toNat then
    if strstr s.rxLine (cs "no change\r\n") then (s.StoreCommand .NOCHANGE, NoMatchFound)
    else if strstr s.rxLine (cs "no ip\r\n") then (s.StoreCommand .NOIP, NoMatchFound)
    else if strstr s.rxLine (cs "no this fun\r\n") then
      (s.StoreCommand .NO_THIS_FUNCTION, NoMatchFound)
    else (s, 1)
  else if s.IO_.RxBuffer 0 = 'O'.toNat then
    if strstr s.rxLine (cs "OK\r\n") then (s.StoreCommand .OK, NoMatchFound)
    else (s, 1)
  else if s.IO_.RxBuffer 0 = 'r'.toNat then
    if strstr s.rxLine (cs "ready\r\n") then (s.StoreCommand .READY, NoMatchFound)
    else (s, 1)
  else if s.IO_.RxBuffer 0 = 'S'.toNat then
    if strstr s.rxLine (cs "SEND OK\r\n") then (s.StoreCommand .SEND_OK, NoMatchFound)
    else if strstr s.rxLine (cs "STATUS:") then
      (ESP.storeIfRes (s.sscanf_rx "STATUS:%u" [.param 0]) 1 .CIPSTATUS, NoMatchFound)
    else (s, 1)
  else if s.IO_.RxBuffer 0 = 'w'.toNat then
    if strstr s.rxLine (cs "wrong syntax\r\n") then (s.StoreCommand .WRONG_SYNTAX, NoMatchFound)
    else if strstr s.rxLine (cs "wdt reset\r\n") then (s.StoreCommand .WDT_RESET, NoMatchFound)
    else (s, 1)
  else if s.IO_.RxBuffer 0 = 'u'.toNat then
    if strstr s.rxLine (cs "Unlink\r\n") then (s.StoreCommand .UNLINK, NoMatchFound)
    else (s, 1)
  else if s.IO_.RxBuffer 0 = '['.toNat then
    if strstr s.rxLine (cs "[Vendor:www.ai-thinker.com Version:") then
      (s.StoreCommand .REBOOT_DETECTED, NoMatchFound)
    else (s, 1)
  else if s.IO_.RxBuffer 0 = '+'.toNat then s.RxHandler_plus NoMatchFound
  else (s, 1)

/-- Lines 2412-2413 with 2417 or 2426: the header is deleted from the line
buffer and the `data_len` bytes that follow are to be ignored. -/
def ESP.RxHandler_ipd_ignore (s : ESP) (data_len : Nat) : ESP :=
  { s with IO_ := { s.IO_ with
    RxBuffer := fun j => if j = 0 then 0 else s.IO_.RxBuffer j,
    RxBuffCounter := 0,
    RxIgnoreCounter := data_len } }

/-- Lines 2412-2413 with 2435-2440: the header is deleted from the line buffer
and the `data_len` bytes that follow are to be stored in the receive buffer of
socket `id`. -/
def ESP.RxHandler_ipd_accept (s : ESP) (id data_len : Nat) : ESP :=
  { s with
    IO_ := { s.IO_ with
      RxBuffer := fun j => if j = 0 then 0 else s.IO_.RxBuffer j,
      RxBuffCounter := 0,
      pCurrentSocketData := (s.Socket id).DataRx,
      CurrentSocketDataLeft := data_len % U16_MOD,
      ReceivingDataStream := true,
      RxSocketId := id % U8_MOD },
    Socket := fun i =>
      if i = id then { s.Socket id with RxDataLen := 0, DataCutFlag := false } else s.Socket i }

/-- Lines 2409-2440: a recognised `+IPD` header for socket `id` announcing
`data_len` bytes; the result is the state with which `RxHandler` returns. -/
def ESP.RxHandler_ipd_header (s : ESP) (id data_len : Nat) : ESP :=
  if id > ESP8266_SOCKETS_MAX - 1 then s.RxHandler_ipd_ignore data_len
  else if (s.Socket id).State = .Closed ∨ (s.Socket id).DataRx = 0 ∨
      (s.Socket id).RxLock ∨ (s.Socket id).RxBuffSize = 0 then
    s.RxHandler_ipd_ignore data_len
  else s.RxHandler_ipd_accept id data_len

/-- The format of the `+IPD` header and the targets of its `sscanf`: the locals
`id` and `data_len`, and `IO.pReceivedParameterStr`. -/
def IPD_format : String := "+IPD,%u,%u%1s"

/-- Lines 2403-2441: the `+IPD` header. The first component is the state with
which `RxHandler` returns when the header is recognised, `none` when control
passes on to the code after the `if`; the second is the state then. -/
def ESP.RxHandler_ipd (s : ESP) : Option ESP × ESP :=
  if s.IO_.RxBuffer 0 = '+'.toNat ∧ s.IO_.RxBuffer 1 = 'I'.toNat then
    if 3 = (s.sscanf_rx IPD_format [.local_var, .local_var, .pReceivedParameterStr]).1 then
      (some (ESP.RxHandler_ipd_header
        (s.sscanf_rx IPD_format [.local_var, .local_var, .pReceivedParameterStr]).2.2
        (scan_num_at (s.sscanf_rx IPD_format [.local_var, .local_var, .pReceivedParameterStr]).2.1 0)
        (scan_num_at (s.sscanf_rx IPD_format [.local_var, .local_var, .pReceivedParameterStr]).2.1 1)),
       (s.sscanf_rx IPD_format [.local_var, .local_var, .pReceivedParameterStr]).2.2)
    else (none, (s.sscanf_rx IPD_format [.local_var, .local_var, .pReceivedParameterStr]).2.2)
  else (none, s)

/-- Whether the received bytes end with `\r\r\n` (lines 2479-2481). -/
def ESP.echo_received (s : ESP) : Prop :=
  s.IO_.RxBuffer (s.IO_.RxBuffCounter - 1) = '\n'.toNat ∧
  s.IO_.RxBuffer (s.IO_.RxBuffCounter - 2) = '\r'.toNat ∧
  s.IO_.RxBuffer (s.IO_.RxBuffCounter - 3) = '\r'.toNat

instance (s : ESP) : Decidable s.echo_received := by
  unfold ESP.echo_received
  infer_instance

/-- Whether the received bytes end with `\r\n` (lines 2542-2543); the index
`IO.RxBuffCounter - 1` is below zero when the echo branch has just reset the
counter. -/
def ESP.line_received (s : ESP) : Prop :=
  s.IO_.RxBuffer_at ((s.IO_.RxBuffCounter : Int) - 1) = '\n'.toNat ∧
  s.IO_.RxBuffer_at ((s.IO_.RxBuffCounter : Int) - 2) = '\r'.toNat

instance (s : ESP) : Decidable s.line_received := by
  unfold ESP.line_received
  infer_instance

/-- Lines 2540-3015: the semaphore check and the response branch, entered with
the state and the value of `NoMatchFound` that the echo branch left. -/
def ESP.RxHandler_after_echo (e : ESP × Nat) : ESP × Nat × Bool :=
  if e.1.NewCommandSemaphore then (e.1, e.2, true)
  else if e.1.line_received then
    if e.1.IO_.RxBuffCounter = 2 then (e.1.resetCounter, e.2, true)
    else ((e.1.RxHandler_response e.2).1.resetCounter, (e.1.RxHandler_response e.2).2, false)
  else (e.1, e.2, false)

/-- Lines 2479-3015: the block `if(IO.RxBuffCounter >= 3) { ... }`: the echo
branch, then the semaphore check and the response branch. -/
def ESP.RxHandler_line3 (s : ESP) (NoMatchFound : Nat) : ESP × Nat × Bool :=
  if s.echo_received ∧ s.IO_.RxBuffCounter = 3 then (s.resetCounter, NoMatchFound, true)
  else
    ESP.RxHandler_after_echo
      (if s.echo_received then
        ((s.RxHandler_echo NoMatchFound).1.resetCounter, (s.RxHandler_echo NoMatchFound).2)
       else (s, NoMatchFound))

/-- Lines 2469-3024: the send prompt and the line-terminated records. -/
def ESP.RxHandler_record (s : ESP) (NoMatchFound : Nat) : ESP × Nat × Bool :=
  if s.IO_.RxBuffer 0 = '>'.toNat ∧ s.IO_.RxBuffer 1 = ' '.toNat then
    ({ s with IO_ := { s.IO_ with ListenToTxData := true, RxBuffCounter := 0 } },
     NoMatchFound, true)
  else if s.IO_.RxBuffCounter ≥ 3 then s.RxHandler_line3 NoMatchFound
  else if s.IO_.RxBuffCounter ≥ 2 then
    if s.IO_.RxBuffer (s.IO_.RxBuffCounter - 1) = '\n'.toNat ∧
        s.IO_.RxBuffer (s.IO_.RxBuffCounter - 2) = '\r'.toNat then
      (s.resetCounter, NoMatchFound, false)
    else (s, NoMatchFound, false)
  else (s, NoMatchFound, false)

/-- Lines 2403-3024: the part of the loop body after the received bytes have
been terminated by a NUL. The result is the state, the value of `NoMatchFound`,
and whether `RxHandler` returns (`true`) or the loop goes on. -/
def ESP.RxHandler_parse (s : ESP) (NoMatchFound : Nat) : ESP × Nat × Bool :=
  match s.RxHandler_ipd.1 with
  | some r => (r, NoMatchFound, true)
  | none => s.RxHandler_ipd.2.RxHandler_record NoMatchFound

/-- Lines 2392 and 2401: `IO.RxBuffCounter++` and, when the buffer is not full,
`*(IO.pRxBuffer + IO.RxBuffCounter) = 0`. -/
def ESP.RxHandler_terminate (s : ESP) : ESP :=
  { s with IO_ := { s.IO_ with
    RxBuffCounter := (s.IO_.RxBuffCounter + 1) % U16_MOD,
    RxBuffer := fun j => if j = (s.IO_.RxBuffCounter + 1) % U16_MOD then 0 else s.IO_.RxBuffer j } }

/-- Lines 2392-3024: the body of the `while` loop that receives command bytes,
after `ESP_GetChar` has stored a byte at `IO.pRxBuffer + IO.RxBuffCounter`:
the counter is advanced, a full buffer is discarded with `ReceiveError` set, and
otherwise the bytes are terminated and parsed. The result is the state, the
value of `NoMatchFound`, and whether `RxHandler` returns (`true`) or the loop
goes on. -/
def ESP.RxHandler_body (s : ESP) (NoMatchFound : Nat) : ESP × Nat × Bool :=
  if (s.IO_.RxBuffCounter + 1) % U16_MOD > ESP8266_RX_BUFF_LEN - 1 then
    ({ s with IO_ := { s.IO_ with RxBuffCounter := 0, ReceiveError := true } }, NoMatchFound, false)
  else s.RxHandler_terminate.RxHandler_parse NoMatchFound

/-- `ESP_GetChar(HuartNumber, sym)` on the driver state: the status, the bytes
copied to `sym`, and the state. -/
def ESP.GetChar (s : ESP) : STATUS × List Nat × ESP :=
  ((ESP_GetChar s.ESP1_HUART s.HuartNumber).1, (ESP_GetChar s.ESP1_HUART s.HuartNumber).2.1,
   { s with ESP1_HUART := (ESP_GetChar s.ESP1_HUART s.HuartNumber).2.2 })

/-- Number of iterations after which a loop `while(SUCCESS == ESP_GetChar(..))`
has certainly ended: every successful call removes one of the stored bytes. -/
def ESP.rx_fuel (s : ESP) : Nat :=
  s.ESP1_HUART.pRxBuffPtr.count + 1

/-- `while(SUCCESS == ESP_GetChar(HuartNumber, &tmpU8)){}`. -/
def ESP.RxHandler_flush : Nat → ESP → ESP
  | 0, s => s
  | n + 1, s =>
    if SUCCESS = s.GetChar.1 then ESP.RxHandler_flush n s.GetChar.2.2 else s.GetChar.2.2

/-- `x--` on an unsigned integer type with `m` values: `0` wraps to `m - 1`. -/
def dec_wrap (m x : Nat) : Nat :=
  if x = 0 then m - 1 else x - 1

/-- `IO.RxIgnoreCounter--` (a `uint32_t`). -/
def ESP.RxHandler_ignore_byte (s : ESP) : ESP :=
  { s with IO_ := { s.IO_ with RxIgnoreCounter := dec_wrap SIZE_MOD s.IO_.RxIgnoreCounter } }

/-- Lines 2316-2319: after the last ignored byte, `IO.ListenToTxData` is cleared. -/
def ESP.RxHandler_ignore_end (s : ESP) : ESP :=
  if s.IO_.ListenToTxData then { s with IO_ := { s.IO_ with ListenToTxData := false } } else s

/-- Lines 2311-2322: the loop that ignores `IO.RxIgnoreCounter` bytes. -/
def ESP.RxHandler_ignore : Nat → ESP → ESP
  | 0, s => s
  | n + 1, s =>
    if SUCCESS = s.GetChar.1 then
      if 0 = s.GetChar.2.2.RxHandler_ignore_byte.IO_.RxIgnoreCounter then
        s.GetChar.2.2.RxHandler_ignore_byte.RxHandler_ignore_end
      else ESP.RxHandler_ignore n s.GetChar.2.2.RxHandler_ignore_byte
    else s.GetChar.2.2

/-- Lines 2339-2341: `ESP_GetChar` has copied the byte `item` to
`IO.pCurrentSocketData`, an address in the application's memory; the pointer
moves on, `IO.CurrentSocketDataLeft` is decremented and the socket's
`RxDataLen` incremented. -/
def ESP.RxHandler_data_byte (s : ESP) (item : List Nat) : ESP :=
  { s with
    app_mem := writeBytes s.app_mem s.IO_.pCurrentSocketData item,
    IO_ := { s.IO_ with
      pCurrentSocketData := s.IO_.pCurrentSocketData + 1,
      CurrentSocketDataLeft := dec_wrap U16_MOD s.IO_.CurrentSocketDataLeft },
    Socket := fun i =>
      if i = s.IO_.RxSocketId then
        { s.Socket s.IO_.RxSocketId with
          RxDataLen := ((s.Socket s.IO_.RxSocketId).RxDataLen + 1) % U16_MOD }
      else s.Socket i }

/-- Lines 2343-2350: all data bytes of the frame were received. -/
def ESP.RxHandler_data_end (s : ESP) : ESP :=
  { s with
    IO_ := { s.IO_ with ReceivingDataStream := false },
    Socket := fun i =>
      if i = s.IO_.RxSocketId then { s.Socket s.IO_.RxSocketId with RxLock := true }
      else s.Socket i }

/-- Lines 2352-2364: the socket's buffer is full before the frame ends; the rest
of the frame is to be ignored. -/
def ESP.RxHandler_data_full (s : ESP) : ESP :=
  { s with
    IO_ := { s.IO_ with RxIgnoreCounter := s.IO_.CurrentSocketDataLeft,
                        ReceivingDataStream := false },
    Socket := fun i =>
      if i = s.IO_.RxSocketId then
        { s.Socket s.IO_.RxSocketId with RxLock := true, DataCutFlag := true }
      else s.Socket i }

/-- Lines 2337-2371: the loop that stores socket data. -/
def ESP.RxHandler_data : Nat → ESP → ESP
  | 0, s => s
  | n + 1, s =>
    if SUCCESS = s.GetChar.1 then
      if 0 = (s.GetChar.2.2.RxHandler_data_byte s.GetChar.2.1).IO_.CurrentSocketDataLeft then
        (s.GetChar.2.2.RxHandler_data_byte s.GetChar.2.1).RxHandler_data_end
      else if ((s.GetChar.2.2.RxHandler_data_byte s.GetChar.2.1).Socket s.IO_.RxSocketId).RxDataLen ≥
          ((s.GetChar.2.2.RxHandler_data_byte s.GetChar.2.1).Socket s.IO_.RxSocketId).RxBuffSize then
        (s.GetChar.2.2.RxHandler_data_byte s.GetChar.2.1).RxHandler_data_full
      else ESP.RxHandler_data n (s.GetChar.2.2.RxHandler_data_byte s.GetChar.2.1)
    else s.GetChar.2.2

/-- Line 2390: `IO.RxBuffer[IO.RxBuffCounter] = tmpU8`, done by `ESP_GetChar`. -/
def ESP.RxHandler_put (s : ESP) (item : List Nat) : ESP :=
  { s with IO_ := { s.IO_ with
    RxBuffer := writeBytes s.IO_.RxBuffer s.IO_.RxBuffCounter item } }

/-- Lines 2382-3031: the loop that receives and parses command bytes. -/
def ESP.RxHandler_cmd : Nat → ESP → Nat → ESP
  | 0, s, _ => s
  | n + 1, s, NoMatchFound =>
    if SUCCESS = s.GetChar.1 then
      if ((s.GetChar.2.2.RxHandler_put s.GetChar.2.1).RxHandler_body NoMatchFound).2.2 then
        ((s.GetChar.2.2.RxHandler_put s.GetChar.2.1).RxHandler_body NoMatchFound).1
      else ESP.RxHandler_cmd n
        ((s.GetChar.2.2.RxHandler_put s.GetChar.2.1).RxHandler_body NoMatchFound).1
        ((s.GetChar.2.2.RxHandler_put s.GetChar.2.1).RxHandler_body NoMatchFound).2.1
    else s.GetChar.2.2

/-- Lines 2291-2295: after a receive error the receive queue is emptied. -/
def ESP.RxHandler_error (s : ESP) : ESP :=
  if s.IO_.ReceiveError then ESP.RxHandler_flush s.rx_fuel s else s

/-- Lines 2297-2302: a requested clearing of the receive stream. -/
def ESP.RxHandler_empty (s : ESP) : ESP :=
  if s.IO_.DoEmptyRxStream then
    { ESP.RxHandler_flush s.rx_fuel s with
      IO_ := { (ESP.RxHandler_flush s.rx_fuel s).IO_ with
        DoEmptyRxStream := false, RxBuffCounter := 0, ReceiveError := false } }
  else s

/-- Lines 2326-2335: after an overflow of the receive queue the frame ends with
the bytes that are in the queue. -/
def ESP.RxHandler_overflow (s : ESP) : ESP :=
  if s.IO_.RxOverflowEvent then
    if s.IO_.CurrentSocketDataLeft > ESP_NumOfDataReceived s.ESP1_HUART s.HuartNumber then
      { s with
        IO_ := { s.IO_ with
          RxOverflowEvent := false,
          CurrentSocketDataLeft := ESP_NumOfDataReceived s.ESP1_HUART s.HuartNumber % U16_MOD },
        Socket := fun i =>
          if i = s.IO_.RxSocketId then { s.Socket s.IO_.RxSocketId with DataCutFlag := true }
          else s.Socket i }
    else { s with IO_ := { s.IO_ with RxOverflowEvent := false } }
  else s

/-- The branches of `ESP::RxHandler` after the two flushes. -/
def ESP.RxHandler_main (s : ESP) : ESP :=
  if s.IO_.RxIgnoreCounter ≠ 0 then ESP.RxHandler_ignore s.rx_fuel s
  else if s.IO_.ReceivingDataStream then
    ESP.RxHandler_data s.RxHandler_overflow.rx_fuel s.RxHandler_overflow
  else if s.NewCommandSemaphore then s
  else ESP.RxHandler_cmd s.rx_fuel s 0

/-- `ESP::RxHandler`. -/
def ESP.RxHandler (s : ESP) : ESP :=
  s.RxHandler_error.RxHandler_empty.RxHandler_main

/-! ## ESP::Process and the state handlers -/

/-- `static const U8 ATE0[] = "ATE0\r\n"`, seen through a pointer to its first byte. -/
def ATE0 : Nat → Nat :=
  fun i => (cs "ATE0\r\n").getD i 0

/-- `ESP::StateModuleInitialization::Process`. -/
def ESP.StateModuleInitialization_Process (s : ESP) : ESP :=
  let s := if s.SMStateChanged then { s with STEP := 0 } else s
  if s.STEP = 0 then
    let r := ESP_HuartSend s.ESP1_HUART s.HuartNumber ATE0 ((cs "ATE0\r\n").length)
    let s := { s with ESP1_HUART := r.2 }
    if SUCCESS = r.1 then
      let s := { s with StateTimer := s.StateTimer.Set _200ms_ }
      let s := { s with StateTimer := s.StateTimer.Reset }
      { s with STEP := 1 }
    else s
  else if s.STEP = 1 then
    if (s.isCommandReceived .OK).1 then
      let s := (s.isCommandReceived .OK).2
      let s := { s with Module := { s.Module with EchoIsOnFlag := false } }
      let s := { s with Module := { s.Module with ModuleReady := true } }
      { s with CurrentState := .smSelectModuleMode }
    else
      let s := (s.isCommandReceived .OK).2
      let e := s.StateTimer.Elapsed
      let s := { s with StateTimer := e.2 }
      if e.1 then
        let s := { s with StateTimer := s.StateTimer.Set _1sec_ }
        let s := { s with StateTimer := s.StateTimer.Reset }
        { s with STEP := 2 }
      else s
  else if s.STEP = 2 then
    let e := s.StateTimer.Elapsed
    let s := { s with StateTimer := e.2 }
    if e.1 then { s with CurrentState := .smModuleReset } else s
  else
    let e := s.StateTimer.Elapsed
    let s := { s with StateTimer := e.2 }
    if e.1 then { s with STEP := 0 } else s

/-- Lines 178-188 of `ESP::Process`: the UART is set up at the first call;
`memmgr_alloc` is the allocator used for its ring buffers. -/
def ESP.Process_first (memmgr_alloc : Nat → Nat) (s : ESP) : ESP :=
  if s.FirstTime then
    { s with
      ESP1_HUART := (ESP_HuartInit memmgr_alloc s.HuartNumber s.ESP1_HUART).2,
      HuartConfigured :=
        if SUCCESS = (ESP_HuartInit memmgr_alloc s.HuartNumber s.ESP1_HUART).1 then true
        else s.HuartConfigured,
      FirstTime := false }
  else s

/-- Lines 197-205: an overflow of the receive queue starts the overflow timer. -/
def ESP.Process_overflow (s : ESP) : ESP :=
  if (ESP_HuartRxOverflow s.ESP1_HUART s.HuartNumber).1 ≠ 0 then
    if s.IO_.RxOverflowFlag = false then
      { s with
        ESP1_HUART := (ESP_HuartRxOverflow s.ESP1_HUART s.HuartNumber).2,
        RxOverflowTimer := s.RxOverflowTimer.Reset,
        IO_ := { s.IO_ with RxOverflowFlag := true, RxOverflowEvent := true } }
    else { s with ESP1_HUART := (ESP_HuartRxOverflow s.ESP1_HUART s.HuartNumber).2 }
  else { s with ESP1_HUART := (ESP_HuartRxOverflow s.ESP1_HUART s.HuartNumber).2 }

/-- Lines 207-215: when the overflow timer has elapsed the receive stream is to
be emptied. -/
def ESP.Process_overflow_timer (s : ESP) : ESP :=
  if s.IO_.RxOverflowFlag then
    if s.RxOverflowTimer.Elapsed.1 then
      { s with
        RxOverflowTimer := s.RxOverflowTimer.Elapsed.2.Stop,
        IO_ := { s.IO_ with DoEmptyRxStream := true, RxOverflowFlag := false } }
    else { s with RxOverflowTimer := s.RxOverflowTimer.Elapsed.2 }
  else s

/-- Lines 217-225: `SMStateChanged` tells whether the state has changed. -/
def ESP.Process_state (s : ESP) : ESP :=
  if s.LastState ≠ some s.CurrentState then
    { s with LastState := some s.CurrentState, SMStateChanged := true }
  else { s with SMStateChanged := false }

/-- Lines 227-231: unless an overflow is being handled, the handler of the
current state runs and `NewCommandSemaphore` is cleared. -/
def ESP.Process_handler (handler : ESP → ESP) (s : ESP) : ESP :=
  if s.IO_.RxOverflowFlag = false then { handler s with NewCommandSemaphore := false } else s

/-- The state with which `ESP::Process` calls the handler of the current state. -/
def ESP.Process_prepare (memmgr_alloc : Nat → Nat) (s : ESP) : ESP :=
  (s.Process_first memmgr_alloc).Process_overflow.Process_overflow_timer.Process_state

/-- `ESP::Process`. The call `CurrentState->Process(this)` of the handler of the
current state is the parameter `handler`. -/
def ESP.Process (memmgr_alloc : Nat → Nat) (handler : ESP → ESP) (s : ESP) : ESP :=
  if (s.Process_first memmgr_alloc).ModuleToggleFlag = .Disable then s.Process_first memmgr_alloc
  else if (s.Process_first memmgr_alloc).HuartConfigured = false then s.Process_first memmgr_alloc
  else ((s.Process_prepare memmgr_alloc).Process_handler handler).RxHandler

/-- The virtual call `CurrentState->Process(this)` for the state handlers
embedded here; for the other states the handler is the parameter `other`. -/
def ESP.dispatch (other : ESP → ESP) (s : ESP) : ESP :=
  match s.CurrentState with
  | .smModuleInitialization => s.StateModuleInitialization_Process
  | _ => other s

/-! ## Bytes arriving on the UART -/

/-- The receive interrupt of the driver's UART runs once for each of the bytes
read from the data register. -/
def ESP.receive (s : ESP) (bytes : List Nat) : ESP :=
  { s with ESP1_HUART := bytes.foldl My_UART_Receive_IT s.ESP1_HUART }

/-- The bytes arrive in chunks; after each chunk `RxHandler` runs once. -/
def ESP.feed : ESP → List (List Nat) → ESP
  | s, [] => s
  | s, c :: cs => ESP.feed (s.receive c).RxHandler cs

/-- No byte of the chunks is lost: the receive interrupt never sets
`RX_OVERFLOW` while the chunks are fed. -/
def ESP.feed_ok : ESP → List (List Nat) → Prop
  | _, [] => True
  | s, c :: cs => (s.receive c).ESP1_HUART.RX_OVERFLOW = false ∧ ESP.feed_ok (s.receive c).RxHandler cs

/-- The decimal digits of `n` before `acc`; `fuel` bounds the number of digits. -/
def decimal_aux : Nat → Nat → List Nat → List Nat
  | 0, _, acc => acc
  | fuel + 1, n, acc =>
    if n < 10 then (n + '0'.toNat) :: acc
    else decimal_aux fuel (n / 10) ((n % 10 + '0'.toNat) :: acc)

/-- The decimal representation of `n`, as the module sends a number. -/
def decimal (n : Nat) : List Nat :=
  decimal_aux (n + 1) n []

/-- The header `+IPD,<id>,<len>:` that precedes the data received on a socket. -/
def IPD_header (id len : Nat) : List Nat :=
  cs "+IPD," ++ decimal id ++ cs "," ++ decimal len ++ cs ":"

/-- A poll of the recognizer as `Process` makes it: `NewCommandSemaphore` is
cleared when the handler of the current state has run (`handled`), then
`RxHandler` runs. -/
def ESP.poll (s : ESP) (handled : Bool) : ESP :=
  ESP.RxHandler (if handled then { s with NewCommandSemaphore := false } else s)

/-- A sequence of polls. -/
def ESP.polls (s : ESP) (handled : List Bool) : ESP :=
  handled.foldl ESP.poll s

/-- The literal records of the module, each with its line end, and the events
that stand for them. -/
def literal_records : List (List Nat × eAT) :=
  [(cs "OK\r\n", .OK), (cs "ready\r\n", .READY), (cs "FAIL\r\n", .FAIL),
   (cs "ERROR\r\n", .AT_ERROR), (cs "busy\r\n", .BUSY), (cs "busy p...\r\n", .BUSY_P),
   (cs "busy s...\r\n", .BUSY_S), (cs "SEND OK\r\n", .SEND_OK),
   (cs "no change\r\n", .NOCHANGE), (cs "no ip\r\n", .NOIP), (cs "Linked\r\n", .LINKED),
   (cs "wdt reset\r\n", .WDT_RESET)]

/-- A record: bytes up to and including the first `\r\n`. -/
def is_record (rec : List Nat) : Prop :=
  2 ≤ rec.length ∧ rec.getD (rec.length - 1) 0 = '\n'.toNat ∧
  rec.getD (rec.length - 2) 0 = '\r'.toNat ∧
  ∀ m, m < rec.length → 2 ≤ m →
    ¬(rec.getD (m - 1) 0 = '\n'.toNat ∧ rec.getD (m - 2) 0 = '\r'.toNat)

/-! ## The local access point: `snprintf`, `strncpy`, `ESP::StateSetApParameters` -/

/-- A directive of a `printf` format: a character to copy, `%s` or `%u`. -/
inductive print_directive where
  | lit (c : Nat)
  | s
  | u

/-- An argument of `snprintf`: the contents of a C string, or an unsigned number. -/
inductive print_arg where
  | str (bytes : List Nat)
  | num (n : Nat)

/-- The directives of a format that uses only `%s` and `%u`; `pct` tells that
the character before was `%`. -/
def print_directives : Bool → List Char → List print_directive
  | _, [] => []
  | true, c :: rest =>
    (if c = 's' then print_directive.s else if c = 'u' then .u else .lit c.toNat) ::
      print_directives false rest
  | false, c :: rest =>
    if c = '%' then print_directives true rest else .lit c.toNat :: print_directives false rest

/-- The characters that the directives print for the arguments. -/
def print_out : List print_directive → List print_arg → List Nat
  | [], _ => []
  | .lit c :: ds, args => c :: print_out ds args
  | .s :: ds, .str b :: args => b ++ print_out ds args
  | .u :: ds, .num n :: args => decimal n ++ print_out ds args
  | _ :: ds, args => print_out ds args

/-- `snprintf(dst, size, format, args...)`: the returned length (that of the
whole output) and the array `dst`, which gets at most `size - 1` characters and
a terminating NUL. -/
def snprintf (dst : Nat → Nat) (size : Nat) (format : String) (args : List print_arg) :
    Nat × (Nat → Nat) :=
  ((print_out (print_directives false format.toList) args).length,
   if size = 0 then dst
   else writeBytes dst 0
     ((print_out (print_directives false format.toList) args).take (size - 1) ++ [0]))

/-- `strncpy(dst, src, n)` for the C string `src`: `n` bytes are written, the
string and then NULs. -/
def strncpy (dst : Nat → Nat) (src : List Nat) (n : Nat) : Nat → Nat :=
  writeBytes dst 0 (src.take n ++ List.replicate (n - src.length) 0)

/-- The C string in the array `Name` (what `pName` points to). -/
def AccessPoint.pName (ap : AccessPoint) : List Nat :=
  cstr_upto ap.Name AccessPoint.NameSize 0

/-- The C string in the array `Password` (what `pPassword` points to). -/
def AccessPoint.pPassword (ap : AccessPoint) : List Nat :=
  cstr_upto ap.Password ESP8266_AP_PWD_LEN 0

/-- `ESP::AccessPointCredentials::CheckNameAndPassword`. -/
def AccessPoint.CheckNameAndPassword (ap : AccessPoint) : Bool :=
  decide (ap.pName.length > 0 ∧ ap.pName.length < ESP8266_AP_NAME_LEN ∧
    ap.pPassword.length < ESP8266_AP_PWD_LEN)

/-- `pName[0] = 0; pPassword[0] = 0;` with the given state of the access point. -/
def AccessPoint.fail (ap : AccessPoint) (st : eAccessPointState) : AccessPoint :=
  { ap with State := st,
            Name := fun i => if i = 0 then 0 else ap.Name i,
            Password := fun i => if i = 0 then 0 else ap.Password i }

/-- `ESP::SwitchToAccessPointMode`; `AP_Name` and `AP_PWD` are the contents of
the C strings passed, and `ESP8266_AP_CH_NUM` is 13. `PasswordSize` is
`sizeof(Name)`, four more than the 40 bytes of `Password`: the four NULs that
`strncpy` writes behind a password shorter than 40 bytes are kept at the indices
40..43 of the model's array, which no code reads; in C they fall on the members
that follow `Password`. -/
def ESP.SwitchToAccessPointMode (s : ESP) (AP_Name AP_PWD : List Nat) (ch : Nat)
    (ecn : eECNType) : STATUS × ESP :=
  if AP_Name.length < AccessPoint.NameSize ∧ AP_PWD.length < AccessPoint.PasswordSize then
    (SUCCESS,
     { s with
       LocalAP := { s.LocalAP with
         Name := strncpy s.LocalAP.Name AP_Name AccessPoint.NameSize,
         Password := strncpy s.LocalAP.Password AP_PWD AccessPoint.PasswordSize,
         Channel := if ch > 0 ∧ ch ≤ 13 then ch else 1,
         ecn := ecn },
       Module := { s.Module with ModeRequest := .AccessPoint } })
  else
    (ERROR,
     { s with LocalAP := { s.LocalAP with
         Name := fun i => if i = 0 then 0 else s.LocalAP.Name i,
         Password := fun i => if i = 0 then 0 else s.LocalAP.Password i } })

/-- `ESP::LocalAccessPointState`. -/
def ESP.LocalAccessPointState (s : ESP) : eAccessPointState :=
  s.LocalAP.State

/-- `ESP::AccessPointNameChanged`. -/
def ESP.AccessPointNameChanged (s : ESP) : Nat :=
  s.LocalAP.NewName

/-- `static const U8 AT_CWSAP_CUR_REQ[] = "AT+CWSAP_CUR?\r\n"`, seen through a
pointer to its first byte. -/
def AT_CWSAP_CUR_REQ : Nat → Nat :=
  fun i => (cs "AT+CWSAP_CUR?\r\n").getD i 0

/-- `if(pESP->isCommandReceived(cmd)) { f }`: the state after the test, with `f`
applied when the event was pending. -/
def ESP.onCommand (s : ESP) (cmd : eAT) (f : ESP → ESP) : ESP :=
  if (s.isCommandReceived cmd).1 then f (s.isCommandReceived cmd).2
  else (s.isCommandReceived cmd).2

/-- `if(pESP->StateTimer.Elapsed()) { f }`: the state after the test, with `f`
applied when the timer had run out. -/
def ESP.onElapsed (s : ESP) (f : ESP → ESP) : ESP :=
  if s.StateTimer.Elapsed.1 then f { s with StateTimer := s.StateTimer.Elapsed.2 }
  else { s with StateTimer := s.StateTimer.Elapsed.2 }

/-- `StateTimer.Set(t); StateTimer.Reset();`. -/
def ESP.startTimer (s : ESP) (t : Nat) : ESP :=
  { s with StateTimer := (s.StateTimer.Set t).Reset }

/-- `ESP_HuartSend(pESP->HuartNumber, data, len)` on the driver state: the
status and the state. -/
def ESP.HuartSend (s : ESP) (data : Nat → Nat) (len : Nat) : STATUS × ESP :=
  ((ESP_HuartSend s.ESP1_HUART s.HuartNumber data len).1,
   { s with ESP1_HUART := (ESP_HuartSend s.ESP1_HUART s.HuartNumber data len).2 })

/-- `snprintf(pESP->IO.pCommandString, pESP->IO.CommandStringSize - 1, format,
args...)`: the returned length and the state. -/
def ESP.printCommand (s : ESP) (format : String) (args : List print_arg) : Nat × ESP :=
  ((snprintf s.IO_.CommandString (io.CommandStringSize - 1) format args).1,
   { s with IO_ := { s.IO_ with
       CommandString :=
         (snprintf s.IO_.CommandString (io.CommandStringSize - 1) format args).2 } })

/-- The C string in `IO.CommandString`. -/
def ESP.commandString (s : ESP) : List Nat :=
  cstr_upto s.IO_.CommandString io.CommandStringSize 0

/-- The C string in `IO.ReceivedParameterStr`. -/
def ESP.receivedParameterStr (s : ESP) : List Nat :=
  cstr_upto s.IO_.ReceivedParameterStr ESP8266_RECEIVED_COMMAND_PARAM_STR_LEN 0

/-- Lines 1129-1137: on entry to the state the step is reset, the access point
is `NotStarted` and a pending event is dropped. -/
def ESP.StateSetApParameters_enter (s : ESP) : ESP :=
  if s.SMStateChanged then
    ESP.ClearLastCommand
      { s with STEP := 0, LocalAP := { s.LocalAP with State := .NotStarted } }
  else s

/-- Lines 1147-1158: `case 0`, the current configuration is requested. -/
def ESP.StateSetApParameters_step0 (s : ESP) : ESP :=
  if SUCCESS = (s.HuartSend AT_CWSAP_CUR_REQ (cs "AT+CWSAP_CUR?\r\n").length).1 then
    { (s.HuartSend AT_CWSAP_CUR_REQ (cs "AT+CWSAP_CUR?\r\n").length).2.startTimer _200ms_ with
      STEP := 1 }
  else
    { (s.HuartSend AT_CWSAP_CUR_REQ (cs "AT+CWSAP_CUR?\r\n").length).2 with
      CurrentState := .smModuleReset }

/-- Lines 1161-1171: `case 1`, the current configuration is awaited. -/
def ESP.StateSetApParameters_step1 (s : ESP) : ESP :=
  (s.onCommand .CWSAP_CUR (fun t => { t with STEP := 2 })).onElapsed
    (fun t => { t with CurrentState := .smModuleReset })

/-- Lines 1174-1183: `case 2`, the `OK` after the configuration is awaited. -/
def ESP.StateSetApParameters_step2 (s : ESP) : ESP :=
  (s.onCommand .OK (fun t => { t with STEP := 3 })).onElapsed (fun t => { t with STEP := 3 })

/-- Lines 1188-1197: the name the access point is to have is printed to
`IO.CommandString`. -/
def ESP.StateSetApParameters_name (s : ESP) : ESP :=
  if s.Module.AP_NamePostfix ≠ 0 then
    (s.printCommand "%s_%u" [.str s.LocalAP.pName, .num s.Module.AP_NamePostfix]).2
  else (s.printCommand "%s" [.str s.LocalAP.pName]).2

/-- Lines 1202-1207: the name with the postfix becomes the name of the access
point, and `NewName` records the postfix. -/
def ESP.StateSetApParameters_renew (s : ESP) : ESP :=
  if s.Module.AP_NamePostfix ≠ 0 then
    { (s.printCommand "%s_%u" [.str s.LocalAP.pName, .num s.Module.AP_NamePostfix]).2 with
      LocalAP := { s.LocalAP with
        Name := strncpy s.LocalAP.Name
          (s.printCommand "%s_%u" [.str s.LocalAP.pName, .num s.Module.AP_NamePostfix]).2.commandString
          (AccessPoint.NameSize - 1),
        NewName := s.Module.AP_NamePostfix } }
  else s

/-- Lines 1185-1216: `case 3`, the configuration of the module is compared with
the requested one. -/
def ESP.StateSetApParameters_step3 (s : ESP) : ESP :=
  if s.LocalAP.CheckNameAndPassword then
    if strcmp_eq s.StateSetApParameters_name.commandString
        s.StateSetApParameters_name.receivedParameterStr then
      { ESP.StateSetApParameters_renew
          { s.StateSetApParameters_name with
            LocalAP := { s.StateSetApParameters_name.LocalAP with State := .Started } } with
        CurrentState := .smStandby }
    else { s.StateSetApParameters_name with STEP := 4 }
  else s

/-- Lines 1220-1228: the command that sets the configuration is printed to
`IO.CommandString`; the result is its length and the state. -/
def ESP.StateSetApParameters_command (s : ESP) : Nat × ESP :=
  if s.Module.AP_NamePostfix ≠ 0 then
    s.printCommand "AT+CWSAP_CUR=\"%s_%u\",\"%s\",%u,%u\r\n"
      [.str s.LocalAP.pName, .num s.Module.AP_NamePostfix, .str s.LocalAP.pPassword,
       .num s.LocalAP.Channel, .num s.LocalAP.ecn.toNat]
  else
    s.printCommand "AT+CWSAP_CUR=\"%s\",\"%s\",%u,%u\r\n"
      [.str s.LocalAP.pName, .str s.LocalAP.pPassword, .num s.LocalAP.Channel,
       .num s.LocalAP.ecn.toNat]

/-- The state after the command of `case 4` has been handed to the UART, and
the status of the call. -/
def ESP.StateSetApParameters_send (s : ESP) : STATUS × ESP :=
  s.StateSetApParameters_command.2.HuartSend s.StateSetApParameters_command.2.IO_.CommandString
    s.StateSetApParameters_command.1

/-- Lines 1218-1245: `case 4`, the requested configuration is sent. -/
def ESP.StateSetApParameters_step4 (s : ESP) : ESP :=
  if SUCCESS = s.StateSetApParameters_send.1 then
    { s.StateSetApParameters_send.2.startTimer _2sec_ with
      LocalAP := { s.StateSetApParameters_send.2.LocalAP with State := .Starting },
      STEP := 5 }
  else
    { s.StateSetApParameters_send.2 with
      LocalAP := s.StateSetApParameters_send.2.LocalAP.fail .NotStarted,
      CurrentState := .smModuleReset }

/-- Lines 1268-1275: `if(isCommandReceived(AT_ERROR) || isCommandReceived(FAIL))`. -/
def ESP.StateSetApParameters_failed (s : ESP) : ESP :=
  if (s.isCommandReceived .AT_ERROR).1 then
    { (s.isCommandReceived .AT_ERROR).2 with
      LocalAP := (s.isCommandReceived .AT_ERROR).2.LocalAP.fail .Failed,
      CurrentState := .smStandby }
  else
    (s.isCommandReceived .AT_ERROR).2.onCommand .FAIL
      (fun t => { t with LocalAP := t.LocalAP.fail .Failed, CurrentState := .smStandby })

/-- Lines 1247-1276: `case 5`, the reply to the configuration is awaited. -/
def ESP.StateSetApParameters_step5 (s : ESP) : ESP :=
  ((s.onElapsed (fun t => { t with LocalAP := t.LocalAP.fail .Failed, STEP := 0 })).onCommand .OK
    (fun t => { t with LocalAP := { t.LocalAP with State := .Started },
                       CurrentState := .smStandby })).StateSetApParameters_failed

/-- Lines 1144-1282: `switch(pESP->STEP)`. -/
def ESP.StateSetApParameters_switch (s : ESP) : ESP :=
  if s.STEP = 0 then s.StateSetApParameters_step0
  else if s.STEP = 1 then s.StateSetApParameters_step1
  else if s.STEP = 2 then s.StateSetApParameters_step2
  else if s.STEP = 3 then s.StateSetApParameters_step3
  else if s.STEP = 4 then s.StateSetApParameters_step4
  else if s.STEP = 5 then s.StateSetApParameters_step5
  else { s with STEP := 0 }

/-- `ESP::StateSetApParameters::Process`. -/
def ESP.StateSetApParameters_Process (s : ESP) : ESP :=
  if s.StateSetApParameters_enter.LocalAP.CheckNameAndPassword = false then
    s.StateSetApParameters_enter
  else s.StateSetApParameters_enter.StateSetApParameters_switch

/-! ## The state handlers of the engine

The writes to the reset pin (`ESP_ActivateResetPin`, `ESP_ReleaseResetPin`) and
the debug output have no effect on the state of the driver and are left out. -/

/-- A `static const U8 name[] = "..."`, seen through a pointer to its first byte. -/
def static_bytes (bytes : List Nat) : Nat → Nat :=
  fun i => bytes.getD i 0

/-- `static const U8 AT[] = "AT\r\n"`. -/
def AT : List Nat := cs "AT\r\n"

/-- `static const U8 AT_RST[] = "AT+RST\r\n"`. -/
def AT_RST : List Nat := cs "AT+RST\r\n"

/-- `static const U8 AT_CWMODE_CUR_STA[] = "AT+CWMODE_CUR=1\r\n"`. -/
def AT_CWMODE_CUR_STA : List Nat := cs "AT+CWMODE_CUR=1\r\n"

/-- `static const U8 AT_CWMODE_CUR_BOTH[] = "AT+CWMODE_CUR=3\r\n"`. -/
def AT_CWMODE_CUR_BOTH : List Nat := cs "AT+CWMODE_CUR=3\r\n"

/-- `static const U8 AT_CIPMUX_SINGLE[] = "AT+CIPMUX=0\r\n"`. -/
def AT_CIPMUX_SINGLE : List Nat := cs "AT+CIPMUX=0\r\n"

/-- `static const U8 AT_CIPMUX_MULTIPLE[] = "AT+CIPMUX=1\r\n"`. -/
def AT_CIPMUX_MULTIPLE : List Nat := cs "AT+CIPMUX=1\r\n"

/-- `static const U8 AT_CIFSR[] = "AT+CIFSR\r\n"`. -/
def AT_CIFSR : List Nat := cs "AT+CIFSR\r\n"

/-- `enum class eBaudRates : uint32_t {Baud1 = 9600, .., Baud8 = 921600}`, in the
order of the `switch` of the baud rate detection. -/
def eBaudRates : List Nat := [9600, 115200, 19200, 38400, 74880, 230400, 460800, 921600]

/-- `static uint8_t ESP8266_BAUDRATE_TRIES = 8`. -/
def ESP8266_BAUDRATE_TRIES : Nat := 8

/-- `const unsigned int TxPacketMaxSize = 2048`. -/
def io.TxPacketMaxSize : Nat := 2048

/-- `const unsigned long DataSendTimeout = _3sec_`. -/
def DataSendTimeout : Nat := _3sec_

/-- `a -= b` on a `uint16_t` `a`. -/
def sub_u16 (a b : Nat) : Nat :=
  if b ≤ a then a - b else (a + U16_MOD - b % U16_MOD) % U16_MOD

/-- `ESP_HuartSend(pESP->HuartNumber, (char*)name, sizeof(name)-1)` for a constant
string: the status and the state. -/
def ESP.sendConst (s : ESP) (bytes : List Nat) : STATUS × ESP :=
  s.HuartSend (static_bytes bytes) bytes.length

/-- `ESP_SetBaudRate(pESP->HuartNumber, Baud)` on the driver state. -/
def ESP.SetBaudRate (s : ESP) (Baud : Nat) : ESP :=
  { s with ESP1_HUART := ESP_SetBaudRate s.ESP1_HUART s.HuartNumber Baud }

/-- `pESP->IO.ClearReceivingErrors()`. -/
def ESP.ClearReceivingErrors (s : ESP) : ESP :=
  { s with IO_ := s.IO_.ClearReceivingErrors }

/-- `pESP->IO.ClearRxStream()`. -/
def ESP.ClearRxStream (s : ESP) : ESP :=
  { s with IO_ := s.IO_.ClearRxStream }

/-- `isCommandReceived(c1) || isCommandReceived(c2) || ...`: the value and the
state; the calls after the first that returns true are not made. -/
def ESP.isCommandReceivedAny (s : ESP) : List eAT → Bool × ESP
  | [] => (false, s)
  | c :: cmds =>
    if (s.isCommandReceived c).1 then (true, (s.isCommandReceived c).2)
    else ESP.isCommandReceivedAny (s.isCommandReceived c).2 cmds

/-- `if(isCommandReceived(c1) || isCommandReceived(c2) || ...) { f }`. -/
def ESP.onCommands (s : ESP) (cmds : List eAT) (f : ESP → ESP) : ESP :=
  if (s.isCommandReceivedAny cmds).1 then f (s.isCommandReceivedAny cmds).2
  else (s.isCommandReceivedAny cmds).2

/-- `if(isCommandReceived(cmd)) { f; break; } g`. -/
def ESP.onCommandElse (s : ESP) (cmd : eAT) (f g : ESP → ESP) : ESP :=
  if (s.isCommandReceived cmd).1 then f (s.isCommandReceived cmd).2
  else g (s.isCommandReceived cmd).2

/-- `snprintf(pESP->IO.pCommandString, size, format, args...)`: the returned
length and the state. -/
def ESP.snprintfCommand (s : ESP) (size : Nat) (format : String) (args : List print_arg) :
    Nat × ESP :=
  ((snprintf s.IO_.CommandString size format args).1,
   { s with IO_ := { s.IO_ with
       CommandString := (snprintf s.IO_.CommandString size format args).2 } })

/-- `sprintf(pESP->IO.pCommandString, format, args...)`: the whole output and a
terminating NUL are written. -/
def ESP.sprintfCommand (s : ESP) (format : String) (args : List print_arg) : ESP :=
  { s with IO_ := { s.IO_ with
      CommandString := writeBytes s.IO_.CommandString 0
        (print_out (print_directives false format.toList) args ++ [0]) } }

/-- `ESP_HuartSend(pESP->HuartNumber, pESP->IO.pCommandString, len)`. -/
def ESP.sendCommand (s : ESP) (len : Nat) : STATUS × ESP :=
  s.HuartSend s.IO_.CommandString len

/-- The first of the sockets `0 .. n-1` for which `p` holds: what a loop
`for(i=0; i<n; i++) { if(p(Socket[i])) { ...; return; } }` finds. -/
def ESP.findSocket (s : ESP) (n : Nat) (p : socket → Bool) : Option Nat :=
  (List.range n).find? (fun i => p (s.Socket i))

/-- `ESP::SetModuleConnectionType`: the returned flag and the state. -/
def ESP.SetModuleConnectionType (s : ESP) (t : eModuleConnectionType) : Bool × ESP :=
  (decide (t = s.Module.ConnectionTypeActual),
   { s with Module := { s.Module with ConnectionTypeRequest := t } })

/-- `ESP::SwitchToStationMode`; `AP_Name` and `AP_PWD` are the contents of the C
strings passed. `PasswordSize` is `sizeof(Name)`, as for the access point. -/
def ESP.SwitchToStationMode (s : ESP) (AP_Name AP_PWD : List Nat) : STATUS × ESP :=
  if AP_Name.length < AccessPoint.NameSize ∧ AP_PWD.length < AccessPoint.PasswordSize then
    (SUCCESS,
     { s with
       RemoteAP := { s.RemoteAP with
         Name := strncpy s.RemoteAP.Name AP_Name AccessPoint.NameSize,
         Password := strncpy s.RemoteAP.Password AP_PWD AccessPoint.PasswordSize },
       Module := { s.Module with ModeRequest := .Station } })
  else
    (ERROR,
     { s with RemoteAP := { s.RemoteAP with
         Name := fun i => if i = 0 then 0 else s.RemoteAP.Name i,
         Password := fun i => if i = 0 then 0 else s.RemoteAP.Password i } })

/-- `ESP::StartServer`. -/
def ESP.StartServer (s : ESP) (Port : Nat) : ESP :=
  { s with Server := { s.Server with Port := Port, StartRequest := true } }

/-- The C string in the array `Name` (what `pName` points to). -/
def Station.pName (ap : Station) : List Nat :=
  cstr_upto ap.Name AccessPoint.NameSize 0

/-- The C string in the array `Password` (what `pPassword` points to). -/
def Station.pPassword (ap : Station) : List Nat :=
  cstr_upto ap.Password ESP8266_AP_PWD_LEN 0

/-- `ESP::AccessPointCredentials::CheckNameAndPassword` for the station. -/
def Station.CheckNameAndPassword (ap : Station) : Bool :=
  decide (ap.pName.length > 0 ∧ ap.pName.length < ESP8266_AP_NAME_LEN ∧
    ap.pPassword.length < ESP8266_AP_PWD_LEN)

/-- `pName[0] = 0; pPassword[0] = 0;` with the given state of the station. -/
def Station.fail (ap : Station) (st : eStationConnectionState) : Station :=
  { ap with StationState := st,
            Name := fun i => if i = 0 then 0 else ap.Name i,
            Password := fun i => if i = 0 then 0 else ap.Password i }

/-! ### ESP::ModuleReInit and ESP::StateModuleReset -/

/-- `ESP::ModuleReInit`. -/
def ESP.ModuleReInit (s : ESP) : ESP :=
  { s with
    CurrentState := .smStartModule, LastState := none, SMStateChanged := true,
    DebugFlag_RxStreamToStdOut := false, NewCommandSemaphore := false,
    IO_ := io.ctor s.IO_, Module := module.ctor, LocalAP := AccessPoint.ctor,
    RemoteAP := Station.ctor, Server := server.ctor, Socket := fun _ => socket.ctor }

/-- Lines 593-600 of `StateModuleReset::Process`. -/
def ESP.StateModuleReset_enter (s : ESP) : ESP :=
  ESP.ClearReceivingErrors
    (if s.SMStateChanged then
      { s with Module := { s.Module with ModuleReady := false }, STEP := 0 }
     else s)

/-- Lines 602-641: `switch(pESP->STEP)` of `StateModuleReset::Process`. -/
def ESP.StateModuleReset_switch (s : ESP) : ESP :=
  if s.STEP = 0 then
    if SUCCESS = (s.sendConst AT_RST).1 then
      { (s.sendConst AT_RST).2.startTimer _200ms_ with STEP := 1 }
    else { (s.sendConst AT_RST).2.startTimer _1sec_ with STEP := 2 }
  else if s.STEP = 1 then s.onElapsed ESP.ModuleReInit
  else if s.STEP = 2 then s.onElapsed (fun t => { t with STEP := 0 })
  else { s with STEP := 0 }

/-- `ESP::StateModuleReset::Process`. -/
def ESP.StateModuleReset_Process (s : ESP) : ESP :=
  s.StateModuleReset_enter.StateModuleReset_switch

/-! ### ESP::StateStartModule -/

/-- Lines 646-653 of `StateStartModule::Process`. -/
def ESP.StateStartModule_enter (s : ESP) : ESP :=
  ESP.ClearReceivingErrors
    (if s.SMStateChanged then
      { s with STEP := 0, Module := { s.Module with ModuleReady := false } }
     else s)

/-- Lines 655-680: `switch(pESP->STEP)` of `StateStartModule::Process`. -/
def ESP.StateStartModule_switch (s : ESP) : ESP :=
  if s.STEP = 0 then { s.startTimer _3sec_ with STEP := 1 }
  else if s.STEP = 1 then
    s.onCommandElse .READY (fun t => { t with CurrentState := .smTestModule })
      (fun t => t.onElapsed (fun u => { u with CurrentState := .smTestModule }))
  else { s with STEP := 0 }

/-- `ESP::StateStartModule::Process`. -/
def ESP.StateStartModule_Process (s : ESP) : ESP :=
  s.StateStartModule_enter.StateStartModule_switch

/-! ### ESP::StateTestModule -/

/-- Lines 685-692 of `StateTestModule::Process`. -/
def ESP.StateTestModule_enter (s : ESP) : ESP :=
  if s.SMStateChanged then { s.ClearRxStream.startTimer _10ms_ with STEP := 0 } else s

/-- Lines 694-730: `switch(pESP->STEP)` of `StateTestModule::Process`. -/
def ESP.StateTestModule_switch (s : ESP) : ESP :=
  if s.STEP = 0 then s.onElapsed (fun t => { t with STEP := 1 })
  else if s.STEP = 1 then
    if SUCCESS = (s.sendConst AT).1 then { (s.sendConst AT).2.startTimer _200ms_ with STEP := 2 }
    else (s.sendConst AT).2
  else if s.STEP = 2 then
    s.onCommandElse .OK (fun t => { t with CurrentState := .smModuleInitialization })
      (fun t => t.onElapsed (fun u => { u with CurrentState := .smDetectModuleBaudrate }))
  else { s with STEP := 0 }

/-- `ESP::StateTestModule::Process`. -/
def ESP.StateTestModule_Process (s : ESP) : ESP :=
  s.StateTestModule_enter.StateTestModule_switch

/-! ### ESP::StateDetectModuleBaudrate -/

/-- Lines 740-748 of `StateDetectModuleBaudrate::Process`. -/
def ESP.StateDetectModuleBaudrate_enter (s : ESP) : ESP :=
  if s.SMStateChanged then
    ESP.startTimer
      (ESP.ClearRxStream
        { s with STEP := 10, Module := { s.Module with BaudRateIndex := 0 } })
      _30ms_
  else s

/-- Lines 754-780: the baud rate with the index `Module.BaudRateIndex` is set and
a pending event dropped; when all rates have been tried the next state is
`smModuleReset`. The inner `switch` has a case for each index below
`ESP8266_BAUDRATE_TRIES`. -/
def ESP.StateDetectModuleBaudrate_select (s : ESP) : ESP :=
  if s.Module.BaudRateIndex < ESP8266_BAUDRATE_TRIES then
    (s.SetBaudRate (eBaudRates.getD s.Module.BaudRateIndex 0)).ClearLastCommand
  else { s with CurrentState := .smModuleReset }

/-- Lines 754-796: `case 0`, the next baud rate is set and `AT` is sent. -/
def ESP.StateDetectModuleBaudrate_step0 (s : ESP) : ESP :=
  if SUCCESS = (s.StateDetectModuleBaudrate_select.sendConst AT).1 then
    { (s.StateDetectModuleBaudrate_select.sendConst AT).2.startTimer _100ms_ with STEP := 1 }
  else (s.StateDetectModuleBaudrate_select.sendConst AT).2

/-- Lines 798-816: `case 1`, the reply to `AT` is awaited. -/
def ESP.StateDetectModuleBaudrate_step1 (s : ESP) : ESP :=
  s.onCommandElse .OK (fun t => { t.startTimer _200ms_ with STEP := 2 })
    (fun t => t.onElapsed (fun u =>
      { ESP.startTimer
          (ESP.ClearRxStream
            { u with Module := { u.Module with
                BaudRateIndex := (u.Module.BaudRateIndex + 1) % U8_MOD } })
          _30ms_ with
        STEP := 10 }))

/-- The command of `case 3` is printed to `IO.CommandString`; the result is its
length (a `U16`) and the state. -/
def ESP.StateDetectModuleBaudrate_command (s : ESP) : Nat × ESP :=
  ((s.snprintfCommand 30 "AT+UART_CUR=%u,8,1,0,0\r\n" [.num ESP8266_UART_SPEED]).1 % U16_MOD,
   (s.snprintfCommand 30 "AT+UART_CUR=%u,8,1,0,0\r\n" [.num ESP8266_UART_SPEED]).2)

/-- The state after the command of `case 3` has been handed to the UART, and the
status of the call. -/
def ESP.StateDetectModuleBaudrate_send (s : ESP) : STATUS × ESP :=
  s.StateDetectModuleBaudrate_command.2.sendCommand s.StateDetectModuleBaudrate_command.1

/-- Lines 826-842: `case 3`, the module is told to change its baud rate. -/
def ESP.StateDetectModuleBaudrate_step3 (s : ESP) : ESP :=
  if SUCCESS = s.StateDetectModuleBaudrate_send.1 then
    { s.StateDetectModuleBaudrate_send.2.startTimer _100ms_ with STEP := 4 }
  else
    { s.StateDetectModuleBaudrate_send.2.SetBaudRate (eBaudRates.getD 1 0) with
      CurrentState := .smModuleReset }

/-- Lines 844-860: `case 4`, the reply to the change of the baud rate is awaited. -/
def ESP.StateDetectModuleBaudrate_step4 (s : ESP) : ESP :=
  s.onCommandElse .OK
    (fun t => { (t.SetBaudRate t.Module.BaudRate).startTimer _200ms_ with STEP := 5 })
    (fun t => t.onElapsed (fun u =>
      { u.SetBaudRate (eBaudRates.getD 1 0) with CurrentState := .smModuleReset }))

/-- Lines 750-881: `switch(pESP->STEP)` of `StateDetectModuleBaudrate::Process`. -/
def ESP.StateDetectModuleBaudrate_switch (s : ESP) : ESP :=
  if s.STEP = 0 then s.StateDetectModuleBaudrate_step0
  else if s.STEP = 1 then s.StateDetectModuleBaudrate_step1
  else if s.STEP = 2 then s.onElapsed (fun t => { t.ClearLastCommand with STEP := 3 })
  else if s.STEP = 3 then s.StateDetectModuleBaudrate_step3
  else if s.STEP = 4 then s.StateDetectModuleBaudrate_step4
  else if s.STEP = 5 then
    s.onElapsed (fun t => { t.ClearLastCommand with CurrentState := .smModuleInitialization })
  else if s.STEP = 10 then s.onElapsed (fun t => { t with STEP := 0 })
  else { s with STEP := 0 }

/-- `ESP::StateDetectModuleBaudrate::Process`. -/
def ESP.StateDetectModuleBaudrate_Process (s : ESP) : ESP :=
  s.StateDetectModuleBaudrate_enter.StateDetectModuleBaudrate_switch

/-! ### ESP::StateSelectModuleMode -/

/-- Lines 942-947 of `StateSelectModuleMode::Process`. -/
def ESP.StateSelectModuleMode_enter (s : ESP) : ESP :=
  if s.SMStateChanged then ESP.ClearLastCommand { s with STEP := 0 } else s

/-- The command that selects a mode is sent: on success the reply is awaited,
otherwise the module is reset. -/
def ESP.StateSelectModuleMode_send (s : ESP) (cmd : List Nat) : ESP :=
  if SUCCESS = (s.sendConst cmd).1 then { (s.sendConst cmd).2.startTimer _200ms_ with STEP := 1 }
  else { (s.sendConst cmd).2 with CurrentState := .smModuleReset }

/-- Lines 951-999: `case 0`; the case `AccessPoint` falls through to
`StationAndAccessPoint`. -/
def ESP.StateSelectModuleMode_step0 (s : ESP) : ESP :=
  match s.Module.ModeRequest with
  | .Undefined => s
  | .Station => s.StateSelectModuleMode_send AT_CWMODE_CUR_STA
  | .AccessPoint => s.StateSelectModuleMode_send AT_CWMODE_CUR_BOTH
  | .StationAndAccessPoint => s.StateSelectModuleMode_send AT_CWMODE_CUR_BOTH

/-- Lines 1003-1025: the mode has been set. -/
def ESP.StateSelectModuleMode_selected (s : ESP) : ESP :=
  match s.Module.ModeRequest with
  | .Station =>
    { s with Module := { s.Module with ModeActual := s.Module.ModeRequest },
             CurrentState := .smJoinAP }
  | .AccessPoint =>
    { s with Module := { s.Module with ModeActual := s.Module.ModeRequest },
             CurrentState := .smFindFreeSSID }
  | _ =>
    { s with Module := { s.Module with ModeActual := s.Module.ModeRequest, AP_NamePostfix := 0 },
             CurrentState := .smFindFreeSSID }

/-- Lines 1001-1032: `case 1`, the reply is awaited. -/
def ESP.StateSelectModuleMode_step1 (s : ESP) : ESP :=
  if (s.isCommandReceivedAny [.OK, .NOCHANGE]).1 then
    (s.isCommandReceivedAny [.OK, .NOCHANGE]).2.StateSelectModuleMode_selected
  else
    (s.isCommandReceivedAny [.OK, .NOCHANGE]).2.onElapsed
      (fun t => { t with Module := { t.Module with ModeActual := .Undefined }, STEP := 0 })

/-- `ESP::StateSelectModuleMode::Process`. -/
def ESP.StateSelectModuleMode_Process (s : ESP) : ESP :=
  if s.StateSelectModuleMode_enter.STEP = 0 then
    s.StateSelectModuleMode_enter.StateSelectModuleMode_step0
  else if s.StateSelectModuleMode_enter.STEP = 1 then
    s.StateSelectModuleMode_enter.StateSelectModuleMode_step1
  else { s.StateSelectModuleMode_enter with STEP := 0 }

/-! ### ESP::StateFindFreeSSID -/

/-- Lines 1045-1051 of `StateFindFreeSSID::Process`. -/
def ESP.StateFindFreeSSID_enter (s : ESP) : ESP :=
  if s.SMStateChanged then
    ESP.ClearLastCommand
      { s with STEP := 0, LocalAP := { s.LocalAP with State := .NotStarted } }
  else s

/-- Lines 1058-1065: the command that lists the access points with the name is
printed to `IO.CommandString`; the result is its length and the state. -/
def ESP.StateFindFreeSSID_command (s : ESP) : Nat × ESP :=
  if s.Module.AP_NamePostfix ≠ 0 then
    s.printCommand "AT+CWLAP=\"%s_%u\"\r\n" [.str s.LocalAP.pName, .num s.Module.AP_NamePostfix]
  else s.printCommand "AT+CWLAP=\"%s\"\r\n" [.str s.LocalAP.pName]

/-- The state after the command of `case 0` has been handed to the UART, and the
status of the call. -/
def ESP.StateFindFreeSSID_send (s : ESP) : STATUS × ESP :=
  s.StateFindFreeSSID_command.2.sendCommand s.StateFindFreeSSID_command.1

/-- Lines 1055-1077: `case 0`. -/
def ESP.StateFindFreeSSID_step0 (s : ESP) : ESP :=
  if s.LocalAP.CheckNameAndPassword then
    if SUCCESS = s.StateFindFreeSSID_send.1 then
      { s.StateFindFreeSSID_send.2.startTimer _10sec_ with STEP := 1 }
    else { s.StateFindFreeSSID_send.2 with CurrentState := .smModuleReset }
  else s

/-- Lines 1081-1092: an access point with the name exists; the next postfix is
tried. -/
def ESP.StateFindFreeSSID_taken (s : ESP) : ESP :=
  if (s.Module.AP_NamePostfix + 1) % U8_MOD > 200 then
    { s with Module := { s.Module with AP_NamePostfix := (s.Module.AP_NamePostfix + 1) % U8_MOD },
             CurrentState := .smModuleReset }
  else
    { ESP.startTimer
        { s with Module := { s.Module with
            AP_NamePostfix := (s.Module.AP_NamePostfix + 1) % U8_MOD } }
        _200ms_ with
      STEP := 2 }

/-- Lines 1079-1105: `case 1`. -/
def ESP.StateFindFreeSSID_step1 (s : ESP) : ESP :=
  s.onCommandElse .CWLAP ESP.StateFindFreeSSID_taken
    (fun t => (t.onCommand .OK (fun u => { u with CurrentState := .smSetApParameters })).onElapsed
      (fun u => { u with CurrentState := .smModuleReset }))

/-- `ESP::StateFindFreeSSID::Process`. -/
def ESP.StateFindFreeSSID_Process (s : ESP) : ESP :=
  if s.StateFindFreeSSID_enter.STEP = 0 then s.StateFindFreeSSID_enter.StateFindFreeSSID_step0
  else if s.StateFindFreeSSID_enter.STEP = 1 then
    s.StateFindFreeSSID_enter.StateFindFreeSSID_step1
  else if s.StateFindFreeSSID_enter.STEP = 2 then
    (s.StateFindFreeSSID_enter.onCommand .OK (fun t => { t with STEP := 0 })).onElapsed
      (fun t => { t with STEP := 0 })
  else { s.StateFindFreeSSID_enter with STEP := 0 }

/-! ### ESP::StateJoinAP -/

/-- Lines 1286-1290 of `StateJoinAP::Process`. -/
def ESP.StateJoinAP_enter (s : ESP) : ESP :=
  if s.SMStateChanged then ESP.ClearLastCommand { s with STEP := 0 } else s

/-- Lines 1294-1300: `case 0`. -/
def ESP.StateJoinAP_step0 (s : ESP) : ESP :=
  if s.RemoteAP.CheckNameAndPassword then
    { s with RemoteAP := { s.RemoteAP with StationState := .Disconnected }, STEP := 1 }
  else { s with RemoteAP := { s.RemoteAP with StationState := .Disconnected } }

/-- Line 1303: the command that joins the access point is printed to
`IO.CommandString`. -/
def ESP.StateJoinAP_command (s : ESP) : ESP :=
  s.sprintfCommand "AT+CWJAP=\"%s\",\"%s\"\r\n" [.str s.RemoteAP.pName, .str s.RemoteAP.pPassword]

/-- The state after the command of `case 1` has been handed to the UART, and the
status of the call. -/
def ESP.StateJoinAP_send (s : ESP) : STATUS × ESP :=
  s.StateJoinAP_command.sendCommand s.StateJoinAP_command.commandString.length

/-- Lines 1302-1318: `case 1`. -/
def ESP.StateJoinAP_step1 (s : ESP) : ESP :=
  if SUCCESS = s.StateJoinAP_send.1 then
    { s.StateJoinAP_send.2.startTimer _20sec_ with
      RemoteAP := { s.StateJoinAP_send.2.RemoteAP with StationState := .Connecting },
      STEP := 2 }
  else
    { s.StateJoinAP_send.2 with
      RemoteAP := s.StateJoinAP_send.2.RemoteAP.fail .NotConnected,
      CurrentState := .smModuleReset }

/-- Lines 1321-1341: `case 2`, the reply is awaited. -/
def ESP.StateJoinAP_step2 (s : ESP) : ESP :=
  if s.StateTimer.Elapsed.1 then
    { s with StateTimer := s.StateTimer.Elapsed.2,
             RemoteAP := s.RemoteAP.fail .ConnectTimeout, STEP := 0 }
  else
    ESP.onCommandElse { s with StateTimer := s.StateTimer.Elapsed.2 } .OK
      (fun t => { t with RemoteAP := { t.RemoteAP with StationState := .Connected },
                         CurrentState := .smStandby })
      (fun t => t.onCommand .FAIL
        (fun u => { u with RemoteAP := u.RemoteAP.fail .ConnectFailed, STEP := 0 }))

/-- `ESP::StateJoinAP::Process`. -/
def ESP.StateJoinAP_Process (s : ESP) : ESP :=
  if s.StateJoinAP_enter.STEP = 0 then s.StateJoinAP_enter.StateJoinAP_step0
  else if s.StateJoinAP_enter.STEP = 1 then s.StateJoinAP_enter.StateJoinAP_step1
  else if s.StateJoinAP_enter.STEP = 2 then s.StateJoinAP_enter.StateJoinAP_step2
  else { s.StateJoinAP_enter with STEP := 0 }

/-! ### ESP::StateStandby -/

/-- Lines 1354-1359 of `StateStandby::Process`. -/
def ESP.StateStandby_enter (s : ESP) : ESP :=
  if s.SMStateChanged then ESP.ClearLastCommand { s with STEP := 0 } else s

/-- Lines 1446-1460: the events `UNLINK`, `LINK`, `REBOOT_DETECTED` and
`WDT_RESET` are taken and nothing is done with them. -/
def ESP.StateStandby_events (s : ESP) : ESP :=
  (((s.isCommandReceived .UNLINK).2.isCommandReceived .LINK).2.isCommandReceivedAny
    [.REBOOT_DETECTED, .WDT_RESET]).2

/-- Lines 1385-1444: the requests, in the order of the source. -/
def ESP.StateStandby_requests (s : ESP) : ESP :=
  if (s.findSocket SocketsNum
      (fun k => decide (k.State = .Connected ∧ k.TxLock = true ∧ 0 ≠ k.TxDataLen))).isSome then
    { s with CurrentState := .smSendData }
  else if s.Module.ConnectionTypeRequest ≠ s.Module.ConnectionTypeActual then
    { s with CurrentState := .smChangeConnectionType }
  else if s.Server.StartRequest = true then
    if s.Module.ConnectionTypeActual = .Multiple then { s with CurrentState := .smStartServer }
    else (s.SetModuleConnectionType .Multiple).2
  else if s.LocalAP.ChangeIPRequest then { s with CurrentState := .smChangeAPIP }
  else if (s.findSocket SocketsNum (fun k => decide (k.State = .ConnectRequested))).isSome then
    { s with CurrentState := .smOpenSocket }
  else if (s.findSocket SocketsNum (fun k => decide (k.State = .CloseRequested))).isSome then
    { s with CurrentState := .smCloseSocket }
  else s.StateStandby_events

/-- `SocketId = (uint8_t)IO.pReceivedParameter[0]; Socket[SocketId].State = st;`. -/
def ESP.StateStandby_notified (s : ESP) (st : eSocketState) : ESP :=
  { s.setSocket (s.IO_.ReceivedParameter 0 % U8_MOD)
      { s.Socket (s.IO_.ReceivedParameter 0 % U8_MOD) with State := st } with
    smStandby_SocketId := s.IO_.ReceivedParameter 0 % U8_MOD }

/-- Lines 1373-1383: a socket was closed by the other side. -/
def ESP.StateStandby_closed (s : ESP) : ESP :=
  if (s.isCommandReceived .SOCKET_CLOSED).1 then
    if (s.isCommandReceived .SOCKET_CLOSED).2.IO_.ReceivedParameter 0 < SocketsNum then
      (s.isCommandReceived .SOCKET_CLOSED).2.StateStandby_notified .Closed
    else (s.isCommandReceived .SOCKET_CLOSED).2.StateStandby_requests
  else (s.isCommandReceived .SOCKET_CLOSED).2.StateStandby_requests

/-- Lines 1361-1371: a socket was connected by the other side. -/
def ESP.StateStandby_connect (s : ESP) : ESP :=
  if (s.isCommandReceived .SOCKET_CONNECT).1 then
    if (s.isCommandReceived .SOCKET_CONNECT).2.IO_.ReceivedParameter 0 < SocketsNum then
      (s.isCommandReceived .SOCKET_CONNECT).2.StateStandby_notified .Connected
    else (s.isCommandReceived .SOCKET_CONNECT).2.StateStandby_closed
  else (s.isCommandReceived .SOCKET_CONNECT).2.StateStandby_closed

/-- `ESP::StateStandby::Process`. -/
def ESP.StateStandby_Process (s : ESP) : ESP :=
  s.StateStandby_enter.StateStandby_connect

/-! ### ESP::StateChangeConnectionType -/

/-- Lines 1463-1468 of `StateChangeConnectionType::Process`. -/
def ESP.StateChangeConnectionType_enter (s : ESP) : ESP :=
  if s.SMStateChanged then ESP.ClearLastCommand { s with STEP := 0 } else s

/-- The command that sets the connection type is sent. -/
def ESP.StateChangeConnectionType_send (s : ESP) (cmd : List Nat) : ESP :=
  if SUCCESS = (s.sendConst cmd).1 then { (s.sendConst cmd).2.startTimer _200ms_ with STEP := 1 }
  else { (s.sendConst cmd).2 with CurrentState := .smModuleReset }

/-- Lines 1472-1502: `case 0`. -/
def ESP.StateChangeConnectionType_step0 (s : ESP) : ESP :=
  if s.Module.ConnectionTypeRequest = .Multiple then
    s.StateChangeConnectionType_send AT_CIPMUX_MULTIPLE
  else if s.Module.ConnectionTypeRequest = .Single then
    s.StateChangeConnectionType_send AT_CIPMUX_SINGLE
  else { s with CurrentState := .smStandby }

/-- Lines 1504-1521: `case 1`. -/
def ESP.StateChangeConnectionType_step1 (s : ESP) : ESP :=
  (((s.onElapsed (fun t => { t with CurrentState := .smModuleReset })).onCommands
    [.OK, .LINKISBUILDED, .NOCHANGE]
    (fun t => { t with
      Module := { t.Module with ConnectionTypeActual := t.Module.ConnectionTypeRequest },
      CurrentState := .smStandby })).onCommand .AT_ERROR
    (fun t => { t with CurrentState := .smModuleReset }))

/-- `ESP::StateChangeConnectionType::Process`. -/
def ESP.StateChangeConnectionType_Process (s : ESP) : ESP :=
  if s.StateChangeConnectionType_enter.STEP = 0 then
    s.StateChangeConnectionType_enter.StateChangeConnectionType_step0
  else if s.StateChangeConnectionType_enter.STEP = 1 then
    s.StateChangeConnectionType_enter.StateChangeConnectionType_step1
  else { s.StateChangeConnectionType_enter with STEP := 0 }

/-! ### ESP::StateSendData -/

/-- Lines 1541-1548 of `StateSendData::Process`. -/
def ESP.StateSendData_enter (s : ESP) : ESP :=
  if s.SMStateChanged then
    ESP.ClearLastCommand { s with STEP := 0, smSendData_RetryCounter := 5 }
  else s

/-- The socket whose data are sent, `Socket[SocketId]`. -/
def ESP.txSocket (s : ESP) : socket :=
  s.Socket s.smSendData_SocketId

/-- Replace `Socket[SocketId]`. -/
def ESP.setTxSocket (s : ESP) (k : socket) : ESP :=
  s.setSocket s.smSendData_SocketId k

/-- Lines 1552-1564: `case 0`, the first connected socket with data to send is
taken. -/
def ESP.StateSendData_step0 (s : ESP) : ESP :=
  match s.findSocket ESP8266_SOCKETS_MAX (fun k => decide (k.State = .Connected ∧ k.TxLock = true)) with
  | some i =>
    { s.setSocket i { s.Socket i with TxState := .InProgress } with
      smSendData_SocketId := i, STEP := 1 }
  | none => s

/-- Lines 1567-1574: the length of the next packet. -/
def ESP.StateSendData_packet (s : ESP) : ESP :=
  s.setTxSocket
    { s.txSocket with
      TxPacketLen :=
        if s.txSocket.TxDataLen ≤ io.TxPacketMaxSize then s.txSocket.TxDataLen
        else io.TxPacketMaxSize }

/-- Lines 1576-1583: the command that announces the packet is printed to
`IO.CommandString`; the result is its length and the state. -/
def ESP.StateSendData_command (s : ESP) : Nat × ESP :=
  if s.Module.ConnectionTypeActual = .Single then
    s.snprintfCommand 21 "AT+CIPSEND=%u\r\n" [.num s.txSocket.TxPacketLen]
  else
    s.snprintfCommand 21 "AT+CIPSEND=%u,%u\r\n"
      [.num s.smSendData_SocketId, .num s.txSocket.TxPacketLen]

/-- The state after the command of `case 1` has been handed to the UART, and the
status of the call. -/
def ESP.StateSendData_send (s : ESP) : STATUS × ESP :=
  s.StateSendData_packet.StateSendData_command.2.sendCommand
    s.StateSendData_packet.StateSendData_command.1

/-- Lines 1566-1603: `case 1`, the next packet is announced. -/
def ESP.StateSendData_step1 (s : ESP) : ESP :=
  if s.Module.ConnectionTypeActual = .Single ∨ s.Module.ConnectionTypeActual = .Multiple then
    if SUCCESS = s.StateSendData_send.1 then
      { s.StateSendData_send.2.startTimer _3sec_ with STEP := 2 }
    else { s.StateSendData_send.2 with CurrentState := .smModuleReset }
  else { s.StateSendData_packet with CurrentState := .smModuleReset }

/-- The send has failed: `TxState = SendFail; TxDataLen = 0; TxLock = 0;` and the
next state is `smStandby`. -/
def ESP.StateSendData_fail (s : ESP) : ESP :=
  { s.setTxSocket { s.txSocket with TxState := .SendFail, TxDataLen := 0, TxLock := false } with
    CurrentState := .smStandby }

/-- Lines 1606-1620: the first `if` of `case 2`; the timer is looked at only
when no `OK` is pending. -/
def ESP.StateSendData_prompt (s : ESP) : ESP :=
  s.onCommandElse .OK (fun t => t)
    (fun t => t.onElapsed
      (fun u => if u.IO_.ListenToTxData = false then u.StateSendData_fail else u))

/-- `len = ESP_TransmitBufferSpaceLeft(..); if(len > TxPacketMaxSize) len =
TxPacketMaxSize;`. -/
def ESP.StateSendData_len (s : ESP) : Nat :=
  if ESP_TransmitBufferSpaceLeft s.ESP1_HUART s.HuartNumber > io.TxPacketMaxSize then
    io.TxPacketMaxSize
  else ESP_TransmitBufferSpaceLeft s.ESP1_HUART s.HuartNumber

/-- `ESP_HuartSend(pESP->HuartNumber, (char*)Socket[SocketId].DataTx, len)`: the
status and the state. -/
def ESP.sendData (s : ESP) (len : Nat) : STATUS × ESP :=
  s.HuartSend (ptrAdd s.app_mem s.txSocket.DataTx) len

/-- A part of the packet has been handed to the UART: `DataTx += len;
TxPacketLen -= len; TxDataLen -= len;`, and the timer runs for 30 ms. -/
def ESP.StateSendData_part (s : ESP) (len : Nat) : ESP :=
  { ESP.startTimer
      (s.setTxSocket
        { s.txSocket with
          DataTx := s.txSocket.DataTx + len,
          TxPacketLen := sub_u16 s.txSocket.TxPacketLen len,
          TxDataLen := sub_u16 s.txSocket.TxDataLen len })
      _30ms_ with
    STEP := 3 }

/-- The rest of the packet has been handed to the UART: the timer runs for
`DataSendTimeout`, `ListenToTxData = false; TxDataLen -= TxPacketLen;`. -/
def ESP.StateSendData_rest (s : ESP) : ESP :=
  { (s.startTimer DataSendTimeout).setTxSocket
      { s.txSocket with TxDataLen := sub_u16 s.txSocket.TxDataLen s.txSocket.TxPacketLen } with
    IO_ := { s.IO_ with ListenToTxData := false },
    STEP := 4 }

/-- Lines 1624-1655 and 1690-1723: the module is ready for the data. As much of
the packet as the transmit queue has room for is handed to the UART. -/
def ESP.StateSendData_push (s : ESP) : ESP :=
  if s.StateSendData_len ≠ 0 ∧ s.StateSendData_len < s.txSocket.TxPacketLen then
    if SUCCESS = (s.sendData s.StateSendData_len).1 then
      (s.sendData s.StateSendData_len).2.StateSendData_part s.StateSendData_len
    else { (s.sendData s.StateSendData_len).2 with CurrentState := .smModuleReset }
  else if SUCCESS = (s.sendData s.txSocket.TxPacketLen).1 then
    (s.sendData s.txSocket.TxPacketLen).2.StateSendData_rest
  else { (s.sendData s.txSocket.TxPacketLen).2 with CurrentState := .smModuleReset }

/-- Lines 1658-1678: the replies `FAIL`, `ERROR`, `Unlink` fail the send; the
replies `busy`, `busy p...`, `busy s...` start a retry. -/
def ESP.StateSendData_replies (s : ESP) : ESP :=
  (s.onCommands [.FAIL, .AT_ERROR, .UNLINK] ESP.StateSendData_fail).onCommands
    [.BUSY, .BUSY_P, .BUSY_S]
    (fun t =>
      { t.startTimer _1sec_ with
        smSendData_RetryCounter := dec_wrap U8_MOD t.smSendData_RetryCounter,
        STEP := 5 })

/-- Lines 1605-1680: `case 2`. -/
def ESP.StateSendData_step2 (s : ESP) : ESP :=
  ESP.StateSendData_replies
    (if s.StateSendData_prompt.IO_.ListenToTxData then s.StateSendData_prompt.StateSendData_push
     else s.StateSendData_prompt)

/-- Lines 1682-1729: `case 3`. -/
def ESP.StateSendData_step3 (s : ESP) : ESP :=
  s.onElapsed (fun t => if t.IO_.ListenToTxData then t.StateSendData_push else { t with STEP := 4 })

/-- Lines 1750-1764: `SEND OK` has arrived. -/
def ESP.StateSendData_sent (s : ESP) : ESP :=
  if s.txSocket.TxDataLen ≠ 0 then { s.startTimer _30ms_ with STEP := 6 }
  else if s.txSocket.CloseAfterSending then
    { ((s.setTxSocket { s.txSocket with TxLock := false, TxState := .SendSuccess }).CloseSocket
        s.smSendData_SocketId).2 with
      CurrentState := .smStandby }
  else
    { s.setTxSocket { s.txSocket with TxLock := false, TxState := .SendSuccess } with
      CurrentState := .smStandby }

/-- Lines 1731-1766: `case 4`. -/
def ESP.StateSendData_step4 (s : ESP) : ESP :=
  (((s.onElapsed (fun t => t)).onCommands [.FAIL, .AT_ERROR, .UNLINK] (fun t => t)).onCommand
    .SEND_OK ESP.StateSendData_sent)

/-- Lines 1768-1789: `case 5`. -/
def ESP.StateSendData_step5 (s : ESP) : ESP :=
  s.onElapsed
    (fun t =>
      if t.smSendData_RetryCounter ≠ 0 then { t with StateTimer := t.StateTimer.Reset, STEP := 1 }
      else t.StateSendData_fail)

/-- Lines 1550-1801: `switch(pESP->STEP)` of `StateSendData::Process`. -/
def ESP.StateSendData_switch (s : ESP) : ESP :=
  if s.STEP = 0 then s.StateSendData_step0
  else if s.STEP = 1 then s.StateSendData_step1
  else if s.STEP = 2 then s.StateSendData_step2
  else if s.STEP = 3 then s.StateSendData_step3
  else if s.STEP = 4 then s.StateSendData_step4
  else if s.STEP = 5 then s.StateSendData_step5
  else if s.STEP = 6 then s.onElapsed (fun t => { t with STEP := 1 })
  else { s with STEP := 0 }

/-- `ESP::StateSendData::Process`. -/
def ESP.StateSendData_Process (s : ESP) : ESP :=
  s.StateSendData_enter.StateSendData_switch

/-! ### ESP::StateOpenSocket -/

/-- Lines 1810-1815 of `StateOpenSocket::Process`. -/
def ESP.StateOpenSocket_enter (s : ESP) : ESP :=
  if s.SMStateChanged then ESP.ClearLastCommand { s with STEP := 0 } else s

/-- The socket that is opened, `Socket[SocketId]`. -/
def ESP.openSocket (s : ESP) : socket :=
  s.Socket s.smOpenSocket_SocketId

/-- Replace `Socket[SocketId]`. -/
def ESP.setOpenSocket (s : ESP) (k : socket) : ESP :=
  s.setSocket s.smOpenSocket_SocketId k

/-- Lines 1819-1830: `case 0`. -/
def ESP.StateOpenSocket_step0 (s : ESP) : ESP :=
  match s.findSocket ESP8266_SOCKETS_MAX (fun k => decide (k.State = .ConnectRequested)) with
  | some i => { s with smOpenSocket_SocketId := i, STEP := 1 }
  | none => { s with CurrentState := .smStandby }

/-- The C string that `Socket[SocketId].Address` points to, in the
application's memory; strings of fewer than 65536 bytes are read in full. -/
def ESP.openAddress (s : ESP) : List Nat :=
  cstr_upto s.app_mem U16_MOD s.openSocket.Address

/-- Lines 1849-1856: the command that opens the connection, as `snprintf` leaves
it in the allocated block of `len = strlen(Address) + 40` bytes. -/
def ESP.StateOpenSocket_command (s : ESP) : List Nat :=
  (print_out
    (print_directives false
      (if s.openSocket.Type_ = .UDP then "AT+CIPSTART=\"UDP\",\"%s\",%u\r\n"
       else "AT+CIPSTART=\"TCP\",\"%s\",%u\r\n").toList)
    [.str s.openAddress, .num s.openSocket.Port]).take (s.openAddress.length + 40 - 2)

/-- The socket could not be opened: it is closed with the error flag `e`, and the
next state is `smStandby`. -/
def ESP.StateOpenSocket_reject (s : ESP) (e : eSocketErrorFlag) : ESP :=
  { s.setOpenSocket { s.openSocket with State := .Closed, ErrorFlag := e } with
    CurrentState := .smStandby }

/-- Lines 1858-1874: the command is handed to the UART. -/
def ESP.StateOpenSocket_send (s : ESP) : ESP :=
  if SUCCESS =
      (ESP.HuartSend (s.setOpenSocket { s.openSocket with ErrorFlag := .NoError })
        (static_bytes s.StateOpenSocket_command) s.StateOpenSocket_command.length).1 then
    { ESP.startTimer
        ((ESP.HuartSend (s.setOpenSocket { s.openSocket with ErrorFlag := .NoError })
          (static_bytes s.StateOpenSocket_command) s.StateOpenSocket_command.length).2.setOpenSocket
          { s.openSocket with ErrorFlag := .NoError, State := .Connecting })
        _200ms_ with
      STEP := 2 }
  else
    { (ESP.HuartSend (s.setOpenSocket { s.openSocket with ErrorFlag := .NoError })
        (static_bytes s.StateOpenSocket_command) s.StateOpenSocket_command.length).2.setOpenSocket
        { s.openSocket with State := .Closed, Port := 0, ErrorFlag := .InternalError } with
      app_mem := writeBytes s.app_mem s.openSocket.Address [0],
      CurrentState := .smStandby }

/-- Lines 1833-1891: `case 1`. `malloc` gives the address of the block for the
command, `0` when there is no memory; the block is freed before the handler
returns and its contents are not part of the state. -/
def ESP.StateOpenSocket_step1 (malloc : Nat → Nat) (s : ESP) : ESP :=
  if s.openSocket.State = .ConnectRequested then
    if s.openSocket.Port ≠ 0 ∧ (s.openSocket.Type_ = .UDP ∨ s.openSocket.Type_ = .TCP) then
      if 0 = s.openAddress.length then
        { s.setOpenSocket { s.openSocket with State := .Closed } with CurrentState := .smStandby }
      else if malloc (s.openAddress.length + 40) ≠ 0 then s.StateOpenSocket_send
      else s.StateOpenSocket_reject .InternalError
    else s.StateOpenSocket_reject .InternalError
  else s

/-- Lines 1893-1924: `case 2`, the reply is awaited. -/
def ESP.StateOpenSocket_step2 (s : ESP) : ESP :=
  if s.StateTimer.Elapsed.1 then
    { ESP.setOpenSocket { s with StateTimer := s.StateTimer.Elapsed.2 }
        { s.openSocket with State := .Closed, Port := 0, ErrorFlag := .Timeout } with
      app_mem := writeBytes s.app_mem s.openSocket.Address [0],
      STEP := 0 }
  else
    ESP.onCommandElse { s with StateTimer := s.StateTimer.Elapsed.2 } .OK
      (fun t =>
        { t.setOpenSocket { t.openSocket with State := .Connected, ErrorFlag := .NoError } with
          CurrentState := .smStandby })
      (fun t => t.onCommandElse .NOIP
        (fun u =>
          { u.setOpenSocket { u.openSocket with State := .Closed, ErrorFlag := .NoAccessPoint } with
            RemoteAP := { u.RemoteAP with StationState := .Disconnected },
            CurrentState := .smJoinAP })
        (fun u => u.onCommand .AT_ERROR
          (fun v => v.StateOpenSocket_reject .FailToConnect)))

/-- `ESP::StateOpenSocket::Process`. -/
def ESP.StateOpenSocket_Process (malloc : Nat → Nat) (s : ESP) : ESP :=
  if s.StateOpenSocket_enter.STEP = 0 then s.StateOpenSocket_enter.StateOpenSocket_step0
  else if s.StateOpenSocket_enter.STEP = 1 then
    s.StateOpenSocket_enter.StateOpenSocket_step1 malloc
  else if s.StateOpenSocket_enter.STEP = 2 then s.StateOpenSocket_enter.StateOpenSocket_step2
  else { s.StateOpenSocket_enter with STEP := 0 }

/-! ### ESP::StateCloseSocket -/

/-- Lines 1935-1940 of `StateCloseSocket::Process`. -/
def ESP.StateCloseSocket_enter (s : ESP) : ESP :=
  if s.SMStateChanged then ESP.ClearLastCommand { s with STEP := 0 } else s

/-- The socket that is closed, `Socket[SocketId]`. -/
def ESP.closeSocket (s : ESP) : socket :=
  s.Socket s.smCloseSocket_SocketId

/-- Replace `Socket[SocketId]`. -/
def ESP.setCloseSocket (s : ESP) (k : socket) : ESP :=
  s.setSocket s.smCloseSocket_SocketId k

/-- Lines 1944-1956: `case 0`. -/
def ESP.StateCloseSocket_step0 (s : ESP) : ESP :=
  match s.findSocket ESP8266_SOCKETS_MAX (fun k => decide (k.State = .CloseRequested)) with
  | some i => { s with smCloseSocket_SocketId := i, STEP := 1 }
  | none => { s with CurrentState := .smStandby }

/-- Line 1961: the command that closes the connection is printed to
`IO.CommandString`. -/
def ESP.StateCloseSocket_command (s : ESP) : ESP :=
  s.sprintfCommand "AT+CIPCLOSE=%u\r\n" [.num s.smCloseSocket_SocketId]

/-- The state after the command of `case 1` has been handed to the UART, and the
status of the call. -/
def ESP.StateCloseSocket_send (s : ESP) : STATUS × ESP :=
  s.StateCloseSocket_command.sendCommand s.StateCloseSocket_command.commandString.length

/-- Lines 1958-1975: `case 1`. -/
def ESP.StateCloseSocket_step1 (s : ESP) : ESP :=
  if s.closeSocket.State = .CloseRequested then
    if SUCCESS = s.StateCloseSocket_send.1 then
      { ESP.setCloseSocket (s.StateCloseSocket_send.2.startTimer _100ms_)
          { s.closeSocket with State := .Closing } with
        STEP := 2 }
    else { s.StateCloseSocket_send.2 with CurrentState := .smModuleReset }
  else s

/-- Lines 1977-1996: `case 2`. -/
def ESP.StateCloseSocket_step2 (s : ESP) : ESP :=
  (((s.onElapsed
    (fun t => { t.setCloseSocket { t.closeSocket with State := .Error } with
                CurrentState := .smStandby })).onCommand .OK
    (fun t => { t.setCloseSocket { t.closeSocket with State := .Closed } with
                CurrentState := .smStandby })).onCommand .AT_ERROR
    (fun t => { t.setCloseSocket { t.closeSocket with State := .Closed } with
                CurrentState := .smStandby }))

/-- `ESP::StateCloseSocket::Process`. -/
def ESP.StateCloseSocket_Process (s : ESP) : ESP :=
  if s.StateCloseSocket_enter.STEP = 0 then s.StateCloseSocket_enter.StateCloseSocket_step0
  else if s.StateCloseSocket_enter.STEP = 1 then s.StateCloseSocket_enter.StateCloseSocket_step1
  else if s.StateCloseSocket_enter.STEP = 2 then s.StateCloseSocket_enter.StateCloseSocket_step2
  else { s.StateCloseSocket_enter with STEP := 0 }

/-! ### ESP::StateStartServer -/

/-- Lines 2008-2014 of `StateStartServer::Process`. -/
def ESP.StateStartServer_enter (s : ESP) : ESP :=
  if s.SMStateChanged then
    ESP.ClearLastCommand { s with STEP := 0, Server := { s.Server with State := .Connecting } }
  else s

/-- The state after the command of `case 0` has been printed and handed to the
UART, and the status of the call; the length is a `uint16_t`. -/
def ESP.StateStartServer_send (s : ESP) : STATUS × ESP :=
  (s.printCommand "AT+CIPSERVER=1,%u\r\n" [.num s.Server.Port]).2.sendCommand
    ((s.printCommand "AT+CIPSERVER=1,%u\r\n" [.num s.Server.Port]).1 % U16_MOD)

/-- Lines 2018-2032: `case 0`. -/
def ESP.StateStartServer_step0 (s : ESP) : ESP :=
  if SUCCESS = s.StateStartServer_send.1 then
    { s.StateStartServer_send.2.startTimer _1sec_ with STEP := 1 }
  else { s.StateStartServer_send.2 with CurrentState := .smModuleReset }

/-- Lines 2034-2069: `case 1`. -/
def ESP.StateStartServer_step1 (s : ESP) : ESP :=
  ((((s.onElapsed
    (fun t => { t with Server := { t.Server with State := .ConnectTimeout, StartRequest := false },
                       CurrentState := .smStandby })).onCommand .OK
    (fun t => { t with Server := { t.Server with State := .Connected, StartRequest := false },
                       CurrentState := .smGetApIP })).onCommand .NOCHANGE
    (fun t => { ESP.startTimer { t with Server := { t.Server with State := .Connected } }
                  _100ms_ with
                STEP := 2 })).onCommand .AT_ERROR
    (fun t => { t with Server := { t.Server with State := .Error, StartRequest := false },
                       CurrentState := .smStandby }))

/-- Lines 2071-2078: `case 2`; the timer is looked at only when no `OK` is
pending. -/
def ESP.StateStartServer_step2 (s : ESP) : ESP :=
  s.onCommandElse .OK
    (fun t => { t with Server := { t.Server with StartRequest := false },
                       CurrentState := .smGetApIP })
    (fun t => t.onElapsed
      (fun u => { u with Server := { u.Server with StartRequest := false },
                         CurrentState := .smGetApIP }))

/-- `ESP::StateStartServer::Process`. -/
def ESP.StateStartServer_Process (s : ESP) : ESP :=
  if s.StateStartServer_enter.STEP = 0 then s.StateStartServer_enter.StateStartServer_step0
  else if s.StateStartServer_enter.STEP = 1 then s.StateStartServer_enter.StateStartServer_step1
  else if s.StateStartServer_enter.STEP = 2 then s.StateStartServer_enter.StateStartServer_step2
  else { s.StateStartServer_enter with STEP := 0 }

/-! ### ESP::StateGetApIP -/

/-- Lines 2088-2093 of `StateGetApIP::Process`. -/
def ESP.StateGetApIP_enter (s : ESP) : ESP :=
  if s.SMStateChanged then ESP.ClearLastCommand { s with STEP := 0 } else s

/-- Lines 2097-2108: `case 0`. -/
def ESP.StateGetApIP_step0 (s : ESP) : ESP :=
  if SUCCESS = (s.sendConst AT_CIFSR).1 then
    { (s.sendConst AT_CIFSR).2.startTimer _200ms_ with STEP := 1 }
  else { (s.sendConst AT_CIFSR).2 with CurrentState := .smModuleReset }

/-- Lines 2113-2116: the address of the access point from the four received
parameters (values of `unsigned int`). -/
def io.APIP (x : io) : Nat :=
  x.ReceivedParameter 3 ||| ((x.ReceivedParameter 2 <<< 8) &&& 0xFF00) |||
    ((x.ReceivedParameter 1 <<< 16) &&& 0xFF0000) |||
    ((x.ReceivedParameter 0 <<< 24) &&& 0xFF000000)

/-- Lines 2123-2128: the MAC address of the access point from the six received
parameters. -/
def io.APMAC (x : io) : Nat :=
  (x.ReceivedParameter 5 &&& 0xFF) ||| ((x.ReceivedParameter 4 <<< 8) &&& 0xFF00) |||
    ((x.ReceivedParameter 3 <<< 16) &&& 0xFF0000) |||
    ((x.ReceivedParameter 2 <<< 24) &&& 0xFF000000) |||
    ((x.ReceivedParameter 1 <<< 32) &&& 0xFF00000000) |||
    ((x.ReceivedParameter 0 <<< 40) &&& 0xFF0000000000)

/-- Lines 2110-2133: `case 1`; the state timer is not looked at. -/
def ESP.StateGetApIP_step1 (s : ESP) : ESP :=
  (s.onCommand .CIFSR_APIP
    (fun t => { t with LocalAP := { t.LocalAP with IP := t.IO_.APIP } })).onCommand .CIFSR_APMAC
    (fun t => { t with LocalAP := { t.LocalAP with MAC := t.IO_.APMAC }, STEP := 2 })

/-- Lines 2135-2140: `case 2`; the timer is looked at only when no `OK` is
pending. -/
def ESP.StateGetApIP_step2 (s : ESP) : ESP :=
  s.onCommandElse .OK (fun t => { t with CurrentState := .smStandby })
    (fun t => t.onElapsed (fun u => { u with CurrentState := .smStandby }))

/-- `ESP::StateGetApIP::Process`. -/
def ESP.StateGetApIP_Process (s : ESP) : ESP :=
  if s.StateGetApIP_enter.STEP = 0 then s.StateGetApIP_enter.StateGetApIP_step0
  else if s.StateGetApIP_enter.STEP = 1 then s.StateGetApIP_enter.StateGetApIP_step1
  else if s.StateGetApIP_enter.STEP = 2 then s.StateGetApIP_enter.StateGetApIP_step2
  else { s.StateGetApIP_enter with STEP := 0 }

/-! ### ESP::StateChangeAPIP -/

/-- Lines 2152-2157 of `StateChangeAPIP::Process`. -/
def ESP.StateChangeAPIP_enter (s : ESP) : ESP :=
  if s.SMStateChanged then ESP.ClearLastCommand { s with STEP := 0 } else s

/-- The four bytes of an address, the most significant first, as arguments of
`snprintf`. -/
def ip_args (ip : Nat) : List print_arg :=
  [.num ((ip >>> 24) &&& 0xFF), .num ((ip >>> 16) &&& 0xFF), .num ((ip >>> 8) &&& 0xFF),
   .num (ip &&& 0xFF)]

/-- The state after the command of `case 0` has been printed and handed to the
UART, and the status of the call. -/
def ESP.StateChangeAPIP_send (s : ESP) : STATUS × ESP :=
  (s.printCommand "AT+CIPAP_CUR=\"%u.%u.%u.%u\",\"%u.%u.%u.%u\",\"%u.%u.%u.%u\"\r\n"
    (ip_args s.LocalAP.NewIP ++ ip_args s.LocalAP.NewGateway ++
      ip_args s.LocalAP.NewNetMask)).2.sendCommand
    (s.printCommand "AT+CIPAP_CUR=\"%u.%u.%u.%u\",\"%u.%u.%u.%u\",\"%u.%u.%u.%u\"\r\n"
      (ip_args s.LocalAP.NewIP ++ ip_args s.LocalAP.NewGateway ++
        ip_args s.LocalAP.NewNetMask)).1

/-- Lines 2161-2190: `case 0`. -/
def ESP.StateChangeAPIP_step0 (s : ESP) : ESP :=
  if SUCCESS = s.StateChangeAPIP_send.1 then
    { s.StateChangeAPIP_send.2.startTimer _5sec_ with STEP := 1 }
  else { s.StateChangeAPIP_send.2 with CurrentState := .smModuleReset }

/-- Lines 2192-2213: `case 1`. -/
def ESP.StateChangeAPIP_step1 (s : ESP) : ESP :=
  (s.onCommand .OK
    (fun t => { t with
      LocalAP := { t.LocalAP with IP := t.LocalAP.NewIP, Gateway := t.LocalAP.NewGateway,
                                  NetMask := t.LocalAP.NewNetMask, ChangeIPRequest := false },
      CurrentState := .smStandby })).onElapsed
    (fun t => { t with
      LocalAP := { t.LocalAP with IP := 0, Gateway := 0, NetMask := 0, ChangeIPRequest := false },
      CurrentState := .smStandby })

/-- `ESP::StateChangeAPIP::Process`. -/
def ESP.StateChangeAPIP_Process (s : ESP) : ESP :=
  if s.StateChangeAPIP_enter.STEP = 0 then s.StateChangeAPIP_enter.StateChangeAPIP_step0
  else if s.StateChangeAPIP_enter.STEP = 1 then s.StateChangeAPIP_enter.StateChangeAPIP_step1
  else { s.StateChangeAPIP_enter with STEP := 0 }

/-! ### ESP::StateGetConnectionsInfo and the virtual call -/

/-- `ESP::StateGetConnectionsInfo::Process`. -/
def ESP.StateGetConnectionsInfo_Process (s : ESP) : ESP :=
  if s.SMStateChanged then ESP.ClearLastCommand { s with STEP := 0 }
  else if s.STEP = 0 then s
  else { s with STEP := 0 }

/-- The virtual call `CurrentState->Process(this)`; `malloc` is the allocator
that `StateOpenSocket` uses. -/
def ESP.CurrentState_Process (malloc : Nat → Nat) (s : ESP) : ESP :=
  match s.CurrentState with
  | .smModuleReset => s.StateModuleReset_Process
  | .smStartModule => s.StateStartModule_Process
  | .smTestModule => s.StateTestModule_Process
  | .smDetectModuleBaudrate => s.StateDetectModuleBaudrate_Process
  | .smModuleInitialization => s.StateModuleInitialization_Process
  | .smSelectModuleMode => s.StateSelectModuleMode_Process
  | .smFindFreeSSID => s.StateFindFreeSSID_Process
  | .smSetApParameters => s.StateSetApParameters_Process
  | .smJoinAP => s.StateJoinAP_Process
  | .smStandby => s.StateStandby_Process
  | .smChangeConnectionType => s.StateChangeConnectionType_Process
  | .smSendData => s.StateSendData_Process
  | .smOpenSocket => s.StateOpenSocket_Process malloc
  | .smCloseSocket => s.StateCloseSocket_Process
  | .smStartServer => s.StateStartServer_Process
  | .smGetApIP => s.StateGetApIP_Process
  | .smChangeAPIP => s.StateChangeAPIP_Process
  | .smGetConnectionsInfo => s.StateGetConnectionsInfo_Process

/-- `ESP::Process` with the state handlers of the engine. -/
def ESP.Process_engine (memmgr_alloc malloc : Nat → Nat) (s : ESP) : ESP :=
  ESP.Process memmgr_alloc (ESP.CurrentState_Process malloc) s

/-! ## Concrete states used to instantiate the theorems -/

/-- A ring buffer record with every member zero. -/
def circular_buffer.zero : circular_buffer :=
  { buffer := 0, buffer_end := 0, capacity := 0, count := 0, sz := 0, head := 0, tail := 0,
    mem := fun _ => 0 }

/-- An empty ring buffer of `capacity` one-byte elements in a block at address 1000. -/
def circular_buffer.empty (capacity : Nat) : circular_buffer :=
  { buffer := 1000, buffer_end := 1000 + capacity, capacity := capacity, count := 0, sz := 1,
    head := 1000, tail := 1000, mem := fun _ => 0 }

/-- A ring buffer of `ESP8266_CB_RX_SIZE` one-byte elements (block at address
1000) that holds the given bytes, fewer than `ESP8266_CB_RX_SIZE` of them. -/
def circular_buffer.holding (bytes : List Nat) : circular_buffer :=
  { buffer := 1000, buffer_end := 1000 + ESP8266_CB_RX_SIZE, capacity := ESP8266_CB_RX_SIZE,
    count := bytes.length, sz := 1, head := 1000 + bytes.length, tail := 1000,
    mem := fun a => bytes.getD (a - 1000) 0 }

/-- A UART handle whose ring buffers hold 8 bytes each and are empty. -/
def UART_HandleTypeDef.demo : UART_HandleTypeDef :=
  { pRxBuffPtr := circular_buffer.empty 8, pTxBuffPtr := circular_buffer.empty 8,
    RX_OVERFLOW := false, BaudRate := ESP8266_UART_SPEED }

/-- A driver state with every member zero, used as the surroundings of the
constructor. -/
def ESP.zero : ESP :=
  { HuartNumber := 0, HuartConfigured := false, ModuleToggleFlag := .Disable, STEP := 0,
    StateTimer := Timer.ctor .Down 0 false, RxOverflowTimer := Timer.ctor .Down 0 false,
    SMStateChanged := false, DebugFlag_RxStreamToStdOut := false, NewCommandSemaphore := false,
    FirstTime := false, CurrentState := .smStartModule, LastState := none,
    Module := module.ctor,
    IO_ := { ReceivedCommand := .NO_COMMAND_RECEIVED, RxSocketId := 0, RxBuffCounter := 0,
             RxIgnoreCounter := 0, CurrentSocketDataLeft := 0, pCurrentSocketData := 0,
             DoEmptyRxStream := false, RxOverflowEvent := false, RxOverflowFlag := false,
             ReceiveError := false, ListenToTxData := false, ReceivingDataStream := false,
             RxBuffer := fun _ => 0, CommandString := fun _ => 0,
             ReceivedParameter := fun _ => 0, ReceivedParameterStr := fun _ => 0,
             ReceivedParameterStr2 := fun _ => 0 },
    LocalAP := { Name := fun _ => 0, Password := fun _ => 0, IP := 0, NetMask := 0,
                 Gateway := 0, MAC := 0, NewIP := 0, NewNetMask := 0, NewGateway := 0,
                 Channel := 0, ecn := .Open,
                 State := .NotStarted, NewName := 0, ChangeIPRequest := false },
    RemoteAP := { Name := fun _ => 0, Password := fun _ => 0, StationState := .NotConnected },
    Server := { State := .Undefined, StartRequest := false, Port := 0 },
    Socket := fun _ => socket.ctor,
    smStandby_SocketId := 0, smSendData_SocketId := 0, smSendData_RetryCounter := 0,
    smOpenSocket_SocketId := 0, smCloseSocket_SocketId := 0,
    ESP1_HUART := UART_HandleTypeDef.demo, app_mem := fun _ => 0, StoreCommand_calls := 0 }

/-- The driver as constructed for UART 1, enabled and with its UART configured. -/
def ESP.demo : ESP :=
  { ESP.ctor ESP.zero ESP1_HUART_NUM with
    ModuleToggleFlag := .Enable, FirstTime := false, HuartConfigured := true }

/-- Socket 0 connected, with a send in progress that closes the socket when it
completes: the state a successful `SocketSendClose(0, 5000, 10)` leaves. -/
def ESP.demo_sending : ESP :=
  ESP.demo.setSocket 0
    { socket.ctor with State := .Connected, DataTx := 5000, TxDataLen := 10, TxLock := true,
                       CloseAfterSending := true }

/-- A sequence of calls on a two-element ring buffer that fills it, is refused
a third element, and wraps around the end of the block. -/
def cb_op.demo : List cb_op :=
  [.push_back (fun _ => 7), .push_back (fun _ => 8), .push_back (fun _ => 9), .pop_front,
   .push_back (fun _ => 10), .pop_front, .pop_front, .pop_front]

/-- The state `s` with the given bytes waiting in the receive ring buffer. -/
def ESP.withRx (s : ESP) (bytes : List Nat) : ESP :=
  { s with ESP1_HUART := { s.ESP1_HUART with pRxBuffPtr := circular_buffer.holding bytes } }

/-- The driver waiting for the reply to `ATE0` in the second step of the state
`smModuleInitialization`. -/
def ESP.demo_init : ESP :=
  { ESP.demo with
    CurrentState := .smModuleInitialization, LastState := some .smModuleInitialization,
    STEP := 1 }

/-- The state after the record `busy p...` has arrived and `Process` has run:
the event `BUSY_P` is pending. -/
def ESP.demo_busy : ESP :=
  ESP.Process (fun _ => 0) (ESP.dispatch id) (ESP.demo_init.withRx (cs "busy p...\r\n"))

/-- Socket 0 connected and listened to with a receive buffer of 16 bytes at
address 7000: the state `ListenSocket(0, 7000, 16)` leaves on a connected socket. -/
def ESP.demo_listening : ESP :=
  ESP.demo.setSocket 0
    { socket.ctor with State := .Connected, DataRx := 7000, RxBuffSize := 16 }

/-- The driver after `SwitchToAccessPointMode("MyAP", "secret12", 1, WPA2_PSK)`,
with empty ring buffers of 200 bytes. -/
def ESP.demo_ap_requested : ESP :=
  { (ESP.demo.SwitchToAccessPointMode (cs "MyAP") (cs "secret12") 1 .WPA2_PSK).2 with
    ESP1_HUART := { pRxBuffPtr := circular_buffer.holding [],
                    pTxBuffPtr := circular_buffer.empty ESP8266_CB_TX_SIZE,
                    RX_OVERFLOW := false, BaudRate := ESP8266_UART_SPEED } }

/-- The driver in the state `smSetApParameters` at step 3: the access point
`MyAP` was requested, the search for a free name has ended with the postfix 3,
and the module has reported the name `reported` for its current configuration. -/
def ESP.demo_ap (reported : List Nat) : ESP :=
  { ESP.demo_ap_requested with
    CurrentState := .smSetApParameters, LastState := some .smSetApParameters, STEP := 3,
    Module := { ESP.demo_ap_requested.Module with AP_NamePostfix := 3 },
    IO_ := { ESP.demo_ap_requested.IO_ with
             ReceivedParameterStr := fun i => reported.getD i 0 } }

/-- A round of `ESP::Process` while the current state is `smSetApParameters`. -/
def ESP.round_ap (s : ESP) : ESP :=
  ESP.Process (fun _ => 0) ESP.StateSetApParameters_Process s

/-! ## The surroundings of the driver: timer interrupt, UART and module -/

/-- `Timer::Tick` on the two timers of the driver: a millisecond passes. -/
def ESP.Tick (s : ESP) : ESP :=
  { s with StateTimer := s.StateTimer.Tick, RxOverflowTimer := s.RxOverflowTimer.Tick }

/-- A number of milliseconds pass. -/
def ESP.Ticks : Nat → ESP → ESP
  | 0, s => s
  | n + 1, s => ESP.Ticks n s.Tick

/-- The transmit interrupt runs up to `n` times, until the transmit queue is
empty: the bytes written to the data register, oldest first, and the handle. -/
def UART_transmit : Nat → UART_HandleTypeDef → List Nat × UART_HandleTypeDef
  | 0, huart => ([], huart)
  | n + 1, huart =>
    match (My_UART_Transmit_IT huart).1 with
    | some b =>
      (b :: (UART_transmit n (My_UART_Transmit_IT huart).2).1,
       (UART_transmit n (My_UART_Transmit_IT huart).2).2)
    | none => ([], (My_UART_Transmit_IT huart).2)

/-- The UART sends out all of its transmit queue: the bytes sent and the state. -/
def ESP.transmit (s : ESP) : List Nat × ESP :=
  ((UART_transmit s.ESP1_HUART.pTxBuffPtr.count s.ESP1_HUART).1,
   { s with ESP1_HUART := (UART_transmit s.ESP1_HUART.pTxBuffPtr.count s.ESP1_HUART).2 })

/-- The allocator of the surroundings: every request is given the block at
address 1000. -/
def env_alloc : Nat → Nat :=
  fun _ => 1000

/-- A poll of the driver: `ESP::Process` with the state handlers of the engine. -/
def ESP.poll_engine (s : ESP) : ESP :=
  ESP.Process_engine env_alloc env_alloc s

/-- The number that the decimal digits at the head of `l` stand for. -/
def leading_number (l : List Nat) : Nat :=
  (l.takeWhile (fun c => decide ('0'.toNat ≤ c ∧ c ≤ '9'.toNat))).foldl
    (fun n c => 10 * n + (c - '0'.toNat)) 0

/-- The number that the decimal digits before the line end of the command
`line` stand for. -/
def trailing_number (line : List Nat) : Nat :=
  leading_number
    (((line.reverse.drop 2).takeWhile
      (fun c => decide ('0'.toNat ≤ c ∧ c ≤ '9'.toNat))).reverse)

/-- A module that answers every command: `BaudRate` is the rate of its UART,
`line` the bytes of the command that is being received, `data_left` the number
of bytes of socket data it still waits for, `busy` the number of `AT+CIPSEND`
commands it will refuse with `busy p...`, `taken` the number of `AT+CWLAP`
queries for which it will find an access point of the name asked for;
`commands` are the commands it has received and `payload` the bytes of socket
data, both newest first. -/
structure modem where
  BaudRate : Nat
  line : List Nat
  data_left : Nat
  busy : Nat
  taken : Nat
  commands : List (List Nat)
  payload : List Nat
  deriving DecidableEq, Repr

/-- The module has received the command `line`: its reply and its next state.
`AT+CIPSEND` is answered by `busy p...` while the module is busy, else by `OK`
and the prompt, after which the module waits for the announced number of bytes;
`AT+UART_CUR` is answered by `OK`, after which the module uses the new rate;
`AT+CWLAP="name"` is answered by a line for an access point of that name and
`OK` while `taken` is not zero; every other command is answered by `OK`. -/
def modem.command (m : modem) (line : List Nat) : List Nat × modem :=
  if (line.take 11 = cs "AT+CIPSEND=") then
    if m.busy ≠ 0 then
      (cs "busy p...\r\n",
       { m with line := [], busy := m.busy - 1, commands := line :: m.commands })
    else
      (cs "\r\nOK\r\n> ",
       { m with line := [], data_left := trailing_number line, commands := line :: m.commands })
  else if (line.take 12 = cs "AT+UART_CUR=") then
    (cs "\r\nOK\r\n",
     { m with line := [], BaudRate := leading_number (line.drop 12),
              commands := line :: m.commands })
  else if (line.take 10 = cs "AT+CWLAP=\"") ∧ m.taken ≠ 0 then
    (cs "+CWLAP:(3,\"" ++ (line.drop 10).takeWhile (fun c => c ≠ '"'.toNat) ++
       cs "\",-50,\"1a:fe:34:a1:b2:c3\",1,32767,0)\r\n\r\nOK\r\n",
     { m with line := [], taken := m.taken - 1, commands := line :: m.commands })
  else (cs "\r\nOK\r\n", { m with line := [], commands := line :: m.commands })

/-- The module receives a byte sent at the rate `baud`: its reply and its next
state. Bytes sent at another rate than that of the module are lost. -/
def modem.rx (m : modem) (baud b : Nat) : List Nat × modem :=
  if baud ≠ m.BaudRate then ([], m)
  else if m.data_left ≠ 0 then
    if m.data_left = 1 then
      (cs "\r\nSEND OK\r\n", { m with data_left := 0, payload := b :: m.payload })
    else ([], { m with data_left := m.data_left - 1, payload := b :: m.payload })
  else if b = '\n'.toNat ∧ m.line.getLast? = some '\r'.toNat then m.command (m.line ++ [b])
  else ([], { m with line := m.line ++ [b] })

/-- The module receives bytes sent at the rate `baud`: its replies and its next
state. -/
def modem.receive (m : modem) (baud : Nat) : List Nat → List Nat × modem
  | [] => ([], m)
  | b :: bs =>
    ((m.rx baud b).1 ++ (modem.receive (m.rx baud b).2 baud bs).1,
     (modem.receive (m.rx baud b).2 baud bs).2)

/-- A module that has received nothing, with its UART at the rate `baud`. -/
def modem.ctor (baud : Nat) : modem :=
  { BaudRate := baud, line := [], data_left := 0, busy := 0, taken := 0, commands := [],
    payload := [] }

/-- The driver and the module it is wired to; `wire` are the bursts of bytes
the driver has sent, each with the rate of the driver's UART, and `states` the
current state of the engine after each poll, both newest first. -/
structure world where
  esp : ESP
  mdm : modem
  wire : List (Nat × List Nat)
  states : List eState

/-- The driver `s` wired to the module `m`. -/
def world.ctor (s : ESP) (m : modem) : world :=
  { esp := s, mdm := m, wire := [], states := [] }

/-- The state the world is in after the driver, having been polled, is in the
state `s`: the UART sends out its transmit queue, the module receives the bytes
and the receive interrupt stores its reply. -/
def world.exchange (w : world) (s : ESP) : world :=
  { esp := s.transmit.2.receive (w.mdm.receive s.ESP1_HUART.BaudRate s.transmit.1).1,
    mdm := (w.mdm.receive s.ESP1_HUART.BaudRate s.transmit.1).2,
    wire := if s.transmit.1 = [] then w.wire
            else (s.ESP1_HUART.BaudRate, s.transmit.1) :: w.wire,
    states := s.CurrentState :: w.states }

/-- A round: `p` milliseconds pass, the driver is polled, and the driver and the
module exchange bytes. -/
def world.round (p : Nat) (w : world) : world :=
  w.exchange (w.esp.Ticks p).poll_engine

/-- A round for each of the periods of `ps`. -/
def world.rounds (w : world) (ps : List Nat) : world :=
  ps.foldl (fun v p => v.round p) w

/-- A round in which the module is silent: `p` milliseconds pass, the driver is
polled and the UART sends out its transmit queue. -/
def world.round_silent (p : Nat) (w : world) : world :=
  { w with
    esp := (w.esp.Ticks p).poll_engine.transmit.2,
    wire := if (w.esp.Ticks p).poll_engine.transmit.1 = [] then w.wire
            else ((w.esp.Ticks p).poll_engine.ESP1_HUART.BaudRate,
                  (w.esp.Ticks p).poll_engine.transmit.1) :: w.wire,
    states := (w.esp.Ticks p).poll_engine.CurrentState :: w.states }

/-- A round with a silent module for each of the periods of `ps`. -/
def world.rounds_silent (w : world) (ps : List Nat) : world :=
  ps.foldl (fun v p => v.round_silent p) w

/-- The list `l` without the elements that repeat their predecessor. -/
def squeeze : List eState → List eState
  | [] => []
  | [a] => [a]
  | a :: b :: l => if a = b then squeeze (b :: l) else a :: squeeze (b :: l)

/-- The states the engine has passed through, oldest first. -/
def world.passed (w : world) : List eState :=
  squeeze w.states.reverse

/-- The bursts of bytes the driver has sent, oldest first. -/
def world.sent (w : world) : List (Nat × List Nat) :=
  w.wire.reverse

/-! ### The states the runs start from -/

/-- The driver as constructed for UART 1 and enabled, before the first call of
`Process`; the UART runs at the rate `baud`. -/
def ESP.boot (baud : Nat) : ESP :=
  { ESP.ctor ESP.zero ESP1_HUART_NUM with
    ModuleToggleFlag := .Enable,
    ESP1_HUART := { UART_HandleTypeDef.demo with BaudRate := baud } }

/-- The driver in the state `smStandby` with the multiple connection mode
active, socket 0 connected, empty ring buffers of 200 bytes, and the
application's memory holding the byte `a % 251` at every address `a`. -/
def ESP.demo_standby : ESP :=
  { ESP.demo.setSocket 0 { socket.ctor with State := .Connected } with
    CurrentState := .smStandby, LastState := some .smStandby, SMStateChanged := false,
    Module := { ESP.demo.Module with ConnectionTypeActual := .Multiple,
                                     ConnectionTypeRequest := .Multiple },
    app_mem := fun a => a % 251,
    ESP1_HUART := { pRxBuffPtr := circular_buffer.holding [],
                    pTxBuffPtr := circular_buffer.empty ESP8266_CB_TX_SIZE,
                    RX_OVERFLOW := false, BaudRate := ESP8266_UART_SPEED } }

/-- The driver as it enters the state `smDetectModuleBaudrate` from
`smTestModule`, with empty ring buffers of 200 bytes. -/
def ESP.demo_detect : ESP :=
  { ESP.demo_standby with
    CurrentState := .smDetectModuleBaudrate, LastState := some .smTestModule }

/-! ## Notions used to state the properties of the recognizer -/

/-- The io record `x` with the parameter arrays of `y`: what a `sscanf` into the
parameter arrays can make of `x`. -/
def io.keep (x y : io) : io :=
  { x with ReceivedParameter := y.ReceivedParameter,
           ReceivedParameterStr := y.ReceivedParameterStr,
           ReceivedParameterStr2 := y.ReceivedParameterStr2 }

/-- From `s` to `s'` at most one event was stored: either `StoreCommand` was
not called, and the pending event and the semaphore are as before, or it was
called once, and the semaphore is set. -/
def ESP.stored_at_most_once (s s' : ESP) : Prop :=
  (s'.StoreCommand_calls = s.StoreCommand_calls ∧
    s'.NewCommandSemaphore = s.NewCommandSemaphore ∧
    s'.IO_.ReceivedCommand = s.IO_.ReceivedCommand) ∨
  (s'.StoreCommand_calls = s.StoreCommand_calls + 1 ∧ s'.NewCommandSemaphore = true)

/-- Nothing was stored from `s` to `s'`: the number of `StoreCommand` calls, the
pending event and the semaphore are unchanged. -/
def ESP.nothing_stored (s s' : ESP) : Prop :=
  s'.StoreCommand_calls = s.StoreCommand_calls ∧
  s'.NewCommandSemaphore = s.NewCommandSemaphore ∧
  s'.IO_.ReceivedCommand = s.IO_.ReceivedCommand

/-- The receive queue of the driver's UART is a well-formed ring buffer of
one-byte elements that holds exactly `bytes`, oldest first, and the driver reads
from that UART. -/
def ESP.rx_has (s : ESP) (bytes : List Nat) : Prop :=
  s.HuartNumber = ESP1_HUART_NUM ∧ s.ESP1_HUART.pRxBuffPtr.sz = 1 ∧
  cb_wf s.ESP1_HUART.pRxBuffPtr ∧
  cb_contents s.ESP1_HUART.pRxBuffPtr = bytes.map (fun b => [b])

/-- The recognizer is idle: the line buffer is empty, it is neither receiving
raw socket data nor ignoring bytes, no event is pending, and no receive error,
flush request or overflow event is outstanding. -/
def ESP.idle (s : ESP) : Prop :=
  s.IO_.RxBuffCounter = 0 ∧ s.IO_.ReceivingDataStream = false ∧ s.IO_.RxIgnoreCounter = 0 ∧
  s.IO_.ReceivedCommand = .NO_COMMAND_RECEIVED ∧ s.NewCommandSemaphore = false ∧
  s.IO_.ReceiveError = false ∧ s.IO_.DoEmptyRxStream = false ∧ s.IO_.RxOverflowEvent = false

/-- The line buffer holds the bytes `line`: `IO.RxBuffCounter` is their number
and `IO.RxBuffer` starts with them. -/
def ESP.holds (s : ESP) (line : List Nat) : Prop :=
  s.IO_.RxBuffCounter = line.length ∧ ∀ i, i < line.length → s.IO_.RxBuffer i = line.getD i 0

/-- From `s` to `s'` only the line buffer, its counter and the UART have
changed. -/
def ESP.line_frame (s s' : ESP) : Prop :=
  ∃ buf cnt huart, s' =
    { s with IO_ := { s.IO_ with RxBuffer := buf, RxBuffCounter := cnt }, ESP1_HUART := huart }

/-- The state in which the loop that receives command bytes parses the line
buffer: the next byte of the receive queue has been stored at
`IO.RxBuffer[IO.RxBuffCounter]`, the counter advanced and the bytes terminated. -/
def ESP.RxHandler_next (s : ESP) : ESP :=
  (s.GetChar.2.2.RxHandler_put s.GetChar.2.1).RxHandler_terminate

/-- The directives of the format of the `+IPD` header. -/
def IPD_directives : List scan_directive :=
  [.lit 43, .lit 73, .lit 80, .lit 68, .lit 44, .conv false none .u, .lit 44,
   .conv false none .u, .conv false (some 1) .s]

/-- What no part of a `+IPD` frame changes in an idle recognizer: no error, flush
request, overflow event or pending event appears, and no event is stored since
the state `s0` before the frame. -/
def ESP.ipd_quiet (s s0 : ESP) : Prop :=
  s.IO_.ReceiveError = false ∧ s.IO_.DoEmptyRxStream = false ∧
  s.IO_.RxOverflowEvent = false ∧ s.NewCommandSemaphore = false ∧
  s.StoreCommand_calls = s0.StoreCommand_calls ∧
  s.IO_.ReceivedCommand = s0.IO_.ReceivedCommand

/-- The first `k` bytes of `p` are in the receive buffer of socket `id` (whose
address is that in the state `s0` before the frame), and the application's
memory is otherwise as in `s0`. -/
def ESP.ipd_bytes (s s0 : ESP) (id : Nat) (p : List Nat) (k : Nat) : Prop :=
  (∀ j, j < k → s.app_mem ((s0.Socket id).DataRx + j) = p.getD j 0) ∧
  (∀ a, a < (s0.Socket id).DataRx ∨ (s0.Socket id).DataRx + k ≤ a → s.app_mem a = s0.app_mem a)

/-- While the data of a `+IPD` frame for socket `id` are received: `k` of the
`L` announced bytes have been stored in the receive buffer of the socket. -/
def ESP.ipd_data (s s0 : ESP) (id L : Nat) (p : List Nat) (k : Nat) : Prop :=
  s.ipd_quiet s0 ∧ s.ipd_bytes s0 id p k ∧
  s.IO_.ReceivingDataStream = true ∧ s.IO_.RxIgnoreCounter = 0 ∧ s.IO_.RxBuffCounter = 0 ∧
  s.IO_.RxSocketId = id ∧ s.IO_.CurrentSocketDataLeft = L - k ∧
  s.IO_.pCurrentSocketData = (s0.Socket id).DataRx + k ∧
  (s.Socket id).RxDataLen = k ∧ (s.Socket id).RxBuffSize = (s0.Socket id).RxBuffSize ∧
  (s.Socket id).DataCutFlag = false ∧ (s.Socket id).ErrorFlag = (s0.Socket id).ErrorFlag

/-- The data of a `+IPD` frame for socket `id` have been stored: `k` bytes are in
the receive buffer of the socket, which is locked for the application; `cut`
tells whether the frame was longer than the buffer. -/
def ESP.ipd_stored (s s0 : ESP) (id : Nat) (p : List Nat) (k : Nat) (cut : Bool) : Prop :=
  s.ipd_quiet s0 ∧ s.ipd_bytes s0 id p k ∧
  s.IO_.ReceivingDataStream = false ∧ s.IO_.RxBuffCounter = 0 ∧
  (s.Socket id).RxDataLen = k ∧ (s.Socket id).RxLock = true ∧
  (s.Socket id).DataCutFlag = cut ∧ (s.Socket id).ErrorFlag = (s0.Socket id).ErrorFlag

/-- The header of a `+IPD` frame was read and the frame is not stored: all
socket records and the application's memory are as in the state `s0` before the
frame, and the line buffer is empty. -/
def ESP.ipd_rejected (s s0 : ESP) : Prop :=
  s.ipd_quiet s0 ∧ s.IO_.ReceivingDataStream = false ∧ s.IO_.RxBuffCounter = 0 ∧
  s.Socket = s0.Socket ∧ s.app_mem = s0.app_mem

/-- The recognizer has read `n` bytes of a header `IPD_header id L`, and nothing
but the line buffer and the UART has changed since the state `s0`. -/
def ESP.ipd_head (s s0 : ESP) (id L n : Nat) : Prop :=
  n < (IPD_header id L).length ∧ s0.line_frame s ∧ s.holds ((IPD_header id L).take n)

/-- The recognizer has read `n` bytes of the frame `IPD_header id L ++ p` for a
socket whose receive buffer has room for the `L` bytes: it is in the header, in
the data, or done. -/
def ESP.ipd_fit (s s0 : ESP) (id L : Nat) (p : List Nat) (n : Nat) : Prop :=
  s.ipd_head s0 id L n ∨
  ((IPD_header id L).length ≤ n ∧ n < (IPD_header id L).length + L ∧
    s.ipd_data s0 id L p (n - (IPD_header id L).length)) ∨
  (n = (IPD_header id L).length + L ∧ s.ipd_stored s0 id p L false ∧
    s.IO_.RxIgnoreCounter = 0)

/-- The recognizer has read `n` bytes of the frame `IPD_header id L ++ p` for a
socket whose receive buffer of `B` bytes is shorter than the frame: it is in the
header, in the data that are stored, or in (or after) the data that are ignored. -/
def ESP.ipd_cut (s s0 : ESP) (id L B : Nat) (p : List Nat) (n : Nat) : Prop :=
  s.ipd_head s0 id L n ∨
  ((IPD_header id L).length ≤ n ∧ n < (IPD_header id L).length + B ∧
    s.ipd_data s0 id L p (n - (IPD_header id L).length)) ∨
  ((IPD_header id L).length + B ≤ n ∧ n ≤ (IPD_header id L).length + L ∧
    s.ipd_stored s0 id p B true ∧
    s.IO_.RxIgnoreCounter = (IPD_header id L).length + L - n)

/-- The recognizer has read `n` bytes of the frame `IPD_header id L ++ p` for a
socket that does not take data: it is in the header, or in (or after) the data,
which are ignored. -/
def ESP.ipd_skip (s s0 : ESP) (id L n : Nat) : Prop :=
  s.ipd_head s0 id L n ∨
  ((IPD_header id L).length ≤ n ∧ n ≤ (IPD_header id L).length + L ∧
    s.ipd_rejected s0 ∧ s.IO_.RxIgnoreCounter = (IPD_header id L).length + L - n)

/-- From `s` to `s'` only the ignore counter, the flag `ListenToTxData` and the
UART have changed. -/
def ESP.ignore_frame (s s' : ESP) : Prop :=
  ∃ c l huart, s' =
    { s with IO_ := { s.IO_ with RxIgnoreCounter := c, ListenToTxData := l },
             ESP1_HUART := huart }

/-- The bytes `l` in the line buffer leave the line open: they do not end with
`\r\n`, are not the send prompt, and are not a complete `+IPD` header. -/
def open_line (l : List Nat) : Prop :=
  (2 ≤ l.length → ¬(l.getD (l.length - 1) 0 = '\n'.toNat ∧ l.getD (l.length - 2) 0 = '\r'.toNat)) ∧
  ¬(l.getD 0 0 = '>'.toNat ∧ l.getD 1 0 = ' '.toNat) ∧
  (¬(l.getD 0 0 = '+'.toNat ∧ l.getD 1 0 = 'I'.toNat) ∨
    ((∀ c ∈ l, c ≠ 0) ∧ 3 ≠ scan_res (sscanf l IPD_format) ∧
      (sscanf l IPD_format).2.length ≤ 2))

/-! ## The scenarios of the runs -/

/-- The driver constructed for UART 1 and enabled, its UART at the rate
`ESP8266_UART_SPEED`, after `SwitchToStationMode("MyNet", "secret12")` and before
the first call of `Process`. -/
def ESP.demo_boot : ESP :=
  ((ESP.boot ESP8266_UART_SPEED).SwitchToStationMode (cs "MyNet") (cs "secret12")).2

/-- The driver in the course of `SocketSend(0, 5000, 2049)`: the first packet of
2048 bytes has been announced, the module has sent its prompt, and ten pieces of
200 bytes have been handed to the UART and sent; 48 bytes of the packet and one
more byte are left. -/
def ESP.demo_send_rest : ESP :=
  { ESP.demo_standby.setSocket 0
      { socket.ctor with State := .Connected, TxLock := true, TxState := .InProgress,
                         DataTx := 7000, TxPacketLen := 48, TxDataLen := 49 } with
    CurrentState := .smSendData, LastState := some .smSendData, STEP := 3,
    smSendData_SocketId := 0, smSendData_RetryCounter := 5,
    IO_ := { ESP.demo_standby.IO_ with ListenToTxData := true },
    StateTimer := (ESP.demo_standby.StateTimer.Set _30ms_).Reset }

/-- The module in the course of the same send: it waits for the last 48 bytes
of the first packet. -/
def modem.demo_send_rest : modem :=
  { modem.ctor ESP8266_UART_SPEED with data_left := 48 }

/-- The driver after the handler of `smStartModule` has chosen `smTestModule` as
the next state in its step 1, at the moment the UART reports an overflow of its
receive queue. -/
def ESP.demo_overflow : ESP :=
  { ESP.demo with
    CurrentState := .smTestModule, LastState := some .smStartModule, STEP := 1,
    ESP1_HUART := { UART_HandleTypeDef.demo with RX_OVERFLOW := true } }

/-- The driver with its UART configured, the state timer run out and no event
pending. -/
def ESP.demo_timeout : ESP :=
  { ESP.demo with
    SMStateChanged := false,
    StateTimer := { ESP.demo.StateTimer with RanOutFlag := true } }

/-- The driver with its UART configured and the transmit queue of 8 bytes full:
every `ESP_HuartSend` of at least one byte returns `ERROR`. The current state is
`st` and the step `step`; socket 0 is to be connected to port 80 of the host
named at the address 6000 of the application's memory. -/
def ESP.demo_blocked (st : eState) (step : Nat) : ESP :=
  { ESP.demo.setSocket 0
      { socket.ctor with State := .ConnectRequested, Type_ := .TCP, Address := 6000,
                         Port := 80 } with
    CurrentState := st, LastState := some st, SMStateChanged := false, STEP := step,
    app_mem := writeBytes (fun _ => 0) 6000 (cs "10.0.0.1"),
    ESP1_HUART := { UART_HandleTypeDef.demo with
                    pTxBuffPtr := { circular_buffer.empty 8 with count := 8 } } }

/-- The driver with the transmit queue full, after
`SwitchToAccessPointMode("MyAP", "secret12", 1, WPA2_PSK)`, with socket 1 to be
closed and a packet of 10 bytes to be sent on socket 2. -/
def ESP.demo_blocked_ap : ESP :=
  { (((ESP.demo_blocked .smStandby 0).SwitchToAccessPointMode (cs "MyAP") (cs "secret12") 1
      .WPA2_PSK).2.setSocket 1 { socket.ctor with State := .CloseRequested }).setSocket 2
      { socket.ctor with State := .Connected, TxLock := true, DataTx := 5000, TxDataLen := 10,
                         TxPacketLen := 10 } with
    smCloseSocket_SocketId := 1, smSendData_SocketId := 2 }

/-- The driver as it enters the state `smModuleInitialization` from
`smTestModule`, with empty ring buffers of 200 bytes. -/
def ESP.demo_initialization : ESP :=
  { ESP.demo_standby with
    CurrentState := .smModuleInitialization, LastState := some .smTestModule }

/-! ### The order of the requests in the state Standby, as the specification
words it -/

/-- The conditions the handler of `smStandby` looks for. -/
inductive Standby_request where
  | socket_connect
  | socket_closed
  | send_data
  | connection_type
  | start_server
  | change_ip
  | open_socket
  | close_socket
  deriving DecidableEq, Repr

/-- The fixed order in which the conditions are looked for. -/
def Standby_order : List Standby_request :=
  [.socket_connect, .socket_closed, .send_data, .connection_type, .start_server, .change_ip,
   .open_socket, .close_socket]

/-- Whether the condition holds in the state `t`. -/
def Standby_request.matches (t : ESP) : Standby_request → Bool
  | .socket_connect => decide (t.IO_.ReceivedCommand = .SOCKET_CONNECT)
  | .socket_closed => decide (t.IO_.ReceivedCommand = .SOCKET_CLOSED)
  | .send_data =>
    (List.range SocketsNum).any (fun i =>
      decide ((t.Socket i).State = .Connected ∧ (t.Socket i).TxLock = true ∧
        (t.Socket i).TxDataLen ≠ 0))
  | .connection_type => decide (t.Module.ConnectionTypeRequest ≠ t.Module.ConnectionTypeActual)
  | .start_server => t.Server.StartRequest
  | .change_ip => t.LocalAP.ChangeIPRequest
  | .open_socket =>
    (List.range SocketsNum).any (fun i => decide ((t.Socket i).State = .ConnectRequested))
  | .close_socket =>
    (List.range SocketsNum).any (fun i => decide ((t.Socket i).State = .CloseRequested))

/-- A notification for the socket `IO.ReceivedParameter[0]` is taken: the event
is consumed, the socket gets the state `st`, and the handler remembers the
socket. -/
def Standby_request.notify (t : ESP) (st : eSocketState) : ESP :=
  { t with
    IO_ := { t.IO_ with ReceivedCommand := .NO_COMMAND_RECEIVED },
    Socket := fun j =>
      if j = t.IO_.ReceivedParameter 0 % U8_MOD then
        { t.Socket (t.IO_.ReceivedParameter 0 % U8_MOD) with State := st }
      else t.Socket j,
    smStandby_SocketId := t.IO_.ReceivedParameter 0 % U8_MOD }

/-- What the handler does for the condition. -/
def Standby_request.act (t : ESP) : Standby_request → ESP
  | .socket_connect => Standby_request.notify t .Connected
  | .socket_closed => Standby_request.notify t .Closed
  | .send_data => { t with CurrentState := .smSendData }
  | .connection_type => { t with CurrentState := .smChangeConnectionType }
  | .start_server =>
    if t.Module.ConnectionTypeActual = .Multiple then { t with CurrentState := .smStartServer }
    else { t with Module := { t.Module with ConnectionTypeRequest := .Multiple } }
  | .change_ip => { t with CurrentState := .smChangeAPIP }
  | .open_socket => { t with CurrentState := .smOpenSocket }
  | .close_socket => { t with CurrentState := .smCloseSocket }

/-- The handler of `smStandby` as the specification words it: it acts on the
first condition of `Standby_order` that holds, and on no other; when none holds
it takes the events it has no use for. -/
def Standby_first_match (t : ESP) : ESP :=
  match Standby_order.find? (Standby_request.matches t) with
  | some r => Standby_request.act t r
  | none => t.StateStandby_events

/-- The driver in `smStandby` after `SocketSend(0, 5000, 10)`. -/
def ESP.demo_send : ESP :=
  (ESP.demo_standby.SocketSend 0 5000 10).2

/-- The driver in `smStandby` after `SocketSend(0, 5000, 10)`, with the
notification that socket 3 has been connected pending. -/
def ESP.demo_notified : ESP :=
  { ESP.demo_send with
    IO_ := { ESP.demo_send.IO_ with
             ReceivedCommand := .SOCKET_CONNECT, ReceivedParameter := fun _ => 3 } }

/-- A module at the rate of the driver that refuses the first `n` commands
`AT+CIPSEND` with `busy p...`. -/
def modem.demo_busy (n : Nat) : modem :=
  { modem.ctor ESP8266_UART_SPEED with busy := n }

/-- The driver in the state `smSetApParameters` at step 1, waiting for the
current configuration of the module: the access point `MyAP` with the password
`secret12`, channel 1 and WPA2_PSK was requested, and the search for a free name
has ended with the postfix 3. -/
def ESP.demo_ap_waiting : ESP :=
  { ESP.demo_ap_requested with
    CurrentState := .smSetApParameters, LastState := some .smSetApParameters, STEP := 1,
    Module := { ESP.demo_ap_requested.Module with AP_NamePostfix := 3 },
    StateTimer := (ESP.demo_ap_requested.StateTimer.Set _200ms_).Reset }

/-- The state after the module has reported an access point of the requested
name `MyAP_3` with another password, channel 11 and no encryption, and `Process`
has run four times. -/
def ESP.demo_ap_reported : ESP :=
  (ESP.demo_ap_waiting.receive
    (cs "+CWSAP_CUR:\"MyAP_3\",\"otherpwd\",11,0,4,0\r\n\r\nOK\r\n")).round_ap.round_ap.round_ap.round_ap

/-- The driver in the state `smFindFreeSSID` at step 0: the access point `MyAP`
was requested and the names up to `MyAP_198` have been found taken. -/
def ESP.demo_ap_search : ESP :=
  { ESP.demo_ap_requested with
    CurrentState := .smFindFreeSSID, LastState := some .smFindFreeSSID, STEP := 0,
    Module := { ESP.demo_ap_requested.Module with AP_NamePostfix := 199 } }

/-- A module at the rate of the driver that finds an access point for each of
the first `n` queries `AT+CWLAP`. -/
def modem.demo_taken (n : Nat) : modem :=
  { modem.ctor ESP8266_UART_SPEED with taken := n }

/-- The driver in the state `smFindFreeSSID` at step 1 with the postfix 200,
when the module has found the name taken. -/
def ESP.demo_ap_taken : ESP :=
  { ESP.demo_ap_search with
    STEP := 1, SMStateChanged := false,
    Module := { ESP.demo_ap_search.Module with AP_NamePostfix := 200 },
    IO_ := { ESP.demo_ap_search.IO_ with ReceivedCommand := .CWLAP } }

/-- The driver in the state `smOpenSocket` at step 2: the command that connects
socket 0 has been sent, the timer runs and the event `cmd` is pending. -/
def ESP.demo_connecting (cmd : eAT) : ESP :=
  { ESP.demo.setSocket 0
      { socket.ctor with State := .Connecting, Type_ := .TCP, Address := 6000, Port := 80 } with
    CurrentState := .smOpenSocket, LastState := some .smOpenSocket, SMStateChanged := false,
    STEP := 2, smOpenSocket_SocketId := 0,
    StateTimer := (ESP.demo.StateTimer.Set _200ms_).Reset,
    IO_ := { ESP.demo.IO_ with ReceivedCommand := cmd } }

/-- The driver in the state `smModuleReset` at step 1 with the timer run out,
after `SwitchToAccessPointMode("MyAP", "secret12", 1, WPA2_PSK)`, with a send
pending on the connected socket 0 and the event `OK` pending. -/
def ESP.demo_reset : ESP :=
  { (ESP.demo_send.SwitchToAccessPointMode (cs "MyAP") (cs "secret12") 1 .WPA2_PSK).2 with
    CurrentState := .smModuleReset, LastState := some .smModuleReset, SMStateChanged := false,
    STEP := 1,
    IO_ := { ESP.demo_send.IO_ with ReceivedCommand := .OK, RxBuffCounter := 3 },
    StateTimer := { ESP.demo_send.StateTimer with RanOutFlag := true } }

/-- The application calls a function of the driver between two polls. -/
def world.call (w : world) (f : ESP → ESP) : world :=
  { w with esp := f w.esp }

/-- The driver as it enters the state `smJoinAP` from `smSelectModuleMode`, after
`SwitchToStationMode("MyNet", "secret12")`. -/
def ESP.demo_join : ESP :=
  { (ESP.demo_standby.SwitchToStationMode (cs "MyNet") (cs "secret12")).2 with
    CurrentState := .smJoinAP, LastState := some .smSelectModuleMode }

/-- The driver with the bytes after the first 40 bytes of the two password
arrays marked by the value 7: these bytes do not belong to the arrays. -/
def ESP.demo_marked : ESP :=
  { ESP.demo with
    RemoteAP := { ESP.demo.RemoteAP with Password := fun i => if i < 40 then 0 else 7 },
    LocalAP := { ESP.demo.LocalAP with Password := fun i => if i < 40 then 0 else 7 } }

/-- The recognizer with the bytes `xyz\r\r\n` in the line buffer: the first five
have been received in an earlier run of `RxHandler`, and the loop that receives
command bytes has stored and terminated the sixth. -/
def ESP.demo_unknown_echo : ESP :=
  ((ESP.demo.withRx (cs "xyz\r\r")).RxHandler.receive (cs "\n")).RxHandler_next

/-- The indices `IO.RxBuffCounter - 1` and `IO.RxBuffCounter - 2` at which the
test for the end of a line (lines 2542-2543) reads the line buffer. -/
def ESP.line_received_indices (s : ESP) : List Int :=
  [(s.IO_.RxBuffCounter : Int) - 1, (s.IO_.RxBuffCounter : Int) - 2]

/-- The driver in `smStandby` with socket 0 connected, whose last send has ended
with `SendSuccess`. -/
def ESP.demo_sent : ESP :=
  ESP.demo_standby.setSocket 0 { socket.ctor with State := .Connected, TxState := .SendSuccess }

/-- The driver in `smStandby` with the sockets 0 and 1 connected, after
`SocketSend(0, 5000, 0)` and `SocketSend(1, 5000, 10)`. -/
def ESP.demo_send_nothing : ESP :=
  (((ESP.demo_standby.setSocket 1 { socket.ctor with State := .Connected }).SocketSend
    0 5000 0).2.SocketSend 1 5000 10).2

/-- The driver in `smStandby` with socket 0 open, the application's memory
holding the host name `10.0.0.1` at the address 6000. -/
def ESP.demo_open : ESP :=
  { ESP.demo_standby.setSocket 0 { socket.ctor with State := .Open, Type_ := .TCP } with
    app_mem := writeBytes (fun _ => 0) 6000 (cs "10.0.0.1") }

/-- The io record after the module has reported the address 192.168.4.1 of its
access point. -/
def io.demo_address : io :=
  { ESP.demo.IO_ with ReceivedParameter := fun i => [192, 168, 4, 1].getD i 0 }

/-- The driver in the state `smSendData` at the step `step` for the send of
`ESP.demo_send`, with the retry counter `counter`, the event `cmd` pending and
the state timer run out or not. -/
def ESP.demo_sending_step (step counter : Nat) (cmd : eAT) (ranout : Bool) : ESP :=
  { ESP.demo_send with
    CurrentState := .smSendData, LastState := some .smSendData, SMStateChanged := false,
    STEP := step, smSendData_SocketId := 0, smSendData_RetryCounter := counter,
    IO_ := { ESP.demo_send.IO_ with ReceivedCommand := cmd },
    StateTimer := { (ESP.demo_send.StateTimer.Set _1sec_).Reset with RanOutFlag := ranout } }

/-! ### States and runs that refute a claim as worded -/

/-- Two elements are stored and one is taken back. -/
def cb_op.demo_two : List cb_op :=
  [.push_back (fun _ => 7), .push_back (fun _ => 8), .pop_front]

/-- The driver polled every `p` milliseconds, `k` times, from `ESP.demo_boot`,
with a module at the rate 115200 that answers every command. -/
def world.boot (p k : Nat) : world :=
  (world.ctor ESP.demo_boot (modem.ctor 115200)).rounds (List.replicate k p)

/-- Socket 0 after a connection attempt that timed out: the handler of
`smOpenSocket` has closed it with the error flag `Timeout`. -/
def ESP.demo_timed_out : ESP :=
  ESP.StateOpenSocket_Process env_alloc
    { ESP.demo_connecting .NO_COMMAND_RECEIVED with
      StateTimer := { (ESP.demo_connecting .NO_COMMAND_RECEIVED).StateTimer with
                      RanOutFlag := true } }

/-- The same socket after the module has reported `0,CONNECT`, the handler of
`smStandby` has taken the notification, and the application has called
`ListenSocket(0, 7000, 16)`; the receive queue is empty. -/
def ESP.demo_listening_flagged : ESP :=
  ((ESP.StateStandby_Process
    { ESP.demo_timed_out with
      CurrentState := .smStandby, LastState := some .smStandby, SMStateChanged := false,
      IO_ := { ESP.demo_timed_out.IO_ with
               ReceivedCommand := .SOCKET_CONNECT, ReceivedParameter := fun _ => 0 } }).ListenSocket
    0 7000 16).2.withRx []

/-- The driver as it enters `smStandby` from `smCloseSocket`, with the
notification that socket 3 has been connected pending: the recognizer has stored
it in the poll in which the handler of `smCloseSocket` chose `smStandby`. -/
def ESP.demo_entering_standby : ESP :=
  { ESP.demo_standby with
    LastState := some .smCloseSocket,
    IO_ := { ESP.demo_standby.IO_ with
             ReceivedCommand := .SOCKET_CONNECT, ReceivedParameter := fun _ => 3 } }

/-! # Theorems -/

/-! ## Ring buffer: counting -/

theorem cb_push_back_capacity (cb : circular_buffer) (item : Nat → Nat) :
    (cb_push_back cb item).2.capacity = cb.capacity := by
  unfold cb_push_back
  by_cases h : cb.count = cb.capacity
  · simp [h]
  · simp only [h, if_false]
    split <;> rfl

theorem cb_pop_front_capacity (cb : circular_buffer) :
    (cb_pop_front cb).2.2.capacity = cb.capacity := by
  unfold cb_pop_front
  by_cases h : cb.count = 0
  · simp [h]
  · simp only [h, if_false]
    split <;> rfl

theorem cb_push_back_count (cb : circular_buffer) (item : Nat → Nat)
    (hc : cb.capacity < SIZE_MOD) (h : cb.count ≤ cb.capacity) :
    (cb_push_back cb item).2.count ≤ cb.capacity := by
  unfold cb_push_back
  by_cases h1 : cb.count = cb.capacity
  · simp [h1]
  · simp only [h1, if_false]
    have h2 : cb.count + 1 ≤ cb.capacity := by omega
    have h3 : (cb.count + 1) % SIZE_MOD = cb.count + 1 := Nat.mod_eq_of_lt (by omega)
    split <;> simp only [h3] <;> exact h2

theorem cb_pop_front_count (cb : circular_buffer) (h : cb.count ≤ cb.capacity) :
    (cb_pop_front cb).2.2.count ≤ cb.capacity := by
  unfold cb_pop_front
  by_cases h1 : cb.count = 0
  · simp [h1]
  · simp only [h1, if_false]
    split <;> simp only <;> omega

theorem cb_step_capacity (cb : circular_buffer) (op : cb_op) :
    (cb_step cb op).2.2.capacity = cb.capacity := by
  cases op with
  | push_back item => exact cb_push_back_capacity cb item
  | pop_front => exact cb_pop_front_capacity cb

theorem cb_step_count (cb : circular_buffer) (op : cb_op)
    (hc : cb.capacity < SIZE_MOD) (h : cb.count ≤ cb.capacity) :
    (cb_step cb op).2.2.count ≤ cb.capacity := by
  cases op with
  | push_back item => exact cb_push_back_count cb item hc h
  | pop_front => exact cb_pop_front_count cb h

theorem cb_after_count (ops : List cb_op) (cb : circular_buffer)
    (hc : cb.capacity < SIZE_MOD) (h : cb.count ≤ cb.capacity) :
    (cb_after cb ops).capacity = cb.capacity ∧ (cb_after cb ops).count ≤ cb.capacity := by
  induction ops generalizing cb with
  | nil => exact ⟨rfl, h⟩
  | cons op ops ih =>
    have hcap := cb_step_capacity cb op
    have hcnt := cb_step_count cb op hc h
    have := ih (cb_step cb op).2.2 (by rw [hcap]; exact hc) (by rw [hcap]; exact hcnt)
    rw [hcap] at this
    exact this

theorem cb_init_success (memmgr_alloc : Nat → Nat) (cb0 cb : circular_buffer) (C sz : Nat)
    (h : cb_init memmgr_alloc cb0 C sz = (SUCCESS, cb)) :
    cb.buffer = memmgr_alloc (C * sz % SIZE_MOD) ∧ cb.buffer ≠ 0 ∧
    cb.buffer_end = cb.buffer + C * sz % SIZE_MOD ∧ cb.capacity = C ∧ cb.count = 0 ∧
    cb.sz = sz ∧ cb.head = cb.buffer ∧ cb.tail = cb.buffer ∧ cb.mem = cb0.mem := by
  unfold cb_init at h
  by_cases h0 : memmgr_alloc (C * sz % SIZE_MOD) = 0
  · simp [h0, SUCCESS, ERROR] at h
  · simp only [h0, if_false, Prod.mk.injEq, true_and] at h
    subst h
    simp [h0]

/-- C1. For every capacity `C` and every finite sequence of `cb_push_back` /
`cb_pop_front` calls on a buffer initialised by a successful `cb_init(C, sz)`:
after the calls `count ≤ C`, `cb_space_occupied() + cb_space_left() = C`, and a
`cb_push_back` issued while `cb_space_occupied() = C` returns `ERROR`. -/
theorem C1_ring_buffer_counts (memmgr_alloc : Nat → Nat) (cb0 cb : circular_buffer)
    (C sz : Nat) (ops : List cb_op) (hC : C < SIZE_MOD)
    (hinit : cb_init memmgr_alloc cb0 C sz = (SUCCESS, cb)) :
    0 ≤ (cb_after cb ops).count ∧ (cb_after cb ops).count ≤ C ∧
    cb_space_occupied (cb_after cb ops) + cb_space_left (cb_after cb ops) = C ∧
    (cb_space_occupied (cb_after cb ops) = C →
      ∀ item, (cb_push_back (cb_after cb ops) item).1 = ERROR) := by
  obtain ⟨-, -, -, hcap, hcnt, -⟩ := cb_init_success memmgr_alloc cb0 cb C sz hinit
  have h := cb_after_count ops cb (by rw [hcap]; exact hC) (by rw [hcnt]; exact Nat.zero_le _)
  rw [hcap] at h
  obtain ⟨h1, h2⟩ := h
  refine ⟨Nat.zero_le _, h2, ?_, ?_⟩
  · unfold cb_space_occupied cb_space_left
    rw [h1]
    have h3 : (cb_after cb ops).count % SIZE_MOD = (cb_after cb ops).count :=
      Nat.mod_eq_of_lt (by omega)
    rw [h3]
    have h4 : (C + SIZE_MOD - (cb_after cb ops).count) % SIZE_MOD = C - (cb_after cb ops).count := by
      have : C + SIZE_MOD - (cb_after cb ops).count = (C - (cb_after cb ops).count) + SIZE_MOD := by
        omega
      rw [this, Nat.add_mod_right]
      exact Nat.mod_eq_of_lt (by omega)
    rw [h4]
    omega
  · intro hfull item
    unfold cb_space_occupied at hfull
    unfold cb_push_back
    simp [hfull, h1]

/-- Witness for C1: a 3-element buffer of 1-byte elements, after two pushes and a pop. -/
theorem C1_ring_buffer_counts_witness :
    0 ≤ (cb_after ⟨100, 103, 3, 0, 1, 100, 100, fun _ => 0⟩
      [.push_back (fun _ => 7), .push_back (fun _ => 8), .pop_front]).count ∧
    (cb_after ⟨100, 103, 3, 0, 1, 100, 100, fun _ => 0⟩
      [.push_back (fun _ => 7), .push_back (fun _ => 8), .pop_front]).count ≤ 3 ∧
    cb_space_occupied (cb_after ⟨100, 103, 3, 0, 1, 100, 100, fun _ => 0⟩
      [.push_back (fun _ => 7), .push_back (fun _ => 8), .pop_front]) +
    cb_space_left (cb_after ⟨100, 103, 3, 0, 1, 100, 100, fun _ => 0⟩
      [.push_back (fun _ => 7), .push_back (fun _ => 8), .pop_front]) = 3 ∧
    (cb_space_occupied (cb_after ⟨100, 103, 3, 0, 1, 100, 100, fun _ => 0⟩
      [.push_back (fun _ => 7), .push_back (fun _ => 8), .pop_front]) = 3 →
      ∀ item, (cb_push_back (cb_after ⟨100, 103, 3, 0, 1, 100, 100, fun _ => 0⟩
      [.push_back (fun _ => 7), .push_back (fun _ => 8), .pop_front]) item).1 = ERROR) :=
  C1_ring_buffer_counts (fun _ => 100) ⟨0, 0, 0, 0, 0, 0, 0, fun _ => 0⟩
    ⟨100, 103, 3, 0, 1, 100, 100, fun _ => 0⟩ 3 1
    [.push_back (fun _ => 7), .push_back (fun _ => 8), .pop_front] (by decide) (by rfl)

/-! ## Ring buffer: first-in first-out behaviour -/

theorem bytesAt_length (m : Nat → Nat) (a n : Nat) : (bytesAt m a n).length = n := by
  simp [bytesAt]

theorem bytesAt_memcpy_same (m item : Nat → Nat) (a n : Nat) :
    bytesAt (memcpy m a item n) a n = bytesAt item 0 n := by
  unfold bytesAt
  apply List.map_congr_left
  intro i hi
  have hi' : i < n := List.mem_range.mp hi
  simp [memcpy, hi']

theorem bytesAt_memcpy_other (m item : Nat → Nat) (a b n : Nat)
    (h : b + n ≤ a ∨ a + n ≤ b) :
    bytesAt (memcpy m a item n) b n = bytesAt m b n := by
  unfold bytesAt
  apply List.map_congr_left
  intro i hi
  have hi' : i < n := List.mem_range.mp hi
  have : ¬ (a ≤ b + i ∧ b + i < a + n) := by omega
  simp [memcpy, this]

theorem cb_addr_disjoint (cb : circular_buffer) (i j : Nat) (h : i ≠ j) :
    cb_addr cb i + cb.sz ≤ cb_addr cb j ∨ cb_addr cb j + cb.sz ≤ cb_addr cb i := by
  unfold cb_addr
  rcases Nat.lt_or_gt_of_ne h with h1 | h1
  · left
    have : (i + 1) * cb.sz ≤ j * cb.sz := Nat.mul_le_mul_right _ h1
    rw [Nat.add_mul, Nat.one_mul] at this
    omega
  · right
    have : (j + 1) * cb.sz ≤ i * cb.sz := Nat.mul_le_mul_right _ h1
    rw [Nat.add_mul, Nat.one_mul] at this
    omega

theorem cb_next_addr (cb : circular_buffer) (i : Nat)
    (hend : cb.buffer_end = cb.buffer + cb.capacity * cb.sz) (hi : i < cb.capacity) :
    cb_next cb (cb_addr cb i) = cb_addr cb ((i + 1) % cb.capacity) := by
  unfold cb_next cb_addr
  rw [hend]
  rcases Nat.eq_zero_or_pos cb.sz with hz | hz
  · simp [hz]
  · by_cases h1 : i + 1 = cb.capacity
    · have : (i + 1) % cb.capacity = 0 := by rw [h1]; exact Nat.mod_self _
      rw [this]
      have h2 : cb.buffer + i * cb.sz + cb.sz = cb.buffer + cb.capacity * cb.sz := by
        rw [← h1, Nat.add_mul, Nat.one_mul]; omega
      simp [h2]
    · have h2 : i + 1 < cb.capacity := by omega
      rw [Nat.mod_eq_of_lt h2]
      have h3 : cb.buffer + i * cb.sz + cb.sz ≠ cb.buffer + cb.capacity * cb.sz := by
        intro h
        have h4 : (i + 1) * cb.sz = cb.capacity * cb.sz := by
          rw [Nat.add_mul, Nat.one_mul]; omega
        exact h1 (Nat.eq_of_mul_eq_mul_right hz h4)
      rw [if_neg h3, Nat.add_mul, Nat.one_mul]
      omega

theorem cb_walk_length (cb : circular_buffer) (n a : Nat) : (cb_walk cb n a).length = n := by
  induction n generalizing a with
  | zero => rfl
  | succ n ih => simp [cb_walk, ih]

theorem cb_walk_congr (cb cb2 : circular_buffer) (n a : Nat)
    (h1 : cb2.mem = cb.mem) (h2 : cb2.sz = cb.sz) (h3 : cb2.buffer = cb.buffer)
    (h4 : cb2.buffer_end = cb.buffer_end) :
    cb_walk cb2 n a = cb_walk cb n a := by
  induction n generalizing a with
  | zero => rfl
  | succ n ih => simp [cb_walk, cb_next, ih, h1, h2, h3, h4]

theorem cb_walk_eq_map (cb : circular_buffer) (n t : Nat)
    (hend : cb.buffer_end = cb.buffer + cb.capacity * cb.sz) (ht : t < cb.capacity) :
    cb_walk cb n (cb_addr cb t) =
      (List.range n).map (fun k => bytesAt cb.mem (cb_addr cb ((t + k) % cb.capacity)) cb.sz) := by
  induction n generalizing t with
  | zero => rfl
  | succ n ih =>
    rw [cb_walk, cb_next_addr cb t hend ht, ih _ (Nat.mod_lt _ (by omega)),
      List.range_succ_eq_map, List.map_cons, List.map_map]
    congr 1
    · simp [Nat.mod_eq_of_lt ht]
    · apply List.map_congr_left
      intro k _
      simp only [Function.comp, Nat.succ_eq_add_one]
      congr 2
      rw [Nat.mod_add_mod]
      congr 1
      omega

theorem cb_mod_ne (cap t k c : Nat) (hk : k < c) (hc : c < cap) :
    (t + k) % cap ≠ (t + c) % cap := by
  intro h
  have h1 : Nat.ModEq cap (t + k) (t + c) := h
  have h2 : Nat.ModEq cap k c := Nat.ModEq.add_left_cancel' t h1
  have h3 : k % cap = c % cap := h2
  rw [Nat.mod_eq_of_lt (by omega), Nat.mod_eq_of_lt hc] at h3
  omega

theorem cb_contents_length (cb : circular_buffer) : (cb_contents cb).length = cb.count :=
  cb_walk_length cb cb.count cb.tail

/-- A successful push keeps the buffer well formed and appends the element. -/
theorem cb_push_back_ok (cb : circular_buffer) (t : Nat) (item : Nat → Nat)
    (hinv : cb_inv cb t) (hlt : cb.count ≠ cb.capacity) :
    (cb_push_back cb item).1 = SUCCESS ∧ cb_inv (cb_push_back cb item).2 t ∧
    (cb_push_back cb item).2.sz = cb.sz ∧
    (cb_push_back cb item).2.capacity = cb.capacity ∧
    (cb_push_back cb item).2.count = cb.count + 1 ∧
    cb_contents (cb_push_back cb item).2 = cb_contents cb ++ [bytesAt item 0 cb.sz] := by
  obtain ⟨hend, hcap, hcnt, ht, htail, hhead⟩ := hinv
  have hlt' : cb.count < cb.capacity := by omega
  have ht' : t < cb.capacity := by omega
  have hmod : (cb.count + 1) % SIZE_MOD = cb.count + 1 := Nat.mod_eq_of_lt (by omega)
  have hnext := cb_next_addr cb ((t + cb.count) % cb.capacity) hend (Nat.mod_lt _ (by omega))
  rw [← hhead, Nat.mod_add_mod] at hnext
  have key : cb_push_back cb item = (SUCCESS,
      ({ cb with mem := memcpy cb.mem cb.head item cb.sz
                 head := cb_next cb cb.head
                 count := cb.count + 1 } : circular_buffer)) := by
    unfold cb_push_back cb_next
    simp only [hlt, if_false, hmod]
    by_cases h : cb.head + cb.sz = cb.buffer_end
    · simp only [h, if_true, hmod]
    · simp only [h, if_false, hmod]
  rw [key]
  refine ⟨rfl, ⟨hend, hcap, ?_, ht, htail, ?_⟩, rfl, rfl, rfl, ?_⟩
  · simp only; omega
  · simp only [cb_addr] at hnext ⊢
    rw [hnext]
    congr 3
  · unfold cb_contents
    simp only
    have e1 := cb_walk_eq_map ({ cb with mem := memcpy cb.mem cb.head item cb.sz
                                         head := cb_next cb cb.head
                                         count := cb.count + 1 } : circular_buffer)
      (cb.count + 1) t hend ht'
    have e2 := cb_walk_eq_map cb cb.count t hend ht'
    have htail' : cb.buffer + t * cb.sz = cb.tail := htail.symm
    simp only [cb_addr] at e1 e2 ⊢
    rw [htail'] at e1 e2
    rw [e1, e2, List.range_succ, List.map_append, List.map_singleton]
    congr 1
    · apply List.map_congr_left
      intro k hk
      have hk' : k < cb.count := List.mem_range.mp hk
      have hne := cb_mod_ne cb.capacity t k cb.count hk' hlt'
      have hd := cb_addr_disjoint cb ((t + k) % cb.capacity) ((t + cb.count) % cb.capacity) hne
      simp only [cb_addr] at hd hhead
      rw [hhead]
      exact bytesAt_memcpy_other _ _ _ _ _ hd
    · simp only [cb_addr] at hhead
      rw [hhead]
      rw [bytesAt_memcpy_same]

/-- A successful pop keeps the buffer well formed, returns the oldest element
and removes it. -/
theorem cb_pop_front_ok (cb : circular_buffer) (t : Nat)
    (hinv : cb_inv cb t) (hne : cb.count ≠ 0) :
    (cb_pop_front cb).1 = SUCCESS ∧
    cb_inv (cb_pop_front cb).2.2 ((t + 1) % cb.capacity) ∧
    (cb_pop_front cb).2.2.sz = cb.sz ∧
    (cb_pop_front cb).2.2.capacity = cb.capacity ∧
    (cb_pop_front cb).2.2.count = cb.count - 1 ∧
    cb_contents cb = (cb_pop_front cb).2.1 :: cb_contents (cb_pop_front cb).2.2 := by
  obtain ⟨hend, hcap, hcnt, ht, htail, hhead⟩ := hinv
  have ht' : t < cb.capacity := by omega
  have hnext := cb_next_addr cb t hend ht'
  rw [← htail] at hnext
  have key : cb_pop_front cb = (SUCCESS, bytesAt cb.mem cb.tail cb.sz,
      ({ cb with tail := cb_next cb cb.tail
                 count := cb.count - 1 } : circular_buffer)) := by
    unfold cb_pop_front cb_next
    simp only [hne, if_false]
    by_cases h : cb.tail + cb.sz = cb.buffer_end
    · simp only [h, if_true]
    · simp only [h, if_false]
  rw [key]
  refine ⟨rfl, ⟨hend, hcap, ?_, Or.inl (Nat.mod_lt _ (by omega)), hnext, ?_⟩,
    rfl, rfl, rfl, ?_⟩
  · simp only; omega
  · simp only [cb_addr]
    rw [hhead]
    simp only [cb_addr]
    congr 2
    rw [Nat.mod_add_mod]
    congr 1
    omega
  · unfold cb_contents
    simp only
    obtain ⟨c, hc⟩ : ∃ c, cb.count = c + 1 := ⟨cb.count - 1, by omega⟩
    rw [hc, cb_walk]
    congr 1
    simp only [Nat.add_sub_cancel]
    exact (cb_walk_congr cb ({ cb with tail := cb_next cb cb.tail, count := c } : circular_buffer)
      c _ rfl rfl rfl rfl).symm

theorem cb_push_back_full (cb : circular_buffer) (item : Nat → Nat)
    (h : cb.count = cb.capacity) : cb_push_back cb item = (ERROR, cb) := by
  unfold cb_push_back
  simp [h]

theorem cb_pop_front_empty (cb : circular_buffer) (h : cb.count = 0) :
    cb_pop_front cb = (ERROR, [], cb) := by
  unfold cb_pop_front
  simp [h]

theorem cb_init_inv (memmgr_alloc : Nat → Nat) (cb0 cb : circular_buffer) (C sz : Nat)
    (hC : C < SIZE_MOD) (hsz : C * sz < SIZE_MOD)
    (hinit : cb_init memmgr_alloc cb0 C sz = (SUCCESS, cb)) :
    cb_inv cb 0 ∧ cb.capacity = C ∧ cb.sz = sz ∧ cb.count = 0 := by
  obtain ⟨-, -, hend, hcap, hcnt, hs, hhead, htail, -⟩ :=
    cb_init_success memmgr_alloc cb0 cb C sz hinit
  rw [Nat.mod_eq_of_lt hsz] at hend
  refine ⟨⟨?_, ?_, ?_, ?_, ?_, ?_⟩, hcap, hs, hcnt⟩
  · rw [hend, hcap, hs]
  · rw [hcap]; exact hC
  · rw [hcnt]; exact Nat.zero_le _
  · rcases Nat.eq_zero_or_pos cb.capacity with h | h
    · exact Or.inr ⟨h, rfl⟩
    · exact Or.inl h
  · rw [htail]; simp [cb_addr]
  · rw [hhead, hcnt]; simp [cb_addr]

/-- Simulation: run from related states, the ring buffer and the queue
specification return the same results and stay related. -/
theorem cb_run_simulates (ops : List cb_op) (cb : circular_buffer) (t : Nat) (q : bounded_fifo)
    (hinv : cb_inv cb t) (hq : q.capacity = cb.capacity) (hitems : q.items = cb_contents cb) :
    (cb_run cb ops).1 = (fifo_run cb.sz q ops).1 ∧
    cb_contents (cb_run cb ops).2 = (fifo_run cb.sz q ops).2.items ∧
    cb_wf (cb_run cb ops).2 ∧ (cb_run cb ops).2.sz = cb.sz ∧
    (cb_run cb ops).2.capacity = cb.capacity := by
  induction ops generalizing cb t q with
  | nil => exact ⟨rfl, hitems.symm, ⟨t, hinv⟩, rfl, rfl⟩
  | cons op ops ih =>
    have hlen : q.items.length = cb.count := by rw [hitems, cb_contents_length]
    cases op with
    | push_back item =>
      by_cases hfull : cb.count = cb.capacity
      · have e1 : cb_step cb (.push_back item) = (ERROR, [], cb) := by
          simp [cb_step, cb_push_back_full cb item hfull]
        have e2 : fifo_step cb.sz q (.push_back item) = (ERROR, [], q) := by
          simp [fifo_step, fifo_push, hlen, hfull, hq]
        have := ih cb t q hinv hq hitems
        simp only [cb_run, fifo_run, e1, e2]
        exact ⟨by rw [this.1], this.2⟩
      · obtain ⟨p1, p2, p3, p4, p5, p6⟩ := cb_push_back_ok cb t item hinv hfull
        have hlt : q.items.length < q.capacity := by
          have := hinv.2.2.1
          omega
        have e2 : fifo_step cb.sz q (.push_back item) =
            (SUCCESS, [], { q with items := q.items ++ [bytesAt item 0 cb.sz] }) := by
          simp [fifo_step, fifo_push, hlt]
        have := ih (cb_push_back cb item).2 t { q with items := q.items ++ [bytesAt item 0 cb.sz] }
          p2 (by simp only; rw [hq, p4]) (by simp only; rw [p6, hitems])
        rw [p3, p4] at this
        simp only [cb_run, fifo_run, e2, cb_step, p1]
        exact ⟨by rw [this.1], this.2⟩
    | pop_front =>
      by_cases hemp : cb.count = 0
      · have e1 : cb_step cb .pop_front = (ERROR, [], cb) := by
          simp [cb_step, cb_pop_front_empty cb hemp]
        have hnil : q.items = [] := List.length_eq_zero.mp (by omega)
        have e2 : fifo_step cb.sz q .pop_front = (ERROR, [], q) := by
          simp [fifo_step, fifo_pop, hnil]
        have := ih cb t q hinv hq hitems
        simp only [cb_run, fifo_run, e1, e2]
        exact ⟨by rw [this.1], this.2⟩
      · obtain ⟨p1, p2, p3, p4, p5, p6⟩ := cb_pop_front_ok cb t hinv hemp
        have hcons : q.items = (cb_pop_front cb).2.1 :: cb_contents (cb_pop_front cb).2.2 := by
          rw [hitems, p6]
        have e2 : fifo_step cb.sz q .pop_front =
            (SUCCESS, (cb_pop_front cb).2.1,
              { q with items := cb_contents (cb_pop_front cb).2.2 }) := by
          simp [fifo_step, fifo_pop, hcons]
        have := ih (cb_pop_front cb).2.2 _ { q with items := cb_contents (cb_pop_front cb).2.2 }
          p2 (by simp only; rw [hq, p4]) rfl
        rw [p3, p4] at this
        simp only [cb_run, fifo_run, e2, cb_step, p1]
        exact ⟨by rw [this.1], this.2⟩

/-- C2, amended: the ring buffer refines a bounded FIFO queue when the size of
the block, `C * sz`, fits `size_t`. After a successful
`cb_init(C, sz)` and any sequence of calls: the calls return exactly what the
bounded queue specification returns and the stored elements are the queue's;
`cb_push_back` succeeds iff fewer than `C` elements are stored and then appends
the element at the back; `cb_pop_front` succeeds iff at least one element is
stored and then returns and removes the oldest one; a failing push or pop
leaves the whole buffer record (contents, count, head, tail) unchanged. -/
theorem C2_ring_buffer_refines_fifo (memmgr_alloc : Nat → Nat) (cb0 cb : circular_buffer)
    (C sz : Nat) (ops : List cb_op) (hC : C < SIZE_MOD) (hsz : C * sz < SIZE_MOD)
    (hinit : cb_init memmgr_alloc cb0 C sz = (SUCCESS, cb)) :
    (cb_run cb ops).1 = (fifo_run sz ⟨C, []⟩ ops).1 ∧
    cb_contents (cb_after cb ops) = (fifo_run sz ⟨C, []⟩ ops).2.items ∧
    (∀ item,
      ((cb_push_back (cb_after cb ops) item).1 = SUCCESS ↔
        (cb_contents (cb_after cb ops)).length < C) ∧
      ((cb_push_back (cb_after cb ops) item).1 = SUCCESS →
        cb_contents (cb_push_back (cb_after cb ops) item).2 =
          cb_contents (cb_after cb ops) ++ [bytesAt item 0 sz]) ∧
      ((cb_push_back (cb_after cb ops) item).1 ≠ SUCCESS →
        (cb_push_back (cb_after cb ops) item).1 = ERROR ∧
        (cb_push_back (cb_after cb ops) item).2 = cb_after cb ops)) ∧
    ((cb_pop_front (cb_after cb ops)).1 = SUCCESS ↔
      1 ≤ (cb_contents (cb_after cb ops)).length) ∧
    ((cb_pop_front (cb_after cb ops)).1 = SUCCESS →
      cb_contents (cb_after cb ops) =
        (cb_pop_front (cb_after cb ops)).2.1 :: cb_contents (cb_pop_front (cb_after cb ops)).2.2) ∧
    ((cb_pop_front (cb_after cb ops)).1 ≠ SUCCESS →
      (cb_pop_front (cb_after cb ops)).1 = ERROR ∧
      (cb_pop_front (cb_after cb ops)).2.2 = cb_after cb ops) := by
  obtain ⟨hinv, hcap, hs, hcnt⟩ := cb_init_inv memmgr_alloc cb0 cb C sz hC hsz hinit
  have hc0 : cb_contents cb = [] := by
    unfold cb_contents; rw [hcnt]; rfl
  obtain ⟨s1, s2, ⟨t, hwf⟩, s4, s5⟩ :=
    cb_run_simulates ops cb 0 ⟨C, []⟩ hinv hcap.symm hc0.symm
  rw [hs] at s1 s2 s4
  rw [hcap] at s5
  have hcount := hwf.2.2.1
  refine ⟨s1, s2, ?_, ?_, ?_, ?_⟩
  · intro item
    unfold cb_after
    rw [cb_contents_length]
    by_cases hfull : (cb_run cb ops).2.count = (cb_run cb ops).2.capacity
    · rw [cb_push_back_full _ item hfull]
      refine ⟨?_, ?_, ?_⟩
      · rw [s5] at hfull
        constructor
        · intro h; exact absurd (show ERROR = SUCCESS from h) (by decide)
        · intro h; omega
      · intro h; simp [ERROR, SUCCESS] at h
      · intro _; exact ⟨rfl, rfl⟩
    · obtain ⟨p1, -, -, -, -, p6⟩ := cb_push_back_ok _ t item hwf hfull
      refine ⟨?_, ?_, ?_⟩
      · rw [s5] at hfull hcount
        constructor
        · intro _; omega
        · intro _; exact p1
      · intro _; rw [p6, s4]
      · intro h; exact absurd p1 h
  · unfold cb_after
    rw [cb_contents_length]
    by_cases hemp : (cb_run cb ops).2.count = 0
    · rw [cb_pop_front_empty _ hemp]
      constructor
      · intro h; exact absurd (show ERROR = SUCCESS from h) (by decide)
      · intro h; omega
    · obtain ⟨p1, -⟩ := cb_pop_front_ok _ t hwf hemp
      constructor
      · intro _; omega
      · intro _; exact p1
  · intro h
    unfold cb_after at h ⊢
    by_cases hemp : (cb_run cb ops).2.count = 0
    · rw [cb_pop_front_empty _ hemp] at h
      simp [ERROR, SUCCESS] at h
    · exact (cb_pop_front_ok _ t hwf hemp).2.2.2.2.2
  · intro h
    unfold cb_after at h ⊢
    by_cases hemp : (cb_run cb ops).2.count = 0
    · rw [cb_pop_front_empty _ hemp]
      exact ⟨rfl, rfl⟩
    · exact absurd (cb_pop_front_ok _ t hwf hemp).1 h

/-- Witness for C2: a two-element buffer that is filled, refuses a third
element and wraps around. -/
theorem C2_ring_buffer_refines_fifo_witness :
    cb_init (fun _ => 1000) circular_buffer.zero 2 1 = (SUCCESS, circular_buffer.empty 2) ∧
    (cb_run (circular_buffer.empty 2) cb_op.demo).1 = (fifo_run 1 ⟨2, []⟩ cb_op.demo).1 ∧
    cb_contents (cb_after (circular_buffer.empty 2) cb_op.demo) =
      (fifo_run 1 ⟨2, []⟩ cb_op.demo).2.items :=
  ⟨rfl,
   (C2_ring_buffer_refines_fifo (fun _ => 1000) circular_buffer.zero (circular_buffer.empty 2)
      2 1 cb_op.demo (by decide) (by decide) rfl).1,
   (C2_ring_buffer_refines_fifo (fun _ => 1000) circular_buffer.zero (circular_buffer.empty 2)
      2 1 cb_op.demo (by decide) (by decide) rfl).2.1⟩

/-! ## ESP_HuartSend -/

theorem cb_space_left_of_inv (cb : circular_buffer) (t : Nat) (h : cb_inv cb t) :
    cb_space_left cb = cb.capacity - cb.count := by
  obtain ⟨-, hcap, hcnt, -⟩ := h
  unfold cb_space_left
  rw [Nat.mod_eq_of_lt (show cb.count < SIZE_MOD by omega)]
  have : cb.capacity + SIZE_MOD - cb.count = (cb.capacity - cb.count) + SIZE_MOD := by omega
  rw [this, Nat.add_mod_right]
  exact Nat.mod_eq_of_lt (by omega)

theorem ESP_HuartSend_loop_ok (Size : Nat) (cb : circular_buffer) (t : Nat) (data : Nat → Nat)
    (hinv : cb_inv cb t) (hroom : cb.count + Size ≤ cb.capacity) :
    (ESP_HuartSend_loop cb data Size).1 = SUCCESS ∧
    cb_inv (ESP_HuartSend_loop cb data Size).2 t ∧
    (ESP_HuartSend_loop cb data Size).2.sz = cb.sz ∧
    cb_contents (ESP_HuartSend_loop cb data Size).2 =
      cb_contents cb ++ (List.range Size).map (fun i => bytesAt data i cb.sz) := by
  induction Size generalizing cb data with
  | zero => exact ⟨rfl, hinv, rfl, by simp [ESP_HuartSend_loop]⟩
  | succ n ih =>
    obtain ⟨p1, p2, p3, p4, p5, p6⟩ := cb_push_back_ok cb t data hinv (by omega)
    have h := ih (cb_push_back cb data).2 (ptrAdd data 1) p2 (by rw [p4, p5]; omega)
    obtain ⟨q1, q2, q3, q4⟩ := h
    have e : ESP_HuartSend_loop cb data (n + 1) =
        ESP_HuartSend_loop (cb_push_back cb data).2 (ptrAdd data 1) n := by
      rw [ESP_HuartSend_loop]
      simp [p1]
    rw [e]
    refine ⟨q1, q2, by rw [q3, p3], ?_⟩
    rw [q4, p6, p3, List.append_assoc]
    congr 1
    rw [List.range_succ_eq_map, List.map_cons, List.map_map, List.singleton_append]
    congr 1
    apply List.map_congr_left
    intro i _
    simp only [Function.comp, bytesAt, ptrAdd, Nat.succ_eq_add_one]
    apply List.map_congr_left
    intro k _
    congr 1
    omega

/-- C3. `ESP_HuartSend` is all-or-nothing. For the configured UART (number
`ESP1_HUART_NUM`, transmit ring buffer well formed with one-byte elements) it
returns `SUCCESS` iff `cb_space_left(tx) >= Size`; then exactly the `Size` given
bytes are appended to the transmit ring buffer in order and nothing else of the
handle changes; otherwise it returns `ERROR` and the handle, with the transmit
ring buffer, is unchanged. -/
theorem C3_HuartSend_all_or_nothing (huart : UART_HandleTypeDef) (pData : Nat → Nat) (Size : Nat)
    (hwf : cb_wf huart.pTxBuffPtr) (hsz : huart.pTxBuffPtr.sz = 1) :
    ((ESP_HuartSend huart ESP1_HUART_NUM pData Size).1 = SUCCESS ↔
      cb_space_left huart.pTxBuffPtr ≥ Size) ∧
    ((ESP_HuartSend huart ESP1_HUART_NUM pData Size).1 = SUCCESS →
      cb_contents (ESP_HuartSend huart ESP1_HUART_NUM pData Size).2.pTxBuffPtr =
        cb_contents huart.pTxBuffPtr ++ (bytesAt pData 0 Size).map (fun b => [b]) ∧
      cb_wf (ESP_HuartSend huart ESP1_HUART_NUM pData Size).2.pTxBuffPtr ∧
      (ESP_HuartSend huart ESP1_HUART_NUM pData Size).2.pRxBuffPtr = huart.pRxBuffPtr ∧
      (ESP_HuartSend huart ESP1_HUART_NUM pData Size).2.RX_OVERFLOW = huart.RX_OVERFLOW) ∧
    ((ESP_HuartSend huart ESP1_HUART_NUM pData Size).1 ≠ SUCCESS →
      (ESP_HuartSend huart ESP1_HUART_NUM pData Size).1 = ERROR ∧
      (ESP_HuartSend huart ESP1_HUART_NUM pData Size).2 = huart) := by
  obtain ⟨t, hinv⟩ := hwf
  have hleft := cb_space_left_of_inv _ t hinv
  have hcnt := hinv.2.2.1
  by_cases hroom : cb_space_left huart.pTxBuffPtr ≥ Size
  · have hroom' : huart.pTxBuffPtr.count + Size ≤ huart.pTxBuffPtr.capacity := by omega
    obtain ⟨q1, q2, q3, q4⟩ := ESP_HuartSend_loop_ok Size huart.pTxBuffPtr t pData hinv hroom'
    have e : ESP_HuartSend huart ESP1_HUART_NUM pData Size =
        ((ESP_HuartSend_loop huart.pTxBuffPtr pData Size).1,
         { huart with pTxBuffPtr := (ESP_HuartSend_loop huart.pTxBuffPtr pData Size).2 }) := by
      unfold ESP_HuartSend
      simp [hroom]
    rw [e]
    refine ⟨⟨fun _ => hroom, fun _ => q1⟩, fun _ => ⟨?_, ⟨t, q2⟩, rfl, rfl⟩,
      fun h => absurd q1 h⟩
    simp only
    rw [q4, hsz]
    congr 1
    simp only [bytesAt, List.map_map]
    apply List.map_congr_left
    intro i _
    rw [show List.range 1 = [0] from rfl]
    simp
  · have e : ESP_HuartSend huart ESP1_HUART_NUM pData Size = (ERROR, huart) := by
      unfold ESP_HuartSend
      simp [hroom]
    rw [e]
    refine ⟨⟨fun h => absurd (show ERROR = SUCCESS from h) (by decide), fun h => absurd h hroom⟩,
      fun h => absurd (show ERROR = SUCCESS from h) (by decide), fun _ => ⟨rfl, rfl⟩⟩

theorem circular_buffer.empty_inv (capacity : Nat) (h : capacity < SIZE_MOD) :
    cb_inv (circular_buffer.empty capacity) 0 := by
  refine ⟨by simp [circular_buffer.empty], h, Nat.zero_le _, ?_, by simp [circular_buffer.empty, cb_addr],
    by simp [circular_buffer.empty, cb_addr]⟩
  rcases Nat.eq_zero_or_pos capacity with h0 | h0
  · exact Or.inr ⟨h0, rfl⟩
  · exact Or.inl h0

/-- Witness for C3: sending 3 bytes into an empty 8-byte transmit buffer. -/
theorem C3_HuartSend_all_or_nothing_witness :
    (ESP_HuartSend UART_HandleTypeDef.demo ESP1_HUART_NUM (fun i => 65 + i) 3).1 = SUCCESS ∧
    cb_contents (ESP_HuartSend UART_HandleTypeDef.demo ESP1_HUART_NUM (fun i => 65 + i) 3).2.pTxBuffPtr =
      cb_contents UART_HandleTypeDef.demo.pTxBuffPtr ++
        (bytesAt (fun i => 65 + i) 0 3).map (fun b => [b]) :=
  ⟨(C3_HuartSend_all_or_nothing UART_HandleTypeDef.demo (fun i => 65 + i) 3
      ⟨0, circular_buffer.empty_inv 8 (by decide)⟩ rfl).1.mpr (by decide),
   ((C3_HuartSend_all_or_nothing UART_HandleTypeDef.demo (fun i => 65 + i) 3
      ⟨0, circular_buffer.empty_inv 8 (by decide)⟩ rfl).2.1 (by decide)).1⟩

/-! ## Socket API -/

theorem ESP.setSocket_same (s : ESP) (i : Nat) (k : socket) : (s.setSocket i k).Socket i = k := by
  simp [ESP.setSocket]

theorem ESP.setSocket_other (s : ESP) (i j : Nat) (k : socket) (h : j ≠ i) :
    (s.setSocket i k).Socket j = s.Socket j := by
  simp [ESP.setSocket, h]

theorem ESP.OpenSocket_loop_spec (s : ESP) (id0 : Nat) (T : eSocketType) (n i : Nat) :
    ((ESP.OpenSocket_loop s id0 T n i).1 = ERROR ↔
      ∀ k, i ≤ k → k < i + n → (s.Socket k).State ≠ .Closed) ∧
    ((ESP.OpenSocket_loop s id0 T n i).1 = ERROR →
      (ESP.OpenSocket_loop s id0 T n i).2.1 = id0 ∧ (ESP.OpenSocket_loop s id0 T n i).2.2 = s) ∧
    ((ESP.OpenSocket_loop s id0 T n i).1 ≠ ERROR →
      (ESP.OpenSocket_loop s id0 T n i).1 = SUCCESS ∧
      i ≤ (ESP.OpenSocket_loop s id0 T n i).2.1 ∧
      (ESP.OpenSocket_loop s id0 T n i).2.1 < i + n ∧
      (s.Socket (ESP.OpenSocket_loop s id0 T n i).2.1).State = .Closed ∧
      (∀ k, i ≤ k → k < (ESP.OpenSocket_loop s id0 T n i).2.1 → (s.Socket k).State ≠ .Closed) ∧
      (ESP.OpenSocket_loop s id0 T n i).2.2 =
        s.setSocket (ESP.OpenSocket_loop s id0 T n i).2.1
          { s.Socket (ESP.OpenSocket_loop s id0 T n i).2.1 with
            State := .Open, Address := 0, Port := 0, Type_ := T, DataRx := 0,
            DataTx := 0, RxBuffSize := 0, RxDataLen := 0 }) := by
  induction n generalizing i with
  | zero =>
    have e : ESP.OpenSocket_loop s id0 T 0 i = (ERROR, id0, s) := rfl
    rw [e]
    refine ⟨⟨fun _ k h1 h2 => by omega, fun _ => rfl⟩, fun _ => ⟨rfl, rfl⟩, fun h => absurd rfl h⟩
  | succ n ih =>
    by_cases hc : (s.Socket i).State = .Closed
    · have e : ESP.OpenSocket_loop s id0 T (n + 1) i = (SUCCESS, i, s.setSocket i
          { s.Socket i with State := .Open, Address := 0, Port := 0, Type_ := T, DataRx := 0,
                            DataTx := 0, RxBuffSize := 0, RxDataLen := 0 }) := by
        simp [ESP.OpenSocket_loop, hc]
      rw [e]
      refine ⟨⟨fun h => absurd (show SUCCESS = ERROR from h) (by decide),
        fun h => absurd hc (h i (Nat.le_refl _) (by omega))⟩,
        fun h => absurd (show SUCCESS = ERROR from h) (by decide),
        fun _ => ⟨rfl, Nat.le_refl _, (by show i < i + (n + 1); omega), hc,
          fun k h1 h2 => absurd (show k < i from h2) (by omega), rfl⟩⟩
    · have e : ESP.OpenSocket_loop s id0 T (n + 1) i = ESP.OpenSocket_loop s id0 T n (i + 1) := by
        simp [ESP.OpenSocket_loop, hc]
      rw [e]
      obtain ⟨h1, h2, h3⟩ := ih (i + 1)
      refine ⟨⟨fun h k hk1 hk2 => ?_, fun h => h1.mpr (fun k hk1 hk2 => h k (by omega) (by omega))⟩,
        h2, fun h => ?_⟩
      · rcases Nat.eq_or_lt_of_le hk1 with e | e
        · rw [← e]; exact hc
        · exact h1.mp h k e (by omega)
      · obtain ⟨q1, q2, q3, q4, q5, q6⟩ := h3 h
        refine ⟨q1, by omega, by omega, q4, fun k hk1 hk2 => ?_, q6⟩
        rcases Nat.eq_or_lt_of_le hk1 with e | e
        · rw [← e]; exact hc
        · exact q5 k e hk2

/-- C4. `OpenSocket` returns `ERROR`, leaving `SocketID` and the whole state
unchanged, iff all 5 socket records are in a state other than `Closed`;
otherwise it returns `SUCCESS`, the returned id is the smallest index whose state
was `Closed`, that socket becomes `Open` with the requested type, and every
other socket record is unchanged. -/
theorem C4_OpenSocket (s : ESP) (SocketID : Nat) (T : eSocketType) :
    ((s.OpenSocket SocketID T).1 = ERROR ↔ ∀ k, k < 5 → (s.Socket k).State ≠ .Closed) ∧
    ((s.OpenSocket SocketID T).1 = ERROR →
      (s.OpenSocket SocketID T).2.1 = SocketID ∧ (s.OpenSocket SocketID T).2.2 = s) ∧
    ((s.OpenSocket SocketID T).1 ≠ ERROR →
      (s.OpenSocket SocketID T).1 = SUCCESS ∧
      (s.OpenSocket SocketID T).2.1 < 5 ∧
      (s.Socket (s.OpenSocket SocketID T).2.1).State = .Closed ∧
      (∀ k, k < (s.OpenSocket SocketID T).2.1 → (s.Socket k).State ≠ .Closed) ∧
      ((s.OpenSocket SocketID T).2.2.Socket (s.OpenSocket SocketID T).2.1).State = .Open ∧
      ((s.OpenSocket SocketID T).2.2.Socket (s.OpenSocket SocketID T).2.1).Type_ = T ∧
      (∀ j, j ≠ (s.OpenSocket SocketID T).2.1 →
        (s.OpenSocket SocketID T).2.2.Socket j = s.Socket j)) := by
  obtain ⟨h1, h2, h3⟩ := ESP.OpenSocket_loop_spec s SocketID T SocketsNum 0
  unfold ESP.OpenSocket
  refine ⟨⟨fun h k hk => h1.mp h k (Nat.zero_le _) (by simpa [SocketsNum, ESP8266_SOCKETS_MAX] using hk),
    fun h => h1.mpr (fun k _ hk => h k (by simpa [SocketsNum, ESP8266_SOCKETS_MAX] using hk))⟩,
    h2, fun h => ?_⟩
  obtain ⟨q1, -, q3, q4, q5, q6⟩ := h3 h
  refine ⟨q1, by simpa [SocketsNum, ESP8266_SOCKETS_MAX] using q3, q4,
    fun k hk => q5 k (Nat.zero_le _) hk, ?_, ?_, ?_⟩
  · rw [q6, ESP.setSocket_same]
  · rw [q6, ESP.setSocket_same]
  · intro j hj
    rw [q6, ESP.setSocket_other _ _ _ _ hj]

/-- C5 fails on the code: with socket 0 connected and a send that closes the
socket afterwards in progress (`TxLock` and `CloseAfterSending` set by an
earlier successful `SocketSendClose`), `SocketSend` returns `ERROR` but clears
`CloseAfterSending`. -/
theorem C5_SocketSend_locked_clears_close_flag :
    (ESP.demo_sending.Socket 0).TxLock = true ∧
    (ESP.demo_sending.Socket 0).CloseAfterSending = true ∧
    (ESP.demo_sending.SocketSend 0 6000 20).1 = ERROR ∧
    ((ESP.demo_sending.SocketSend 0 6000 20).2.Socket 0).CloseAfterSending = false := by
  decide

/-- C6. `isCommandReceived(k)` consumes an event exactly once: it returns true
iff the pending event equals `k`; after a true result the pending slot is
`NO_COMMAND_RECEIVED`, so for a real event kind `k` an immediately repeated call
returns false; and when it returns false the state is unchanged. -/
theorem C6_isCommandReceived (s : ESP) (k : eAT) :
    ((s.isCommandReceived k).1 = true ↔ s.IO_.ReceivedCommand = k) ∧
    ((s.isCommandReceived k).1 = true →
      (s.isCommandReceived k).2.IO_.ReceivedCommand = .NO_COMMAND_RECEIVED) ∧
    (k ≠ .NO_COMMAND_RECEIVED → (s.isCommandReceived k).1 = true →
      ((s.isCommandReceived k).2.isCommandReceived k).1 = false) ∧
    ((s.isCommandReceived k).1 = false → (s.isCommandReceived k).2 = s) := by
  by_cases h : k = s.IO_.ReceivedCommand
  · have e : s.isCommandReceived k =
        (true, { s with IO_ := { s.IO_ with ReceivedCommand := .NO_COMMAND_RECEIVED } }) := by
      simp [ESP.isCommandReceived, h]
    rw [e]
    refine ⟨⟨fun _ => h.symm, fun _ => rfl⟩, fun _ => rfl, fun hk _ => ?_,
      fun h' => absurd (show true = false from h') (by decide)⟩
    simp [ESP.isCommandReceived, hk]
  · have e : s.isCommandReceived k = (false, s) := by
      simp [ESP.isCommandReceived, h]
    rw [e]
    refine ⟨⟨fun h' => absurd (show false = true from h') (by decide), fun h' => absurd h'.symm h⟩,
      fun h' => absurd (show false = true from h') (by decide),
      fun _ h' => absurd (show false = true from h') (by decide), fun _ => rfl⟩

/-! ## RxHandler: how often an event is stored -/

theorem io.assign1_eq (x : io) (t : scan_target) (v : scan_val) :
    x.assign1 t v = io.keep x (x.assign1 t v) := by
  cases t <;> cases v <;> rfl

theorem io.assign_eq (targets : List scan_target) (vals : List scan_val) (x : io) :
    x.assign targets vals = io.keep x (x.assign targets vals) := by
  induction targets generalizing x vals with
  | nil => cases vals <;> rfl
  | cons t ts ih =>
    cases vals with
    | nil => rfl
    | cons v vs =>
      have h1 := ih vs (x.assign1 t v)
      have h2 := io.assign1_eq x t v
      simp only [io.assign]
      rw [h1, h2]
      rfl

theorem ESP.sscanf_rx_eq (s : ESP) (f : String) (t : List scan_target) :
    (s.sscanf_rx f t).2.2 = { s with IO_ := io.keep s.IO_ (s.sscanf_rx f t).2.2.IO_ } := by
  simp only [ESP.sscanf_rx]
  rw [io.assign_eq]
  rfl

theorem ESP.nothing_stored_refl (s : ESP) : s.nothing_stored s := ⟨rfl, rfl, rfl⟩

theorem ESP.nothing_stored_trans {a b c : ESP} (h1 : a.nothing_stored b)
    (h2 : b.nothing_stored c) : a.nothing_stored c :=
  ⟨h2.1.trans h1.1, h2.2.1.trans h1.2.1, h2.2.2.trans h1.2.2⟩

theorem ESP.stored_of_nothing {a b : ESP} (h : a.nothing_stored b) : a.stored_at_most_once b :=
  Or.inl h

theorem ESP.stored_trans_right {a b c : ESP} (h1 : a.stored_at_most_once b)
    (h2 : b.nothing_stored c) : a.stored_at_most_once c := by
  rcases h1 with h | h
  · exact Or.inl (ESP.nothing_stored_trans h h2)
  · exact Or.inr ⟨h2.1.trans h.1, h2.2.1.trans h.2⟩

theorem ESP.stored_trans_left {a b c : ESP} (h1 : a.nothing_stored b)
    (h2 : b.stored_at_most_once c) : a.stored_at_most_once c := by
  rcases h2 with h | h
  · exact Or.inl (ESP.nothing_stored_trans h1 h)
  · exact Or.inr ⟨by rw [h.1, h1.1], h.2⟩

theorem ESP.sscanf_rx_nothing (s : ESP) (f : String) (t : List scan_target) :
    s.nothing_stored (s.sscanf_rx f t).2.2 := by
  rw [ESP.sscanf_rx_eq]
  exact ⟨rfl, rfl, rfl⟩

theorem ESP.StoreCommand_stored (s : ESP) (cmd : eAT) :
    s.stored_at_most_once (s.StoreCommand cmd) :=
  Or.inr ⟨rfl, rfl⟩

theorem ESP.setParam_nothing (s : ESP) (i v : Nat) : s.nothing_stored (s.setParam i v) :=
  ⟨rfl, rfl, rfl⟩

theorem ESP.resetCounter_nothing (s : ESP) : s.nothing_stored s.resetCounter :=
  ⟨rfl, rfl, rfl⟩

theorem ESP.storeIfRes_stored (s : ESP) (f : String) (t : List scan_target) (n : Nat) (cmd : eAT) :
    s.stored_at_most_once (ESP.storeIfRes (s.sscanf_rx f t) n cmd) := by
  unfold ESP.storeIfRes
  split
  · exact ESP.stored_trans_left (s.sscanf_rx_nothing f t) (ESP.StoreCommand_stored _ _)
  · exact ESP.stored_trans_left (s.sscanf_rx_nothing f t) (ESP.StoreCommand_stored _ _)

theorem ESP.storeIfResOnly_stored (s : ESP) (f : String) (t : List scan_target) (n : Nat)
    (cmd : eAT) : s.stored_at_most_once (ESP.storeIfResOnly (s.sscanf_rx f t) n cmd) := by
  unfold ESP.storeIfResOnly
  split
  · exact ESP.stored_trans_left (s.sscanf_rx_nothing f t) (ESP.StoreCommand_stored _ _)
  · exact Or.inl (s.sscanf_rx_nothing f t)

theorem ESP.RxHandler_cipstatus_stored (s : ESP) (f : String) (t : List scan_target) :
    s.stored_at_most_once (ESP.RxHandler_cipstatus (s.sscanf_rx f t)) := by
  unfold ESP.RxHandler_cipstatus
  split_ifs
  · exact Or.inl (ESP.nothing_stored_trans (s.sscanf_rx_nothing f t) (ESP.setParam_nothing _ _ _))
  · exact Or.inl (ESP.nothing_stored_trans (s.sscanf_rx_nothing f t) (ESP.setParam_nothing _ _ _))
  · exact ESP.stored_trans_left (s.sscanf_rx_nothing f t) (ESP.StoreCommand_stored _ _)
  · exact ESP.stored_trans_left (s.sscanf_rx_nothing f t) (ESP.StoreCommand_stored _ _)

theorem ESP.RxHandler_cwsap_stored (s : ESP) (f : String) (t : List scan_target) :
    s.stored_at_most_once (ESP.RxHandler_cwsap (s.sscanf_rx f t)) := by
  unfold ESP.RxHandler_cwsap
  split_ifs
  · exact ESP.stored_trans_left (s.sscanf_rx_nothing f t) (ESP.StoreCommand_stored _ _)
  · exact ESP.stored_trans_left (s.sscanf_rx_nothing f t) (ESP.storeIfRes_stored _ _ _ _ _)

/-- A property of the state holds after a conditional when it holds after
both branches. -/
theorem ESP.ite_fst {P : ESP → Prop} (c : Prop) [Decidable c] (a b : ESP × Nat)
    (ha : P a.1) (hb : P b.1) : P (if c then a else b).1 := by
  split
  · exact ha
  · exact hb

theorem ESP.RxHandler_echo_stored (s : ESP) (nm : Nat) :
    s.stored_at_most_once (s.RxHandler_echo nm).1 := by
  unfold ESP.RxHandler_echo
  repeat' first
    | exact ESP.StoreCommand_stored _ _
    | exact Or.inl (ESP.nothing_stored_refl _)
    | apply ESP.ite_fst (P := s.stored_at_most_once)

theorem ESP.RxHandler_plus_stored (s : ESP) (nm : Nat) :
    s.stored_at_most_once (s.RxHandler_plus nm).1 := by
  unfold ESP.RxHandler_plus
  repeat' first
    | exact ESP.StoreCommand_stored _ _
    | exact Or.inl (ESP.nothing_stored_refl _)
    | exact ESP.storeIfRes_stored _ _ _ _ _
    | exact ESP.RxHandler_cipstatus_stored _ _ _
    | exact ESP.RxHandler_cwsap_stored _ _ _
    | apply ESP.ite_fst (P := s.stored_at_most_once)

theorem ESP.RxHandler_response_stored (s : ESP) (nm : Nat) :
    s.stored_at_most_once (s.RxHandler_response nm).1 := by
  unfold ESP.RxHandler_response
  repeat' first
    | exact ESP.StoreCommand_stored _ _
    | exact Or.inl (ESP.nothing_stored_refl _)
    | exact ESP.storeIfRes_stored _ _ _ _ _
    | exact ESP.storeIfResOnly_stored _ _ _ _ _
    | exact ESP.stored_trans_right (ESP.StoreCommand_stored _ _) (ESP.setParam_nothing _ _ _)
    | exact ESP.RxHandler_plus_stored _ _
    | apply ESP.ite_fst (P := s.stored_at_most_once)

theorem ESP.RxHandler_ipd_header_nothing (s : ESP) (id data_len : Nat) :
    s.nothing_stored (ESP.RxHandler_ipd_header s id data_len) := by
  unfold ESP.RxHandler_ipd_header ESP.RxHandler_ipd_ignore ESP.RxHandler_ipd_accept
  split_ifs <;> exact ⟨rfl, rfl, rfl⟩

theorem ESP.RxHandler_ipd_none (s : ESP) (h : s.RxHandler_ipd.1 = none) :
    s.RxHandler_ipd.2 = { s with IO_ := io.keep s.IO_ s.RxHandler_ipd.2.IO_ } := by
  unfold ESP.RxHandler_ipd at h ⊢
  by_cases h1 : s.IO_.RxBuffer 0 = '+'.toNat ∧ s.IO_.RxBuffer 1 = 'I'.toNat
  · rw [if_pos h1] at h ⊢
    by_cases h2 : 3 = (s.sscanf_rx IPD_format
        [.local_var, .local_var, .pReceivedParameterStr]).1
    · rw [if_pos h2] at h
      exact absurd h (by simp)
    · rw [if_neg h2]
      exact ESP.sscanf_rx_eq _ _ _
  · rw [if_neg h1]
    rfl

theorem ESP.RxHandler_ipd_some (s x : ESP) (h : s.RxHandler_ipd.1 = some x) :
    s.nothing_stored x := by
  unfold ESP.RxHandler_ipd at h
  by_cases h1 : s.IO_.RxBuffer 0 = '+'.toNat ∧ s.IO_.RxBuffer 1 = 'I'.toNat
  · rw [if_pos h1] at h
    by_cases h2 : 3 = (s.sscanf_rx IPD_format
        [.local_var, .local_var, .pReceivedParameterStr]).1
    · rw [if_pos h2] at h
      simp only [Option.some.injEq] at h
      subst h
      exact ESP.nothing_stored_trans (ESP.sscanf_rx_nothing _ _ _)
        (ESP.RxHandler_ipd_header_nothing _ _ _)
    · rw [if_neg h2] at h
      exact absurd h (by simp)
  · rw [if_neg h1] at h
    exact absurd h (by simp)

theorem ESP.RxHandler_after_echo_stored (e : ESP × Nat) :
    e.1.stored_at_most_once (ESP.RxHandler_after_echo e).1 ∧
    ((ESP.RxHandler_after_echo e).2.2 = false →
      (ESP.RxHandler_after_echo e).1.StoreCommand_calls = e.1.StoreCommand_calls + 1 →
      (ESP.RxHandler_after_echo e).1.IO_.RxBuffCounter = 0) ∧
    (e.1.NewCommandSemaphore = true → ESP.RxHandler_after_echo e = (e.1, e.2, true)) := by
  by_cases h1 : e.1.NewCommandSemaphore = true
  · have q : ESP.RxHandler_after_echo e = (e.1, e.2, true) := by
      unfold ESP.RxHandler_after_echo
      rw [if_pos h1]
    rw [q]
    exact ⟨Or.inl (ESP.nothing_stored_refl _), fun h => absurd h (by simp), fun _ => rfl⟩
  · by_cases h2 : e.1.line_received
    · by_cases h3 : e.1.IO_.RxBuffCounter = 2
      · have q : ESP.RxHandler_after_echo e = (e.1.resetCounter, e.2, true) := by
          unfold ESP.RxHandler_after_echo
          rw [if_neg h1, if_pos h2, if_pos h3]
        rw [q]
        exact ⟨Or.inl (ESP.resetCounter_nothing _), fun h => absurd h (by simp),
          fun h => absurd h h1⟩
      · have q : ESP.RxHandler_after_echo e = ((e.1.RxHandler_response e.2).1.resetCounter,
            (e.1.RxHandler_response e.2).2, false) := by
          unfold ESP.RxHandler_after_echo
          rw [if_neg h1, if_pos h2, if_neg h3]
        rw [q]
        exact ⟨ESP.stored_trans_right (ESP.RxHandler_response_stored _ _)
          (ESP.resetCounter_nothing _), fun _ _ => rfl, fun h => absurd h h1⟩
    · have q : ESP.RxHandler_after_echo e = (e.1, e.2, false) := by
        unfold ESP.RxHandler_after_echo
        rw [if_neg h1, if_neg h2]
      rw [q]
      refine ⟨Or.inl (ESP.nothing_stored_refl _), fun _ h => ?_, fun h => absurd h h1⟩
      simp only at h
      omega

theorem ESP.RxHandler_line3_stored (s : ESP) (nm : Nat) :
    s.stored_at_most_once (s.RxHandler_line3 nm).1 ∧
    ((s.RxHandler_line3 nm).2.2 = false →
      (s.RxHandler_line3 nm).1.StoreCommand_calls = s.StoreCommand_calls + 1 →
      (s.RxHandler_line3 nm).1.IO_.RxBuffCounter = 0) ∧
    (s.NewCommandSemaphore = true → s.IO_.RxBuffCounter = 3 →
      s.nothing_stored (s.RxHandler_line3 nm).1 ∧ (s.RxHandler_line3 nm).2.2 = true) := by
  by_cases h1 : s.echo_received ∧ s.IO_.RxBuffCounter = 3
  · have q : s.RxHandler_line3 nm = (s.resetCounter, nm, true) := by
      unfold ESP.RxHandler_line3
      rw [if_pos h1]
    rw [q]
    exact ⟨Or.inl (ESP.resetCounter_nothing _), fun h => absurd h (by simp),
      fun _ _ => ⟨ESP.resetCounter_nothing _, rfl⟩⟩
  · by_cases h2 : s.echo_received
    · have q : s.RxHandler_line3 nm = ESP.RxHandler_after_echo
          ((s.RxHandler_echo nm).1.resetCounter, (s.RxHandler_echo nm).2) := by
        unfold ESP.RxHandler_line3
        rw [if_neg h1, if_pos h2]
      rw [q]
      have hc : s.IO_.RxBuffCounter ≠ 3 := fun h => h1 ⟨h2, h⟩
      obtain ⟨a1, a2, a3⟩ := ESP.RxHandler_after_echo_stored
        ((s.RxHandler_echo nm).1.resetCounter, (s.RxHandler_echo nm).2)
      have he := ESP.stored_trans_right (s.RxHandler_echo_stored nm)
        (ESP.resetCounter_nothing (s.RxHandler_echo nm).1)
      refine ⟨?_, ?_, fun _ h => absurd h hc⟩
      · rcases he with he | he
        · exact ESP.stored_trans_left he a1
        · rw [a3 he.2]
          exact Or.inr he
      · rcases he with he | he
        · intro h3 h4
          exact a2 h3 (by rw [h4, he.1])
        · rw [a3 he.2]
          intro h
          exact absurd h (by simp)
    · have q : s.RxHandler_line3 nm = ESP.RxHandler_after_echo (s, nm) := by
        unfold ESP.RxHandler_line3
        rw [if_neg h1, if_neg h2]
      rw [q]
      obtain ⟨a1, a2, a3⟩ := ESP.RxHandler_after_echo_stored (s, nm)
      refine ⟨a1, a2, fun h _ => ?_⟩
      rw [a3 h]
      exact ⟨ESP.nothing_stored_refl _, rfl⟩

theorem ESP.RxHandler_record_stored (s : ESP) (nm : Nat) :
    s.stored_at_most_once (s.RxHandler_record nm).1 ∧
    ((s.RxHandler_record nm).2.2 = false →
      (s.RxHandler_record nm).1.StoreCommand_calls = s.StoreCommand_calls + 1 →
      (s.RxHandler_record nm).1.IO_.RxBuffCounter = 0) ∧
    (s.NewCommandSemaphore = true → s.IO_.RxBuffCounter ≤ 3 →
      s.nothing_stored (s.RxHandler_record nm).1 ∧
      ((s.RxHandler_record nm).2.2 = false → (s.RxHandler_record nm).1.IO_.RxBuffCounter ≤ 2)) := by
  by_cases h1 : s.IO_.RxBuffer 0 = '>'.toNat ∧ s.IO_.RxBuffer 1 = ' '.toNat
  · have q : s.RxHandler_record nm =
        ({ s with IO_ := { s.IO_ with ListenToTxData := true, RxBuffCounter := 0 } }, nm, true) := by
      unfold ESP.RxHandler_record
      rw [if_pos h1]
    rw [q]
    exact ⟨Or.inl ⟨rfl, rfl, rfl⟩, fun h => absurd h (by simp),
      fun _ _ => ⟨⟨rfl, rfl, rfl⟩, fun h => absurd h (by simp)⟩⟩
  · by_cases h2 : s.IO_.RxBuffCounter ≥ 3
    · have q : s.RxHandler_record nm = s.RxHandler_line3 nm := by
        unfold ESP.RxHandler_record
        rw [if_neg h1, if_pos h2]
      rw [q]
      obtain ⟨a1, a2, a3⟩ := s.RxHandler_line3_stored nm
      refine ⟨a1, a2, fun h3 h4 => ?_⟩
      obtain ⟨b1, b2⟩ := a3 h3 (by omega)
      exact ⟨b1, fun h => absurd (b2.symm.trans h) (by simp)⟩
    · have q : (s.RxHandler_record nm = (s.resetCounter, nm, false)) ∨
          (s.RxHandler_record nm = (s, nm, false)) := by
        unfold ESP.RxHandler_record
        rw [if_neg h1, if_neg h2]
        split_ifs
        · exact Or.inl rfl
        · exact Or.inr rfl
        · exact Or.inr rfl
      rcases q with q | q
      · rw [q]
        exact ⟨Or.inl (ESP.resetCounter_nothing _), fun _ _ => rfl,
          fun _ _ => ⟨ESP.resetCounter_nothing _, fun _ => Nat.zero_le _⟩⟩
      · rw [q]
        refine ⟨Or.inl (ESP.nothing_stored_refl _), fun _ h => ?_,
          fun _ _ => ⟨ESP.nothing_stored_refl _, fun _ => ?_⟩⟩
        · simp only at h; omega
        · simp only; omega

theorem ESP.RxHandler_parse_stored (s : ESP) (nm : Nat) :
    s.stored_at_most_once (s.RxHandler_parse nm).1 ∧
    ((s.RxHandler_parse nm).2.2 = false →
      (s.RxHandler_parse nm).1.StoreCommand_calls = s.StoreCommand_calls + 1 →
      (s.RxHandler_parse nm).1.IO_.RxBuffCounter = 0) ∧
    (s.NewCommandSemaphore = true → s.IO_.RxBuffCounter ≤ 3 →
      s.nothing_stored (s.RxHandler_parse nm).1 ∧
      ((s.RxHandler_parse nm).2.2 = false → (s.RxHandler_parse nm).1.IO_.RxBuffCounter ≤ 2)) := by
  rcases h : s.RxHandler_ipd.1 with _ | x
  · have q : s.RxHandler_parse nm = s.RxHandler_ipd.2.RxHandler_record nm := by
      unfold ESP.RxHandler_parse
      rw [h]
    rw [q]
    have e := s.RxHandler_ipd_none h
    have n1 : s.nothing_stored s.RxHandler_ipd.2 := by rw [e]; exact ⟨rfl, rfl, rfl⟩
    have n2 : s.RxHandler_ipd.2.IO_.RxBuffCounter = s.IO_.RxBuffCounter := by rw [e]; rfl
    obtain ⟨a1, a2, a3⟩ := s.RxHandler_ipd.2.RxHandler_record_stored nm
    refine ⟨ESP.stored_trans_left n1 a1, fun h1 h2 => a2 h1 (by rw [h2, n1.1]),
      fun h1 h2 => ?_⟩
    obtain ⟨b1, b2⟩ := a3 (n1.2.1.trans h1) (by omega)
    exact ⟨ESP.nothing_stored_trans n1 b1, b2⟩
  · have q : s.RxHandler_parse nm = (x, nm, true) := by
      unfold ESP.RxHandler_parse
      rw [h]
    rw [q]
    have n1 := s.RxHandler_ipd_some x h
    exact ⟨Or.inl n1, fun h => absurd h (by simp), fun _ _ => ⟨n1, fun h => absurd h (by simp)⟩⟩

theorem ESP.RxHandler_body_stored (s : ESP) (nm : Nat) :
    s.stored_at_most_once (s.RxHandler_body nm).1 ∧
    ((s.RxHandler_body nm).2.2 = false →
      (s.RxHandler_body nm).1.StoreCommand_calls = s.StoreCommand_calls + 1 →
      (s.RxHandler_body nm).1.IO_.RxBuffCounter = 0) ∧
    (s.NewCommandSemaphore = true → s.IO_.RxBuffCounter ≤ 2 →
      s.nothing_stored (s.RxHandler_body nm).1 ∧
      ((s.RxHandler_body nm).2.2 = false → (s.RxHandler_body nm).1.IO_.RxBuffCounter ≤ 2)) := by
  by_cases h1 : (s.IO_.RxBuffCounter + 1) % U16_MOD > ESP8266_RX_BUFF_LEN - 1
  · have q : s.RxHandler_body nm = ({ s with IO_ := { s.IO_ with
        RxBuffCounter := 0, ReceiveError := true } }, nm, false) := by
      unfold ESP.RxHandler_body
      rw [if_pos h1]
    rw [q]
    exact ⟨Or.inl ⟨rfl, rfl, rfl⟩, fun _ _ => rfl,
      fun _ _ => ⟨⟨rfl, rfl, rfl⟩, fun _ => Nat.zero_le _⟩⟩
  · have q : s.RxHandler_body nm = s.RxHandler_terminate.RxHandler_parse nm := by
      unfold ESP.RxHandler_body
      rw [if_neg h1]
    rw [q]
    obtain ⟨a1, a2, a3⟩ := ESP.RxHandler_parse_stored s.RxHandler_terminate nm
    refine ⟨a1, a2, fun h2 h3 => a3 h2 ?_⟩
    show (s.IO_.RxBuffCounter + 1) % U16_MOD ≤ _
    simp only [U16_MOD]
    omega

/-! ## RxHandler: the loops -/

theorem ESP.GetChar_nothing (s : ESP) : s.nothing_stored s.GetChar.2.2 := ⟨rfl, rfl, rfl⟩

theorem ESP.RxHandler_flush_nothing (n : Nat) (s : ESP) :
    s.nothing_stored (ESP.RxHandler_flush n s) ∧
    (ESP.RxHandler_flush n s).IO_ = s.IO_ := by
  induction n generalizing s with
  | zero => exact ⟨ESP.nothing_stored_refl _, rfl⟩
  | succ n ih =>
    unfold ESP.RxHandler_flush
    split
    · exact ⟨ESP.nothing_stored_trans s.GetChar_nothing (ih _).1, (ih _).2⟩
    · exact ⟨s.GetChar_nothing, rfl⟩

theorem ESP.RxHandler_ignore_byte_nothing (s : ESP) : s.nothing_stored s.RxHandler_ignore_byte := by
  unfold ESP.RxHandler_ignore_byte
  exact ⟨rfl, rfl, rfl⟩

theorem ESP.RxHandler_ignore_end_nothing (s : ESP) : s.nothing_stored s.RxHandler_ignore_end := by
  unfold ESP.RxHandler_ignore_end
  split
  · exact ⟨rfl, rfl, rfl⟩
  · exact ESP.nothing_stored_refl _

theorem ESP.RxHandler_ignore_nothing (n : Nat) (s : ESP) :
    s.nothing_stored (ESP.RxHandler_ignore n s) := by
  induction n generalizing s with
  | zero => exact ESP.nothing_stored_refl _
  | succ n ih =>
    unfold ESP.RxHandler_ignore
    have a := ESP.nothing_stored_trans s.GetChar_nothing s.GetChar.2.2.RxHandler_ignore_byte_nothing
    split
    · split
      · exact ESP.nothing_stored_trans a (ESP.RxHandler_ignore_end_nothing _)
      · exact ESP.nothing_stored_trans a (ih _)
    · exact s.GetChar_nothing

theorem ESP.RxHandler_data_byte_nothing (s : ESP) (item : List Nat) :
    s.nothing_stored (s.RxHandler_data_byte item) := by
  unfold ESP.RxHandler_data_byte
  exact ⟨rfl, rfl, rfl⟩

theorem ESP.RxHandler_data_end_nothing (s : ESP) : s.nothing_stored s.RxHandler_data_end := by
  unfold ESP.RxHandler_data_end
  exact ⟨rfl, rfl, rfl⟩

theorem ESP.RxHandler_data_full_nothing (s : ESP) : s.nothing_stored s.RxHandler_data_full := by
  unfold ESP.RxHandler_data_full
  exact ⟨rfl, rfl, rfl⟩

theorem ESP.RxHandler_data_nothing (n : Nat) (s : ESP) :
    s.nothing_stored (ESP.RxHandler_data n s) := by
  induction n generalizing s with
  | zero => exact ESP.nothing_stored_refl _
  | succ n ih =>
    unfold ESP.RxHandler_data
    have a := ESP.nothing_stored_trans s.GetChar_nothing
      (s.GetChar.2.2.RxHandler_data_byte_nothing s.GetChar.2.1)
    split
    · split
      · exact ESP.nothing_stored_trans a (ESP.RxHandler_data_end_nothing _)
      · split
        · exact ESP.nothing_stored_trans a (ESP.RxHandler_data_full_nothing _)
        · exact ESP.nothing_stored_trans a (ih _)
    · exact s.GetChar_nothing

theorem ESP.RxHandler_put_nothing (s : ESP) (item : List Nat) :
    s.nothing_stored (s.RxHandler_put item) := by
  unfold ESP.RxHandler_put
  exact ⟨rfl, rfl, rfl⟩

theorem ESP.RxHandler_error_nothing (s : ESP) : s.nothing_stored s.RxHandler_error := by
  unfold ESP.RxHandler_error
  split
  · exact (ESP.RxHandler_flush_nothing _ _).1
  · exact ESP.nothing_stored_refl _

theorem ESP.RxHandler_empty_nothing (s : ESP) : s.nothing_stored s.RxHandler_empty := by
  unfold ESP.RxHandler_empty
  split
  · exact ESP.nothing_stored_trans (ESP.RxHandler_flush_nothing _ _).1 ⟨rfl, rfl, rfl⟩
  · exact ESP.nothing_stored_refl _

theorem ESP.RxHandler_overflow_nothing (s : ESP) : s.nothing_stored s.RxHandler_overflow := by
  unfold ESP.RxHandler_overflow
  split
  · split
    · exact ⟨rfl, rfl, rfl⟩
    · exact ⟨rfl, rfl, rfl⟩
  · exact ESP.nothing_stored_refl _

/-- The loop that receives command bytes stores at most one event: entered with
the semaphore clear, or with the semaphore set and fewer than three bytes in the
line buffer, it ends with at most one more call of `StoreCommand` than `c0`. -/
theorem ESP.RxHandler_cmd_calls (n : Nat) (s : ESP) (nm c0 : Nat)
    (hI : (s.NewCommandSemaphore = false ∧ s.StoreCommand_calls = c0) ∨
      (s.NewCommandSemaphore = true ∧ s.StoreCommand_calls = c0 + 1 ∧ s.IO_.RxBuffCounter ≤ 2)) :
    c0 ≤ (ESP.RxHandler_cmd n s nm).StoreCommand_calls ∧
    (ESP.RxHandler_cmd n s nm).StoreCommand_calls ≤ c0 + 1 := by
  induction n generalizing s nm with
  | zero =>
    unfold ESP.RxHandler_cmd
    rcases hI with h | h <;> omega
  | succ n ih =>
    unfold ESP.RxHandler_cmd
    by_cases hg : SUCCESS = s.GetChar.1
    · rw [if_pos hg]
      obtain ⟨p1, p2, p3⟩ := ESP.nothing_stored_trans s.GetChar_nothing
        (s.GetChar.2.2.RxHandler_put_nothing s.GetChar.2.1)
      have p4 : (s.GetChar.2.2.RxHandler_put s.GetChar.2.1).IO_.RxBuffCounter =
        s.IO_.RxBuffCounter := rfl
      generalize s.GetChar.2.2.RxHandler_put s.GetChar.2.1 = t at p1 p2 p3 p4 ⊢
      obtain ⟨a1, a2, a3⟩ := ESP.RxHandler_body_stored t nm
      rcases hI with ⟨h1, h2⟩ | ⟨h1, h2, h3⟩
      · rcases a1 with ⟨b1, b2, -⟩ | ⟨b1, b2⟩
        · split
          · omega
          · exact ih _ _ (Or.inl ⟨by rw [b2, p2, h1], by omega⟩)
        · split
          · omega
          · rename_i hc
            have hc' := a2 (by simpa using hc) b1
            exact ih _ _ (Or.inr ⟨b2, by omega, by omega⟩)
      · obtain ⟨⟨b1, b2, -⟩, b4⟩ := a3 (p2.trans h1) (by omega)
        split
        · omega
        · rename_i hc
          exact ih _ _ (Or.inr ⟨by rw [b2, p2, h1], by omega, b4 (by simpa using hc)⟩)
    · rw [if_neg hg]
      have : s.GetChar.2.2.StoreCommand_calls = s.StoreCommand_calls := rfl
      rcases hI with h | h <;> omega

theorem ESP.RxHandler_main_semaphore_set (s : ESP) (h : s.NewCommandSemaphore = true) :
    s.nothing_stored s.RxHandler_main := by
  unfold ESP.RxHandler_main
  split
  · exact ESP.RxHandler_ignore_nothing _ _
  · split
    · exact ESP.nothing_stored_trans s.RxHandler_overflow_nothing (ESP.RxHandler_data_nothing _ _)
    · exact ESP.nothing_stored_refl _

/-- With the semaphore set, `RxHandler` stores nothing: the pending event, the
semaphore and the number of `StoreCommand` calls are unchanged. -/
theorem ESP.RxHandler_semaphore_set (s : ESP) (h : s.NewCommandSemaphore = true) :
    s.nothing_stored s.RxHandler := by
  unfold ESP.RxHandler
  have f := ESP.nothing_stored_trans s.RxHandler_error_nothing
    s.RxHandler_error.RxHandler_empty_nothing
  exact ESP.nothing_stored_trans f (ESP.RxHandler_main_semaphore_set _ (f.2.1.trans h))

theorem ESP.RxHandler_main_calls (s : ESP) :
    s.StoreCommand_calls ≤ s.RxHandler_main.StoreCommand_calls ∧
    s.RxHandler_main.StoreCommand_calls ≤ s.StoreCommand_calls + 1 := by
  by_cases h : s.NewCommandSemaphore = true
  · have := (s.RxHandler_main_semaphore_set h).1
    omega
  · have h' : s.NewCommandSemaphore = false := by simpa using h
    unfold ESP.RxHandler_main
    split
    · have := (ESP.RxHandler_ignore_nothing s.rx_fuel s).1
      omega
    · split
      · have := (ESP.nothing_stored_trans s.RxHandler_overflow_nothing
          (ESP.RxHandler_data_nothing s.RxHandler_overflow.rx_fuel _)).1
        omega
      · exact ESP.RxHandler_cmd_calls s.rx_fuel s 0 s.StoreCommand_calls (Or.inl ⟨h', rfl⟩)

/-- C9. Within one poll at most one event is produced: for every content of the
receive queue and every state of the recognizer, a single `RxHandler` run calls
`StoreCommand` at most once. -/
theorem C9_RxHandler_stores_at_most_once (s : ESP) :
    s.StoreCommand_calls ≤ s.RxHandler.StoreCommand_calls ∧
    s.RxHandler.StoreCommand_calls ≤ s.StoreCommand_calls + 1 := by
  have f := (ESP.nothing_stored_trans s.RxHandler_error_nothing
    s.RxHandler_error.RxHandler_empty_nothing).1
  have g := s.RxHandler_error.RxHandler_empty.RxHandler_main_calls
  unfold ESP.RxHandler
  omega

/-! ## The receive queue as a list of bytes -/

theorem ESP.rx_has_count (s : ESP) (bytes : List Nat) (h : s.rx_has bytes) :
    s.ESP1_HUART.pRxBuffPtr.count = bytes.length := by
  obtain ⟨-, -, -, hc⟩ := h
  have := cb_contents_length s.ESP1_HUART.pRxBuffPtr
  rw [hc, List.length_map] at this
  exact this.symm

theorem ESP.rx_fuel_eq (s : ESP) (bytes : List Nat) (h : s.rx_has bytes) :
    s.rx_fuel = bytes.length + 1 := by
  unfold ESP.rx_fuel
  rw [s.rx_has_count bytes h]

/-- Reading from a queue that holds `b :: bs` succeeds, delivers `b` and
leaves `bs`. -/
theorem ESP.GetChar_cons (s : ESP) (b : Nat) (bs : List Nat) (h : s.rx_has (b :: bs)) :
    SUCCESS = s.GetChar.1 ∧ s.GetChar.2.1 = [b] ∧ s.GetChar.2.2.rx_has bs := by
  have hcount := s.rx_has_count _ h
  obtain ⟨hn, hsz, ⟨t, hinv⟩, hc⟩ := h
  have hne : s.ESP1_HUART.pRxBuffPtr.count ≠ 0 := by
    rw [hcount]
    simp
  obtain ⟨p1, p2, p3, -, -, p6⟩ := cb_pop_front_ok s.ESP1_HUART.pRxBuffPtr t hinv hne
  rw [hc, List.map_cons] at p6
  have e1 : [b] = (cb_pop_front s.ESP1_HUART.pRxBuffPtr).2.1 := (List.cons.inj p6).1
  have e2 := (List.cons.inj p6).2
  have g : ESP_GetChar s.ESP1_HUART s.HuartNumber =
      ((cb_pop_front s.ESP1_HUART.pRxBuffPtr).1, (cb_pop_front s.ESP1_HUART.pRxBuffPtr).2.1,
       { s.ESP1_HUART with pRxBuffPtr := (cb_pop_front s.ESP1_HUART.pRxBuffPtr).2.2 }) := by
    unfold ESP_GetChar
    rw [if_pos hn]
  unfold ESP.GetChar
  rw [g]
  refine ⟨p1.symm, e1.symm, hn, ?_, ⟨_, p2⟩, e2.symm⟩
  exact p3.trans hsz

/-- Reading from an empty queue fails and changes nothing. -/
theorem ESP.GetChar_nil (s : ESP) (h : s.ESP1_HUART.pRxBuffPtr.count = 0) :
    SUCCESS ≠ s.GetChar.1 ∧ s.GetChar.2.2 = s := by
  have g : ESP_GetChar s.ESP1_HUART s.HuartNumber = (ERROR, [], s.ESP1_HUART) := by
    unfold ESP_GetChar
    split
    · rw [cb_pop_front_empty _ h]
    · rfl
  unfold ESP.GetChar
  rw [g]
  exact ⟨show SUCCESS ≠ ERROR by decide, rfl⟩

/-! ## RxHandler: receiving a line byte by byte -/

theorem cstr_upto_eq (m : Nat → Nat) (l : List Nat) :
    ∀ (n a : Nat), (∀ i, i < l.length → m (a + i) = l.getD i 0) → m (a + l.length) = 0 →
      (∀ c ∈ l, c ≠ 0) → l.length < n → cstr_upto m n a = l := by
  induction l with
  | nil =>
    intro n a _ h0 _ hn
    obtain ⟨k, rfl⟩ : ∃ k, n = k + 1 := ⟨n - 1, by simp at hn; omega⟩
    unfold cstr_upto
    rw [if_pos (by simpa using h0)]
  | cons c l ih =>
    intro n a hm h0 hnz hn
    obtain ⟨k, rfl⟩ : ∃ k, n = k + 1 := ⟨n - 1, by simp at hn; omega⟩
    have hc : m a = c := by simpa using hm 0 (by simp)
    unfold cstr_upto
    rw [if_neg (by rw [hc]; exact hnz c (by simp))]
    rw [hc]
    congr 1
    apply ih k (a + 1)
    · intro i hi
      have := hm (i + 1) (by simpa using hi)
      rw [show a + 1 + i = a + (i + 1) by omega, this]
      simp
    · rw [show a + 1 + l.length = a + (c :: l).length by simp; omega]
      exact h0
    · intro x hx
      exact hnz x (by simp [hx])
    · simp at hn
      omega

theorem getD_append_single (line : List Nat) (b i : Nat) :
    (line ++ [b]).getD i 0 =
      if i < line.length then line.getD i 0 else if i = line.length then b else 0 := by
  rw [List.getD_eq_getElem?_getD, List.getD_eq_getElem?_getD]
  by_cases h1 : i < line.length
  · rw [if_pos h1, List.getElem?_append_left h1]
  · rw [if_neg h1]
    by_cases h2 : i = line.length
    · rw [if_pos h2, h2]
      simp
    · rw [if_neg h2, List.getElem?_eq_none (by simp; omega)]
      rfl

theorem ESP.line_frame_refl (s : ESP) : s.line_frame s := ⟨_, _, _, rfl⟩

theorem ESP.line_frame_trans {a b c : ESP} (h1 : a.line_frame b) (h2 : b.line_frame c) :
    a.line_frame c := by
  obtain ⟨b1, c1, u1, rfl⟩ := h1
  obtain ⟨b2, c2, u2, rfl⟩ := h2
  exact ⟨b2, c2, u2, rfl⟩

theorem ESP.line_frame_next (s : ESP) : s.line_frame s.RxHandler_next := by
  unfold ESP.RxHandler_next ESP.RxHandler_terminate ESP.RxHandler_put ESP.GetChar
  exact ⟨_, _, _, rfl⟩

/-- What a line frame leaves unchanged. -/
theorem ESP.line_frame_fields {s t : ESP} (h : s.line_frame t) :
    t.NewCommandSemaphore = s.NewCommandSemaphore ∧ t.StoreCommand_calls = s.StoreCommand_calls ∧
    t.IO_.ReceivedCommand = s.IO_.ReceivedCommand ∧ t.Socket = s.Socket ∧ t.app_mem = s.app_mem ∧
    t.HuartNumber = s.HuartNumber ∧ t.IO_.ReceivingDataStream = s.IO_.ReceivingDataStream ∧
    t.IO_.RxIgnoreCounter = s.IO_.RxIgnoreCounter ∧ t.IO_.ReceiveError = s.IO_.ReceiveError ∧
    t.IO_.DoEmptyRxStream = s.IO_.DoEmptyRxStream ∧ t.IO_.RxOverflowEvent = s.IO_.RxOverflowEvent ∧
    t.IO_.ListenToTxData = s.IO_.ListenToTxData := by
  obtain ⟨b, c, u, rfl⟩ := h
  exact ⟨rfl, rfl, rfl, rfl, rfl, rfl, rfl, rfl, rfl, rfl, rfl, rfl⟩

/-- The state in which the next byte `b` of the queue is parsed, when the line
buffer holds `line`. -/
theorem ESP.next_holds (s : ESP) (line : List Nat) (b : Nat) (bs : List Nat)
    (hq : s.rx_has (b :: bs)) (h : s.holds line)
    (hlen : line.length + 1 < ESP8266_RX_BUFF_LEN) :
    s.RxHandler_next.IO_.RxBuffCounter = line.length + 1 ∧
    (∀ i, i ≤ line.length + 1 → s.RxHandler_next.IO_.RxBuffer i = (line ++ [b]).getD i 0) ∧
    s.RxHandler_next.rx_has bs := by
  obtain ⟨-, g2, g3⟩ := s.GetChar_cons b bs hq
  obtain ⟨h1, h2⟩ := h
  have hL : ESP8266_RX_BUFF_LEN = 100 := rfl
  have hmod : (line.length + 1) % U16_MOD = line.length + 1 :=
    Nat.mod_eq_of_lt (by simp only [U16_MOD]; omega)
  have e1 : s.RxHandler_next.IO_.RxBuffCounter = (s.IO_.RxBuffCounter + 1) % U16_MOD := rfl
  have e2 : ∀ i, s.RxHandler_next.IO_.RxBuffer i =
      if i = (s.IO_.RxBuffCounter + 1) % U16_MOD then 0
      else writeBytes s.IO_.RxBuffer s.IO_.RxBuffCounter s.GetChar.2.1 i := fun _ => rfl
  rw [h1, hmod] at e1
  refine ⟨e1, ?_, g3⟩
  intro i hi
  rw [e2 i, g2, h1, hmod]
  rw [getD_append_single]
  by_cases c1 : i = line.length + 1
  · rw [if_pos c1, if_neg (by omega), if_neg (by omega)]
  · rw [if_neg c1]
    show (if i = line.length then b else s.IO_.RxBuffer i) = _
    by_cases c2 : i = line.length
    · rw [if_pos c2, if_neg (by omega), if_pos c2]
    · rw [if_neg c2, h2 i (by omega), if_pos (by omega)]

/-- The C string in the line buffer when the next byte is parsed. -/
theorem ESP.next_rxLine (s : ESP) (line : List Nat) (b : Nat) (bs : List Nat)
    (hq : s.rx_has (b :: bs)) (h : s.holds line)
    (hlen : line.length + 1 < ESP8266_RX_BUFF_LEN) (hnz : ∀ c ∈ line ++ [b], c ≠ 0) :
    s.RxHandler_next.rxLine = line ++ [b] := by
  obtain ⟨-, e2, -⟩ := s.next_holds line b bs hq h hlen
  unfold ESP.rxLine
  apply cstr_upto_eq
  · intro i hi
    rw [Nat.zero_add]
    exact e2 i (by simp at hi; omega)
  · rw [Nat.zero_add, e2 _ (by simp), getD_append_single, if_neg (by simp), if_neg (by simp)]
  · exact hnz
  · simpa using hlen

/-- One round of the loop that receives command bytes, when the queue holds a
byte and the line buffer has room for it. -/
theorem ESP.RxHandler_cmd_next (n : Nat) (s : ESP) (nm b : Nat) (bs : List Nat)
    (hq : s.rx_has (b :: bs)) (hlen : s.IO_.RxBuffCounter + 1 < ESP8266_RX_BUFF_LEN) :
    ESP.RxHandler_cmd (n + 1) s nm =
      if (s.RxHandler_next.RxHandler_parse nm).2.2 then (s.RxHandler_next.RxHandler_parse nm).1
      else ESP.RxHandler_cmd n (s.RxHandler_next.RxHandler_parse nm).1
        (s.RxHandler_next.RxHandler_parse nm).2.1 := by
  obtain ⟨g1, -, -⟩ := s.GetChar_cons b bs hq
  have hL : ESP8266_RX_BUFF_LEN = 100 := rfl
  have hb : (s.GetChar.2.2.RxHandler_put s.GetChar.2.1).RxHandler_body nm =
      s.RxHandler_next.RxHandler_parse nm := by
    unfold ESP.RxHandler_body
    rw [if_neg]
    · rfl
    · show ¬ (s.IO_.RxBuffCounter + 1) % U16_MOD > ESP8266_RX_BUFF_LEN - 1
      rw [Nat.mod_eq_of_lt (by simp only [U16_MOD]; omega)]
      omega
  show (if SUCCESS = s.GetChar.1 then _ else _) = _
  rw [if_pos g1, hb]

/-- The loop that receives command bytes ends when the queue is empty. -/
theorem ESP.RxHandler_cmd_nil (n : Nat) (s : ESP) (nm : Nat)
    (hq : s.ESP1_HUART.pRxBuffPtr.count = 0) : ESP.RxHandler_cmd n s nm = s := by
  cases n with
  | zero => rfl
  | succ n =>
    obtain ⟨g1, g2⟩ := s.GetChar_nil hq
    show (if SUCCESS = s.GetChar.1 then _ else _) = _
    rw [if_neg g1, g2]

theorem io.assign1_local (x : io) (v : scan_val) : x.assign1 .local_var v = x := by
  cases v <;> rfl

/-- A `sscanf` of the `+IPD` format that assigns fewer than three values
changes only the local variables `id` and `data_len`. -/
theorem io.assign_ipd (x : io) (vals : List scan_val) (h : vals.length ≤ 2) :
    x.assign [.local_var, .local_var, .pReceivedParameterStr] vals = x := by
  match vals, h with
  | [], _ => rfl
  | [v], _ =>
    show (x.assign1 .local_var v).assign _ [] = x
    rw [io.assign1_local]
    rfl
  | [v, w], _ =>
    show ((x.assign1 .local_var v).assign1 .local_var w).assign _ [] = x
    rw [io.assign1_local, io.assign1_local]
    rfl
  | _ :: _ :: _ :: _, h => simp at h

/-- The line buffer holds no `+IPD` header (yet). -/
theorem ESP.RxHandler_ipd_inert (u : ESP)
    (hipd : ¬(u.IO_.RxBuffer 0 = '+'.toNat ∧ u.IO_.RxBuffer 1 = 'I'.toNat) ∨
      (3 ≠ scan_res (sscanf u.rxLine IPD_format) ∧ (sscanf u.rxLine IPD_format).2.length ≤ 2)) :
    u.RxHandler_ipd = (none, u) := by
  unfold ESP.RxHandler_ipd
  by_cases c : u.IO_.RxBuffer 0 = '+'.toNat ∧ u.IO_.RxBuffer 1 = 'I'.toNat
  · rw [if_pos c]
    rcases hipd with h | ⟨h1, h2⟩
    · exact absurd c h
    · have e1 : (u.sscanf_rx IPD_format [.local_var, .local_var, .pReceivedParameterStr]).1 =
          scan_res (sscanf u.rxLine IPD_format) := rfl
      have e2 : (u.sscanf_rx IPD_format [.local_var, .local_var, .pReceivedParameterStr]).2.2 =
          u := by
        show ({ u with IO_ := u.IO_.assign _ (sscanf u.rxLine IPD_format).2 } : ESP) = u
        rw [io.assign_ipd _ _ h2]
      rw [if_neg (by rw [e1]; exact h1), e2]
  · rw [if_neg c]

/-- A byte that neither ends a line nor completes the send prompt or a `+IPD`
header leaves the line buffer as it is: the loop goes on with the next byte. -/
theorem ESP.RxHandler_parse_inert (u : ESP) (nm : Nat)
    (hsem : u.NewCommandSemaphore = false)
    (hc : 1 ≤ u.IO_.RxBuffCounter)
    (hlast : u.IO_.RxBuffer (u.IO_.RxBuffCounter - 1) ≠ '\n'.toNat)
    (hprompt : ¬(u.IO_.RxBuffer 0 = '>'.toNat ∧ u.IO_.RxBuffer 1 = ' '.toNat))
    (hipd : ¬(u.IO_.RxBuffer 0 = '+'.toNat ∧ u.IO_.RxBuffer 1 = 'I'.toNat) ∨
      (3 ≠ scan_res (sscanf u.rxLine IPD_format) ∧ (sscanf u.rxLine IPD_format).2.length ≤ 2)) :
    u.RxHandler_parse nm = (u, nm, false) := by
  have e := u.RxHandler_ipd_inert hipd
  have he : ¬ u.echo_received := fun h => hlast h.1
  have hl : ¬ u.line_received := by
    intro h
    apply hlast
    have h1 := h.1
    unfold io.RxBuffer_at at h1
    rw [if_pos (by omega)] at h1
    rw [← h1]
    congr 1
    omega
  have p : u.RxHandler_parse nm = u.RxHandler_record nm := by
    unfold ESP.RxHandler_parse
    rw [e]
  rw [p]
  unfold ESP.RxHandler_record
  rw [if_neg hprompt]
  by_cases c3 : u.IO_.RxBuffCounter ≥ 3
  · rw [if_pos c3]
    unfold ESP.RxHandler_line3
    rw [if_neg (fun h => he h.1), if_neg he]
    unfold ESP.RxHandler_after_echo
    rw [if_neg (by simp [hsem]), if_neg hl]
  · rw [if_neg c3]
    by_cases c2 : u.IO_.RxBuffCounter ≥ 2
    · rw [if_pos c2, if_neg (fun h => hlast h.1)]
    · rw [if_neg c2]

/-- One byte that leaves the line buffer open: the loop that receives command
bytes goes on with the byte appended to the line. -/
theorem ESP.RxHandler_cmd_inert (n : Nat) (s : ESP) (nm : Nat) (line : List Nat) (b : Nat)
    (bs : List Nat) (hq : s.rx_has (b :: bs)) (h : s.holds line)
    (hlen : line.length + 1 < ESP8266_RX_BUFF_LEN) (hsem : s.NewCommandSemaphore = false)
    (hlast : b ≠ '\n'.toNat)
    (hprompt : ¬((line ++ [b]).getD 0 0 = '>'.toNat ∧ (line ++ [b]).getD 1 0 = ' '.toNat))
    (hipd : ¬((line ++ [b]).getD 0 0 = '+'.toNat ∧ (line ++ [b]).getD 1 0 = 'I'.toNat) ∨
      ((∀ c ∈ line ++ [b], c ≠ 0) ∧ 3 ≠ scan_res (sscanf (line ++ [b]) IPD_format) ∧
        (sscanf (line ++ [b]) IPD_format).2.length ≤ 2)) :
    ESP.RxHandler_cmd (n + 1) s nm = ESP.RxHandler_cmd n s.RxHandler_next nm ∧
    s.RxHandler_next.holds (line ++ [b]) ∧ s.RxHandler_next.rx_has bs ∧
    s.line_frame s.RxHandler_next := by
  obtain ⟨e1, e2, e3⟩ := s.next_holds line b bs hq h hlen
  have hf := s.line_frame_next
  have e0 := e2 0 (by omega)
  have e01 := e2 1 (by omega)
  have p : s.RxHandler_next.RxHandler_parse nm = (s.RxHandler_next, nm, false) := by
    apply ESP.RxHandler_parse_inert
    · exact (ESP.line_frame_fields hf).1.trans hsem
    · omega
    · rw [e1, e2 _ (by omega), getD_append_single, if_neg (by omega), if_pos (by omega)]
      exact hlast
    · rw [e0, e01]
      exact hprompt
    · rw [e0, e01]
      rcases hipd with c | ⟨c1, c2, c3⟩
      · exact Or.inl c
      · rw [s.next_rxLine line b bs hq h hlen c1]
        exact Or.inr ⟨c2, c3⟩
  refine ⟨?_, ⟨by rw [e1]; simp, fun i hi => e2 i (by simp at hi; omega)⟩, e3, hf⟩
  rw [s.RxHandler_cmd_next n nm b bs hq (by rw [h.1]; exact hlen), p]
  rfl

/-- With an empty receive queue and no flush, ignore or raw-data mode pending,
`RxHandler` changes nothing. -/
theorem ESP.RxHandler_quiet (t : ESP) (hq : t.ESP1_HUART.pRxBuffPtr.count = 0)
    (h1 : t.IO_.ReceiveError = false) (h2 : t.IO_.DoEmptyRxStream = false)
    (h3 : t.IO_.RxIgnoreCounter = 0) (h4 : t.IO_.ReceivingDataStream = false) :
    t.RxHandler = t := by
  have a1 : t.RxHandler_error = t := by
    unfold ESP.RxHandler_error
    rw [if_neg (by simp [h1])]
  have a2 : t.RxHandler_empty = t := by
    unfold ESP.RxHandler_empty
    rw [if_neg (by simp [h2])]
  unfold ESP.RxHandler
  rw [a1, a2]
  unfold ESP.RxHandler_main
  rw [if_neg (by simp [h3]), if_neg (by simp [h4])]
  split
  · rfl
  · exact ESP.RxHandler_cmd_nil _ _ _ hq

/-- The start of `RxHandler` on an idle recognizer: the loop that receives
command bytes runs. -/
theorem ESP.RxHandler_idle (s : ESP) (h : s.idle) :
    s.RxHandler = ESP.RxHandler_cmd s.rx_fuel s 0 := by
  obtain ⟨-, h4, h3, -, h5, h1, h2, -⟩ := h
  have a1 : s.RxHandler_error = s := by
    unfold ESP.RxHandler_error
    rw [if_neg (by simp [h1])]
  have a2 : s.RxHandler_empty = s := by
    unfold ESP.RxHandler_empty
    rw [if_neg (by simp [h2])]
  unfold ESP.RxHandler
  rw [a1, a2]
  unfold ESP.RxHandler_main
  rw [if_neg (by simp [h3]), if_neg (by simp [h4]), if_neg (by simp [h5])]

/-! ## RxHandler: lines that stay open and lines that end -/

/-- A line that does not end with `\r\n` and is neither the send prompt nor a
complete `+IPD` header is left as it is: the loop goes on with the next byte. -/
theorem ESP.RxHandler_parse_open (u : ESP) (nm : Nat)
    (hsem : u.NewCommandSemaphore = false)
    (hlast : 2 ≤ u.IO_.RxBuffCounter →
      ¬(u.IO_.RxBuffer (u.IO_.RxBuffCounter - 1) = '\n'.toNat ∧
        u.IO_.RxBuffer (u.IO_.RxBuffCounter - 2) = '\r'.toNat))
    (hprompt : ¬(u.IO_.RxBuffer 0 = '>'.toNat ∧ u.IO_.RxBuffer 1 = ' '.toNat))
    (hipd : ¬(u.IO_.RxBuffer 0 = '+'.toNat ∧ u.IO_.RxBuffer 1 = 'I'.toNat) ∨
      (3 ≠ scan_res (sscanf u.rxLine IPD_format) ∧ (sscanf u.rxLine IPD_format).2.length ≤ 2)) :
    u.RxHandler_parse nm = (u, nm, false) := by
  have e := u.RxHandler_ipd_inert hipd
  have p : u.RxHandler_parse nm = u.RxHandler_record nm := by
    unfold ESP.RxHandler_parse
    rw [e]
  rw [p]
  unfold ESP.RxHandler_record
  rw [if_neg hprompt]
  by_cases c3 : u.IO_.RxBuffCounter ≥ 3
  · have hl' := hlast (by omega)
    have he : ¬ u.echo_received := fun h => hl' ⟨h.1, h.2.1⟩
    have hl : ¬ u.line_received := by
      intro h
      apply hl'
      obtain ⟨h1, h2⟩ := h
      unfold io.RxBuffer_at at h1 h2
      rw [if_pos (by omega)] at h1 h2
      have a1 : ((u.IO_.RxBuffCounter : Int) - 1).toNat = u.IO_.RxBuffCounter - 1 := by omega
      have a2 : ((u.IO_.RxBuffCounter : Int) - 2).toNat = u.IO_.RxBuffCounter - 2 := by omega
      rw [a1] at h1
      rw [a2] at h2
      exact ⟨h1, h2⟩
    rw [if_pos c3]
    unfold ESP.RxHandler_line3
    rw [if_neg (fun h => he h.1), if_neg he]
    unfold ESP.RxHandler_after_echo
    rw [if_neg (by simp [hsem]), if_neg hl]
  · rw [if_neg c3]
    by_cases c2 : u.IO_.RxBuffCounter ≥ 2
    · rw [if_pos c2, if_neg (hlast c2)]
    · rw [if_neg c2]

/-- One byte that leaves the line open. -/
theorem ESP.RxHandler_cmd_step (n : Nat) (s : ESP) (nm : Nat) (line : List Nat) (b : Nat)
    (bs : List Nat) (hq : s.rx_has (b :: bs)) (h : s.holds line)
    (hlen : line.length + 1 < ESP8266_RX_BUFF_LEN) (hsem : s.NewCommandSemaphore = false)
    (hopen : open_line (line ++ [b])) :
    ESP.RxHandler_cmd (n + 1) s nm = ESP.RxHandler_cmd n s.RxHandler_next nm ∧
    s.RxHandler_next.holds (line ++ [b]) ∧ s.RxHandler_next.rx_has bs ∧
    s.line_frame s.RxHandler_next := by
  obtain ⟨e1, e2, e3⟩ := s.next_holds line b bs hq h hlen
  obtain ⟨o1, o2, o3⟩ := hopen
  have hf := s.line_frame_next
  have e0 := e2 0 (by omega)
  have e01 := e2 1 (by omega)
  have ll : (line ++ [b]).length = line.length + 1 := by simp
  rw [ll] at o1
  have p : s.RxHandler_next.RxHandler_parse nm = (s.RxHandler_next, nm, false) := by
    apply ESP.RxHandler_parse_open
    · exact (ESP.line_frame_fields hf).1.trans hsem
    · intro h2
      rw [e1, e2 _ (by omega), e2 _ (by omega)]
      exact o1 (by omega)
    · rw [e0, e01]
      exact o2
    · rw [e0, e01]
      rcases o3 with c | ⟨c1, c2, c3⟩
      · exact Or.inl c
      · rw [s.next_rxLine line b bs hq h hlen c1]
        exact Or.inr ⟨c2, c3⟩
  refine ⟨?_, ⟨by rw [e1]; simp, fun i hi => e2 i (by simp at hi; omega)⟩, e3, hf⟩
  rw [s.RxHandler_cmd_next n nm b bs hq (by rw [h.1]; exact hlen), p]
  rfl

/-- Bytes that leave the line open, one after the other: the loop that receives
command bytes arrives at the state whose line buffer holds them all. -/
theorem ESP.RxHandler_cmd_open (q : List Nat) : ∀ (n : Nat) (s : ESP) (nm : Nat)
    (line rest : List Nat), s.rx_has (q ++ rest) → s.holds line →
    (line ++ q).length < ESP8266_RX_BUFF_LEN → s.NewCommandSemaphore = false →
    (∀ m, line.length < m → m ≤ (line ++ q).length → open_line ((line ++ q).take m)) →
    ∃ u : ESP, ESP.RxHandler_cmd (n + q.length) s nm = ESP.RxHandler_cmd n u nm ∧
      u.holds (line ++ q) ∧ u.rx_has rest ∧ s.line_frame u := by
  induction q with
  | nil =>
    intro n s nm line rest hq h _ _ _
    exact ⟨s, rfl, by simpa using h, hq, s.line_frame_refl⟩
  | cons b bs ih =>
    intro n s nm line rest hq h hlen hsem hopen
    have hl : (line ++ b :: bs).length = line.length + bs.length + 1 := by simp; omega
    have ho : open_line (line ++ [b]) := by
      have := hopen (line.length + 1) (by omega) (by rw [hl]; omega)
      rw [show line ++ b :: bs = (line ++ [b]) ++ bs by simp,
        List.take_append_of_le_length (by simp), List.take_of_length_le (by simp)] at this
      exact this
    obtain ⟨a1, a2, a3, a4⟩ := ESP.RxHandler_cmd_step (n + bs.length) s nm line b (bs ++ rest)
      hq h (by rw [hl] at hlen; omega) hsem ho
    obtain ⟨u, b1, b2, b3, b4⟩ := ih n s.RxHandler_next nm (line ++ [b]) rest a3 a2
      (by simpa using hlen) ((ESP.line_frame_fields a4).1.trans hsem)
      (by
        intro m hm1 hm2
        have := hopen m (by simp at hm1; omega) (by simpa using hm2)
        simpa using this)
    refine ⟨u, ?_, by simpa using b2, b3, ESP.line_frame_trans a4 b4⟩
    rw [show n + (b :: bs).length = n + bs.length + 1 by simp; omega, a1, b1]

theorem getD_take (l : List Nat) (m i : Nat) (h : i < m) : (l.take m).getD i 0 = l.getD i 0 := by
  rw [List.getD_eq_getElem?_getD, List.getD_eq_getElem?_getD, List.getElem?_take_of_lt h]

/-- A line of three or more bytes that is not the prompt and does not begin a
`+IPD` header is handed to the block that looks for the end of a line. -/
theorem ESP.RxHandler_parse_line3 (u : ESP) (nm : Nat) (hc : 3 ≤ u.IO_.RxBuffCounter)
    (h1 : u.IO_.RxBuffer 0 ≠ '+'.toNat) (h2 : u.IO_.RxBuffer 0 ≠ '>'.toNat) :
    u.RxHandler_parse nm = u.RxHandler_line3 nm := by
  have e := u.RxHandler_ipd_inert (Or.inl (fun h => h1 h.1))
  unfold ESP.RxHandler_parse
  rw [e]
  show u.RxHandler_record nm = _
  unfold ESP.RxHandler_record
  rw [if_neg (fun h => h2 h.1), if_pos hc]

/-- A line that ends with `\r\n`, not with `\r\r\n`: the response switch runs
and the line buffer is made empty. -/
theorem ESP.RxHandler_line3_response (u : ESP) (nm : Nat) (hsem : u.NewCommandSemaphore = false)
    (hc : 3 ≤ u.IO_.RxBuffCounter)
    (h1 : u.IO_.RxBuffer (u.IO_.RxBuffCounter - 1) = '\n'.toNat)
    (h2 : u.IO_.RxBuffer (u.IO_.RxBuffCounter - 2) = '\r'.toNat)
    (h3 : u.IO_.RxBuffer (u.IO_.RxBuffCounter - 3) ≠ '\r'.toNat) :
    u.RxHandler_line3 nm =
      ((u.RxHandler_response nm).1.resetCounter, (u.RxHandler_response nm).2, false) := by
  have he : ¬ u.echo_received := fun h => h3 h.2.2
  have hl : u.line_received := by
    unfold ESP.line_received io.RxBuffer_at
    rw [if_pos (by omega), if_pos (by omega)]
    have a1 : ((u.IO_.RxBuffCounter : Int) - 1).toNat = u.IO_.RxBuffCounter - 1 := by omega
    have a2 : ((u.IO_.RxBuffCounter : Int) - 2).toNat = u.IO_.RxBuffCounter - 2 := by omega
    rw [a1, a2]
    exact ⟨h1, h2⟩
  unfold ESP.RxHandler_line3
  rw [if_neg (fun h => he h.1), if_neg he]
  unfold ESP.RxHandler_after_echo
  rw [if_neg (by simp [hsem]), if_pos hl, if_neg (by show ¬ u.IO_.RxBuffCounter = 2; omega)]

/-- An idle recognizer whose queue holds one line `rec`, which fits the line
buffer, begins neither with `+` nor with `>` and has no `\r\n` before its end:
`RxHandler` reads the line into the line buffer (state `u`) and hands it to the
block that looks for the end of a line. -/
theorem ESP.RxHandler_line (s : ESP) (rec : List Nat) (hidle : s.idle) (hq : s.rx_has rec)
    (hlen : 3 ≤ rec.length) (hfit : rec.length < ESP8266_RX_BUFF_LEN)
    (h1 : rec.getD 0 0 ≠ '+'.toNat) (h2 : rec.getD 0 0 ≠ '>'.toNat)
    (hterm : ∀ m, m < rec.length → 2 ≤ m →
      ¬(rec.getD (m - 1) 0 = '\n'.toNat ∧ rec.getD (m - 2) 0 = '\r'.toNat)) :
    ∃ u : ESP, s.line_frame u ∧ u.IO_.RxBuffCounter = rec.length ∧
      (∀ i, i ≤ rec.length → u.IO_.RxBuffer i = rec.getD i 0) ∧
      u.ESP1_HUART.pRxBuffPtr.count = 0 ∧
      s.RxHandler =
        if (u.RxHandler_line3 0).2.2 then (u.RxHandler_line3 0).1
        else ESP.RxHandler_cmd 1 (u.RxHandler_line3 0).1 (u.RxHandler_line3 0).2.1 := by
  have hsem := hidle.2.2.2.2.1
  have h0 : s.holds [] := ⟨hidle.1, fun i hi => absurd hi (by simp)⟩
  have hne : rec ≠ [] := by
    intro h
    rw [h] at hlen
    simp at hlen
  have hsplit : rec = rec.dropLast ++ [rec.getLast hne] := (List.dropLast_append_getLast hne).symm
  have hdl : rec.dropLast.length = rec.length - 1 := List.length_dropLast rec
  have hq' : s.rx_has (rec.dropLast ++ [rec.getLast hne]) := by
    rw [← hsplit]
    exact hq
  obtain ⟨u0, a1, a2, a3, a4⟩ := ESP.RxHandler_cmd_open rec.dropLast 2 s 0 [] [rec.getLast hne]
    hq' h0 (by simp; omega) hsem (by
      intro m hm1 hm2
      simp only [List.nil_append, List.length_nil] at hm1 hm2 ⊢
      rw [hdl] at hm2
      have ht : rec.dropLast.take m = rec.take m := by
        rw [List.dropLast_eq_take, List.take_take, Nat.min_eq_left (by omega)]
      rw [ht]
      have hl : (rec.take m).length = m := by
        rw [List.length_take]
        omega
      refine ⟨?_, ?_, Or.inl ?_⟩
      · intro hm
        rw [hl, getD_take _ _ _ (by omega), getD_take _ _ _ (by omega)]
        exact hterm m (by omega) (by omega)
      · rw [getD_take _ _ _ (by omega)]
        exact fun h => h2 h.1
      · rw [getD_take _ _ _ (by omega)]
        exact fun h => h1 h.1)
  simp only [List.nil_append] at a2
  have hroom : rec.dropLast.length + 1 < ESP8266_RX_BUFF_LEN := by
    rw [hdl]
    omega
  obtain ⟨d1, d2, d3⟩ := u0.next_holds _ _ [] a3 a2 hroom
  rw [← hsplit] at d2
  rw [hdl, show rec.length - 1 + 1 = rec.length by omega] at d1 d2
  have hf := ESP.line_frame_trans a4 u0.line_frame_next
  refine ⟨u0.RxHandler_next, hf, d1, d2, u0.RxHandler_next.rx_has_count [] d3, ?_⟩
  have p : u0.RxHandler_next.RxHandler_parse 0 = u0.RxHandler_next.RxHandler_line3 0 := by
    apply ESP.RxHandler_parse_line3
    · rw [d1]
      exact hlen
    · rw [d2 0 (by omega)]
      exact h1
    · rw [d2 0 (by omega)]
      exact h2
  rw [s.RxHandler_idle hidle, s.rx_fuel_eq _ hq,
    show rec.length + 1 = 2 + rec.dropLast.length by rw [hdl]; omega, a1,
    u0.RxHandler_cmd_next 1 0 _ [] a3 (by rw [a2.1]; exact hroom), p]

/-! ## The record `OK` -/

theorem ESP.RxHandler_response_OK (u : ESP) (nm : Nat) (b0 : u.IO_.RxBuffer 0 = 79)
    (hline : u.rxLine = cs "OK\r\n") :
    u.RxHandler_response nm = (u.StoreCommand .OK, nm) := by
  unfold ESP.RxHandler_response
  rw [b0, hline]
  simp only [cs]
  rfl

/-- The line buffer holds `OK\r\n`: the event `OK` is stored and the buffer is
made empty; the loop goes on. -/
theorem ESP.RxHandler_parse_OK (u : ESP) (nm : Nat) (hsem : u.NewCommandSemaphore = false)
    (hc : u.IO_.RxBuffCounter = 4)
    (hb : ∀ i, i ≤ 4 → u.IO_.RxBuffer i = [79, 75, 13, 10].getD i 0)
    (hline : u.rxLine = cs "OK\r\n") :
    u.RxHandler_parse nm = ((u.StoreCommand .OK).resetCounter, nm, false) := by
  have b0 : u.IO_.RxBuffer 0 = 79 := hb 0 (by omega)
  have b1 : u.IO_.RxBuffer 1 = 75 := hb 1 (by omega)
  have b2 : u.IO_.RxBuffer 2 = 13 := hb 2 (by omega)
  have b3 : u.IO_.RxBuffer 3 = 10 := hb 3 (by omega)
  have e := u.RxHandler_ipd_inert (Or.inl (fun h => absurd (b0.symm.trans h.1) (by decide)))
  have he : ¬ u.echo_received := by
    intro h
    have := h.2.2
    rw [hc, b1] at this
    exact absurd this (by decide)
  have hl : u.line_received := by
    unfold ESP.line_received io.RxBuffer_at
    rw [hc]
    exact ⟨b3, b2⟩
  have p : u.RxHandler_parse nm = u.RxHandler_record nm := by
    unfold ESP.RxHandler_parse
    rw [e]
  rw [p]
  unfold ESP.RxHandler_record
  rw [if_neg (fun h => absurd (b0.symm.trans h.1) (by decide)), if_pos (by omega)]
  unfold ESP.RxHandler_line3
  rw [if_neg (fun h => he h.1), if_neg he]
  unfold ESP.RxHandler_after_echo
  rw [if_neg (by simp [hsem]), if_pos hl, if_neg (by rw [hc]; decide),
    u.RxHandler_response_OK nm b0 hline]

/-- An idle recognizer whose receive queue holds `OK\r\n`: `RxHandler` stores
the event `OK` once and leaves the line buffer and the queue empty. -/
theorem ESP.RxHandler_OK (s : ESP) (hidle : s.idle) (hq : s.rx_has (cs "OK\r\n")) :
    ∃ u : ESP, s.line_frame u ∧ u.ESP1_HUART.pRxBuffPtr.count = 0 ∧
      s.RxHandler = (u.StoreCommand .OK).resetCounter := by
  have hsem := hidle.2.2.2.2.1
  have h0 : s.holds [] := ⟨hidle.1, fun i hi => absurd hi (by simp)⟩
  have hL : ESP8266_RX_BUFF_LEN = 100 := rfl
  have hq' : s.rx_has (79 :: [75, 13, 10]) := hq
  obtain ⟨a1, a2, a3, a4⟩ := ESP.RxHandler_cmd_inert 4 s 0 [] 79 _ hq' h0
    (by rw [hL]; decide) hsem (by decide) (by decide) (Or.inl (by decide))
  have s1 := (ESP.line_frame_fields a4).1.trans hsem
  obtain ⟨b1, b2, b3, b4⟩ := ESP.RxHandler_cmd_inert 3 s.RxHandler_next 0 _ 75 _ a3 a2
    (by rw [hL]; decide) s1 (by decide) (by decide) (Or.inl (by decide))
  have s2 := (ESP.line_frame_fields b4).1.trans s1
  obtain ⟨c1, c2, c3, c4⟩ := ESP.RxHandler_cmd_inert 2 s.RxHandler_next.RxHandler_next 0 _ 13 _
    b3 b2 (by rw [hL]; decide) s2 (by decide) (by decide) (Or.inl (by decide))
  have s3 := (ESP.line_frame_fields c4).1.trans s2
  have f3 := ESP.line_frame_trans (ESP.line_frame_trans a4 b4) c4
  generalize s.RxHandler_next.RxHandler_next.RxHandler_next = t at c1 c2 c3 c4 s3 f3
  obtain ⟨d1, d2, d3⟩ := t.next_holds _ 10 [] c3 c2 (by rw [hL]; decide)
  have dl := t.next_rxLine _ 10 [] c3 c2 (by rw [hL]; decide) (by decide)
  have f4 := ESP.line_frame_trans f3 t.line_frame_next
  have s4 := (ESP.line_frame_fields t.line_frame_next).1.trans s3
  have p := t.RxHandler_next.RxHandler_parse_OK 0 s4 d1 d2 dl
  have hz : t.RxHandler_next.ESP1_HUART.pRxBuffPtr.count = 0 := t.RxHandler_next.rx_has_count [] d3
  refine ⟨t.RxHandler_next, f4, hz, ?_⟩
  rw [s.RxHandler_idle hidle, s.rx_fuel_eq _ hq]
  show ESP.RxHandler_cmd (4 + 1) s 0 = _
  rw [a1, b1, c1, t.RxHandler_cmd_next 1 0 10 [] c3 (by rw [c2.1, hL]; decide), p]
  show ESP.RxHandler_cmd 1 _ 0 = _
  exact ESP.RxHandler_cmd_nil _ _ _ hz

/-- Polls with an empty receive queue, of a recognizer that is in no special
mode, change nothing but `NewCommandSemaphore`. -/
theorem ESP.polls_quiet (handled : List Bool) (t : ESP)
    (hq : t.ESP1_HUART.pRxBuffPtr.count = 0)
    (h1 : t.IO_.ReceiveError = false) (h2 : t.IO_.DoEmptyRxStream = false)
    (h3 : t.IO_.RxIgnoreCounter = 0) (h4 : t.IO_.ReceivingDataStream = false) :
    (t.polls handled).IO_.ReceivedCommand = t.IO_.ReceivedCommand ∧
    (t.polls handled).StoreCommand_calls = t.StoreCommand_calls := by
  induction handled generalizing t with
  | nil => exact ⟨rfl, rfl⟩
  | cons b bs ih =>
    have e : t.poll b = if b then { t with NewCommandSemaphore := false } else t := by
      unfold ESP.poll
      cases b
      · exact t.RxHandler_quiet hq h1 h2 h3 h4
      · exact ESP.RxHandler_quiet _ hq h1 h2 h3 h4
    show ((t.poll b).polls bs).IO_.ReceivedCommand = _ ∧ ((t.poll b).polls bs).StoreCommand_calls = _
    rw [e]
    cases b
    · exact ih t hq h1 h2 h3 h4
    · exact ih _ hq h1 h2 h3 h4

/-- C7. An idle recognizer whose receive queue holds exactly `OK\r\n`: one
`RxHandler` run stores the event `OK` (once) and leaves the line buffer empty;
`isCommandReceived(OK)` then consumes the event, and after any number of
further polls with nothing more received `isCommandReceived(OK)` returns false
and no further event has been stored. -/
theorem C7_OK_record_gives_one_event (s : ESP) (handled : List Bool) (hidle : s.idle)
    (hq : s.rx_has (cs "OK\r\n")) :
    s.RxHandler.IO_.ReceivedCommand = .OK ∧ s.RxHandler.IO_.RxBuffCounter = 0 ∧
    s.RxHandler.StoreCommand_calls = s.StoreCommand_calls + 1 ∧
    s.RxHandler.ESP1_HUART.pRxBuffPtr.count = 0 ∧
    (s.RxHandler.isCommandReceived .OK).1 = true ∧
    (((s.RxHandler.isCommandReceived .OK).2.polls handled).isCommandReceived .OK).1 = false ∧
    ((s.RxHandler.isCommandReceived .OK).2.polls handled).StoreCommand_calls =
      s.StoreCommand_calls + 1 := by
  obtain ⟨u, hf, hz, e⟩ := s.RxHandler_OK hidle hq
  obtain ⟨-, f2, -, -, -, -, f7, f8, f9, f10, -, -⟩ := ESP.line_frame_fields hf
  obtain ⟨-, i2, i3, -, -, i6, i7, -⟩ := hidle
  rw [e]
  have c : ((u.StoreCommand .OK).resetCounter.isCommandReceived .OK) =
      (true, { (u.StoreCommand .OK).resetCounter with IO_ :=
        { (u.StoreCommand .OK).resetCounter.IO_ with ReceivedCommand := .NO_COMMAND_RECEIVED } }) :=
    rfl
  rw [c]
  obtain ⟨p1, p2⟩ := ESP.polls_quiet handled
    { (u.StoreCommand .OK).resetCounter with IO_ :=
      { (u.StoreCommand .OK).resetCounter.IO_ with ReceivedCommand := .NO_COMMAND_RECEIVED } }
    hz (f9.trans i6) (f10.trans i7) (f8.trans i3) (f7.trans i2)
  refine ⟨rfl, rfl, ?_, hz, rfl, ?_, ?_⟩
  · show u.StoreCommand_calls + 1 = _
    rw [f2]
  · unfold ESP.isCommandReceived
    rw [if_neg]
    rw [p1]
    exact show eAT.OK ≠ eAT.NO_COMMAND_RECEIVED by decide
  · rw [p2]
    show u.StoreCommand_calls + 1 = _
    rw [f2]

theorem circular_buffer.holding_inv (bytes : List Nat) (h : bytes.length < ESP8266_CB_RX_SIZE) :
    cb_inv (circular_buffer.holding bytes) 0 := by
  have hC : ESP8266_CB_RX_SIZE = 200 := rfl
  refine ⟨by simp [circular_buffer.holding], by simp [circular_buffer.holding, hC, SIZE_MOD],
    by simp [circular_buffer.holding]; omega, Or.inl (by simp [circular_buffer.holding, hC]), ?_, ?_⟩
  · simp [circular_buffer.holding, cb_addr]
  · simp only [circular_buffer.holding, cb_addr, Nat.zero_add, Nat.mul_one]
    rw [Nat.mod_eq_of_lt h]

theorem C7_OK_record_gives_one_event_witness :
    (ESP.demo.withRx (cs "OK\r\n")).idle ∧ (ESP.demo.withRx (cs "OK\r\n")).rx_has (cs "OK\r\n") ∧
    (ESP.demo.withRx (cs "OK\r\n")).RxHandler.IO_.ReceivedCommand = .OK ∧
    (ESP.demo.withRx (cs "OK\r\n")).RxHandler.IO_.RxBuffCounter = 0 ∧
    (ESP.demo.withRx (cs "OK\r\n")).RxHandler.StoreCommand_calls =
      (ESP.demo.withRx (cs "OK\r\n")).StoreCommand_calls + 1 ∧
    (ESP.demo.withRx (cs "OK\r\n")).RxHandler.ESP1_HUART.pRxBuffPtr.count = 0 ∧
    ((ESP.demo.withRx (cs "OK\r\n")).RxHandler.isCommandReceived .OK).1 = true ∧
    ((((ESP.demo.withRx (cs "OK\r\n")).RxHandler.isCommandReceived .OK).2.polls
      [true, false, true]).isCommandReceived .OK).1 = false ∧
    (((ESP.demo.withRx (cs "OK\r\n")).RxHandler.isCommandReceived .OK).2.polls
      [true, false, true]).StoreCommand_calls =
      (ESP.demo.withRx (cs "OK\r\n")).StoreCommand_calls + 1 :=
  ⟨by unfold ESP.idle; decide, ⟨rfl, rfl, ⟨0, circular_buffer.holding_inv _ (by decide)⟩, by decide⟩,
   C7_OK_record_gives_one_event (ESP.demo.withRx (cs "OK\r\n")) [true, false, true]
     (by unfold ESP.idle; decide)
     ⟨rfl, rfl, ⟨0, circular_buffer.holding_inv _ (by decide)⟩, by decide⟩⟩

/-! ## Literal records -/

/-- The C string in a line buffer that holds the bytes `l`, none of them NUL,
and a NUL after them. -/
theorem ESP.rxLine_eq (u : ESP) (l : List Nat) (hfit : l.length < ESP8266_RX_BUFF_LEN)
    (hb : ∀ i, i ≤ l.length → u.IO_.RxBuffer i = l.getD i 0) (hnz : ∀ c ∈ l, c ≠ 0) :
    u.rxLine = l := by
  unfold ESP.rxLine
  apply cstr_upto_eq
  · intro i hi
    rw [Nat.zero_add]
    exact hb i (by omega)
  · rw [Nat.zero_add, hb _ (Nat.le_refl _), List.getD_eq_getElem?_getD,
      List.getElem?_eq_none (Nat.le_refl _)]
    rfl
  · exact hnz
  · exact hfit

/-- An idle recognizer whose queue holds exactly the line `R`, for which the
response switch stores the event `ev`: `RxHandler` stores `ev`, once, and
leaves the line buffer and the queue empty. -/
theorem ESP.RxHandler_literal (s : ESP) (R : List Nat) (ev : eAT) (hidle : s.idle)
    (hq : s.rx_has R) (hlen : 3 ≤ R.length) (hfit : R.length < ESP8266_RX_BUFF_LEN)
    (h1 : R.getD 0 0 ≠ '+'.toNat) (h2 : R.getD 0 0 ≠ '>'.toNat)
    (hterm : ∀ m, m < R.length → 2 ≤ m →
      ¬(R.getD (m - 1) 0 = '\n'.toNat ∧ R.getD (m - 2) 0 = '\r'.toNat))
    (hnz : ∀ c ∈ R, c ≠ 0)
    (hend1 : R.getD (R.length - 1) 0 = '\n'.toNat) (hend2 : R.getD (R.length - 2) 0 = '\r'.toNat)
    (hend3 : R.getD (R.length - 3) 0 ≠ '\r'.toNat)
    (hresp : ∀ (u : ESP) (nm : Nat), u.IO_.RxBuffer 0 = R.getD 0 0 → u.rxLine = R →
      u.RxHandler_response nm = (u.StoreCommand ev, nm)) :
    s.RxHandler.IO_.ReceivedCommand = ev ∧
    s.RxHandler.StoreCommand_calls = s.StoreCommand_calls + 1 ∧
    s.RxHandler.IO_.RxBuffCounter = 0 ∧ s.RxHandler.NewCommandSemaphore = true ∧
    s.RxHandler.ESP1_HUART.pRxBuffPtr.count = 0 := by
  obtain ⟨u, hf, hc, hb, hz, e⟩ := s.RxHandler_line R hidle hq hlen hfit h1 h2 hterm
  have hsem := (ESP.line_frame_fields hf).1.trans hidle.2.2.2.2.1
  have hcalls := (ESP.line_frame_fields hf).2.1
  have hline := u.rxLine_eq R hfit hb hnz
  have l3 := u.RxHandler_line3_response 0 hsem (by rw [hc]; exact hlen)
    (by rw [hc, hb _ (by omega)]; exact hend1) (by rw [hc, hb _ (by omega)]; exact hend2)
    (by rw [hc, hb _ (by omega)]; exact hend3)
  rw [hresp u 0 (hb 0 (by omega)) hline] at l3
  rw [l3] at e
  have e' : s.RxHandler = (u.StoreCommand ev).resetCounter := by
    rw [e]
    exact ESP.RxHandler_cmd_nil _ _ _ hz
  rw [e']
  refine ⟨rfl, ?_, rfl, rfl, hz⟩
  show u.StoreCommand_calls + 1 = _
  rw [hcalls]

/-- C15. Each of the literal records OK, ready, FAIL, ERROR, busy, busy p...,
busy s..., SEND OK, no change, no ip, Linked and wdt reset, with its `\r\n`, fed
alone to an idle recognizer: one `RxHandler` run stores the event of the record
(OK, READY, FAIL, AT_ERROR, BUSY, BUSY_P, BUSY_S, SEND_OK, NOCHANGE, NOIP,
LINKED, WDT_RESET), with one call of `StoreCommand`, and leaves the line buffer
and the queue empty. -/
theorem C15_literal_records (s : ESP) (r : List Nat × eAT) (hr : r ∈ literal_records)
    (hidle : s.idle) (hq : s.rx_has r.1) :
    s.RxHandler.IO_.ReceivedCommand = r.2 ∧
    s.RxHandler.StoreCommand_calls = s.StoreCommand_calls + 1 ∧
    s.RxHandler.IO_.RxBuffCounter = 0 ∧ s.RxHandler.NewCommandSemaphore = true ∧
    s.RxHandler.ESP1_HUART.pRxBuffPtr.count = 0 := by
  have hL : ESP8266_RX_BUFF_LEN = 100 := rfl
  simp only [literal_records, List.mem_cons, List.mem_singleton, List.not_mem_nil,
    or_false] at hr
  rcases hr with rfl | rfl | rfl | rfl | rfl | rfl | rfl | rfl | rfl | rfl | rfl | rfl
  all_goals
    exact ESP.RxHandler_literal s _ _ hidle hq (by decide) (by rw [hL]; decide) (by decide)
      (by decide) (by decide) (by decide) (by decide) (by decide) (by decide)
      (fun u nm b0 hl => by
        unfold ESP.RxHandler_response
        rw [b0, hl]
        rfl)

theorem C15_literal_records_witness :
    (cs "busy p...\r\n", eAT.BUSY_P) ∈ literal_records ∧
    (ESP.demo.withRx (cs "busy p...\r\n")).idle ∧
    (ESP.demo.withRx (cs "busy p...\r\n")).rx_has (cs "busy p...\r\n") ∧
    (ESP.demo.withRx (cs "busy p...\r\n")).RxHandler.IO_.ReceivedCommand = .BUSY_P ∧
    (ESP.demo.withRx (cs "busy p...\r\n")).RxHandler.StoreCommand_calls =
      (ESP.demo.withRx (cs "busy p...\r\n")).StoreCommand_calls + 1 ∧
    (ESP.demo.withRx (cs "busy p...\r\n")).RxHandler.IO_.RxBuffCounter = 0 ∧
    (ESP.demo.withRx (cs "busy p...\r\n")).RxHandler.NewCommandSemaphore = true ∧
    (ESP.demo.withRx (cs "busy p...\r\n")).RxHandler.ESP1_HUART.pRxBuffPtr.count = 0 :=
  ⟨by decide, by unfold ESP.idle; decide,
   ⟨rfl, rfl, ⟨0, circular_buffer.holding_inv _ (by decide)⟩, by decide⟩,
   C15_literal_records (ESP.demo.withRx (cs "busy p...\r\n")) (cs "busy p...\r\n", eAT.BUSY_P)
     (by decide) (by unfold ESP.idle; decide)
     ⟨rfl, rfl, ⟨0, circular_buffer.holding_inv _ (by decide)⟩, by decide⟩⟩

/-! ## sscanf on the `+IPD` header -/

theorem scan_digits_append (ds : List Nat) (hd : ∀ c ∈ ds, isdigit c = true) (rest : List Nat)
    (hr : ∀ c, rest.head? = some c → isdigit c = false) (acc : Nat) :
    scan_digits (ds ++ rest) acc = ((scan_digits ds acc).1, rest) := by
  induction ds generalizing acc with
  | nil =>
    cases rest with
    | nil => rfl
    | cons c r =>
      show scan_digits (c :: r) acc = _
      unfold scan_digits
      rw [if_neg (by rw [hr c rfl]; simp)]
  | cons d ds ih =>
    show scan_digits (d :: (ds ++ rest)) acc = ((scan_digits (d :: ds) acc).1, rest)
    unfold scan_digits
    rw [if_pos (hd d (by simp)), if_pos (hd d (by simp))]
    exact ih (fun c hc => hd c (by simp [hc])) _

theorem isdigit_not_space (c : Nat) (h : isdigit c = true) : isspace c = false := by
  unfold isdigit at h
  unfold isspace
  simp at h ⊢
  omega

/-- `%u` on an input that starts with the digits `ds`. -/
theorem scan_conv_u_digits (d : Nat) (ds : List Nat) (hd : ∀ c ∈ d :: ds, isdigit c = true)
    (rest : List Nat) (hr : ∀ c, rest.head? = some c → isdigit c = false) :
    scan_conv none .u (d :: ds ++ rest) =
      .ok (.num (strtoul_val false (scan_digits (d :: ds) 0).1)) rest := by
  have h1 : isdigit d = true := hd d (by simp)
  have h2 : isspace d = false := isdigit_not_space d h1
  have h3 : ¬(d = '-'.toNat ∨ d = '+'.toNat) := by
    unfold isdigit at h1
    simp at h1
    intro h
    rcases h with h | h <;> rw [h] at h1 <;> revert h1 <;> decide
  have h4 : skipSpace (d :: ds ++ rest) = d :: (ds ++ rest) := by
    show skipSpace (d :: (ds ++ rest)) = _
    unfold skipSpace
    rw [if_neg (by rw [h2]; simp)]
  have h5 := scan_digits_append (d :: ds) hd rest hr 0
  show scan_int .u (d :: ds ++ rest) = _
  unfold scan_int
  rw [h4]
  simp only [h3, if_false, h1, if_true]
  have h6 : d ≠ 45 := fun h => h3 (Or.inl h)
  rw [show d :: (ds ++ rest) = (d :: ds) ++ rest from rfl, h5]
  simp [h6]

theorem IPD_format_directives :
    scan_format (cs IPD_format).length (cs IPD_format) = IPD_directives := by
  rfl

theorem sscanf_ipd_start (X : List Nat) :
    sscanf ([43, 73, 80, 68, 44] ++ X) IPD_format =
      scan_exec [.conv false none .u, .lit 44, .conv false none .u, .conv false (some 1) .s] X [] := by
  unfold sscanf
  rw [IPD_format_directives]
  rfl

theorem sscanf_ipd_header (d : Nat) (ds : List Nat) (e : Nat) (es : List Nat)
    (hd : ∀ c ∈ d :: ds, isdigit c = true) (he : ∀ c ∈ e :: es, isdigit c = true) :
    sscanf ([43, 73, 80, 68, 44] ++ (d :: ds) ++ [44] ++ (e :: es) ++ [58]) IPD_format =
      (3, [.num (strtoul_val false (scan_digits (d :: ds) 0).1),
           .num (strtoul_val false (scan_digits (e :: es) 0).1), .str [58]]) := by
  have a := scan_conv_u_digits d ds hd ([44] ++ (e :: es) ++ [58]) (by simp [isdigit])
  have b := scan_conv_u_digits e es he [58] (by simp [isdigit])
  rw [show [43, 73, 80, 68, 44] ++ (d :: ds) ++ [44] ++ (e :: es) ++ [58] =
    [43, 73, 80, 68, 44] ++ (d :: ds ++ ([44] ++ (e :: es) ++ [58])) by simp, sscanf_ipd_start]
  unfold scan_exec
  rw [a]
  simp only
  show scan_exec _ (e :: es ++ [58]) _ = _
  unfold scan_exec
  rw [b]
  rfl

theorem sscanf_ipd_short (P : List Nat)
    (h : P = [43] ∨ P = [43, 73] ∨ P = [43, 73, 80] ∨ P = [43, 73, 80, 68] ∨
      P = [43, 73, 80, 68, 44]) :
    3 ≠ scan_res (sscanf P IPD_format) ∧ (sscanf P IPD_format).2.length ≤ 2 := by
  unfold sscanf
  rw [IPD_format_directives]
  rcases h with h | h | h | h | h <;> rw [h] <;> exact ⟨by decide, by decide⟩

theorem sscanf_ipd_id (d : Nat) (ds : List Nat) (hd : ∀ c ∈ d :: ds, isdigit c = true) :
    sscanf ([43, 73, 80, 68, 44] ++ (d :: ds)) IPD_format =
      (1, [.num (strtoul_val false (scan_digits (d :: ds) 0).1)]) := by
  have a := scan_conv_u_digits d ds hd [] (by simp)
  rw [List.append_nil] at a
  rw [sscanf_ipd_start]
  unfold scan_exec
  rw [a]
  rfl

theorem sscanf_ipd_comma (d : Nat) (ds : List Nat) (hd : ∀ c ∈ d :: ds, isdigit c = true) :
    sscanf ([43, 73, 80, 68, 44] ++ (d :: ds) ++ [44]) IPD_format =
      (1, [.num (strtoul_val false (scan_digits (d :: ds) 0).1)]) := by
  have a := scan_conv_u_digits d ds hd [44] (by simp [isdigit])
  rw [List.append_assoc, sscanf_ipd_start]
  unfold scan_exec
  rw [a]
  rfl

theorem sscanf_ipd_len (d : Nat) (ds : List Nat) (e : Nat) (es : List Nat)
    (hd : ∀ c ∈ d :: ds, isdigit c = true) (he : ∀ c ∈ e :: es, isdigit c = true) :
    sscanf ([43, 73, 80, 68, 44] ++ (d :: ds) ++ [44] ++ (e :: es)) IPD_format =
      (2, [.num (strtoul_val false (scan_digits (d :: ds) 0).1),
           .num (strtoul_val false (scan_digits (e :: es) 0).1)]) := by
  have a := scan_conv_u_digits d ds hd ([44] ++ (e :: es)) (by simp [isdigit])
  have b := scan_conv_u_digits e es he [] (by simp)
  rw [List.append_nil] at b
  rw [show [43, 73, 80, 68, 44] ++ (d :: ds) ++ [44] ++ (e :: es) =
    [43, 73, 80, 68, 44] ++ (d :: ds ++ ([44] ++ (e :: es))) by simp, sscanf_ipd_start]
  unfold scan_exec
  rw [a]
  simp only
  show scan_exec _ (e :: es) _ = _
  unfold scan_exec
  rw [b]
  rfl

/-! ### The decimal representation -/

theorem decimal_aux_acc (f : Nat) : ∀ (n : Nat) (acc : List Nat),
    decimal_aux f n acc = decimal_aux f n [] ++ acc := by
  induction f with
  | zero => intro n acc; rfl
  | succ f ih =>
    intro n acc
    unfold decimal_aux
    by_cases h : n < 10
    · rw [if_pos h, if_pos h]
      rfl
    · rw [if_neg h, if_neg h, ih _ (_ :: acc), ih _ [_], List.append_assoc]
      rfl

theorem decimal_aux_succ (f n : Nat) :
    decimal_aux (f + 1) n [] =
      if n < 10 then [n + 48] else decimal_aux f (n / 10) [] ++ [n % 10 + 48] := by
  show (if n < 10 then _ else decimal_aux f (n / 10) _) = _
  rw [decimal_aux_acc f (n / 10) [_]]
  rfl

theorem isdigit_of_lt (n : Nat) (h : n < 10) : isdigit (n + 48) = true := by
  unfold isdigit
  simp
  omega

theorem decimal_aux_digits (f : Nat) : ∀ (n : Nat), ∀ c ∈ decimal_aux f n [], isdigit c = true := by
  induction f with
  | zero => intro n c hc; simp [decimal_aux] at hc
  | succ f ih =>
    intro n c hc
    rw [decimal_aux_succ] at hc
    by_cases h : n < 10
    · rw [if_pos h] at hc
      rw [List.mem_singleton.mp hc]
      exact isdigit_of_lt n h
    · rw [if_neg h] at hc
      rcases List.mem_append.mp hc with h1 | h1
      · exact ih _ c h1
      · rw [List.mem_singleton.mp h1]
        exact isdigit_of_lt _ (Nat.mod_lt _ (by decide))

theorem scan_digits_cons (x : Nat) (xs : List Nat) (a : Nat) (h : isdigit x = true) :
    scan_digits (x :: xs) a = scan_digits xs (a * 10 + (x - 48)) := by
  simp [scan_digits, h]

theorem scan_digits_digits (xs : List Nat) (hx : ∀ c ∈ xs, isdigit c = true) (ys : List Nat)
    (a : Nat) : scan_digits (xs ++ ys) a = scan_digits ys (scan_digits xs a).1 := by
  induction xs generalizing a with
  | nil => rfl
  | cons x xs ih =>
    show scan_digits (x :: (xs ++ ys)) a = scan_digits ys (scan_digits (x :: xs) a).1
    rw [scan_digits_cons _ _ _ (hx x (by simp)), scan_digits_cons _ _ _ (hx x (by simp))]
    exact ih (fun c hc => hx c (by simp [hc])) _

theorem decimal_aux_value (f : Nat) : ∀ (n : Nat), n < 10 ^ f →
    (scan_digits (decimal_aux f n []) 0).1 = n := by
  induction f with
  | zero =>
    intro n hn
    have : n = 0 := by simpa using hn
    rw [this]
    rfl
  | succ f ih =>
    intro n hn
    rw [decimal_aux_succ]
    by_cases h : n < 10
    · rw [if_pos h, scan_digits_cons _ _ _ (isdigit_of_lt n h)]
      show 0 * 10 + (n + 48 - 48) = n
      omega
    · rw [if_neg h, scan_digits_digits _ (decimal_aux_digits f _)]
      have h1 : n / 10 < 10 ^ f := by
        rw [Nat.div_lt_iff_lt_mul (by decide)]
        rw [Nat.pow_succ] at hn
        exact hn
      rw [ih _ h1, scan_digits_cons _ _ _ (isdigit_of_lt _ (Nat.mod_lt _ (by decide)))]
      show n / 10 * 10 + (n % 10 + 48 - 48) = n
      omega

theorem decimal_aux_length (f : Nat) : ∀ (n k : Nat), n < 10 ^ k → 1 ≤ k →
    (decimal_aux f n []).length ≤ k := by
  induction f with
  | zero => intro n k _ _; simp [decimal_aux]
  | succ f ih =>
    intro n k hn hk
    rw [decimal_aux_succ]
    by_cases h : n < 10
    · rw [if_pos h]
      simpa using hk
    · rw [if_neg h]
      obtain ⟨j, rfl⟩ : ∃ j, k = j + 1 := ⟨k - 1, by omega⟩
      have hj : 1 ≤ j := by
        rcases Nat.eq_zero_or_pos j with h0 | h0
        · rw [h0] at hn
          simp at hn
          omega
        · exact h0
      have h1 : n / 10 < 10 ^ j := by
        rw [Nat.div_lt_iff_lt_mul (by decide)]
        rw [Nat.pow_succ] at hn
        exact hn
      have := ih _ j h1 hj
      simp
      omega

/-- The decimal representation of `n`: a nonempty string of digits, at most
five for a 16 bit number, that `%u` reads back as `n`. -/
theorem decimal_spec (n : Nat) :
    (∃ d ds, decimal n = d :: ds) ∧ (∀ c ∈ decimal n, isdigit c = true) ∧
    (scan_digits (decimal n) 0).1 = n ∧ (n < U16_MOD → (decimal n).length ≤ 5) := by
  unfold decimal
  refine ⟨?_, decimal_aux_digits _ n, decimal_aux_value _ n ?_, fun h => ?_⟩
  · rw [decimal_aux_succ]
    by_cases h : n < 10
    · rw [if_pos h]
      exact ⟨_, _, rfl⟩
    · rw [if_neg h]
      cases decimal_aux n (n / 10) [] with
      | nil => exact ⟨_, _, rfl⟩
      | cons x xs => exact ⟨_, _, rfl⟩
  · calc n < 10 ^ n := Nat.lt_pow_self (by decide) n
      _ ≤ 10 ^ (n + 1) := Nat.pow_le_pow_right (by decide) (by omega)
  · exact decimal_aux_length _ n 5 (by simp only [U16_MOD] at h; omega) (by decide)

theorem decimal_small (n : Nat) (h : n < 10) : decimal n = [n + 48] := by
  unfold decimal
  rw [decimal_aux_succ, if_pos h]

/-! ## The socket notifications `<id>,CONNECT`, `<id>,CLOSED`, `<id>,CONNECT FAIL` -/

/-- The C string at address `a` of a memory that holds the bytes `l` there and
a NUL after them: the bytes of `l` before its first NUL. -/
theorem cstr_upto_takeWhile (m : Nat → Nat) (l : List Nat) :
    ∀ (n a : Nat), (∀ i, i < l.length → m (a + i) = l.getD i 0) → m (a + l.length) = 0 →
      l.length < n → cstr_upto m n a = l.takeWhile (fun c => c != 0) := by
  induction l with
  | nil =>
    intro n a _ h0 hn
    obtain ⟨k, rfl⟩ : ∃ k, n = k + 1 := ⟨n - 1, by simp at hn; omega⟩
    unfold cstr_upto
    rw [if_pos (by simpa using h0)]
    rfl
  | cons c l ih =>
    intro n a hm h0 hn
    obtain ⟨k, rfl⟩ : ∃ k, n = k + 1 := ⟨n - 1, by simp at hn; omega⟩
    have hc : m a = c := by simpa using hm 0 (by simp)
    unfold cstr_upto
    rw [hc]
    by_cases hz : c = 0
    · rw [if_pos hz, List.takeWhile_cons_of_neg (by simp [hz])]
    · rw [if_neg hz, List.takeWhile_cons_of_pos (by simp [hz])]
      congr 1
      apply ih k (a + 1)
      · intro i hi
        have := hm (i + 1) (by simpa using hi)
        rw [show a + 1 + i = a + (i + 1) by omega, this]
        simp
      · rw [show a + 1 + l.length = a + (c :: l).length by simp; omega]
        exact h0
      · simp at hn
        omega

/-- The response switch on a line that begins with a digit `0`..`4`; `t` is the
C string after the digit. -/
theorem ESP.RxHandler_response_digit (u : ESP) (nm d : Nat) (hd : d ≤ 4)
    (b0 : u.IO_.RxBuffer 0 = 48 + d) (t : List Nat)
    (ht : cstr_upto u.IO_.RxBuffer (ESP8266_RX_BUFF_LEN - 1) 1 = t) :
    u.RxHandler_response nm =
      if t = cs ",CONNECT\r\n" then ((u.StoreCommand .SOCKET_CONNECT).setParam 0 d, nm)
      else if t = cs ",CLOSED\r\n" then ((u.StoreCommand .SOCKET_CLOSED).setParam 0 d, nm)
      else if t = cs ",CONNECT FAIL\r\n" then
        ((u.StoreCommand .SOCKET_CONNECT_FAIL).setParam 0 d, nm)
      else (u, 1) := by
  unfold ESP.RxHandler_response
  rw [b0, ht]
  simp only [strcmp_eq, beq_iff_eq]
  interval_cases d <;> rfl

/-- In a record, a C string after the first byte that ends with `\r\n` is the
whole rest of the record. -/
theorem record_tail_cstr (x : Nat) (tail X : List Nat) (hrec : is_record (x :: tail))
    (hX : 2 ≤ X.length) (hX1 : X.getD (X.length - 1) 0 = '\n'.toNat)
    (hX2 : X.getD (X.length - 2) 0 = '\r'.toNat)
    (h : tail.takeWhile (fun c => c != 0) = X) : tail = X := by
  have hs : tail = X ++ tail.dropWhile (fun c => c != 0) := by
    rw [← h]
    exact (List.takeWhile_append_dropWhile _ _).symm
  rcases hd : tail.dropWhile (fun c => c != 0) with _ | ⟨y, ys⟩
  · rw [hd, List.append_nil] at hs
    exact hs
  · exfalso
    rw [hd] at hs
    obtain ⟨-, -, -, hterm⟩ := hrec
    have hl : (x :: tail).length = X.length + ys.length + 2 := by
      rw [hs]
      simp
      omega
    have g : ∀ i, i < X.length → (x :: tail).getD (i + 1) 0 = X.getD i 0 := by
      intro i hi
      rw [hs, List.getD_cons_succ, List.getD_append _ _ _ _ hi]
    apply hterm (X.length + 1) (by omega) (by omega)
    have e1 := g (X.length - 1) (by omega)
    have e2 := g (X.length - 2) (by omega)
    rw [show X.length - 1 + 1 = X.length + 1 - 1 by omega] at e1
    rw [show X.length - 2 + 1 = X.length + 1 - 2 by omega] at e2
    rw [e1, e2]
    exact ⟨hX1, hX2⟩

theorem socket_records_cstr (x : Nat) (tail X : List Nat) (hrec : is_record (x :: tail))
    (hX : X = cs ",CONNECT\r\n" ∨ X = cs ",CLOSED\r\n" ∨ X = cs ",CONNECT FAIL\r\n") :
    tail.takeWhile (fun c => c != 0) = X ↔ tail = X := by
  constructor
  · intro h
    rcases hX with rfl | rfl | rfl
    all_goals exact record_tail_cstr x tail _ hrec (by decide) (by decide) (by decide) h
  · intro h
    rw [h]
    rcases hX with rfl | rfl | rfl <;> decide

theorem getD_cons_third_last (x : Nat) (X : List Nat) (h : 3 ≤ X.length) :
    (x :: X).getD ((x :: X).length - 3) 0 = X.getD (X.length - 3) 0 := by
  rw [List.length_cons, show X.length + 1 - 3 = (X.length - 3) + 1 by omega,
    List.getD_cons_succ]

/-- A line that begins with a digit `0`..`4` and ends with `\r\r\n` stores no
event: the echo switch has no case for it, and the line buffer is made empty. -/
theorem ESP.RxHandler_line3_digit_echo (u : ESP) (d : Nat) (hd : d ≤ 4)
    (hsem : u.NewCommandSemaphore = false) (hrds : u.IO_.ReceivingDataStream = false)
    (hc : 4 ≤ u.IO_.RxBuffCounter) (b0 : u.IO_.RxBuffer 0 = 48 + d)
    (he : u.echo_received) : u.RxHandler_line3 0 = (u.resetCounter, 1, false) := by
  have e1 : u.RxHandler_echo 0 = (u, 1) := by
    unfold ESP.RxHandler_echo
    rw [if_neg (by rw [b0]; show ¬ 48 + d = 65; omega)]
  have hl : ¬ u.resetCounter.line_received := by
    intro h
    have h1 := h.1
    have : u.resetCounter.IO_.RxBuffer_at (((u.resetCounter.IO_.RxBuffCounter : Nat) : Int) - 1) =
        if u.IO_.ReceivingDataStream then 1 else 0 := rfl
    rw [this, hrds] at h1
    exact absurd h1 (by decide)
  unfold ESP.RxHandler_line3
  rw [if_neg (fun h => by omega), if_pos he, e1]
  unfold ESP.RxHandler_after_echo
  rw [if_neg (by show ¬ u.NewCommandSemaphore = true; simp [hsem]), if_neg hl]

/-- An idle recognizer whose queue holds one record that begins with a digit
`0`..`4`: the state `RxHandler` leaves, for each of the three notifications and
for every other record. -/
theorem ESP.RxHandler_socket_record (s : ESP) (d : Nat) (tail : List Nat) (hidle : s.idle)
    (hd : d ≤ 4) (hq : s.rx_has ((48 + d) :: tail)) (hrec : is_record ((48 + d) :: tail))
    (hfit : tail.length + 1 < ESP8266_RX_BUFF_LEN) :
    ∃ u : ESP, s.line_frame u ∧
      (tail = cs ",CONNECT\r\n" →
        s.RxHandler = ((u.StoreCommand .SOCKET_CONNECT).setParam 0 d).resetCounter) ∧
      (tail = cs ",CLOSED\r\n" →
        s.RxHandler = ((u.StoreCommand .SOCKET_CLOSED).setParam 0 d).resetCounter) ∧
      (tail = cs ",CONNECT FAIL\r\n" →
        s.RxHandler = ((u.StoreCommand .SOCKET_CONNECT_FAIL).setParam 0 d).resetCounter) ∧
      (tail ≠ cs ",CONNECT\r\n" → tail ≠ cs ",CLOSED\r\n" → tail ≠ cs ",CONNECT FAIL\r\n" →
        s.RxHandler = u.resetCounter) := by
  have hL : ESP8266_RX_BUFF_LEN = 100 := rfl
  obtain ⟨r1, r2, r3, r4⟩ := hrec
  have hrec : is_record ((48 + d) :: tail) := ⟨r1, r2, r3, r4⟩
  have hlc : ((48 + d) :: tail).length = tail.length + 1 := List.length_cons _ _
  have hlen : 3 ≤ ((48 + d) :: tail).length := by
    rcases Nat.lt_or_ge ((48 + d) :: tail).length 3 with h | h
    · exfalso
      have h2 : ((48 + d) :: tail).length = 2 := by omega
      rw [h2] at r3
      have : ((48 + d) :: tail).getD 0 0 = 48 + d := rfl
      rw [show 2 - 2 = 0 from rfl, this] at r3
      have : 48 + d = 13 := r3
      omega
    · exact h
  obtain ⟨u, hf, hc, hb, hz, e⟩ := s.RxHandler_line _ hidle hq hlen (by rw [hlc]; exact hfit)
    (by show 48 + d ≠ 43; omega) (by show 48 + d ≠ 62; omega) r4
  obtain ⟨f1, -, -, -, -, -, f7, -⟩ := ESP.line_frame_fields hf
  have hsem := f1.trans hidle.2.2.2.2.1
  have hrds := f7.trans hidle.2.1
  have b0 : u.IO_.RxBuffer 0 = 48 + d := hb 0 (by omega)
  refine ⟨u, hf, ?_⟩
  by_cases hecho : ((48 + d) :: tail).getD (((48 + d) :: tail).length - 3) 0 = '\r'.toNat
  · have hne : ∀ X : List Nat, 3 ≤ X.length → X.getD (X.length - 3) 0 ≠ '\r'.toNat →
        tail ≠ X := by
      intro X hX1 hX2 h
      rw [h, getD_cons_third_last _ _ hX1] at hecho
      exact hX2 hecho
    have n1 := hne (cs ",CONNECT\r\n") (by decide) (by decide)
    have n2 := hne (cs ",CLOSED\r\n") (by decide) (by decide)
    have n3 := hne (cs ",CONNECT FAIL\r\n") (by decide) (by decide)
    refine ⟨fun h => absurd h n1, fun h => absurd h n2, fun h => absurd h n3, fun _ _ _ => ?_⟩
    have he : u.echo_received :=
      ⟨by rw [hc, hb _ (by omega)]; exact r2, by rw [hc, hb _ (by omega)]; exact r3,
       by rw [hc, hb _ (by omega)]; exact hecho⟩
    have hc4 : 4 ≤ u.IO_.RxBuffCounter := by
      rw [hc]
      rcases Nat.lt_or_ge ((48 + d) :: tail).length 4 with h | h
      · exfalso
        have h3 : ((48 + d) :: tail).length = 3 := by omega
        rw [h3] at hecho
        have : 48 + d = 13 := hecho
        omega
      · exact h
    rw [u.RxHandler_line3_digit_echo d hd hsem hrds hc4 b0 he] at e
    rw [e]
    exact ESP.RxHandler_cmd_nil _ _ _ hz
  · have l3 := u.RxHandler_line3_response 0 hsem (by rw [hc]; exact hlen)
      (by rw [hc, hb _ (by omega)]; exact r2) (by rw [hc, hb _ (by omega)]; exact r3)
      (by rw [hc, hb _ (by omega)]; exact hecho)
    have ht : cstr_upto u.IO_.RxBuffer (ESP8266_RX_BUFF_LEN - 1) 1 =
        tail.takeWhile (fun c => c != 0) := by
      apply cstr_upto_takeWhile
      · intro i hi
        rw [hb _ (by rw [hlc]; omega), Nat.add_comm 1 i, List.getD_cons_succ]
      · rw [hb _ (by rw [hlc]; omega), List.getD_eq_getElem?_getD,
          List.getElem?_eq_none (by rw [hlc]; omega)]
        rfl
      · rw [hL]
        omega
    have hr := u.RxHandler_response_digit 0 d hd b0 _ ht
    simp only [socket_records_cstr _ _ _ hrec (Or.inl rfl),
      socket_records_cstr _ _ _ hrec (Or.inr (Or.inl rfl)),
      socket_records_cstr _ _ _ hrec (Or.inr (Or.inr rfl))] at hr
    refine ⟨fun h => ?_, fun h => ?_, fun h => ?_, fun h1 h2 h3 => ?_⟩
    · rw [if_pos h] at hr
      rw [hr] at l3
      rw [l3] at e
      rw [e]
      exact ESP.RxHandler_cmd_nil _ _ _ hz
    · rw [if_neg (by rw [h]; decide), if_pos h] at hr
      rw [hr] at l3
      rw [l3] at e
      rw [e]
      exact ESP.RxHandler_cmd_nil _ _ _ hz
    · rw [if_neg (by rw [h]; decide), if_neg (by rw [h]; decide), if_pos h] at hr
      rw [hr] at l3
      rw [l3] at e
      rw [e]
      exact ESP.RxHandler_cmd_nil _ _ _ hz
    · rw [if_neg h1, if_neg h2, if_neg h3] at hr
      rw [hr] at l3
      rw [l3] at e
      rw [e]
      exact ESP.RxHandler_cmd_nil _ _ _ hz

/-- C17. An idle recognizer is fed one record that begins with a digit `d` in
0..4 and fits the line buffer. If the rest of the record is `,CONNECT\r\n`,
`,CLOSED\r\n` or `,CONNECT FAIL\r\n`, one `RxHandler` run stores
`SOCKET_CONNECT`, `SOCKET_CLOSED` or `SOCKET_CONNECT_FAIL` (one call of
`StoreCommand`) with `d` as numeric parameter 0; for every other rest no event
is stored. -/
theorem C17_socket_notifications (s : ESP) (d : Nat) (tail : List Nat) (hidle : s.idle)
    (hd : d ≤ 4) (hq : s.rx_has ((48 + d) :: tail)) (hrec : is_record ((48 + d) :: tail))
    (hfit : tail.length + 1 < ESP8266_RX_BUFF_LEN) :
    (tail = cs ",CONNECT\r\n" →
      s.RxHandler.IO_.ReceivedCommand = .SOCKET_CONNECT ∧
      s.RxHandler.IO_.ReceivedParameter 0 = d ∧
      s.RxHandler.StoreCommand_calls = s.StoreCommand_calls + 1) ∧
    (tail = cs ",CLOSED\r\n" →
      s.RxHandler.IO_.ReceivedCommand = .SOCKET_CLOSED ∧
      s.RxHandler.IO_.ReceivedParameter 0 = d ∧
      s.RxHandler.StoreCommand_calls = s.StoreCommand_calls + 1) ∧
    (tail = cs ",CONNECT FAIL\r\n" →
      s.RxHandler.IO_.ReceivedCommand = .SOCKET_CONNECT_FAIL ∧
      s.RxHandler.IO_.ReceivedParameter 0 = d ∧
      s.RxHandler.StoreCommand_calls = s.StoreCommand_calls + 1) ∧
    (tail ≠ cs ",CONNECT\r\n" → tail ≠ cs ",CLOSED\r\n" → tail ≠ cs ",CONNECT FAIL\r\n" →
      s.RxHandler.IO_.ReceivedCommand = .NO_COMMAND_RECEIVED ∧
      s.RxHandler.NewCommandSemaphore = false ∧
      s.RxHandler.StoreCommand_calls = s.StoreCommand_calls) := by
  obtain ⟨u, hf, a1, a2, a3, a4⟩ := s.RxHandler_socket_record d tail hidle hd hq hrec hfit
  obtain ⟨f1, f2, f3, -⟩ := ESP.line_frame_fields hf
  have p0 : ∀ ev, (((u.StoreCommand ev).setParam 0 d).resetCounter).IO_.ReceivedParameter 0 = d :=
    fun _ => by simp [ESP.resetCounter, ESP.setParam]
  have pc : ∀ ev, (((u.StoreCommand ev).setParam 0 d).resetCounter).StoreCommand_calls =
      s.StoreCommand_calls + 1 := by
    intro ev
    show u.StoreCommand_calls + 1 = _
    rw [f2]
  refine ⟨fun h => ?_, fun h => ?_, fun h => ?_, fun h1 h2 h3 => ?_⟩
  · rw [a1 h]
    exact ⟨rfl, p0 _, pc _⟩
  · rw [a2 h]
    exact ⟨rfl, p0 _, pc _⟩
  · rw [a3 h]
    exact ⟨rfl, p0 _, pc _⟩
  · rw [a4 h1 h2 h3]
    exact ⟨f3.trans hidle.2.2.2.1, f1.trans hidle.2.2.2.2.1, f2⟩

theorem C17_socket_notifications_witness :
    (ESP.demo.withRx (cs "2,CONNECT\r\n")).idle ∧ 2 ≤ 4 ∧
    (ESP.demo.withRx (cs "2,CONNECT\r\n")).rx_has ((48 + 2) :: cs ",CONNECT\r\n") ∧
    is_record ((48 + 2) :: cs ",CONNECT\r\n") ∧
    (ESP.demo.withRx (cs "2,CONNECT\r\n")).RxHandler.IO_.ReceivedCommand = .SOCKET_CONNECT ∧
    (ESP.demo.withRx (cs "2,CONNECT\r\n")).RxHandler.IO_.ReceivedParameter 0 = 2 ∧
    (ESP.demo.withRx (cs "2,CONNECT\r\n")).RxHandler.StoreCommand_calls =
      (ESP.demo.withRx (cs "2,CONNECT\r\n")).StoreCommand_calls + 1 :=
  ⟨by unfold ESP.idle; decide, by decide,
   ⟨rfl, rfl, ⟨0, circular_buffer.holding_inv _ (by decide)⟩, by decide⟩,
   by unfold is_record; decide,
   (C17_socket_notifications (ESP.demo.withRx (cs "2,CONNECT\r\n")) 2 (cs ",CONNECT\r\n")
     (by unfold ESP.idle; decide) (by decide)
     ⟨rfl, rfl, ⟨0, circular_buffer.holding_inv _ (by decide)⟩, by decide⟩
     (by unfold is_record; decide) (by decide)).1 rfl⟩

/-! ## ESP::Process and the pending event -/

theorem ESP.Process_first_nothing (memmgr_alloc : Nat → Nat) (s : ESP) :
    s.nothing_stored (s.Process_first memmgr_alloc) := by
  unfold ESP.Process_first
  split
  · exact ⟨rfl, rfl, rfl⟩
  · exact ESP.nothing_stored_refl _

theorem ESP.Process_overflow_nothing (s : ESP) : s.nothing_stored s.Process_overflow := by
  unfold ESP.Process_overflow
  split
  · split
    · exact ⟨rfl, rfl, rfl⟩
    · exact ⟨rfl, rfl, rfl⟩
  · exact ⟨rfl, rfl, rfl⟩

theorem ESP.Process_overflow_timer_nothing (s : ESP) :
    s.nothing_stored s.Process_overflow_timer := by
  unfold ESP.Process_overflow_timer
  split
  · split
    · exact ⟨rfl, rfl, rfl⟩
    · exact ⟨rfl, rfl, rfl⟩
  · exact ESP.nothing_stored_refl _

theorem ESP.Process_state_nothing (s : ESP) : s.nothing_stored s.Process_state := by
  unfold ESP.Process_state
  split
  · exact ⟨rfl, rfl, rfl⟩
  · exact ⟨rfl, rfl, rfl⟩

theorem ESP.Process_prepare_nothing (memmgr_alloc : Nat → Nat) (s : ESP) :
    s.nothing_stored (s.Process_prepare memmgr_alloc) := by
  unfold ESP.Process_prepare
  exact ESP.nothing_stored_trans (ESP.nothing_stored_trans (ESP.nothing_stored_trans
    (s.Process_first_nothing memmgr_alloc) (ESP.Process_overflow_nothing _))
    (ESP.Process_overflow_timer_nothing _)) (ESP.Process_state_nothing _)

/-- C8, as stated, fails. The event `BUSY_P` is pending (`ESP.demo_busy`) when
the record `OK` arrives; in the next `Process` round the handler of the state
`smModuleInitialization` asks for `OK` only and does not consume `BUSY_P`, and
the same round ends with `OK` in place of the pending event. -/
theorem C8_pending_event_replaced :
    ESP.demo_busy.IO_.ReceivedCommand = .BUSY_P ∧ ESP.demo_busy.NewCommandSemaphore = true ∧
    ((ESP.demo_busy.receive (cs "OK\r\n")).Process_prepare (fun _ => 0)).CurrentState =
      .smModuleInitialization ∧
    (ESP.dispatch id ((ESP.demo_busy.receive (cs "OK\r\n")).Process_prepare
      (fun _ => 0))).IO_.ReceivedCommand = .BUSY_P ∧
    (ESP.Process (fun _ => 0) (ESP.dispatch id)
      (ESP.demo_busy.receive (cs "OK\r\n"))).IO_.ReceivedCommand = .OK := by
  decide

/-- C8, amended. A pending event is kept until the engine has made one round:
while `NewCommandSemaphore` is set, `RxHandler` stores nothing, whatever the
receive queue holds; `Process` hands the pending event unchanged to the handler
of the current state; and a `Process` round either runs that handler on the
pending event and then clears the semaphore (whether or not the handler has
consumed the event), or leaves the event and the semaphore as they are. -/
theorem C8_pending_event_kept_for_one_round (memmgr_alloc : Nat → Nat) (handler : ESP → ESP)
    (s : ESP) (h : s.NewCommandSemaphore = true) :
    s.nothing_stored s.RxHandler ∧
    s.nothing_stored (s.Process_prepare memmgr_alloc) ∧
    (ESP.Process memmgr_alloc handler s =
        ESP.RxHandler { handler (s.Process_prepare memmgr_alloc) with NewCommandSemaphore := false } ∨
      s.nothing_stored (ESP.Process memmgr_alloc handler s)) := by
  refine ⟨s.RxHandler_semaphore_set h, s.Process_prepare_nothing memmgr_alloc, ?_⟩
  unfold ESP.Process
  split
  · exact Or.inr (s.Process_first_nothing memmgr_alloc)
  · split
    · exact Or.inr (s.Process_first_nothing memmgr_alloc)
    · unfold ESP.Process_handler
      split
      · exact Or.inl rfl
      · have p := s.Process_prepare_nothing memmgr_alloc
        exact Or.inr (ESP.nothing_stored_trans p
          (ESP.RxHandler_semaphore_set _ (p.2.1.trans h)))

theorem C8_pending_event_kept_for_one_round_witness :
    (ESP.demo_busy.receive (cs "OK\r\n")).NewCommandSemaphore = true ∧
    (ESP.demo_busy.receive (cs "OK\r\n")).nothing_stored
      (ESP.demo_busy.receive (cs "OK\r\n")).RxHandler ∧
    (ESP.demo_busy.receive (cs "OK\r\n")).nothing_stored
      ((ESP.demo_busy.receive (cs "OK\r\n")).Process_prepare (fun _ => 0)) ∧
    (ESP.Process (fun _ => 0) (ESP.dispatch id) (ESP.demo_busy.receive (cs "OK\r\n")) =
        ESP.RxHandler { ESP.dispatch id ((ESP.demo_busy.receive (cs "OK\r\n")).Process_prepare
          (fun _ => 0)) with NewCommandSemaphore := false } ∨
      (ESP.demo_busy.receive (cs "OK\r\n")).nothing_stored
        (ESP.Process (fun _ => 0) (ESP.dispatch id) (ESP.demo_busy.receive (cs "OK\r\n")))) :=
  ⟨by decide, C8_pending_event_kept_for_one_round (fun _ => 0) (ESP.dispatch id)
    (ESP.demo_busy.receive (cs "OK\r\n")) (by decide)⟩

/-! ## The `+IPD` header in the line buffer -/

theorem IPD_header_eq (id L : Nat) (hid : id < 10) :
    IPD_header id L = [43, 73, 80, 68, 44] ++ [id + 48] ++ [44] ++ decimal L ++ [58] := by
  unfold IPD_header
  rw [decimal_small id hid]
  rfl

theorem IPD_header_length (id L : Nat) (hid : id < 10) :
    (IPD_header id L).length = (decimal L).length + 8 := by
  rw [IPD_header_eq id L hid]
  simp

theorem isdigit_range (c : Nat) (h : isdigit c = true) : 48 ≤ c ∧ c ≤ 57 := by
  unfold isdigit at h
  simpa using h

/-- The bytes of a header are neither NUL nor a line feed, and are bytes. -/
theorem IPD_header_bytes (id L : Nat) (hid : id < 10) :
    ∀ c ∈ IPD_header id L, c ≠ 0 ∧ c ≠ 10 ∧ c < 256 := by
  intro c hc
  rw [IPD_header_eq id L hid] at hc
  simp only [List.mem_append, List.mem_cons, List.mem_singleton, List.not_mem_nil, or_false] at hc
  rcases hc with (((h | h) | h) | h) | h
  · rcases h with h | h | h | h | h <;> rw [h] <;> decide
  · rw [h]
    omega
  · rw [h]
    decide
  · have := isdigit_range c ((decimal_spec L).2.1 c h)
    omega
  · rw [h]
    decide

theorem scan_res_few (n : Int) (v : List scan_val) (h : (n % 256).toNat ≠ 3) :
    3 ≠ scan_res (n, v) :=
  fun e => h e.symm

/-- The complete header: `sscanf` assigns the socket, the length and the colon. -/
theorem IPD_header_scan (id L : Nat) (hid : id < 10) (hL : L < SIZE_MOD) :
    sscanf (IPD_header id L) IPD_format = (3, [.num id, .num L, .str [58]]) := by
  obtain ⟨⟨e, es, he⟩, hdig, hval, -⟩ := decimal_spec L
  rw [IPD_header_eq id L hid, he]
  have hd : ∀ c ∈ [id + 48], isdigit c = true := by
    intro c hc
    rw [List.mem_singleton.mp hc]
    exact isdigit_of_lt id hid
  rw [he] at hdig hval
  rw [sscanf_ipd_header (id + 48) [] e es hd hdig, hval,
    scan_digits_cons _ _ _ (isdigit_of_lt id hid)]
  have v1 : strtoul_val false (scan_digits [] (0 * 10 + (id + 48 - 48))).1 = id := by
    show strtoul_val false (0 * 10 + (id + 48 - 48)) = id
    unfold strtoul_val
    rw [if_neg (by simp only [SIZE_MOD]; omega)]
    simp
  have v2 : strtoul_val false L = L := by
    unfold strtoul_val
    rw [if_neg (by omega)]
    simp
  rw [v1, v2]

/-- A proper prefix of the header: `sscanf` assigns fewer than three values. -/
theorem IPD_header_prefix_scan (id L m : Nat) (hid : id < 10) (hm1 : 1 ≤ m)
    (hm : m < (IPD_header id L).length) :
    3 ≠ scan_res (sscanf ((IPD_header id L).take m) IPD_format) ∧
    (sscanf ((IPD_header id L).take m) IPD_format).2.length ≤ 2 := by
  obtain ⟨⟨e, es, he⟩, hdig, -, -⟩ := decimal_spec L
  have hlen := IPD_header_length id L hid
  have hd : ∀ c ∈ [id + 48], isdigit c = true := by
    intro c hc
    rw [List.mem_singleton.mp hc]
    exact isdigit_of_lt id hid
  rw [IPD_header_eq id L hid]
  by_cases c5 : m ≤ 5
  · rw [show [43, 73, 80, 68, 44] ++ [id + 48] ++ [44] ++ decimal L ++ [58] =
      [43, 73, 80, 68, 44] ++ ([id + 48] ++ [44] ++ decimal L ++ [58]) by simp,
      List.take_append_of_le_length (by simpa using c5)]
    apply sscanf_ipd_short
    interval_cases m <;> simp
  · by_cases c6 : m = 6
    · rw [c6, show [43, 73, 80, 68, 44] ++ [id + 48] ++ [44] ++ decimal L ++ [58] =
        ([43, 73, 80, 68, 44] ++ [id + 48]) ++ ([44] ++ decimal L ++ [58]) by simp,
        List.take_append_of_le_length (by simp), List.take_of_length_le (by simp),
        sscanf_ipd_id (id + 48) [] hd]
      exact ⟨scan_res_few _ _ (by decide), by simp⟩
    · by_cases c7 : m = 7
      · rw [c7, show [43, 73, 80, 68, 44] ++ [id + 48] ++ [44] ++ decimal L ++ [58] =
          ([43, 73, 80, 68, 44] ++ [id + 48] ++ [44]) ++ (decimal L ++ [58]) by simp,
          List.take_append_of_le_length (by simp), List.take_of_length_le (by simp),
          sscanf_ipd_comma (id + 48) [] hd]
        exact ⟨scan_res_few _ _ (by decide), by simp⟩
      · obtain ⟨k, rfl⟩ : ∃ k, m = 7 + (k + 1) := ⟨m - 8, by omega⟩
        have hk : k + 1 ≤ (decimal L).length := by omega
        have t1 : List.take (7 + (k + 1))
            ([43, 73, 80, 68, 44] ++ [id + 48] ++ [44] ++ decimal L ++ [58]) =
            [43, 73, 80, 68, 44] ++ [id + 48] ++ [44] ++ (e :: List.take k es) := by
          rw [show [43, 73, 80, 68, 44] ++ [id + 48] ++ [44] ++ decimal L ++ [58] =
            ([43, 73, 80, 68, 44] ++ [id + 48] ++ [44]) ++ (decimal L ++ [58]) by simp,
            List.take_append_eq_append_take, List.take_of_length_le (by simp)]
          congr 1
          have l7 : ([43, 73, 80, 68, 44] ++ [id + 48] ++ [44]).length = 7 := rfl
          rw [l7, show 7 + (k + 1) - 7 = k + 1 by omega, List.take_append_of_le_length hk, he]
          rfl
        have hdig' : ∀ c ∈ e :: List.take k es, isdigit c = true := by
          intro c hc
          apply hdig
          rw [he]
          rcases List.mem_cons.mp hc with h | h
          · rw [h]
            simp
          · exact List.mem_cons_of_mem _ (List.mem_of_mem_take h)
        rw [t1, sscanf_ipd_len (id + 48) [] e (List.take k es) hd hdig']
        exact ⟨scan_res_few _ _ (by decide), by simp⟩

theorem decimal_length_u32 (L : Nat) (h : L < SIZE_MOD) : (decimal L).length ≤ 10 := by
  unfold decimal
  exact decimal_aux_length _ L 10 (by simp only [SIZE_MOD] at h; omega) (by decide)

/-- A header for a length that fits `unsigned int` fits the line buffer. -/
theorem IPD_header_fits (id L : Nat) (hid : id < 10) (hL : L < SIZE_MOD) :
    8 < (IPD_header id L).length ∧ (IPD_header id L).length + 1 < ESP8266_RX_BUFF_LEN := by
  have h1 := decimal_length_u32 L hL
  obtain ⟨⟨e, es, he⟩, -⟩ := decimal_spec L
  have h2 : 1 ≤ (decimal L).length := by
    rw [he]
    simp
  rw [IPD_header_length id L hid]
  have hB : ESP8266_RX_BUFF_LEN = 100 := rfl
  omega

theorem IPD_header_getD (id L i : Nat) (h : i < (IPD_header id L).length) :
    (IPD_header id L).getD i 0 ∈ IPD_header id L := by
  rw [List.getD_eq_getElem?_getD, List.getElem?_eq_getElem h]
  exact List.getElem_mem h

theorem IPD_header_start (id L : Nat) (hid : id < 10) :
    (IPD_header id L).getD 0 0 = 43 ∧ (IPD_header id L).getD 1 0 = 73 := by
  rw [IPD_header_eq id L hid]
  exact ⟨rfl, rfl⟩

/-- A proper prefix of a header leaves the line open. -/
theorem IPD_header_open (id L m : Nat) (hid : id < 10) (hm1 : 1 ≤ m)
    (hm : m < (IPD_header id L).length) : open_line ((IPD_header id L).take m) := by
  have hb := IPD_header_bytes id L hid
  have hl : ((IPD_header id L).take m).length = m := by
    rw [List.length_take]
    omega
  refine ⟨fun _ h => ?_, fun h => ?_, Or.inr ⟨fun c hc => (hb c (List.mem_of_mem_take hc)).1,
    IPD_header_prefix_scan id L m hid hm1 hm⟩⟩
  · rw [hl, getD_take _ _ _ (by omega)] at h
    exact (hb _ (IPD_header_getD id L (m - 1) (by omega))).2.1 h.1
  · rw [getD_take _ _ _ (by omega), (IPD_header_start id L hid).1] at h
    exact absurd h.1 (by decide)

/-! ## ListenSocket and CloseSocket -/

/-- C18, as stated, fails: `ListenSocket` does not look at the state of the
socket. Socket 0 of the freshly constructed driver is `Closed`, and
`ListenSocket(0, 7000, 16)` returns `SUCCESS` and changes the socket record. -/
theorem C18_ListenSocket_ignores_state :
    (ESP.demo.Socket 0).State = .Closed ∧
    (ESP.demo.ListenSocket 0 7000 16).1 = SUCCESS ∧
    ((ESP.demo.ListenSocket 0 7000 16).2.Socket 0).DataRx = 7000 ∧
    ((ESP.demo.ListenSocket 0 7000 16).2.Socket 0).RxBuffSize = 16 ∧
    (ESP.demo.ListenSocket 0 7000 16).2.Socket 0 ≠ ESP.demo.Socket 0 := by
  decide

theorem ESP.setSocket_twice (s : ESP) (i : Nat) (k k2 : socket) :
    (s.setSocket i k).setSocket i k2 = s.setSocket i k2 := by
  unfold ESP.setSocket
  congr 1
  funext j
  by_cases h : j = i
  · simp [h]
  · simp [h]

/-- C19. `CloseSocket` returns `ERROR` exactly for `SocketID >= 5` and then
changes nothing; otherwise it returns `SUCCESS`, an `Open` socket becomes
`Closed`, a `Closed` one stays `Closed`, and in every other state the socket
becomes `CloseRequested`, the other sockets being left alone; a second call
right after the first returns the same status and leaves the state the first
call produced. -/
theorem C19_CloseSocket (s : ESP) (SocketID : Nat) :
    ((s.CloseSocket SocketID).1 = ERROR ↔ SocketID ≥ 5) ∧
    (SocketID ≥ 5 → (s.CloseSocket SocketID).2 = s) ∧
    (SocketID < 5 →
      (s.CloseSocket SocketID).1 = SUCCESS ∧
      ((s.CloseSocket SocketID).2.Socket SocketID).State =
        (if (s.Socket SocketID).State = .Open then .Closed
         else if (s.Socket SocketID).State = .Closed then .Closed
         else .CloseRequested) ∧
      ∀ j, j ≠ SocketID → (s.CloseSocket SocketID).2.Socket j = s.Socket j) ∧
    ((s.CloseSocket SocketID).2.CloseSocket SocketID).1 = (s.CloseSocket SocketID).1 ∧
    ((s.CloseSocket SocketID).2.CloseSocket SocketID).2 = (s.CloseSocket SocketID).2 := by
  have hN : SocketsNum = 5 := rfl
  by_cases h : SocketID ≥ SocketsNum
  · have e : s.CloseSocket SocketID = (ERROR, s) := by
      unfold ESP.CloseSocket
      rw [if_pos h]
    rw [e]
    refine ⟨⟨fun _ => by omega, fun _ => rfl⟩, fun _ => rfl, fun h5 => by omega, ?_, ?_⟩
    · show (s.CloseSocket SocketID).1 = ERROR
      rw [e]
    · show (s.CloseSocket SocketID).2 = s
      rw [e]
  · by_cases h1 : (s.Socket SocketID).State = .Open
    · have e : s.CloseSocket SocketID = (SUCCESS, s.setSocket SocketID
          { s.Socket SocketID with State := .Closed, Address := 0, Port := 0, DataRx := 0,
                                   DataTx := 0, RxBuffSize := 0, RxDataLen := 0 }) := by
        unfold ESP.CloseSocket
        rw [if_neg h, if_pos h1]
      have e2 : (s.CloseSocket SocketID).2.CloseSocket SocketID =
          (SUCCESS, (s.CloseSocket SocketID).2) := by
        rw [e]
        unfold ESP.CloseSocket
        rw [if_neg h, ESP.setSocket_same, if_neg (by simp), if_neg (by simp)]
      rw [e2, e]
      refine ⟨⟨fun x => absurd (show SUCCESS = ERROR from x) (by decide), fun _ => by omega⟩,
        fun _ => by omega, fun _ => ⟨rfl, ?_, fun j hj => ESP.setSocket_other _ _ _ _ hj⟩,
        rfl, rfl⟩
      rw [if_pos h1, ESP.setSocket_same]
    · by_cases h2 : (s.Socket SocketID).State = .Closed
      · have e : s.CloseSocket SocketID = (SUCCESS, s) := by
          unfold ESP.CloseSocket
          rw [if_neg h, if_neg h1, if_neg (by simp [h2])]
        rw [e]
        refine ⟨⟨fun x => absurd (show SUCCESS = ERROR from x) (by decide), fun _ => by omega⟩,
          fun _ => by omega, fun _ => ⟨rfl, ?_, fun j _ => rfl⟩, ?_, ?_⟩
        · rw [if_neg h1, if_pos h2]
          exact h2
        · show (s.CloseSocket SocketID).1 = SUCCESS
          rw [e]
        · show (s.CloseSocket SocketID).2 = s
          rw [e]
      · have e : s.CloseSocket SocketID = (SUCCESS, s.setSocket SocketID
            { s.Socket SocketID with State := .CloseRequested, Address := 0, Port := 0,
                                     DataRx := 0, DataTx := 0, RxBuffSize := 0,
                                     RxDataLen := 0 }) := by
          unfold ESP.CloseSocket
          rw [if_neg h, if_neg h1, if_pos h2]
        have e2 : (s.CloseSocket SocketID).2.CloseSocket SocketID =
            (SUCCESS, (s.CloseSocket SocketID).2) := by
          rw [e]
          unfold ESP.CloseSocket
          rw [if_neg h, ESP.setSocket_same, if_neg (by simp), if_pos (by simp),
            ESP.setSocket_twice]
        rw [e2, e]
        refine ⟨⟨fun x => absurd (show SUCCESS = ERROR from x) (by decide), fun _ => by omega⟩,
          fun _ => by omega, fun _ => ⟨rfl, ?_, fun j hj => ESP.setSocket_other _ _ _ _ hj⟩,
          rfl, rfl⟩
        rw [if_neg h1, if_neg h2, ESP.setSocket_same]

/-! ## Failing inputs of the recognizer -/

/-- C13, as stated, fails for the announced length 0. Socket 0 is listened to;
the queue holds the header `+IPD,0,0:` followed by the record `OK`. The first
run reads the header, the second takes the four bytes of the record as payload
(`CurrentSocketDataLeft` wraps from 0 to 65535 at the first of them): they are
written to the receive buffer, no event is stored, and raw-data mode goes on. -/
theorem C13_zero_length_frame_takes_next_record :
    (ESP.demo_listening.withRx (cs "+IPD,0,0:OK\r\n")).idle ∧
    (ESP.demo_listening.withRx (cs "+IPD,0,0:OK\r\n")).RxHandler.ESP1_HUART.pRxBuffPtr.count = 4 ∧
    (ESP.demo_listening.withRx (cs "+IPD,0,0:OK\r\n")).RxHandler.IO_.CurrentSocketDataLeft = 0 ∧
    (ESP.demo_listening.withRx (cs "+IPD,0,0:OK\r\n")).RxHandler.RxHandler.ESP1_HUART.pRxBuffPtr.count = 0 ∧
    bytesAt (ESP.demo_listening.withRx (cs "+IPD,0,0:OK\r\n")).RxHandler.RxHandler.app_mem 7000 4 =
      cs "OK\r\n" ∧
    ((ESP.demo_listening.withRx (cs "+IPD,0,0:OK\r\n")).RxHandler.RxHandler.Socket 0).RxDataLen = 4 ∧
    (ESP.demo_listening.withRx (cs "+IPD,0,0:OK\r\n")).RxHandler.RxHandler.IO_.ReceivingDataStream = true ∧
    (ESP.demo_listening.withRx (cs "+IPD,0,0:OK\r\n")).RxHandler.RxHandler.IO_.CurrentSocketDataLeft =
      65532 ∧
    (ESP.demo_listening.withRx (cs "+IPD,0,0:OK\r\n")).RxHandler.RxHandler.IO_.ReceivedCommand =
      .NO_COMMAND_RECEIVED ∧
    (ESP.demo_listening.withRx (cs "+IPD,0,0:OK\r\n")).RxHandler.RxHandler.StoreCommand_calls = 0 := by
  unfold ESP.idle
  decide

set_option maxRecDepth 100000 in
/-- C14, as stated, fails within the run in which the line buffer overflows.
The queue holds 100 bytes `x` and then the record `OK`: the run sets
`ReceiveError` at the hundredth byte, goes on with the loop, and stores the
event `OK` from the bytes that follow, with no flush in between. -/
theorem C14_event_after_overflow_in_same_run :
    (ESP.demo.withRx (List.replicate 100 120 ++ cs "OK\r\n")).idle ∧
    (ESP.demo.withRx (List.replicate 100 120 ++ cs "OK\r\n")).RxHandler.IO_.ReceiveError = true ∧
    (ESP.demo.withRx (List.replicate 100 120 ++ cs "OK\r\n")).RxHandler.IO_.DoEmptyRxStream = false ∧
    (ESP.demo.withRx (List.replicate 100 120 ++ cs "OK\r\n")).RxHandler.IO_.ReceivedCommand = .OK ∧
    (ESP.demo.withRx (List.replicate 100 120 ++ cs "OK\r\n")).RxHandler.StoreCommand_calls = 1 ∧
    ((ESP.demo.withRx (List.replicate 100 120 ++ cs "OK\r\n")).RxHandler.isCommandReceived .OK).1 =
      true := by
  unfold ESP.idle
  decide

/-- C16, as stated, fails: the record `Unlink` stores no event. The switch on
the first byte has a `case 'u'` (lower case) for it, which a record that begins
with `U` does not reach. -/
theorem C16_Unlink_stores_no_event :
    (ESP.demo.withRx (cs "Unlink\r\n")).idle ∧
    (ESP.demo.withRx (cs "Unlink\r\n")).RxHandler.ESP1_HUART.pRxBuffPtr.count = 0 ∧
    (ESP.demo.withRx (cs "Unlink\r\n")).RxHandler.IO_.ReceivedCommand = .NO_COMMAND_RECEIVED ∧
    (ESP.demo.withRx (cs "Unlink\r\n")).RxHandler.NewCommandSemaphore = false ∧
    (ESP.demo.withRx (cs "Unlink\r\n")).RxHandler.StoreCommand_calls = 0 ∧
    ((ESP.demo.withRx (cs "Unlink\r\n")).RxHandler.isCommandReceived .UNLINK).1 = false := by
  unfold ESP.idle
  decide

/-! ## A `+IPD` frame: the header -/

/-- The line buffer holds a complete header: `RxHandler` returns with the state
that the header branch makes of the state after the `sscanf`. -/
theorem ESP.RxHandler_parse_ipd (u : ESP) (nm id L : Nat) (hid : id < 10) (hL : L < SIZE_MOD)
    (hline : u.rxLine = IPD_header id L) (b0 : u.IO_.RxBuffer 0 = 43)
    (b1 : u.IO_.RxBuffer 1 = 73) :
    ∃ y : io, u.RxHandler_parse nm =
      (ESP.RxHandler_ipd_header { u with IO_ := io.keep u.IO_ y } id L, nm, true) := by
  have hs := IPD_header_scan id L hid hL
  have e1 : (u.sscanf_rx IPD_format [.local_var, .local_var, .pReceivedParameterStr]).1 = 3 := by
    show scan_res (sscanf u.rxLine IPD_format) = 3
    rw [hline, hs]
    rfl
  have e2 : (u.sscanf_rx IPD_format [.local_var, .local_var, .pReceivedParameterStr]).2.1 =
      [.num id, .num L, .str [58]] := by
    show (sscanf u.rxLine IPD_format).2 = _
    rw [hline, hs]
  have e3 := ESP.sscanf_rx_eq u IPD_format [.local_var, .local_var, .pReceivedParameterStr]
  have hi : u.RxHandler_ipd =
      (some (ESP.RxHandler_ipd_header
        (u.sscanf_rx IPD_format [.local_var, .local_var, .pReceivedParameterStr]).2.2 id L),
       (u.sscanf_rx IPD_format [.local_var, .local_var, .pReceivedParameterStr]).2.2) := by
    unfold ESP.RxHandler_ipd
    rw [if_pos ⟨b0, b1⟩, if_pos e1.symm, e2]
    rfl
  refine ⟨(u.sscanf_rx IPD_format [.local_var, .local_var, .pReceivedParameterStr]).2.2.IO_, ?_⟩
  unfold ESP.RxHandler_parse
  rw [hi, ← e3]

theorem IPD_header_split (id L : Nat) (hid : id < 10) :
    ∃ Hd : List Nat, IPD_header id L = Hd ++ [58] :=
  ⟨_, IPD_header_eq id L hid⟩

/-- A poll while the header of a `+IPD` frame is read. The queue `q` holds the
next bytes of the frame (header, then payload `p`). Either the loop reads all
of `q` and is still in the header, or it reads the rest of the header and
`RxHandler` returns with what the header branch makes of the line (state `u`
with the string parameter assigned by `sscanf`), leaving the bytes after the
header in the queue. -/
theorem ESP.RxHandler_cmd_ipd_head (s0 s : ESP) (id L n : Nat) (p q : List Nat) (hid : id < 10)
    (hL : L < SIZE_MOD) (hsem : s0.NewCommandSemaphore = false) (hh : s.ipd_head s0 id L n)
    (hq : s.rx_has q) (hpre : q <+: (IPD_header id L).drop n ++ p) :
    (n + q.length < (IPD_header id L).length ∧
      (ESP.RxHandler_cmd (1 + q.length) s 0).ipd_head s0 id L (n + q.length) ∧
      (ESP.RxHandler_cmd (1 + q.length) s 0).rx_has []) ∨
    (∃ (rest : List Nat) (u : ESP) (y : io), q = (IPD_header id L).drop n ++ rest ∧ rest <+: p ∧
      s0.line_frame u ∧ u.rx_has rest ∧
      ESP.RxHandler_cmd (1 + q.length) s 0 =
        ESP.RxHandler_ipd_header { u with IO_ := io.keep u.IO_ y } id L) := by
  obtain ⟨hn, hf, hold⟩ := hh
  have hs : s.NewCommandSemaphore = false := (ESP.line_frame_fields hf).1.trans hsem
  obtain ⟨hfit1, hfit2⟩ := IPD_header_fits id L hid hL
  have hdl : ((IPD_header id L).drop n).length = (IPD_header id L).length - n :=
    List.length_drop _ _
  have htl : ((IPD_header id L).take n).length = n := by
    rw [List.length_take]
    omega
  rcases Nat.lt_or_ge (n + q.length) (IPD_header id L).length with hlt | hge
  · left
    have hq' : q <+: (IPD_header id L).drop n :=
      List.prefix_of_prefix_length_le hpre (List.prefix_append _ _) (by rw [hdl]; omega)
    obtain ⟨r', hr'⟩ := hq'
    have hH : IPD_header id L = ((IPD_header id L).take n ++ q) ++ r' := by
      rw [List.append_assoc, hr', List.take_append_drop]
    have htake : (IPD_header id L).take n ++ q = (IPD_header id L).take (n + q.length) := by
      have : (((IPD_header id L).take n ++ q) ++ r').take (n + q.length) =
          (IPD_header id L).take n ++ q :=
        List.take_left' (by rw [List.length_append, htl])
      rw [← hH] at this
      exact this.symm
    obtain ⟨u, a1, a2, a3, a4⟩ := ESP.RxHandler_cmd_open q 1 s 0 ((IPD_header id L).take n) []
      (by rw [List.append_nil]; exact hq) hold
      (by rw [List.length_append, htl]; omega) hs (by
        intro m hm1 hm2
        rw [htl] at hm1
        rw [List.length_append, htl] at hm2
        rw [htake, List.take_take, Nat.min_eq_left hm2]
        exact IPD_header_open id L m hid (by omega) (by omega))
    have e : ESP.RxHandler_cmd (1 + q.length) s 0 = u := by
      rw [a1]
      exact ESP.RxHandler_cmd_nil _ _ _ (u.rx_has_count [] a3)
    rw [e]
    rw [htake] at a2
    exact ⟨hlt, ⟨hlt, ESP.line_frame_trans hf a4, a2⟩, a3⟩
  · right
    obtain ⟨Hd, hHd⟩ := IPD_header_split id L hid
    have hHdl : (IPD_header id L).length = Hd.length + 1 := by
      rw [hHd]
      simp
    have hHq : (IPD_header id L).drop n <+: q :=
      List.prefix_of_prefix_length_le (List.prefix_append _ _) hpre (by rw [hdl]; omega)
    obtain ⟨rest, hrest⟩ := hHq
    have hrp : rest <+: p := by
      rw [← hrest] at hpre
      exact (List.prefix_append_right_inj _).mp hpre
    have hD : (IPD_header id L).drop n = Hd.drop n ++ [58] := by
      rw [hHd, List.drop_append_of_le_length (by omega)]
    have hT : (IPD_header id L).take n = Hd.take n := by
      rw [hHd, List.take_append_of_le_length (by omega)]
    have hqq : q = Hd.drop n ++ 58 :: rest := by
      rw [← hrest, hD, List.append_assoc]
      rfl
    have hq2 : s.rx_has (Hd.drop n ++ 58 :: rest) := by
      rw [← hqq]
      exact hq
    have hjoin : (IPD_header id L).take n ++ Hd.drop n = Hd := by
      rw [hT, List.take_append_drop]
    obtain ⟨u0, a1, a2, a3, a4⟩ := ESP.RxHandler_cmd_open (Hd.drop n) (rest.length + 2) s 0
      ((IPD_header id L).take n) (58 :: rest) hq2 hold
      (by rw [hjoin]; omega) hs (by
        intro m hm1 hm2
        rw [htl] at hm1
        rw [hjoin] at hm2 ⊢
        have : Hd.take m = (IPD_header id L).take m := by
          rw [hHd, List.take_append_of_le_length hm2]
        rw [this]
        exact IPD_header_open id L m hid (by omega) (by omega))
    rw [hjoin] at a2
    obtain ⟨d1, d2, d3⟩ := u0.next_holds Hd 58 rest a3 a2 (by omega)
    have dl := u0.next_rxLine Hd 58 rest a3 a2 (by omega) (by
      intro c hc
      rw [← hHd] at hc
      exact (IPD_header_bytes id L hid c hc).1)
    rw [← hHd] at d2 dl
    have b0 : u0.RxHandler_next.IO_.RxBuffer 0 = 43 := by
      rw [d2 0 (by omega)]
      exact (IPD_header_start id L hid).1
    have b1 : u0.RxHandler_next.IO_.RxBuffer 1 = 73 := by
      rw [d2 1 (by omega)]
      exact (IPD_header_start id L hid).2
    obtain ⟨y, hy⟩ := u0.RxHandler_next.RxHandler_parse_ipd 0 id L hid hL dl b0 b1
    refine ⟨rest, u0.RxHandler_next, y, hrest.symm, hrp,
      ESP.line_frame_trans (ESP.line_frame_trans hf a4) u0.line_frame_next, d3, ?_⟩
    have hfuel : 1 + q.length = (rest.length + 2) + (Hd.drop n).length := by
      rw [hqq, List.length_append, List.length_cons]
      omega
    rw [hfuel, a1, u0.RxHandler_cmd_next (rest.length + 1) 0 58 rest a3 (by rw [a2.1]; omega), hy]
    rfl

/-! ## A `+IPD` frame: the bytes that are ignored and the bytes that are stored -/

theorem ESP.ignore_frame_refl (s : ESP) : s.ignore_frame s := ⟨_, _, _, rfl⟩

theorem ESP.ignore_frame_trans {a b c : ESP} (h1 : a.ignore_frame b) (h2 : b.ignore_frame c) :
    a.ignore_frame c := by
  obtain ⟨c1, l1, u1, rfl⟩ := h1
  obtain ⟨c2, l2, u2, rfl⟩ := h2
  exact ⟨c2, l2, u2, rfl⟩

theorem ESP.ignore_frame_GetChar (s : ESP) : s.ignore_frame s.GetChar.2.2 := by
  unfold ESP.GetChar
  exact ⟨_, _, _, rfl⟩

theorem ESP.ignore_frame_byte (s : ESP) : s.ignore_frame s.RxHandler_ignore_byte := by
  unfold ESP.RxHandler_ignore_byte
  exact ⟨_, _, _, rfl⟩

theorem ESP.ignore_frame_end (s : ESP) : s.ignore_frame s.RxHandler_ignore_end := by
  unfold ESP.RxHandler_ignore_end
  split
  · exact ⟨_, _, _, rfl⟩
  · exact s.ignore_frame_refl

theorem ESP.ignore_frame_receive (s : ESP) (bytes : List Nat) : s.ignore_frame (s.receive bytes) := by
  unfold ESP.receive
  exact ⟨_, _, _, rfl⟩

/-- The loop that ignores bytes, entered with `c` bytes to ignore and the queue
holding `q`: it reads `min c q.length` bytes, counts `RxIgnoreCounter` down by
as many, and changes nothing else but the flag `ListenToTxData`. -/
theorem ESP.RxHandler_ignore_run (q : List Nat) : ∀ (s : ESP) (c fuel : Nat),
    s.rx_has q → s.IO_.RxIgnoreCounter = c → 1 ≤ c → q.length < fuel →
    s.ignore_frame (ESP.RxHandler_ignore fuel s) ∧
    (ESP.RxHandler_ignore fuel s).IO_.RxIgnoreCounter = c - min c q.length ∧
    (ESP.RxHandler_ignore fuel s).rx_has (q.drop (min c q.length)) := by
  induction q with
  | nil =>
    intro s c fuel hq hc _ hf
    obtain ⟨f, rfl⟩ : ∃ f, fuel = f + 1 := ⟨fuel - 1, by omega⟩
    obtain ⟨g1, g2⟩ := s.GetChar_nil (s.rx_has_count [] hq)
    have e : ESP.RxHandler_ignore (f + 1) s = s := by
      show (if SUCCESS = s.GetChar.1 then _ else _) = _
      rw [if_neg g1, g2]
    rw [e]
    exact ⟨s.ignore_frame_refl, by simpa using hc, by simpa using hq⟩
  | cons b bs ih =>
    intro s c fuel hq hc hc1 hf
    obtain ⟨f, rfl⟩ : ∃ f, fuel = f + 1 := ⟨fuel - 1, by omega⟩
    obtain ⟨g1, -, g3⟩ := s.GetChar_cons b bs hq
    have hfr := ESP.ignore_frame_trans s.ignore_frame_GetChar s.GetChar.2.2.ignore_frame_byte
    have hcnt : s.GetChar.2.2.RxHandler_ignore_byte.IO_.RxIgnoreCounter = c - 1 := by
      show dec_wrap SIZE_MOD s.IO_.RxIgnoreCounter = c - 1
      unfold dec_wrap
      rw [hc, if_neg (by omega)]
    have hrx : s.GetChar.2.2.RxHandler_ignore_byte.rx_has bs := g3
    have hl : (b :: bs).length = bs.length + 1 := List.length_cons _ _
    by_cases h1 : c = 1
    · have e : ESP.RxHandler_ignore (f + 1) s =
          s.GetChar.2.2.RxHandler_ignore_byte.RxHandler_ignore_end := by
        show (if SUCCESS = s.GetChar.1 then _ else _) = _
        rw [if_pos g1, if_pos (by rw [hcnt, h1])]
      rw [e, hl, h1, show min 1 (bs.length + 1) = 1 by omega]
      refine ⟨ESP.ignore_frame_trans hfr (ESP.ignore_frame_end _), ?_, ?_⟩
      · have : s.GetChar.2.2.RxHandler_ignore_byte.RxHandler_ignore_end.IO_.RxIgnoreCounter =
            s.GetChar.2.2.RxHandler_ignore_byte.IO_.RxIgnoreCounter := by
          unfold ESP.RxHandler_ignore_end
          split <;> rfl
        rw [this, hcnt, h1]
      · have : s.GetChar.2.2.RxHandler_ignore_byte.RxHandler_ignore_end.rx_has bs := by
          unfold ESP.RxHandler_ignore_end
          split
          · exact hrx
          · exact hrx
        exact this
    · have e : ESP.RxHandler_ignore (f + 1) s =
          ESP.RxHandler_ignore f s.GetChar.2.2.RxHandler_ignore_byte := by
        show (if SUCCESS = s.GetChar.1 then _ else _) = _
        rw [if_pos g1, if_neg (by rw [hcnt]; omega)]
      obtain ⟨i1, i2, i3⟩ := ih s.GetChar.2.2.RxHandler_ignore_byte (c - 1) f hrx hcnt
        (by omega) (by rw [hl] at hf; omega)
      rw [e, hl, show min c (bs.length + 1) = min (c - 1) bs.length + 1 by omega]
      refine ⟨ESP.ignore_frame_trans hfr i1, ?_, i3⟩
      rw [i2]
      omega

/-- One data byte is stored. -/
theorem ESP.ipd_data_byte (s s0 : ESP) (id L k b : Nat) (p : List Nat)
    (h : s.ipd_data s0 id L p k) (hk : k < L) (hL : L < U16_MOD) (hb : b = p.getD k 0) :
    (s.RxHandler_data_byte [b]).ipd_data s0 id L p (k + 1) := by
  obtain ⟨hq, ⟨m1, m2⟩, d1, d2, d3, d4, d5, d6, d7, d8, d9, d10⟩ := h
  have hS : (s.RxHandler_data_byte [b]).Socket id =
      { s.Socket id with RxDataLen := ((s.Socket id).RxDataLen + 1) % U16_MOD } := by
    unfold ESP.RxHandler_data_byte
    simp [d4]
  have hM : ∀ a, (s.RxHandler_data_byte [b]).app_mem a =
      if a = (s0.Socket id).DataRx + k then b else s.app_mem a := by
    intro a
    show writeBytes s.app_mem s.IO_.pCurrentSocketData [b] a = _
    rw [d6]
    rfl
  refine ⟨hq, ⟨fun j hj => ?_, fun a ha => ?_⟩, d1, d2, d3, d4, ?_, ?_, ?_, ?_, ?_, ?_⟩
  · rw [hM]
    by_cases c : j = k
    · rw [if_pos (by rw [c]), c, hb]
    · rw [if_neg (by omega)]
      exact m1 j (by omega)
  · rw [hM, if_neg (by omega)]
    exact m2 a (by omega)
  · show dec_wrap U16_MOD s.IO_.CurrentSocketDataLeft = L - (k + 1)
    unfold dec_wrap
    rw [d5, if_neg (by omega)]
    omega
  · show s.IO_.pCurrentSocketData + 1 = _
    rw [d6]
    omega
  · rw [hS]
    show ((s.Socket id).RxDataLen + 1) % U16_MOD = k + 1
    rw [d7, Nat.mod_eq_of_lt (by omega)]
  · rw [hS]
    exact d8
  · rw [hS]
    exact d9
  · rw [hS]
    exact d10

/-- The last byte of a frame has been stored: the socket is locked. -/
theorem ESP.ipd_data_end (t s0 : ESP) (id L k : Nat) (p : List Nat)
    (h : t.ipd_data s0 id L p k) :
    t.RxHandler_data_end.ipd_stored s0 id p k false ∧
    t.RxHandler_data_end.IO_.RxIgnoreCounter = 0 := by
  obtain ⟨hq, hm, d1, d2, d3, d4, d5, d6, d7, d8, d9, d10⟩ := h
  have hS : t.RxHandler_data_end.Socket id = { t.Socket id with RxLock := true } := by
    unfold ESP.RxHandler_data_end
    simp [d4]
  refine ⟨⟨hq, hm, rfl, d3, ?_, ?_, ?_, ?_⟩, d2⟩
  · rw [hS]
    exact d7
  · rw [hS]
  · rw [hS]
    exact d9
  · rw [hS]
    exact d10

/-- The receive buffer is full before the frame ends: the socket is locked and
marked, and the rest of the frame is to be ignored. -/
theorem ESP.ipd_data_full (t s0 : ESP) (id L k : Nat) (p : List Nat)
    (h : t.ipd_data s0 id L p k) :
    t.RxHandler_data_full.ipd_stored s0 id p k true ∧
    t.RxHandler_data_full.IO_.RxIgnoreCounter = L - k := by
  obtain ⟨hq, hm, d1, d2, d3, d4, d5, d6, d7, d8, d9, d10⟩ := h
  have hS : t.RxHandler_data_full.Socket id =
      { t.Socket id with RxLock := true, DataCutFlag := true } := by
    unfold ESP.RxHandler_data_full
    simp [d4]
  refine ⟨⟨hq, hm, rfl, d3, ?_, ?_, ?_, ?_⟩, d5⟩
  · rw [hS]
    exact d7
  · rw [hS]
  · rw [hS]
  · rw [hS]
    exact d10

theorem prefix_drop_cons (p : List Nat) (k b : Nat) (bs : List Nat)
    (h : (b :: bs) <+: p.drop k) : b = p.getD k 0 ∧ bs <+: p.drop (k + 1) := by
  obtain ⟨r, hr⟩ := h
  constructor
  · have : (p.drop k).getD 0 0 = b := by
      rw [← hr]
      rfl
    rw [← this, List.getD_eq_getElem?_getD, List.getD_eq_getElem?_getD, List.getElem?_drop]
    rfl
  · refine ⟨r, ?_⟩
    have : (p.drop k).drop 1 = bs ++ r := by
      rw [← hr]
      rfl
    rw [← this, List.drop_drop]

/-- The loop that stores socket data, entered with `k` bytes of the frame
stored and the queue holding the next bytes `q` of the payload `p`: it stores
them all, or stops when the frame is complete, or stops when the receive buffer
of `B` bytes is full. -/
theorem ESP.RxHandler_data_run (s0 : ESP) (id L B : Nat) (p : List Nat) (hL : L < U16_MOD)
    (hB : (s0.Socket id).RxBuffSize = B) (q : List Nat) : ∀ (s : ESP) (k fuel : Nat),
    s.ipd_data s0 id L p k → k < L → k < B → s.rx_has q → q <+: p.drop k → q.length < fuel →
    (k + q.length < L ∧ k + q.length < B ∧
      (ESP.RxHandler_data fuel s).ipd_data s0 id L p (k + q.length) ∧
      (ESP.RxHandler_data fuel s).rx_has []) ∨
    (L ≤ B ∧ L ≤ k + q.length ∧ (ESP.RxHandler_data fuel s).ipd_stored s0 id p L false ∧
      (ESP.RxHandler_data fuel s).IO_.RxIgnoreCounter = 0 ∧
      (ESP.RxHandler_data fuel s).rx_has (q.drop (L - k))) ∨
    (B < L ∧ B ≤ k + q.length ∧ (ESP.RxHandler_data fuel s).ipd_stored s0 id p B true ∧
      (ESP.RxHandler_data fuel s).IO_.RxIgnoreCounter = L - B ∧
      (ESP.RxHandler_data fuel s).rx_has (q.drop (B - k))) := by
  induction q with
  | nil =>
    intro s k fuel hd hk1 hk2 hq _ hf
    obtain ⟨f, rfl⟩ : ∃ f, fuel = f + 1 := ⟨fuel - 1, by omega⟩
    obtain ⟨g1, g2⟩ := s.GetChar_nil (s.rx_has_count [] hq)
    have e : ESP.RxHandler_data (f + 1) s = s := by
      show (if SUCCESS = s.GetChar.1 then _ else _) = _
      rw [if_neg g1, g2]
    rw [e]
    exact Or.inl ⟨by simpa using hk1, by simpa using hk2, by simpa using hd, hq⟩
  | cons b bs ih =>
    intro s k fuel hd hk1 hk2 hq hpre hf
    obtain ⟨f, rfl⟩ : ∃ f, fuel = f + 1 := ⟨fuel - 1, by omega⟩
    obtain ⟨g1, g2, g3⟩ := s.GetChar_cons b bs hq
    obtain ⟨hb, hpre'⟩ := prefix_drop_cons p k b bs hpre
    have hl : (b :: bs).length = bs.length + 1 := List.length_cons _ _
    have hd0 : s.GetChar.2.2.ipd_data s0 id L p k := hd
    have ht := ESP.ipd_data_byte s.GetChar.2.2 s0 id L k b p hd0 hk1 hL hb
    have hrx : (s.GetChar.2.2.RxHandler_data_byte [b]).rx_has bs := g3
    have hid : s.IO_.RxSocketId = id := hd.2.2.2.2.2.1
    have hleft : (s.GetChar.2.2.RxHandler_data_byte [b]).IO_.CurrentSocketDataLeft = L - (k + 1) :=
      ht.2.2.2.2.2.2.1
    have hlen : ((s.GetChar.2.2.RxHandler_data_byte [b]).Socket id).RxDataLen = k + 1 :=
      ht.2.2.2.2.2.2.2.2.1
    have hsize : ((s.GetChar.2.2.RxHandler_data_byte [b]).Socket id).RxBuffSize = B :=
      ht.2.2.2.2.2.2.2.2.2.1.trans hB
    have e0 : ESP.RxHandler_data (f + 1) s =
        if 0 = (s.GetChar.2.2.RxHandler_data_byte [b]).IO_.CurrentSocketDataLeft then
          (s.GetChar.2.2.RxHandler_data_byte [b]).RxHandler_data_end
        else if ((s.GetChar.2.2.RxHandler_data_byte [b]).Socket id).RxDataLen ≥
            ((s.GetChar.2.2.RxHandler_data_byte [b]).Socket id).RxBuffSize then
          (s.GetChar.2.2.RxHandler_data_byte [b]).RxHandler_data_full
        else ESP.RxHandler_data f (s.GetChar.2.2.RxHandler_data_byte [b]) := by
      show (if SUCCESS = s.GetChar.1 then _ else _) = _
      rw [if_pos g1, g2, hid]
    rw [e0, hleft, hlen, hsize, hl]
    by_cases c1 : k + 1 = L
    · rw [if_pos (by omega)]
      obtain ⟨x1, x2⟩ := ESP.ipd_data_end _ s0 id L (k + 1) p ht
      rw [c1] at x1
      refine Or.inr (Or.inl ⟨by omega, by omega, x1, x2, ?_⟩)
      rw [show L - k = 1 by omega]
      exact hrx
    · rw [if_neg (by omega)]
      by_cases c2 : k + 1 ≥ B
      · rw [if_pos c2]
        obtain ⟨x1, x2⟩ := ESP.ipd_data_full _ s0 id L (k + 1) p ht
        have hkB : k + 1 = B := by omega
        rw [hkB] at x1 x2
        refine Or.inr (Or.inr ⟨by omega, by omega, x1, x2, ?_⟩)
        rw [show B - k = 1 by omega]
        exact hrx
      · rw [if_neg c2]
        rcases ih (s.GetChar.2.2.RxHandler_data_byte [b]) (k + 1) f ht (by omega) (by omega)
          hrx hpre' (by rw [hl] at hf; omega) with ⟨y1, y2, y3, y4⟩ | ⟨y1, y2, y3, y4, y5⟩ |
          ⟨y1, y2, y3, y4, y5⟩
        · refine Or.inl ⟨by omega, by omega, ?_, y4⟩
          rw [show k + (bs.length + 1) = k + 1 + bs.length by omega]
          exact y3
        · refine Or.inr (Or.inl ⟨y1, by omega, y3, y4, ?_⟩)
          rw [show L - k = (L - (k + 1)) + 1 by omega]
          exact y5
        · refine Or.inr (Or.inr ⟨y1, by omega, y3, y4, ?_⟩)
          rw [show B - k = (B - (k + 1)) + 1 by omega]
          exact y5

/-! ## The receive interrupt fills the queue -/

theorem My_UART_Receive_IT_eq (huart : UART_HandleTypeDef) (DR : Nat) :
    My_UART_Receive_IT huart DR =
      if SUCCESS ≠ (cb_push_back huart.pRxBuffPtr (fun _ => DR % 256)).1 then
        { huart with pRxBuffPtr := (cb_push_back huart.pRxBuffPtr (fun _ => DR % 256)).2,
                     RX_OVERFLOW := true }
      else { huart with pRxBuffPtr := (cb_push_back huart.pRxBuffPtr (fun _ => DR % 256)).2 } := by
  unfold My_UART_Receive_IT
  simp only

theorem My_UART_Receive_IT_overflow (bytes : List Nat) : ∀ (huart : UART_HandleTypeDef),
    huart.RX_OVERFLOW = true → (bytes.foldl My_UART_Receive_IT huart).RX_OVERFLOW = true := by
  induction bytes with
  | nil => intro huart h; exact h
  | cons b bs ih =>
    intro huart h
    apply ih
    rw [My_UART_Receive_IT_eq]
    split
    · rfl
    · exact h

/-- When the receive interrupt has run for the bytes and no overflow is flagged,
the bytes (as read from the 8 bit data register) are appended to the queue. -/
theorem My_UART_Receive_IT_run (bytes : List Nat) : ∀ (huart : UART_HandleTypeDef) (q : List Nat),
    huart.pRxBuffPtr.sz = 1 → cb_wf huart.pRxBuffPtr →
    cb_contents huart.pRxBuffPtr = q.map (fun b => [b]) →
    (bytes.foldl My_UART_Receive_IT huart).RX_OVERFLOW = false →
    (bytes.foldl My_UART_Receive_IT huart).pRxBuffPtr.sz = 1 ∧
    cb_wf (bytes.foldl My_UART_Receive_IT huart).pRxBuffPtr ∧
    cb_contents (bytes.foldl My_UART_Receive_IT huart).pRxBuffPtr =
      (q ++ bytes.map (fun b => b % 256)).map (fun b => [b]) := by
  induction bytes with
  | nil =>
    intro huart q h1 h2 h3 _
    exact ⟨h1, h2, by simpa using h3⟩
  | cons b bs ih =>
    intro huart q h1 h2 h3 h4
    obtain ⟨t, hinv⟩ := h2
    have hfold : (b :: bs).foldl My_UART_Receive_IT huart =
        bs.foldl My_UART_Receive_IT (My_UART_Receive_IT huart b) := rfl
    rw [hfold] at h4 ⊢
    by_cases hfull : huart.pRxBuffPtr.count = huart.pRxBuffPtr.capacity
    · exfalso
      have e := cb_push_back_full huart.pRxBuffPtr (fun _ => b % 256) hfull
      have : (My_UART_Receive_IT huart b).RX_OVERFLOW = true := by
        rw [My_UART_Receive_IT_eq, e, if_pos (show SUCCESS ≠ ERROR by decide)]
      rw [My_UART_Receive_IT_overflow bs _ this] at h4
      exact absurd h4 (by decide)
    · obtain ⟨p1, p2, p3, -, -, p6⟩ := cb_push_back_ok huart.pRxBuffPtr t (fun _ => b % 256)
        hinv hfull
      have e : My_UART_Receive_IT huart b =
          { huart with pRxBuffPtr := (cb_push_back huart.pRxBuffPtr (fun _ => b % 256)).2 } := by
        rw [My_UART_Receive_IT_eq, if_neg (by rw [p1]; simp)]
      rw [e] at h4 ⊢
      have hc : cb_contents (cb_push_back huart.pRxBuffPtr (fun _ => b % 256)).2 =
          (q ++ [b % 256]).map (fun b => [b]) := by
        rw [p6, h3, h1]
        simp [bytesAt]
      obtain ⟨i1, i2, i3⟩ := ih _ (q ++ [b % 256]) (p3.trans h1) ⟨t, p2⟩ hc h4
      refine ⟨i1, i2, ?_⟩
      rw [i3]
      simp

/-- Bytes received without overflow are appended to the driver's queue. -/
theorem ESP.receive_rx (s : ESP) (q bytes : List Nat) (hq : s.rx_has q)
    (hno : (s.receive bytes).ESP1_HUART.RX_OVERFLOW = false) (hb : ∀ b ∈ bytes, b < 256) :
    (s.receive bytes).rx_has (q ++ bytes) := by
  obtain ⟨h1, h2, h3, h4⟩ := hq
  obtain ⟨i1, i2, i3⟩ := My_UART_Receive_IT_run bytes s.ESP1_HUART q h2 h3 h4 hno
  have hm : bytes.map (fun b => b % 256) = bytes := by
    conv_rhs => rw [← List.map_id bytes]
    apply List.map_congr_left
    intro b hb'
    exact Nat.mod_eq_of_lt (hb b hb')
  rw [hm] at i3
  exact ⟨h1, i1, i2, i3⟩

/-! ## A `+IPD` frame: which loop a poll runs, and the end of the header -/

theorem ESP.rx_has_congr {u t : ESP} (q : List Nat) (h1 : t.HuartNumber = u.HuartNumber)
    (h2 : t.ESP1_HUART = u.ESP1_HUART) (h : u.rx_has q) : t.rx_has q := by
  unfold ESP.rx_has at h ⊢
  rw [h1, h2]
  exact h

/-- With no flush pending, no bytes to ignore, no raw data expected and no
event pending, `RxHandler` runs the loop that receives command bytes. -/
theorem ESP.RxHandler_start_cmd (s : ESP) (h1 : s.IO_.ReceiveError = false)
    (h2 : s.IO_.DoEmptyRxStream = false) (h3 : s.IO_.RxIgnoreCounter = 0)
    (h4 : s.IO_.ReceivingDataStream = false) (h5 : s.NewCommandSemaphore = false) :
    s.RxHandler = ESP.RxHandler_cmd s.rx_fuel s 0 := by
  have a1 : s.RxHandler_error = s := by
    unfold ESP.RxHandler_error
    rw [if_neg (by simp [h1])]
  have a2 : s.RxHandler_empty = s := by
    unfold ESP.RxHandler_empty
    rw [if_neg (by simp [h2])]
  unfold ESP.RxHandler
  rw [a1, a2]
  unfold ESP.RxHandler_main
  rw [if_neg (by simp [h3]), if_neg (by simp [h4]), if_neg (by simp [h5])]

/-- With no flush pending, no bytes to ignore and no overflow event, `RxHandler`
in raw-data mode runs the loop that stores socket data. -/
theorem ESP.RxHandler_start_data (s : ESP) (h1 : s.IO_.ReceiveError = false)
    (h2 : s.IO_.DoEmptyRxStream = false) (h3 : s.IO_.RxIgnoreCounter = 0)
    (h4 : s.IO_.ReceivingDataStream = true) (h5 : s.IO_.RxOverflowEvent = false) :
    s.RxHandler = ESP.RxHandler_data s.rx_fuel s := by
  have a1 : s.RxHandler_error = s := by
    unfold ESP.RxHandler_error
    rw [if_neg (by simp [h1])]
  have a2 : s.RxHandler_empty = s := by
    unfold ESP.RxHandler_empty
    rw [if_neg (by simp [h2])]
  have a3 : s.RxHandler_overflow = s := by
    unfold ESP.RxHandler_overflow
    rw [if_neg (by simp [h5])]
  unfold ESP.RxHandler
  rw [a1, a2]
  unfold ESP.RxHandler_main
  rw [if_neg (by simp [h3]), if_pos h4, a3]

/-- With no flush pending and bytes to ignore, `RxHandler` runs the loop that
ignores bytes. -/
theorem ESP.RxHandler_start_ignore (s : ESP) (h1 : s.IO_.ReceiveError = false)
    (h2 : s.IO_.DoEmptyRxStream = false) (h3 : s.IO_.RxIgnoreCounter ≠ 0) :
    s.RxHandler = ESP.RxHandler_ignore s.rx_fuel s := by
  have a1 : s.RxHandler_error = s := by
    unfold ESP.RxHandler_error
    rw [if_neg (by simp [h1])]
  have a2 : s.RxHandler_empty = s := by
    unfold ESP.RxHandler_empty
    rw [if_neg (by simp [h2])]
  unfold ESP.RxHandler
  rw [a1, a2]
  unfold ESP.RxHandler_main
  rw [if_pos h3]

theorem ESP.RxHandler_ipd_header_rx (u : ESP) (y : io) (id L : Nat) (q : List Nat)
    (h : u.rx_has q) :
    (ESP.RxHandler_ipd_header { u with IO_ := io.keep u.IO_ y } id L).rx_has q := by
  refine ESP.rx_has_congr q ?_ ?_ h
  · unfold ESP.RxHandler_ipd_header
    split_ifs <;> rfl
  · unfold ESP.RxHandler_ipd_header
    split_ifs <;> rfl

/-- The header of a frame for a socket that is listened to: raw-data mode
starts with nothing stored yet. -/
theorem ESP.ipd_header_accept (s0 u : ESP) (y : io) (id L : Nat) (p : List Nat)
    (hidle : s0.idle) (hf : s0.line_frame u) (hid : id ≤ 4) (hL : L < U16_MOD)
    (hst : (s0.Socket id).State ≠ .Closed) (hrx : (s0.Socket id).DataRx ≠ 0)
    (hlock : (s0.Socket id).RxLock = false) (hsz : (s0.Socket id).RxBuffSize ≠ 0) :
    (ESP.RxHandler_ipd_header { u with IO_ := io.keep u.IO_ y } id L).ipd_data s0 id L p 0 := by
  obtain ⟨buf, cnt, huart, rfl⟩ := hf
  obtain ⟨i1, i2, i3, i4, i5, i6, i7, i8⟩ := hidle
  have h5 : ESP8266_SOCKETS_MAX = 5 := rfl
  have e : ESP.RxHandler_ipd_header
      { ({ s0 with IO_ := { s0.IO_ with RxBuffer := buf, RxBuffCounter := cnt },
                   ESP1_HUART := huart } : ESP) with
        IO_ := io.keep ({ s0 with IO_ := { s0.IO_ with RxBuffer := buf, RxBuffCounter := cnt },
                                  ESP1_HUART := huart } : ESP).IO_ y } id L =
      ESP.RxHandler_ipd_accept
      { ({ s0 with IO_ := { s0.IO_ with RxBuffer := buf, RxBuffCounter := cnt },
                   ESP1_HUART := huart } : ESP) with
        IO_ := io.keep ({ s0 with IO_ := { s0.IO_ with RxBuffer := buf, RxBuffCounter := cnt },
                                  ESP1_HUART := huart } : ESP).IO_ y } id L := by
    unfold ESP.RxHandler_ipd_header
    rw [if_neg (by rw [h5]; omega), if_neg]
    show ¬((s0.Socket id).State = .Closed ∨ (s0.Socket id).DataRx = 0 ∨
      (s0.Socket id).RxLock = true ∨ (s0.Socket id).RxBuffSize = 0)
    rw [hlock]
    simp [hst, hrx, hsz]
  rw [e]
  unfold ESP.RxHandler_ipd_accept
  refine ⟨⟨i6, i7, i8, i5, rfl, rfl⟩, ⟨fun j hj => absurd hj (by omega), fun a _ => rfl⟩,
    rfl, i3, rfl, ?_, ?_, rfl, ?_, ?_, ?_, ?_⟩
  · show id % U8_MOD = id
    exact Nat.mod_eq_of_lt (show id < 256 by omega)
  · show L % U16_MOD = L - 0
    rw [Nat.mod_eq_of_lt hL]
    rfl
  · show (if id = id then _ else _ : socket).RxDataLen = 0
    rw [if_pos rfl]
  · show (if id = id then _ else _ : socket).RxBuffSize = _
    rw [if_pos rfl]
  · show (if id = id then _ else _ : socket).DataCutFlag = false
    rw [if_pos rfl]
  · show (if id = id then _ else _ : socket).ErrorFlag = _
    rw [if_pos rfl]

/-- The header of a frame for a closed socket: nothing is stored, and the
announced number of bytes is to be ignored. -/
theorem ESP.ipd_header_reject (s0 u : ESP) (y : io) (id L : Nat)
    (hidle : s0.idle) (hf : s0.line_frame u) (hst : (s0.Socket id).State = .Closed) :
    (ESP.RxHandler_ipd_header { u with IO_ := io.keep u.IO_ y } id L).ipd_rejected s0 ∧
    (ESP.RxHandler_ipd_header { u with IO_ := io.keep u.IO_ y } id L).IO_.RxIgnoreCounter = L := by
  obtain ⟨buf, cnt, huart, rfl⟩ := hf
  obtain ⟨i1, i2, i3, i4, i5, i6, i7, i8⟩ := hidle
  have e : ESP.RxHandler_ipd_header
      { ({ s0 with IO_ := { s0.IO_ with RxBuffer := buf, RxBuffCounter := cnt },
                   ESP1_HUART := huart } : ESP) with
        IO_ := io.keep ({ s0 with IO_ := { s0.IO_ with RxBuffer := buf, RxBuffCounter := cnt },
                                  ESP1_HUART := huart } : ESP).IO_ y } id L =
      ESP.RxHandler_ipd_ignore
      { ({ s0 with IO_ := { s0.IO_ with RxBuffer := buf, RxBuffCounter := cnt },
                   ESP1_HUART := huart } : ESP) with
        IO_ := io.keep ({ s0 with IO_ := { s0.IO_ with RxBuffer := buf, RxBuffCounter := cnt },
                                  ESP1_HUART := huart } : ESP).IO_ y } L := by
    unfold ESP.RxHandler_ipd_header
    split
    · rfl
    · rw [if_pos]
      exact Or.inl hst
  rw [e]
  unfold ESP.RxHandler_ipd_ignore
  exact ⟨⟨⟨i6, i7, i8, i5, rfl, rfl⟩, i2, rfl, rfl, rfl⟩, rfl⟩

/-! ### The invariants do not depend on the receive queue -/

theorem ESP.ipd_head_receive (s s0 : ESP) (id L n : Nat) (c : List Nat)
    (h : s.ipd_head s0 id L n) : (s.receive c).ipd_head s0 id L n := by
  obtain ⟨h1, ⟨buf, cnt, huart, rfl⟩, h3⟩ := h
  exact ⟨h1, ⟨buf, cnt, _, rfl⟩, h3⟩

theorem ESP.ipd_data_receive (s s0 : ESP) (id L k : Nat) (p c : List Nat)
    (h : s.ipd_data s0 id L p k) : (s.receive c).ipd_data s0 id L p k := h

theorem ESP.ipd_stored_receive (s s0 : ESP) (id k : Nat) (p c : List Nat) (cut : Bool)
    (h : s.ipd_stored s0 id p k cut) : (s.receive c).ipd_stored s0 id p k cut := h

theorem ESP.ipd_rejected_receive (s s0 : ESP) (c : List Nat)
    (h : s.ipd_rejected s0) : (s.receive c).ipd_rejected s0 := h

theorem ESP.ipd_stored_ignore (s t s0 : ESP) (id k : Nat) (p : List Nat) (cut : Bool)
    (hf : s.ignore_frame t) (h : s.ipd_stored s0 id p k cut) : t.ipd_stored s0 id p k cut := by
  obtain ⟨c, l, huart, rfl⟩ := hf
  exact h

theorem ESP.ipd_rejected_ignore (s t s0 : ESP) (hf : s.ignore_frame t)
    (h : s.ipd_rejected s0) : t.ipd_rejected s0 := by
  obtain ⟨c, l, huart, rfl⟩ := hf
  exact h

/-! ## A `+IPD` frame: one poll in each phase -/

/-- A poll while the header is read: either all bytes of the queue are read and
the header is not complete, or `RxHandler` returns with what the header branch
makes of the complete header, the bytes after the header left in the queue. -/
theorem ESP.RxHandler_ipd_head_poll (s0 s : ESP) (id L n : Nat) (p q : List Nat)
    (hidle : s0.idle) (hid : id ≤ 4) (hL : L < SIZE_MOD) (hh : s.ipd_head s0 id L n)
    (hq : s.rx_has q) (hpre : q <+: (IPD_header id L ++ p).drop n) :
    (n + q.length < (IPD_header id L).length ∧ s.RxHandler.ipd_head s0 id L (n + q.length) ∧
      s.RxHandler.rx_has []) ∨
    (∃ (u : ESP) (y : io), (IPD_header id L).length ≤ n + q.length ∧ s0.line_frame u ∧
      s.RxHandler = ESP.RxHandler_ipd_header { u with IO_ := io.keep u.IO_ y } id L ∧
      s.RxHandler.rx_has (q.drop ((IPD_header id L).length - n))) := by
  obtain ⟨i1, i2, i3, i4, i5, i6, i7, i8⟩ := hidle
  obtain ⟨f1, -, -, -, -, -, f7, f8, f9, f10, -, -⟩ := ESP.line_frame_fields hh.2.1
  have hn := hh.1
  have e : s.RxHandler = ESP.RxHandler_cmd (1 + q.length) s 0 := by
    rw [s.RxHandler_start_cmd (f9.trans i6) (f10.trans i7) (f8.trans i3) (f7.trans i2)
      (f1.trans i5), s.rx_fuel_eq q hq, Nat.add_comm]
  have hpre' : q <+: (IPD_header id L).drop n ++ p := by
    rw [List.drop_append_of_le_length (by omega)] at hpre
    exact hpre
  rw [e]
  rcases ESP.RxHandler_cmd_ipd_head s0 s id L n p q (by omega) hL i5 hh hq hpre' with
    h | ⟨rest, u, y, a1, a2, a3, a4, a5⟩
  · exact Or.inl h
  · right
    have hdl : ((IPD_header id L).drop n).length = (IPD_header id L).length - n :=
      List.length_drop _ _
    refine ⟨u, y, ?_, a3, a5, ?_⟩
    · rw [a1, List.length_append, hdl]
      omega
    · rw [a5]
      refine ESP.RxHandler_ipd_header_rx u y id L _ ?_
      rw [a1, List.drop_left' hdl]
      exact a4

/-- A poll after the frame: with an empty queue nothing changes. -/
theorem ESP.RxHandler_ipd_after (s s0 : ESP) (hq : s.rx_has []) (h1 : s.ipd_quiet s0)
    (h3 : s.IO_.RxIgnoreCounter = 0) (h4 : s.IO_.ReceivingDataStream = false) :
    s.RxHandler = s :=
  s.RxHandler_quiet (s.rx_has_count [] hq) h1.1 h1.2.1 h3 h4

theorem prefix_drop_nil {q frame : List Nat} {n : Nat} (h : q <+: frame.drop n)
    (hn : frame.length ≤ n) : q = [] := by
  rw [List.drop_eq_nil_of_le hn] at h
  exact List.prefix_nil.mp h

theorem prefix_drop_length {q frame : List Nat} {n : Nat} (h : q <+: frame.drop n) :
    q.length ≤ frame.length - n := by
  have := h.length_le
  rw [List.length_drop] at this
  exact this

/-- A poll while the rest of a frame is ignored: all bytes of the queue that
belong to the frame are read. -/
theorem ESP.RxHandler_ipd_ignore_poll (s : ESP) (c : Nat) (q : List Nat) (hq : s.rx_has q)
    (h1 : s.IO_.ReceiveError = false) (h2 : s.IO_.DoEmptyRxStream = false)
    (hc : s.IO_.RxIgnoreCounter = c) (hc1 : 1 ≤ c) (hqc : q.length ≤ c) :
    s.ignore_frame s.RxHandler ∧ s.RxHandler.IO_.RxIgnoreCounter = c - q.length ∧
    s.RxHandler.rx_has [] := by
  rw [s.RxHandler_start_ignore h1 h2 (by omega), s.rx_fuel_eq q hq]
  obtain ⟨a1, a2, a3⟩ := ESP.RxHandler_ignore_run q s c (q.length + 1) hq hc hc1 (by omega)
  rw [Nat.min_eq_right hqc] at a2 a3
  rw [List.drop_length] at a3
  exact ⟨a1, a2, a3⟩

/-! ## A `+IPD` frame: one poll, whatever the phase -/

theorem drop_frame_data (H p : List Nat) (n : Nat) (h : H.length ≤ n) :
    (H ++ p).drop n = p.drop (n - H.length) := by
  rw [List.drop_append_eq_append_drop, List.drop_eq_nil_of_le h, List.nil_append]

/-- One poll of a frame that fits the receive buffer of its socket. The state
has read `n` bytes of the frame and the queue holds the next bytes `q`. The
poll reads all of `q`, or stops behind the header. -/
theorem ESP.ipd_fit_poll (s0 : ESP) (id L : Nat) (p : List Nat) (hidle : s0.idle) (hid : id ≤ 4)
    (hL1 : 1 ≤ L) (hLB : L ≤ (s0.Socket id).RxBuffSize) (hB : (s0.Socket id).RxBuffSize < U16_MOD)
    (hst : (s0.Socket id).State ≠ .Closed) (hrx : (s0.Socket id).DataRx ≠ 0)
    (hlock : (s0.Socket id).RxLock = false) (hp : p.length = L)
    (s : ESP) (n : Nat) (q : List Nat) (hI : s.ipd_fit s0 id L p n) (hq : s.rx_has q)
    (hpre : q <+: (IPD_header id L ++ p).drop n) :
    ∃ n', n ≤ n' ∧ n' ≤ n + q.length ∧ s.RxHandler.ipd_fit s0 id L p n' ∧
      s.RxHandler.rx_has (q.drop (n' - n)) ∧
      (n' = n + q.length ∨ (n' = (IPD_header id L).length ∧ n < n')) := by
  have hU : U16_MOD < SIZE_MOD := by decide
  have hfl : (IPD_header id L ++ p).length = (IPD_header id L).length + L := by
    rw [List.length_append, hp]
  rcases hI with hh | ⟨d1, d2, hd⟩ | ⟨e1, hs, e3⟩
  · rcases ESP.RxHandler_ipd_head_poll s0 s id L n p q hidle hid (by omega) hh hq hpre with
      ⟨a1, a2, a3⟩ | ⟨u, y, a1, a2, a3, a4⟩
    · refine ⟨n + q.length, by omega, le_refl _, Or.inl a2, ?_, Or.inl rfl⟩
      rw [Nat.add_sub_cancel_left, List.drop_length]
      exact a3
    · have hn := hh.1
      refine ⟨(IPD_header id L).length, by omega, a1,
        Or.inr (Or.inl ⟨le_refl _, by omega, ?_⟩), a4, Or.inr ⟨rfl, hn⟩⟩
      rw [Nat.sub_self, a3]
      exact ESP.ipd_header_accept s0 u y id L p hidle a2 hid (by omega) hst hrx hlock (by omega)
  · have e : s.RxHandler = ESP.RxHandler_data (q.length + 1) s := by
      rw [s.RxHandler_start_data hd.1.1 hd.1.2.1 hd.2.2.2.1 hd.2.2.1 hd.1.2.2.1, s.rx_fuel_eq q hq]
    have hpre' : q <+: p.drop (n - (IPD_header id L).length) := by
      rw [drop_frame_data _ _ _ d1] at hpre
      exact hpre
    have hql := prefix_drop_length hpre'
    rw [e]
    rcases ESP.RxHandler_data_run s0 id L (s0.Socket id).RxBuffSize p (by omega) rfl q s
      (n - (IPD_header id L).length) (q.length + 1) hd (by omega) (by omega) hq hpre'
      (by omega) with ⟨b1, b2, b3, b4⟩ | ⟨b1, b2, b3, b4, b5⟩ | ⟨b1, -⟩
    · refine ⟨n + q.length, by omega, le_refl _, Or.inr (Or.inl ⟨by omega, by omega, ?_⟩), ?_,
        Or.inl rfl⟩
      · have hk : n + q.length - (IPD_header id L).length =
            n - (IPD_header id L).length + q.length := by omega
        rw [hk]
        exact b3
      · rw [Nat.add_sub_cancel_left, List.drop_length]
        exact b4
    · refine ⟨(IPD_header id L).length + L, by omega, by omega, Or.inr (Or.inr ⟨rfl, b3, b4⟩),
        ?_, Or.inl (by omega)⟩
      have hk : (IPD_header id L).length + L - n = L - (n - (IPD_header id L).length) := by omega
      rw [hk]
      exact b5
    · omega
  · have hq0 : q = [] := prefix_drop_nil hpre (by omega)
    subst hq0
    rw [s.RxHandler_ipd_after s0 hq hs.1 e3 hs.2.2.1]
    exact ⟨n, le_refl _, by simp, Or.inr (Or.inr ⟨e1, hs, e3⟩), by simpa using hq, Or.inl rfl⟩

/-- One poll of a frame that is longer than the receive buffer of its socket.
The poll reads all of the queue, or stops behind the header, or stops when the
receive buffer is full. -/
theorem ESP.ipd_cut_poll (s0 : ESP) (id L B : Nat) (p : List Nat) (hidle : s0.idle) (hid : id ≤ 4)
    (hB1 : 1 ≤ B) (hBL : B < L) (hL : L < U16_MOD) (hB : (s0.Socket id).RxBuffSize = B)
    (hst : (s0.Socket id).State ≠ .Closed) (hrx : (s0.Socket id).DataRx ≠ 0)
    (hlock : (s0.Socket id).RxLock = false) (hp : p.length = L)
    (s : ESP) (n : Nat) (q : List Nat) (hI : s.ipd_cut s0 id L B p n) (hq : s.rx_has q)
    (hpre : q <+: (IPD_header id L ++ p).drop n) :
    ∃ n', n ≤ n' ∧ n' ≤ n + q.length ∧ s.RxHandler.ipd_cut s0 id L B p n' ∧
      s.RxHandler.rx_has (q.drop (n' - n)) ∧
      (n' = n + q.length ∨
        ((n' = (IPD_header id L).length ∨ n' = (IPD_header id L).length + B) ∧ n < n')) := by
  have hU : U16_MOD < SIZE_MOD := by decide
  have hfl : (IPD_header id L ++ p).length = (IPD_header id L).length + L := by
    rw [List.length_append, hp]
  rcases hI with hh | ⟨d1, d2, hd⟩ | ⟨e1, e2, hs, e4⟩
  · rcases ESP.RxHandler_ipd_head_poll s0 s id L n p q hidle hid (by omega) hh hq hpre with
      ⟨a1, a2, a3⟩ | ⟨u, y, a1, a2, a3, a4⟩
    · refine ⟨n + q.length, by omega, le_refl _, Or.inl a2, ?_, Or.inl rfl⟩
      rw [Nat.add_sub_cancel_left, List.drop_length]
      exact a3
    · have hn := hh.1
      refine ⟨(IPD_header id L).length, by omega, a1,
        Or.inr (Or.inl ⟨le_refl _, by omega, ?_⟩), a4, Or.inr ⟨Or.inl rfl, hn⟩⟩
      rw [Nat.sub_self, a3]
      exact ESP.ipd_header_accept s0 u y id L p hidle a2 hid hL hst hrx hlock (by omega)
  · have e : s.RxHandler = ESP.RxHandler_data (q.length + 1) s := by
      rw [s.RxHandler_start_data hd.1.1 hd.1.2.1 hd.2.2.2.1 hd.2.2.1 hd.1.2.2.1, s.rx_fuel_eq q hq]
    have hpre' : q <+: p.drop (n - (IPD_header id L).length) := by
      rw [drop_frame_data _ _ _ d1] at hpre
      exact hpre
    rw [e]
    rcases ESP.RxHandler_data_run s0 id L B p hL hB q s
      (n - (IPD_header id L).length) (q.length + 1) hd (by omega) (by omega) hq hpre'
      (by omega) with ⟨b1, b2, b3, b4⟩ | ⟨b1, -⟩ | ⟨b1, b2, b3, b4, b5⟩
    · refine ⟨n + q.length, by omega, le_refl _, Or.inr (Or.inl ⟨by omega, by omega, ?_⟩), ?_,
        Or.inl rfl⟩
      · have hk : n + q.length - (IPD_header id L).length =
            n - (IPD_header id L).length + q.length := by omega
        rw [hk]
        exact b3
      · rw [Nat.add_sub_cancel_left, List.drop_length]
        exact b4
    · omega
    · refine ⟨(IPD_header id L).length + B, by omega, by omega,
        Or.inr (Or.inr ⟨le_refl _, by omega, b3, ?_⟩), ?_, Or.inr ⟨Or.inr rfl, by omega⟩⟩
      · rw [b4]
        omega
      · have hk : (IPD_header id L).length + B - n = B - (n - (IPD_header id L).length) := by omega
        rw [hk]
        exact b5
  · have hql := prefix_drop_length hpre
    rcases Nat.eq_or_lt_of_le e2 with hn | hn
    · have hq0 : q = [] := prefix_drop_nil hpre (by omega)
      subst hq0
      rw [s.RxHandler_ipd_after s0 hq hs.1 (by rw [e4]; omega) hs.2.2.1]
      exact ⟨n, le_refl _, by simp, Or.inr (Or.inr ⟨e1, e2, hs, e4⟩), by simpa using hq,
        Or.inl rfl⟩
    · obtain ⟨a1, a2, a3⟩ := s.RxHandler_ipd_ignore_poll _ q hq hs.1.1 hs.1.2.1 e4 (by omega)
        (by omega)
      refine ⟨n + q.length, by omega, le_refl _,
        Or.inr (Or.inr ⟨by omega, by omega, ESP.ipd_stored_ignore _ _ _ _ _ _ _ a1 hs, ?_⟩), ?_,
        Or.inl rfl⟩
      · rw [a2]
        omega
      · rw [Nat.add_sub_cancel_left, List.drop_length]
        exact a3

/-- One poll of a frame for a closed socket. The poll reads all of the queue,
or stops behind the header. -/
theorem ESP.ipd_skip_poll (s0 : ESP) (id L : Nat) (p : List Nat) (hidle : s0.idle) (hid : id ≤ 4)
    (hL : L < SIZE_MOD) (hst : (s0.Socket id).State = .Closed) (hp : p.length = L)
    (s : ESP) (n : Nat) (q : List Nat) (hI : s.ipd_skip s0 id L n) (hq : s.rx_has q)
    (hpre : q <+: (IPD_header id L ++ p).drop n) :
    ∃ n', n ≤ n' ∧ n' ≤ n + q.length ∧ s.RxHandler.ipd_skip s0 id L n' ∧
      s.RxHandler.rx_has (q.drop (n' - n)) ∧
      (n' = n + q.length ∨ (n' = (IPD_header id L).length ∧ n < n')) := by
  have hfl : (IPD_header id L ++ p).length = (IPD_header id L).length + L := by
    rw [List.length_append, hp]
  rcases hI with hh | ⟨e1, e2, hs, e4⟩
  · rcases ESP.RxHandler_ipd_head_poll s0 s id L n p q hidle hid hL hh hq hpre with
      ⟨a1, a2, a3⟩ | ⟨u, y, a1, a2, a3, a4⟩
    · refine ⟨n + q.length, by omega, le_refl _, Or.inl a2, ?_, Or.inl rfl⟩
      rw [Nat.add_sub_cancel_left, List.drop_length]
      exact a3
    · have hn := hh.1
      obtain ⟨r1, r2⟩ := ESP.ipd_header_reject s0 u y id L hidle a2 hst
      refine ⟨(IPD_header id L).length, by omega, a1,
        Or.inr ⟨le_refl _, by omega, ?_, ?_⟩, a4, Or.inr ⟨rfl, hn⟩⟩
      · rw [a3]
        exact r1
      · rw [a3, r2]
        omega
  · have hql := prefix_drop_length hpre
    rcases Nat.eq_or_lt_of_le e2 with hn | hn
    · have hq0 : q = [] := prefix_drop_nil hpre (by omega)
      subst hq0
      rw [s.RxHandler_ipd_after s0 hq hs.1 (by rw [e4]; omega) hs.2.1]
      exact ⟨n, le_refl _, by simp, Or.inr ⟨e1, e2, hs, e4⟩, by simpa using hq, Or.inl rfl⟩
    · obtain ⟨a1, a2, a3⟩ := s.RxHandler_ipd_ignore_poll _ q hq hs.1.1 hs.1.2.1 e4 (by omega)
        (by omega)
      refine ⟨n + q.length, by omega, le_refl _,
        Or.inr ⟨by omega, by omega, ESP.ipd_rejected_ignore _ _ _ a1 hs, ?_⟩, ?_, Or.inl rfl⟩
      · rw [a2]
        omega
      · rw [Nat.add_sub_cancel_left, List.drop_length]
        exact a3

/-! ## A `+IPD` frame fed in chunks -/

/-- Feeding a frame in chunks. `Inv s n` tells that the state `s` has read `n`
bytes of the frame; `hpoll` tells that a poll reads all bytes of the queue or
stops at a position `stop`. After the chunks are fed, the bytes of the frame not
yet read are in the queue, and there are none unless the last poll has stopped. -/
theorem ESP.feed_frame (Inv : ESP → Nat → Prop) (stop : Nat → Prop) (frame : List Nat)
    (hbytes : ∀ b ∈ frame, b < 256)
    (hrecv : ∀ (s : ESP) (n : Nat) (c : List Nat), Inv s n → Inv (s.receive c) n)
    (hpoll : ∀ (s : ESP) (n : Nat) (q : List Nat), Inv s n → s.rx_has q → q <+: frame.drop n →
      ∃ n', n ≤ n' ∧ n' ≤ n + q.length ∧ Inv s.RxHandler n' ∧
        s.RxHandler.rx_has (q.drop (n' - n)) ∧ (n' = n + q.length ∨ (stop n' ∧ n < n'))) :
    ∀ (chunks : List (List Nat)) (s : ESP) (n : Nat) (q : List Nat), Inv s n → s.rx_has q →
      (q = [] ∨ stop n) → s.feed_ok chunks → q ++ chunks.flatten = frame.drop n →
      ∃ n', Inv (s.feed chunks) n' ∧ (s.feed chunks).rx_has (frame.drop n') ∧
        (frame.drop n' = [] ∨ stop n') := by
  intro chunks
  induction chunks with
  | nil =>
    intro s n q hI hq hs _ hj
    rw [List.flatten_nil, List.append_nil] at hj
    subst hj
    exact ⟨n, hI, hq, hs⟩
  | cons c cs ih =>
    intro s n q hI hq hs hok hj
    rw [List.flatten_cons, ← List.append_assoc] at hj
    have hc : ∀ b ∈ c, b < 256 := by
      intro b hb
      apply hbytes b
      apply List.mem_of_mem_drop (n := n)
      rw [← hj]
      simp [hb]
    have hq1 := s.receive_rx q c hq hok.1 hc
    obtain ⟨n', a1, a2, a3, a4, a5⟩ := hpoll _ n (q ++ c) (hrecv s n c hI) hq1 ⟨_, hj⟩
    show ∃ n', Inv (ESP.feed (s.receive c).RxHandler cs) n' ∧
      (ESP.feed (s.receive c).RxHandler cs).rx_has (frame.drop n') ∧
      (frame.drop n' = [] ∨ stop n')
    apply ih (s.receive c).RxHandler n' ((q ++ c).drop (n' - n)) a3 a4 ?_ hok.2 ?_
    · rcases a5 with h | ⟨h, -⟩
      · left
        apply List.drop_eq_nil_of_le
        omega
      · exact Or.inr h
    · have e : frame.drop n' = (frame.drop n).drop (n' - n) := by
        rw [List.drop_drop]
        congr 1
        omega
      have h2 : ((q ++ c) ++ cs.flatten).drop (n' - n) = (q ++ c).drop (n' - n) ++ cs.flatten :=
        List.drop_append_of_le_length (by omega)
      rw [e, ← hj, h2]

/-- A poll when the unread bytes of the frame are all in the queue. -/
theorem ESP.poll_frame (Inv : ESP → Nat → Prop) (stop : Nat → Prop) (frame : List Nat)
    (hpoll : ∀ (s : ESP) (n : Nat) (q : List Nat), Inv s n → s.rx_has q → q <+: frame.drop n →
      ∃ n', n ≤ n' ∧ n' ≤ n + q.length ∧ Inv s.RxHandler n' ∧
        s.RxHandler.rx_has (q.drop (n' - n)) ∧ (n' = n + q.length ∨ (stop n' ∧ n < n')))
    (s : ESP) (n : Nat) (hI : Inv s n) (hq : s.rx_has (frame.drop n)) :
    ∃ n', n ≤ n' ∧ Inv s.RxHandler n' ∧ s.RxHandler.rx_has (frame.drop n') ∧
      (frame.length ≤ n' ∨ (stop n' ∧ n < n')) := by
  obtain ⟨n', a1, a2, a3, a4, a5⟩ := hpoll s n _ hI hq (List.prefix_refl _)
  refine ⟨n', a1, a3, ?_, ?_⟩
  · rw [List.drop_drop] at a4
    have e : n + (n' - n) = n' := by omega
    rw [e] at a4
    exact a4
  · rcases a5 with h | h
    · left
      rw [List.length_drop] at h
      omega
    · exact Or.inr h

/-! ## `+IPD` frames: stored, cut, and ignored -/

theorem bytesAt_eq_of_getD (m : Nat → Nat) (a : Nat) (p : List Nat)
    (h : ∀ j, j < p.length → m (a + j) = p.getD j 0) : bytesAt m a p.length = p := by
  apply List.ext_getElem (bytesAt_length m a p.length)
  intro j h1 h2
  have e : (bytesAt m a p.length)[j] = m (a + j) := by
    simp [bytesAt]
  rw [e, h j h2, List.getD_eq_getElem?_getD, List.getElem?_eq_getElem h2]
  rfl

theorem drop_nil_length {frame : List Nat} {n : Nat} (h : frame.drop n = []) :
    frame.length ≤ n := by
  have := congrArg List.length h
  rw [List.length_drop, List.length_nil] at this
  omega

theorem ESP.ipd_fit_receive (s s0 : ESP) (id L : Nat) (p : List Nat) (n : Nat) (c : List Nat)
    (h : s.ipd_fit s0 id L p n) : (s.receive c).ipd_fit s0 id L p n := by
  rcases h with h | ⟨h1, h2, h3⟩ | ⟨h1, h2, h3⟩
  · exact Or.inl (ESP.ipd_head_receive s s0 id L n c h)
  · exact Or.inr (Or.inl ⟨h1, h2, h3⟩)
  · exact Or.inr (Or.inr ⟨h1, h2, h3⟩)

theorem ESP.ipd_cut_receive (s s0 : ESP) (id L B : Nat) (p : List Nat) (n : Nat) (c : List Nat)
    (h : s.ipd_cut s0 id L B p n) : (s.receive c).ipd_cut s0 id L B p n := by
  rcases h with h | ⟨h1, h2, h3⟩ | ⟨h1, h2, h3, h4⟩
  · exact Or.inl (ESP.ipd_head_receive s s0 id L n c h)
  · exact Or.inr (Or.inl ⟨h1, h2, h3⟩)
  · exact Or.inr (Or.inr ⟨h1, h2, h3, h4⟩)

theorem ESP.ipd_skip_receive (s s0 : ESP) (id L : Nat) (n : Nat) (c : List Nat)
    (h : s.ipd_skip s0 id L n) : (s.receive c).ipd_skip s0 id L n := by
  rcases h with h | ⟨h1, h2, h3, h4⟩
  · exact Or.inl (ESP.ipd_head_receive s s0 id L n c h)
  · exact Or.inr ⟨h1, h2, h3, h4⟩

theorem ESP.ipd_head_start (s : ESP) (id L : Nat) (hidle : s.idle) (hid : id ≤ 4)
    (hL : L < SIZE_MOD) : s.ipd_head s id L 0 := by
  have := (IPD_header_fits id L (by omega) hL).1
  exact ⟨by omega, s.line_frame_refl, hidle.1, fun i hi => absurd hi (by simp)⟩

theorem frame_bytes (id L : Nat) (p : List Nat) (hid : id ≤ 4) (hbytes : ∀ b ∈ p, b < 256) :
    ∀ b ∈ IPD_header id L ++ p, b < 256 := by
  intro b hb
  rcases List.mem_append.mp hb with h | h
  · exact (IPD_header_bytes id L (by omega) b h).2.2
  · exact hbytes b h

/-- The state when a frame that fits has been fed and polled once more. -/
theorem ESP.feed_fit (s : ESP) (id L : Nat) (p : List Nat) (chunks : List (List Nat))
    (hidle : s.idle) (hq : s.rx_has []) (hid : id ≤ 4)
    (hst : (s.Socket id).State ≠ .Closed) (hrx : (s.Socket id).DataRx ≠ 0)
    (hlock : (s.Socket id).RxLock = false)
    (hL1 : 1 ≤ L) (hLB : L ≤ (s.Socket id).RxBuffSize) (hB : (s.Socket id).RxBuffSize < U16_MOD)
    (hp : p.length = L) (hbytes : ∀ b ∈ p, b < 256)
    (hchunks : chunks.flatten = IPD_header id L ++ p) (hok : s.feed_ok chunks) :
    (s.feed chunks).RxHandler.ipd_stored s id p L false ∧
    (s.feed chunks).RxHandler.IO_.RxIgnoreCounter = 0 ∧
    (s.feed chunks).RxHandler.rx_has [] := by
  have hU : U16_MOD < SIZE_MOD := by decide
  have hfl : (IPD_header id L ++ p).length = (IPD_header id L).length + L := by
    rw [List.length_append, hp]
  have hpoll := fun t n q => ESP.ipd_fit_poll s id L p hidle hid hL1 hLB hB hst hrx hlock hp t n q
  obtain ⟨n1, b1, b2, b3⟩ := ESP.feed_frame (fun t n => t.ipd_fit s id L p n)
    (fun n => n = (IPD_header id L).length) (IPD_header id L ++ p)
    (frame_bytes id L p hid hbytes) (fun t n c h => ESP.ipd_fit_receive t s id L p n c h) hpoll
    chunks s 0 [] (Or.inl (s.ipd_head_start id L hidle hid (by omega))) hq (Or.inl rfl) hok
    (by simpa using hchunks)
  obtain ⟨n2, c1, c2, c3, c4⟩ := ESP.poll_frame (fun t n => t.ipd_fit s id L p n)
    (fun n => n = (IPD_header id L).length) (IPD_header id L ++ p) hpoll _ n1 b1 b2
  have hn2 : (IPD_header id L).length + L ≤ n2 := by
    rcases c4 with h | ⟨h1, h2⟩
    · omega
    · rcases b3 with h | h
      · have := drop_nil_length h
        omega
      · omega
  rcases c2 with hh | ⟨-, d2, -⟩ | ⟨e1, hs, e3⟩
  · have := hh.1
    omega
  · omega
  · refine ⟨hs, e3, ?_⟩
    rw [List.drop_eq_nil_of_le (by omega)] at c3
    exact c3

/-- The state when a frame longer than the receive buffer has been fed and
polled twice more. -/
theorem ESP.feed_cut (s : ESP) (id L B : Nat) (p : List Nat) (chunks : List (List Nat))
    (hidle : s.idle) (hq : s.rx_has []) (hid : id ≤ 4)
    (hst : (s.Socket id).State ≠ .Closed) (hrx : (s.Socket id).DataRx ≠ 0)
    (hlock : (s.Socket id).RxLock = false)
    (hB : (s.Socket id).RxBuffSize = B) (hB1 : 1 ≤ B) (hBL : B < L) (hL : L < U16_MOD)
    (hp : p.length = L) (hbytes : ∀ b ∈ p, b < 256)
    (hchunks : chunks.flatten = IPD_header id L ++ p) (hok : s.feed_ok chunks) :
    (s.feed chunks).RxHandler.RxHandler.ipd_stored s id p B true ∧
    (s.feed chunks).RxHandler.RxHandler.IO_.RxIgnoreCounter = 0 ∧
    (s.feed chunks).RxHandler.RxHandler.rx_has [] := by
  have hU : U16_MOD < SIZE_MOD := by decide
  have hfl : (IPD_header id L ++ p).length = (IPD_header id L).length + L := by
    rw [List.length_append, hp]
  have hpoll := fun t n q => ESP.ipd_cut_poll s id L B p hidle hid hB1 hBL hL hB hst hrx hlock hp
    t n q
  obtain ⟨n1, b1, b2, b3⟩ := ESP.feed_frame (fun t n => t.ipd_cut s id L B p n)
    (fun n => n = (IPD_header id L).length ∨ n = (IPD_header id L).length + B)
    (IPD_header id L ++ p)
    (frame_bytes id L p hid hbytes) (fun t n c h => ESP.ipd_cut_receive t s id L B p n c h) hpoll
    chunks s 0 [] (Or.inl (s.ipd_head_start id L hidle hid (by omega))) hq (Or.inl rfl) hok
    (by simpa using hchunks)
  obtain ⟨n2, c1, c2, c3, c4⟩ := ESP.poll_frame (fun t n => t.ipd_cut s id L B p n)
    (fun n => n = (IPD_header id L).length ∨ n = (IPD_header id L).length + B)
    (IPD_header id L ++ p) hpoll _ n1 b1 b2
  obtain ⟨n3, d1, d2, d3, d4⟩ := ESP.poll_frame (fun t n => t.ipd_cut s id L B p n)
    (fun n => n = (IPD_header id L).length ∨ n = (IPD_header id L).length + B)
    (IPD_header id L ++ p) hpoll _ n2 c2 c3
  have hn1 : (IPD_header id L).length ≤ n1 := by
    rcases b3 with h | h | h
    · have := drop_nil_length h
      omega
    · omega
    · omega
  have hn2 : (IPD_header id L).length + B ≤ n2 := by
    rcases c4 with h | ⟨h1 | h1, h2⟩
    · omega
    · omega
    · omega
  have hn3 : (IPD_header id L).length + L ≤ n3 := by
    rcases d4 with h | ⟨h1 | h1, h2⟩
    · omega
    · omega
    · omega
  rcases d2 with hh | ⟨-, e2, -⟩ | ⟨e1, e2, hs, e4⟩
  · have := hh.1
    omega
  · omega
  · refine ⟨hs, by rw [e4]; omega, ?_⟩
    rw [List.drop_eq_nil_of_le (by omega)] at d3
    exact d3

/-- The state when a frame for a closed socket has been fed and polled once
more. -/
theorem ESP.feed_skip (s : ESP) (id L : Nat) (p : List Nat) (chunks : List (List Nat))
    (hidle : s.idle) (hq : s.rx_has []) (hid : id ≤ 4)
    (hst : (s.Socket id).State = .Closed) (hL1 : 1 ≤ L) (hL : L < SIZE_MOD)
    (hp : p.length = L) (hbytes : ∀ b ∈ p, b < 256)
    (hchunks : chunks.flatten = IPD_header id L ++ p) (hok : s.feed_ok chunks) :
    (s.feed chunks).RxHandler.ipd_rejected s ∧
    (s.feed chunks).RxHandler.IO_.RxIgnoreCounter = 0 ∧
    (s.feed chunks).RxHandler.rx_has [] := by
  have hfl : (IPD_header id L ++ p).length = (IPD_header id L).length + L := by
    rw [List.length_append, hp]
  have hpoll := fun t n q => ESP.ipd_skip_poll s id L p hidle hid hL hst hp t n q
  obtain ⟨n1, b1, b2, b3⟩ := ESP.feed_frame (fun t n => t.ipd_skip s id L n)
    (fun n => n = (IPD_header id L).length) (IPD_header id L ++ p)
    (frame_bytes id L p hid hbytes) (fun t n c h => ESP.ipd_skip_receive t s id L n c h) hpoll
    chunks s 0 [] (Or.inl (s.ipd_head_start id L hidle hid hL)) hq (Or.inl rfl) hok
    (by simpa using hchunks)
  obtain ⟨n2, c1, c2, c3, c4⟩ := ESP.poll_frame (fun t n => t.ipd_skip s id L n)
    (fun n => n = (IPD_header id L).length) (IPD_header id L ++ p) hpoll _ n1 b1 b2
  have hn2 : (IPD_header id L).length + L ≤ n2 := by
    rcases c4 with h | ⟨h1, h2⟩
    · omega
    · rcases b3 with h | h
      · have := drop_nil_length h
        omega
      · omega
  rcases c2 with hh | ⟨e1, e2, hs, e4⟩
  · have := hh.1
    omega
  · refine ⟨hs, by rw [e4]; omega, ?_⟩
    rw [List.drop_eq_nil_of_le (by omega)] at c3
    exact c3

/-- The whole frame for a closed socket, followed by the bytes `rest`, is in
the queue: the first poll reads the header, the second ignores the `L` bytes
that follow and leaves `rest` in the queue. -/
theorem ESP.skip_at_once (s : ESP) (id L : Nat) (p rest : List Nat)
    (hidle : s.idle) (hid : id ≤ 4) (hst : (s.Socket id).State = .Closed) (hL1 : 1 ≤ L)
    (hL : L < SIZE_MOD) (hp : p.length = L)
    (hq : s.rx_has (IPD_header id L ++ p ++ rest)) :
    s.RxHandler.RxHandler.ipd_rejected s ∧ s.RxHandler.RxHandler.IO_.RxIgnoreCounter = 0 ∧
    s.RxHandler.RxHandler.rx_has rest := by
  have hpre : (IPD_header id L ++ p ++ rest) <+: (IPD_header id L ++ (p ++ rest)).drop 0 := by
    rw [List.drop_zero, List.append_assoc]
  rcases ESP.RxHandler_ipd_head_poll s s id L 0 (p ++ rest) _ hidle hid hL
    (s.ipd_head_start id L hidle hid hL) hq hpre with ⟨a1, -, -⟩ | ⟨u, y, a1, a2, a3, a4⟩
  · simp only [List.length_append] at a1
    omega
  · obtain ⟨r1, r2⟩ := ESP.ipd_header_reject s u y id L hidle a2 hst
    rw [← a3] at r1 r2
    rw [Nat.sub_zero, List.append_assoc, List.drop_left] at a4
    have e : s.RxHandler.RxHandler = ESP.RxHandler_ignore ((p ++ rest).length + 1) s.RxHandler := by
      rw [s.RxHandler.RxHandler_start_ignore r1.1.1 r1.1.2.1 (by omega),
        s.RxHandler.rx_fuel_eq _ a4]
    obtain ⟨b1, b2, b3⟩ := ESP.RxHandler_ignore_run (p ++ rest) s.RxHandler L
      ((p ++ rest).length + 1) a4 r2 hL1 (by omega)
    have hm : min L (p ++ rest).length = L := by
      rw [List.length_append, hp]
      omega
    rw [hm] at b2 b3
    rw [← hp, List.drop_left] at b3
    rw [e]
    exact ⟨ESP.ipd_rejected_ignore _ _ _ b1 r1, by omega, b3⟩

/-! ## Claims on `+IPD` frames -/

theorem ESP.idle_of_quiet (t s : ESP) (hidle : s.idle) (hq : t.ipd_quiet s)
    (h1 : t.IO_.RxBuffCounter = 0) (h2 : t.IO_.ReceivingDataStream = false)
    (h3 : t.IO_.RxIgnoreCounter = 0) : t.idle :=
  ⟨h1, h2, h3, hq.2.2.2.2.2.trans hidle.2.2.2.1, hq.2.2.2.1, hq.1, hq.2.1, hq.2.2.1⟩

theorem state_not_closed {x : eSocketState} (h : x = .Connected) : x ≠ .Closed := by
  rw [h]
  decide

/-- C10: an idle recognizer with an empty receive queue is fed the frame
`+IPD,<id>,<L>:` followed by the `L` payload bytes `p`, in any chunks, with a
poll after each chunk and one more poll after the last. Socket `id` (0..4) is
`Connected` and listened to (`DataRx` set, `RxLock` false) with a receive buffer
of at least `L` bytes, `1 ≤ L`, and no byte is lost on the UART. Then `RxDataLen`
is `L`, the first `L` bytes of the receive buffer are `p`, `RxLock` is true,
`DataCutFlag` is false, no event is stored for the header (`StoreCommand` was
not called, no event is pending), the recognizer is idle with an empty queue,
and a further poll changes nothing. -/
theorem C10_IPD_frame_stored (s : ESP) (id L : Nat) (p : List Nat) (chunks : List (List Nat))
    (hidle : s.idle) (hq : s.rx_has []) (hid : id ≤ 4)
    (hst : (s.Socket id).State = .Connected) (hrx : (s.Socket id).DataRx ≠ 0)
    (hlock : (s.Socket id).RxLock = false)
    (hL1 : 1 ≤ L) (hLB : L ≤ (s.Socket id).RxBuffSize) (hB : (s.Socket id).RxBuffSize < U16_MOD)
    (hp : p.length = L) (hbytes : ∀ b ∈ p, b < 256)
    (hchunks : chunks.flatten = IPD_header id L ++ p) (hok : s.feed_ok chunks) :
    ((s.feed chunks).RxHandler.Socket id).RxDataLen = L ∧
    bytesAt (s.feed chunks).RxHandler.app_mem (s.Socket id).DataRx L = p ∧
    ((s.feed chunks).RxHandler.Socket id).RxLock = true ∧
    ((s.feed chunks).RxHandler.Socket id).DataCutFlag = false ∧
    (s.feed chunks).RxHandler.StoreCommand_calls = s.StoreCommand_calls ∧
    (s.feed chunks).RxHandler.IO_.ReceivedCommand = .NO_COMMAND_RECEIVED ∧
    (s.feed chunks).RxHandler.NewCommandSemaphore = false ∧
    (s.feed chunks).RxHandler.idle ∧ (s.feed chunks).RxHandler.rx_has [] ∧
    (s.feed chunks).RxHandler.RxHandler = (s.feed chunks).RxHandler := by
  obtain ⟨⟨hqt, ⟨m1, m2⟩, k1, k2, k3, k4, k5, k6⟩, hi, hrx'⟩ :=
    ESP.feed_fit s id L p chunks hidle hq hid (state_not_closed hst) hrx hlock hL1 hLB hB hp
      hbytes hchunks hok
  have hid' := ESP.idle_of_quiet _ s hidle hqt k2 k1 hi
  refine ⟨k3, ?_, k4, k5, hqt.2.2.2.2.1, hid'.2.2.2.1, hqt.2.2.2.1, hid', hrx', ?_⟩
  · have := bytesAt_eq_of_getD (s.feed chunks).RxHandler.app_mem (s.Socket id).DataRx p
      (fun j hj => m1 j (by omega))
    rw [hp] at this
    exact this
  · exact ESP.RxHandler_ipd_after _ s hrx' hqt hi k1

theorem C10_IPD_frame_stored_witness :
    (((ESP.demo_listening.withRx []).feed [cs "+IPD,0,5:He", cs "llo"]).RxHandler.Socket 0).RxDataLen
      = 5 ∧
    bytesAt ((ESP.demo_listening.withRx []).feed [cs "+IPD,0,5:He", cs "llo"]).RxHandler.app_mem
      7000 5 = cs "Hello" ∧
    (((ESP.demo_listening.withRx []).feed [cs "+IPD,0,5:He", cs "llo"]).RxHandler.Socket 0).RxLock
      = true ∧
    (((ESP.demo_listening.withRx []).feed
      [cs "+IPD,0,5:He", cs "llo"]).RxHandler.Socket 0).DataCutFlag = false ∧
    ((ESP.demo_listening.withRx []).feed [cs "+IPD,0,5:He", cs "llo"]).RxHandler.StoreCommand_calls
      = 0 ∧
    ((ESP.demo_listening.withRx []).feed
      [cs "+IPD,0,5:He", cs "llo"]).RxHandler.IO_.ReceivedCommand = .NO_COMMAND_RECEIVED :=
  have h := C10_IPD_frame_stored (ESP.demo_listening.withRx []) 0 5 (cs "Hello")
    [cs "+IPD,0,5:He", cs "llo"] (by unfold ESP.idle; decide)
    ⟨rfl, rfl, ⟨0, circular_buffer.holding_inv _ (by decide)⟩, by decide⟩ (by decide) (by decide)
    (by decide) (by decide) (by decide) (by decide) (by decide) (by decide) (by decide)
    (by decide) ⟨by decide, by decide, trivial⟩
  ⟨h.1, h.2.1, h.2.2.1, h.2.2.2.1, h.2.2.2.2.1, h.2.2.2.2.2.1⟩

/-- C11: socket `id` (0..4) is `Closed` and `1 ≤ L` (a value of the
`unsigned int` that holds the announced length). When an idle recognizer has the
frame `+IPD,<id>,<L>:`, `L` bytes `p` and any further bytes `rest` in its
receive queue, two polls discard exactly the `L` bytes: `rest` is left in the
queue and the recognizer is idle, so that the first byte of `rest` is the first
byte of a new record; no event is stored for the header, and every socket record
and the application's memory are unchanged. The same holds when the frame is
fed in any chunks with a poll after each chunk and one more poll after the
last. -/
theorem C11_IPD_frame_for_closed_socket_discarded (s : ESP) (id L : Nat) (p rest : List Nat)
    (chunks : List (List Nat)) (hidle : s.idle) (hid : id ≤ 4)
    (hst : (s.Socket id).State = .Closed) (hL1 : 1 ≤ L) (hL : L < SIZE_MOD)
    (hp : p.length = L) :
    (s.rx_has (IPD_header id L ++ p ++ rest) →
      s.RxHandler.RxHandler.rx_has rest ∧ s.RxHandler.RxHandler.idle ∧
      s.RxHandler.RxHandler.Socket = s.Socket ∧
      s.RxHandler.RxHandler.app_mem = s.app_mem ∧
      s.RxHandler.RxHandler.StoreCommand_calls = s.StoreCommand_calls) ∧
    (s.rx_has [] → (∀ b ∈ p, b < 256) → chunks.flatten = IPD_header id L ++ p →
      s.feed_ok chunks →
      (s.feed chunks).RxHandler.rx_has [] ∧ (s.feed chunks).RxHandler.idle ∧
      (s.feed chunks).RxHandler.Socket = s.Socket ∧
      (s.feed chunks).RxHandler.app_mem = s.app_mem ∧
      (s.feed chunks).RxHandler.StoreCommand_calls = s.StoreCommand_calls) := by
  constructor
  · intro hq
    obtain ⟨⟨hqt, k1, k2, k3, k4⟩, hi, hrx⟩ :=
      ESP.skip_at_once s id L p rest hidle hid hst hL1 hL hp hq
    exact ⟨hrx, ESP.idle_of_quiet _ s hidle hqt k2 k1 hi, k3, k4, hqt.2.2.2.2.1⟩
  · intro hq hbytes hchunks hok
    obtain ⟨⟨hqt, k1, k2, k3, k4⟩, hi, hrx⟩ :=
      ESP.feed_skip s id L p chunks hidle hq hid hst hL1 hL hp hbytes hchunks hok
    exact ⟨hrx, ESP.idle_of_quiet _ s hidle hqt k2 k1 hi, k3, k4, hqt.2.2.2.2.1⟩

theorem C11_IPD_frame_for_closed_socket_discarded_witness :
    ((ESP.demo.withRx (cs "+IPD,2,5:HelloOK\r\n")).RxHandler.RxHandler.rx_has (cs "OK\r\n") ∧
      (ESP.demo.withRx (cs "+IPD,2,5:HelloOK\r\n")).RxHandler.RxHandler.idle ∧
      (ESP.demo.withRx (cs "+IPD,2,5:HelloOK\r\n")).RxHandler.RxHandler.Socket =
        (ESP.demo.withRx (cs "+IPD,2,5:HelloOK\r\n")).Socket) ∧
    (((ESP.demo.withRx []).feed [cs "+IPD,2,", cs "5:Hel", cs "lo"]).RxHandler.idle ∧
      ((ESP.demo.withRx []).feed [cs "+IPD,2,", cs "5:Hel", cs "lo"]).RxHandler.Socket =
        (ESP.demo.withRx []).Socket) ∧
    ((ESP.demo.withRx (cs "+IPD,2,5:HelloOK\r\n")).RxHandler.RxHandler.RxHandler.isCommandReceived
      .OK).1 = true :=
  have h1 := (C11_IPD_frame_for_closed_socket_discarded (ESP.demo.withRx (cs "+IPD,2,5:HelloOK\r\n"))
    2 5 (cs "Hello") (cs "OK\r\n") [] (by unfold ESP.idle; decide) (by decide) (by decide)
    (by decide) (by decide) (by decide)).1
    ⟨rfl, rfl, ⟨0, circular_buffer.holding_inv _ (by decide)⟩, by decide⟩
  have h2 := (C11_IPD_frame_for_closed_socket_discarded (ESP.demo.withRx [])
    2 5 (cs "Hello") [] [cs "+IPD,2,", cs "5:Hel", cs "lo"] (by unfold ESP.idle; decide)
    (by decide) (by decide) (by decide) (by decide) (by decide)).2
    ⟨rfl, rfl, ⟨0, circular_buffer.holding_inv _ (by decide)⟩, by decide⟩ (by decide) (by decide)
    ⟨by decide, by decide, by decide, trivial⟩
  ⟨⟨h1.1, h1.2.1, h1.2.2.1⟩, ⟨h2.2.1, h2.2.2.1⟩, by decide⟩

/-- C12, amended: socket `id` (0..4) is `Connected` and listened to (`DataRx` set,
`RxLock` false, no error flagged) with a receive buffer of `B ≥ 1` bytes, and an
idle recognizer is fed the frame `+IPD,<id>,<L>:` with `B < L ≤ 65535` followed
by the `L` payload bytes `p`, in any chunks, with a poll after each chunk and
two more polls after the last. Then the first `B` bytes of the receive buffer
are the first `B` bytes of `p`, the application's memory outside these `B`
bytes is unchanged, `RxDataLen` is `B`, `RxLock` and `DataCutFlag` are true, the
other `L - B` bytes are consumed (the queue is empty and `RxIgnoreCounter` is
back to 0, with no event stored and the recognizer idle), and `SocketRecv`
returns 0xFFFF. -/
theorem C12_IPD_frame_cut (s : ESP) (id L B : Nat) (p : List Nat) (chunks : List (List Nat))
    (hidle : s.idle) (hq : s.rx_has []) (hid : id ≤ 4)
    (hst : (s.Socket id).State = .Connected) (hrx : (s.Socket id).DataRx ≠ 0)
    (hlock : (s.Socket id).RxLock = false) (herr : (s.Socket id).ErrorFlag = .NoError)
    (hB : (s.Socket id).RxBuffSize = B) (hB1 : 1 ≤ B) (hBL : B < L) (hL : L < U16_MOD)
    (hp : p.length = L) (hbytes : ∀ b ∈ p, b < 256)
    (hchunks : chunks.flatten = IPD_header id L ++ p) (hok : s.feed_ok chunks) :
    bytesAt (s.feed chunks).RxHandler.RxHandler.app_mem (s.Socket id).DataRx B = p.take B ∧
    (∀ a, a < (s.Socket id).DataRx ∨ (s.Socket id).DataRx + B ≤ a →
      (s.feed chunks).RxHandler.RxHandler.app_mem a = s.app_mem a) ∧
    ((s.feed chunks).RxHandler.RxHandler.Socket id).RxDataLen = B ∧
    ((s.feed chunks).RxHandler.RxHandler.Socket id).RxLock = true ∧
    ((s.feed chunks).RxHandler.RxHandler.Socket id).DataCutFlag = true ∧
    (s.feed chunks).RxHandler.RxHandler.IO_.RxIgnoreCounter = 0 ∧
    (s.feed chunks).RxHandler.RxHandler.rx_has [] ∧
    (s.feed chunks).RxHandler.RxHandler.idle ∧
    (s.feed chunks).RxHandler.RxHandler.StoreCommand_calls = s.StoreCommand_calls ∧
    (s.feed chunks).RxHandler.RxHandler.SocketRecv id = 65535 := by
  obtain ⟨⟨hqt, ⟨m1, m2⟩, k1, k2, k3, k4, k5, k6⟩, hi, hrx'⟩ :=
    ESP.feed_cut s id L B p chunks hidle hq hid (state_not_closed hst) hrx hlock hB hB1 hBL hL hp
      hbytes hchunks hok
  have hid' := ESP.idle_of_quiet _ s hidle hqt k2 k1 hi
  refine ⟨?_, m2, k3, k4, k5, hi, hrx', hid', hqt.2.2.2.2.1, ?_⟩
  · have hl : (p.take B).length = B := by
      rw [List.length_take]
      omega
    have := bytesAt_eq_of_getD (s.feed chunks).RxHandler.RxHandler.app_mem (s.Socket id).DataRx
      (p.take B) (fun j hj => by
        rw [hl] at hj
        rw [getD_take p B j hj]
        exact m1 j hj)
    rw [hl] at this
    exact this
  · unfold ESP.SocketRecv
    rw [if_neg (by simp only [SocketsNum, ESP8266_SOCKETS_MAX]; omega),
      if_pos ⟨k4, hi, k6.trans herr⟩, if_pos k5]

set_option maxRecDepth 100000 in
theorem C12_IPD_frame_cut_witness :
    bytesAt ((ESP.demo_listening.withRx []).feed
      [cs "+IPD,0,20:ABCDEFGH", cs "IJKLMNOPQRST"]).RxHandler.RxHandler.app_mem 7000 16 =
      cs "ABCDEFGHIJKLMNOP" ∧
    (((ESP.demo_listening.withRx []).feed
      [cs "+IPD,0,20:ABCDEFGH", cs "IJKLMNOPQRST"]).RxHandler.RxHandler.Socket 0).RxDataLen = 16 ∧
    (((ESP.demo_listening.withRx []).feed
      [cs "+IPD,0,20:ABCDEFGH", cs "IJKLMNOPQRST"]).RxHandler.RxHandler.Socket 0).DataCutFlag
      = true ∧
    ((ESP.demo_listening.withRx []).feed
      [cs "+IPD,0,20:ABCDEFGH", cs "IJKLMNOPQRST"]).RxHandler.RxHandler.SocketRecv 0 = 65535 :=
  have h := C12_IPD_frame_cut (ESP.demo_listening.withRx []) 0 20 16 (cs "ABCDEFGHIJKLMNOPQRST")
    [cs "+IPD,0,20:ABCDEFGH", cs "IJKLMNOPQRST"] (by unfold ESP.idle; decide)
    ⟨rfl, rfl, ⟨0, circular_buffer.holding_inv _ (by decide)⟩, by decide⟩ (by decide) (by decide)
    (by decide) (by decide) (by decide) (by decide) (by decide) (by decide) (by decide)
    (by decide) (by decide) (by decide) ⟨by decide, by decide, trivial⟩
  ⟨h.1, h.2.2.1, h.2.2.2.2.1, h.2.2.2.2.2.2.2.2.2⟩

/-! ## The local access point: the name with a postfix -/

set_option maxRecDepth 100000 in
/-- C20, evaluated on the code: the access point `MyAP` is requested, the search
for a free name has ended with the postfix 3, and the module has reported another
name for its current configuration. Two rounds of `Process` take the handler from
step 3 to step 5 and send `AT+CWSAP_CUR="MyAP_3","secret12",1,3`; the module
answers `OK`, and after two more rounds the access point is `Started` under the
name with the postfix 3, while `AccessPointNameChanged()` returns 0 and
`LocalAP.Name` is still `MyAP`. Only when the module had reported the name
`MyAP_3` itself does `AccessPointNameChanged()` return 3. -/
theorem C20_name_applied_with_postfix_reports_zero :
    (ESP.demo_ap (cs "ESP_1A2B3C")).AccessPointNameChanged = 0 ∧
    (ESP.demo_ap (cs "ESP_1A2B3C")).round_ap.round_ap.STEP = 5 ∧
    cb_contents (ESP.demo_ap (cs "ESP_1A2B3C")).round_ap.round_ap.ESP1_HUART.pTxBuffPtr =
      (cs "AT+CWSAP_CUR=\"MyAP_3\",\"secret12\",1,3\r\n").map (fun b => [b]) ∧
    (((ESP.demo_ap (cs "ESP_1A2B3C")).round_ap.round_ap.receive
      (cs "OK\r\n")).round_ap.round_ap).LocalAccessPointState = .Started ∧
    (((ESP.demo_ap (cs "ESP_1A2B3C")).round_ap.round_ap.receive
      (cs "OK\r\n")).round_ap.round_ap).CurrentState = .smStandby ∧
    (((ESP.demo_ap (cs "ESP_1A2B3C")).round_ap.round_ap.receive
      (cs "OK\r\n")).round_ap.round_ap).Module.AP_NamePostfix = 3 ∧
    (((ESP.demo_ap (cs "ESP_1A2B3C")).round_ap.round_ap.receive
      (cs "OK\r\n")).round_ap.round_ap).AccessPointNameChanged = 0 ∧
    (((ESP.demo_ap (cs "ESP_1A2B3C")).round_ap.round_ap.receive
      (cs "OK\r\n")).round_ap.round_ap).LocalAP.pName = cs "MyAP" ∧
    (ESP.demo_ap (cs "MyAP_3")).round_ap.LocalAccessPointState = .Started ∧
    (ESP.demo_ap (cs "MyAP_3")).round_ap.AccessPointNameChanged = 3 ∧
    (ESP.demo_ap (cs "MyAP_3")).round_ap.LocalAP.pName = cs "MyAP_3" := by
  decide

/-! ## The detection of the baud rate with a silent module -/

/-- C21: the driver enters `smDetectModuleBaudrate` and is polled every 50 ms
while the module stays silent. After 35 polls the engine has left for
`smModuleReset`, and the UART has sent `AT` at the rates 9600, 115200, 19200,
38400, 74880, 230400, 460800 and 921600 in this order — and then a ninth `AT`,
again at 921600: step 0 sends `AT` also in the poll in which it finds that all
eight rates have been tried. -/
theorem C21_ninth_AT_after_all_rates_tried :
    ((world.ctor ESP.demo_detect (modem.ctor 0)).rounds_silent (List.replicate 35 50)).sent =
      [(9600, cs "AT\r\n"), (115200, cs "AT\r\n"), (19200, cs "AT\r\n"), (38400, cs "AT\r\n"),
       (74880, cs "AT\r\n"), (230400, cs "AT\r\n"), (460800, cs "AT\r\n"), (921600, cs "AT\r\n"),
       (921600, cs "AT\r\n")] ∧
    ((world.ctor ESP.demo_detect (modem.ctor 0)).rounds_silent (List.replicate 35 50)).passed =
      [.smDetectModuleBaudrate, .smModuleReset] := by
  decide!

/-! ## The boot run and the send of more than one packet -/

/-- C23: a send of 2049 bytes from the address 5000 on socket 0, taken up after
2000 bytes of the first packet have been sent. The driver sends the 48 bytes at
7000..7047, announces a second packet of one byte, and sends the byte at the
address 7000 again, not the byte at 7048: the piece that ends a packet does not
advance `DataTx`. The send ends with `SendSuccess`. -/
theorem C23_second_packet_repeats_bytes :
    ((world.ctor ESP.demo_send_rest modem.demo_send_rest).rounds (List.replicate 12 30)).sent =
      [(230400, (List.range 48).map (fun i => (7000 + i) % 251)),
       (230400, cs "AT+CIPSEND=0,1\r\n"),
       (230400, [7000 % 251])] ∧
    (((world.ctor ESP.demo_send_rest modem.demo_send_rest).rounds
      (List.replicate 12 30)).esp.Socket 0).TxState = .SendSuccess ∧
    ((world.ctor ESP.demo_send_rest modem.demo_send_rest).rounds
      (List.replicate 12 30)).esp.CurrentState = .smStandby ∧
    ESP.demo_send_rest.app_mem 7048 ≠ ESP.demo_send_rest.app_mem 7000 := by
  decide!

/-! ## A transition during an overflow, and waiting steps without a timeout -/

/-- C24: the engine has moved from `smStartModule` to `smTestModule` when the
UART reports an overflow of its receive queue; it is polled every 50 ms and the
module is silent. In the first ten polls `Process` finds `RxOverflowFlag` set
and does not call the handler, yet the first of them takes note of the new
state (`LastState`). In the eleventh poll the handler of `smTestModule` is
called for the first time, and `SMStateChanged` is false: the handler keeps the
step 1 that `smStartModule` left and sends `AT` at once. -/
theorem C24_first_invocation_after_overflow_sees_no_change :
    (∀ k < 10,
      ((((world.ctor ESP.demo_overflow (modem.ctor 0)).rounds_silent
        (List.replicate k 50)).esp.Ticks 50).Process_prepare env_alloc).IO_.RxOverflowFlag =
          true) ∧
    ((world.ctor ESP.demo_overflow (modem.ctor 0)).rounds_silent
      (List.replicate 10 50)).esp.LastState = some .smTestModule ∧
    ((world.ctor ESP.demo_overflow (modem.ctor 0)).rounds_silent (List.replicate 10 50)).sent =
      [] ∧
    ((((world.ctor ESP.demo_overflow (modem.ctor 0)).rounds_silent
      (List.replicate 10 50)).esp.Ticks 50).Process_prepare env_alloc).IO_.RxOverflowFlag =
        false ∧
    ((((world.ctor ESP.demo_overflow (modem.ctor 0)).rounds_silent
      (List.replicate 10 50)).esp.Ticks 50).Process_prepare env_alloc).CurrentState =
        .smTestModule ∧
    ((((world.ctor ESP.demo_overflow (modem.ctor 0)).rounds_silent
      (List.replicate 10 50)).esp.Ticks 50).Process_prepare env_alloc).SMStateChanged =
        false ∧
    ((((world.ctor ESP.demo_overflow (modem.ctor 0)).rounds_silent
      (List.replicate 10 50)).esp.Ticks 50).Process_prepare env_alloc).STEP = 1 ∧
    ((world.ctor ESP.demo_overflow (modem.ctor 0)).rounds_silent (List.replicate 11 50)).sent =
      [(230400, cs "AT\r\n")] ∧
    ((world.ctor ESP.demo_overflow (modem.ctor 0)).rounds_silent
      (List.replicate 11 50)).esp.STEP = 2 := by
  decide!

/-- C25: the state timer has run out and no event is pending. The handler of
`smSendData` in step 4 and the handler of `smGetApIP` in step 1 leave the step
and the current state as they are; the handler of `smGetApIP` does not look at
the timer. -/
theorem C25_timeout_without_consequence (s : ESP) (hc : s.SMStateChanged = false)
    (hr : s.IO_.ReceivedCommand = .NO_COMMAND_RECEIVED) (he : s.StateTimer.Elapsed.1 = true) :
    (ESP.StateSendData_Process { s with STEP := 4 }).STEP = 4 ∧
    (ESP.StateSendData_Process { s with STEP := 4 }).CurrentState = s.CurrentState ∧
    (ESP.StateGetApIP_Process { s with STEP := 1 }).STEP = 1 ∧
    (ESP.StateGetApIP_Process { s with STEP := 1 }).CurrentState = s.CurrentState ∧
    (ESP.StateGetApIP_Process { s with STEP := 1 }).StateTimer = s.StateTimer := by
  simp [ESP.StateSendData_Process, ESP.StateSendData_enter, ESP.StateSendData_switch,
    ESP.StateSendData_step4, ESP.StateGetApIP_Process, ESP.StateGetApIP_enter,
    ESP.StateGetApIP_step1, ESP.onElapsed, ESP.onCommands, ESP.onCommand,
    ESP.isCommandReceivedAny, ESP.isCommandReceived, hc, hr, he]

/-- C25, at a concrete state: the timer of `ESP.demo_timeout` has run out. -/
theorem C25_timeout_without_consequence_witness :
    ESP.demo_timeout.StateTimer.Elapsed.1 = true ∧
    (ESP.StateSendData_Process { ESP.demo_timeout with STEP := 4 }).STEP = 4 ∧
    (ESP.StateSendData_Process { ESP.demo_timeout with STEP := 4 }).CurrentState =
      ESP.demo_timeout.CurrentState ∧
    (ESP.StateGetApIP_Process { ESP.demo_timeout with STEP := 1 }).STEP = 1 ∧
    (ESP.StateGetApIP_Process { ESP.demo_timeout with STEP := 1 }).CurrentState =
      ESP.demo_timeout.CurrentState ∧
    (ESP.StateGetApIP_Process { ESP.demo_timeout with STEP := 1 }).StateTimer =
      ESP.demo_timeout.StateTimer :=
  ⟨by decide, C25_timeout_without_consequence ESP.demo_timeout (by decide) (by decide) (by decide)⟩

/-! ## A send that fails -/

/-- C26, counterexample: the transmit queue is full, so that every send returns
`ERROR`. The handler of `smTestModule` in step 1 and the handler of
`smModuleInitialization` in step 0 leave the current state and the step as they
are (the send is tried again in the next poll), and the handler of
`smOpenSocket` in step 1 closes the socket with `InternalError` and goes to
`smStandby`; none of them goes to `smModuleReset`. -/
theorem C26_send_failure_without_reset :
    ((ESP.demo_blocked .smTestModule 1).sendConst AT).1 = ERROR ∧
    (ESP.demo_blocked .smTestModule 1).StateTestModule_Process.CurrentState = .smTestModule ∧
    (ESP.demo_blocked .smTestModule 1).StateTestModule_Process.STEP = 1 ∧
    (ESP_HuartSend (ESP.demo_blocked .smModuleInitialization 0).ESP1_HUART
      (ESP.demo_blocked .smModuleInitialization 0).HuartNumber ATE0 6).1 = ERROR ∧
    (ESP.demo_blocked .smModuleInitialization 0).StateModuleInitialization_Process.CurrentState =
      .smModuleInitialization ∧
    (ESP.demo_blocked .smModuleInitialization 0).StateModuleInitialization_Process.STEP = 0 ∧
    ((ESP.demo_blocked .smOpenSocket 1).StateOpenSocket_Process env_alloc).CurrentState =
      .smStandby ∧
    (((ESP.demo_blocked .smOpenSocket 1).StateOpenSocket_Process env_alloc).Socket 0).State =
      .Closed ∧
    (((ESP.demo_blocked .smOpenSocket 1).StateOpenSocket_Process env_alloc).Socket 0).ErrorFlag =
      .InternalError := by
  decide!

/-- C26, amended: in these steps a send that returns `ERROR` makes
`smModuleReset` the current state: step 3 of `smDetectModuleBaudrate`, step 0 of
`smSelectModuleMode`, `smFindFreeSSID`, `smSetApParameters`,
`smChangeConnectionType`, `smStartServer`, `smGetApIP` and `smChangeAPIP`, step 4
of `smSetApParameters`, step 1 of `smJoinAP`, `smSendData` and `smCloseSocket`,
and the piece of data that ends a packet in `smSendData`. -/
theorem C26_send_failure_resets (s : ESP) (cmd : List Nat) :
    (SUCCESS ≠ s.StateDetectModuleBaudrate_send.1 →
      s.StateDetectModuleBaudrate_step3.CurrentState = .smModuleReset) ∧
    (SUCCESS ≠ (s.sendConst cmd).1 →
      (s.StateSelectModuleMode_send cmd).CurrentState = .smModuleReset) ∧
    (s.LocalAP.CheckNameAndPassword = true → SUCCESS ≠ s.StateFindFreeSSID_send.1 →
      s.StateFindFreeSSID_step0.CurrentState = .smModuleReset) ∧
    (SUCCESS ≠ (s.HuartSend AT_CWSAP_CUR_REQ (cs "AT+CWSAP_CUR?\r\n").length).1 →
      s.StateSetApParameters_step0.CurrentState = .smModuleReset) ∧
    (SUCCESS ≠ s.StateSetApParameters_send.1 →
      s.StateSetApParameters_step4.CurrentState = .smModuleReset) ∧
    (SUCCESS ≠ s.StateJoinAP_send.1 → s.StateJoinAP_step1.CurrentState = .smModuleReset) ∧
    (SUCCESS ≠ (s.sendConst cmd).1 →
      (s.StateChangeConnectionType_send cmd).CurrentState = .smModuleReset) ∧
    (SUCCESS ≠ s.StateSendData_send.1 → s.StateSendData_step1.CurrentState = .smModuleReset) ∧
    (¬ (s.StateSendData_len ≠ 0 ∧ s.StateSendData_len < s.txSocket.TxPacketLen) →
      SUCCESS ≠ (s.sendData s.txSocket.TxPacketLen).1 →
      s.StateSendData_push.CurrentState = .smModuleReset) ∧
    (s.closeSocket.State = .CloseRequested → SUCCESS ≠ s.StateCloseSocket_send.1 →
      s.StateCloseSocket_step1.CurrentState = .smModuleReset) ∧
    (SUCCESS ≠ s.StateStartServer_send.1 →
      s.StateStartServer_step0.CurrentState = .smModuleReset) ∧
    (SUCCESS ≠ (s.sendConst AT_CIFSR).1 → s.StateGetApIP_step0.CurrentState = .smModuleReset) ∧
    (SUCCESS ≠ s.StateChangeAPIP_send.1 →
      s.StateChangeAPIP_step0.CurrentState = .smModuleReset) := by
  refine ⟨?_, ?_, ?_, ?_, ?_, ?_, ?_, ?_, ?_, ?_, ?_, ?_, ?_⟩
  · intro h; simp [ESP.StateDetectModuleBaudrate_step3, h, ESP.SetBaudRate]
  · intro h; simp [ESP.StateSelectModuleMode_send, h]
  · intro hn h; simp [ESP.StateFindFreeSSID_step0, hn, h]
  · intro h; simp [ESP.StateSetApParameters_step0, h]
  · intro h; simp [ESP.StateSetApParameters_step4, h]
  · intro h; simp [ESP.StateJoinAP_step1, h]
  · intro h; simp [ESP.StateChangeConnectionType_send, h]
  · intro h
    unfold ESP.StateSendData_step1
    split
    · simp [h]
    · rfl
  · intro h1 h2
    unfold ESP.StateSendData_push
    rw [if_neg h1]
    simp [h2]
  · intro hn h; simp [ESP.StateCloseSocket_step1, hn, h]
  · intro h; simp [ESP.StateStartServer_step0, h]
  · intro h; simp [ESP.StateGetApIP_step0, h]
  · intro h; simp [ESP.StateChangeAPIP_step0, h]

/-- C26, amended, at a concrete state: the transmit queue of `ESP.demo_blocked_ap`
is full and every one of the sends fails. -/
theorem C26_send_failure_resets_witness :
    (SUCCESS ≠ ESP.demo_blocked_ap.StateDetectModuleBaudrate_send.1 ∧
      ESP.demo_blocked_ap.StateDetectModuleBaudrate_step3.CurrentState = .smModuleReset) ∧
    (SUCCESS ≠ (ESP.demo_blocked_ap.sendConst AT_CWMODE_CUR_STA).1 ∧
      (ESP.demo_blocked_ap.StateSelectModuleMode_send AT_CWMODE_CUR_STA).CurrentState = .smModuleReset) ∧
    (ESP.demo_blocked_ap.LocalAP.CheckNameAndPassword = true ∧
      SUCCESS ≠ ESP.demo_blocked_ap.StateFindFreeSSID_send.1 ∧
      ESP.demo_blocked_ap.StateFindFreeSSID_step0.CurrentState = .smModuleReset) ∧
    (SUCCESS ≠ (ESP.demo_blocked_ap.HuartSend AT_CWSAP_CUR_REQ (cs "AT+CWSAP_CUR?\r\n").length).1 ∧
      ESP.demo_blocked_ap.StateSetApParameters_step0.CurrentState = .smModuleReset) ∧
    (SUCCESS ≠ ESP.demo_blocked_ap.StateSetApParameters_send.1 ∧
      ESP.demo_blocked_ap.StateSetApParameters_step4.CurrentState = .smModuleReset) ∧
    (SUCCESS ≠ ESP.demo_blocked_ap.StateJoinAP_send.1 ∧
      ESP.demo_blocked_ap.StateJoinAP_step1.CurrentState = .smModuleReset) ∧
    (SUCCESS ≠ (ESP.demo_blocked_ap.sendConst AT_CWMODE_CUR_STA).1 ∧
      (ESP.demo_blocked_ap.StateChangeConnectionType_send AT_CWMODE_CUR_STA).CurrentState = .smModuleReset) ∧
    (SUCCESS ≠ ESP.demo_blocked_ap.StateSendData_send.1 ∧
      ESP.demo_blocked_ap.StateSendData_step1.CurrentState = .smModuleReset) ∧
    (¬ (ESP.demo_blocked_ap.StateSendData_len ≠ 0 ∧
        ESP.demo_blocked_ap.StateSendData_len < ESP.demo_blocked_ap.txSocket.TxPacketLen) ∧
      SUCCESS ≠ (ESP.demo_blocked_ap.sendData ESP.demo_blocked_ap.txSocket.TxPacketLen).1 ∧
      ESP.demo_blocked_ap.StateSendData_push.CurrentState = .smModuleReset) ∧
    (ESP.demo_blocked_ap.closeSocket.State = .CloseRequested ∧
      SUCCESS ≠ ESP.demo_blocked_ap.StateCloseSocket_send.1 ∧
      ESP.demo_blocked_ap.StateCloseSocket_step1.CurrentState = .smModuleReset) ∧
    (SUCCESS ≠ ESP.demo_blocked_ap.StateStartServer_send.1 ∧
      ESP.demo_blocked_ap.StateStartServer_step0.CurrentState = .smModuleReset) ∧
    (SUCCESS ≠ (ESP.demo_blocked_ap.sendConst AT_CIFSR).1 ∧
      ESP.demo_blocked_ap.StateGetApIP_step0.CurrentState = .smModuleReset) ∧
    (SUCCESS ≠ ESP.demo_blocked_ap.StateChangeAPIP_send.1 ∧
      ESP.demo_blocked_ap.StateChangeAPIP_step0.CurrentState = .smModuleReset) :=
  ⟨⟨by decide!, (C26_send_failure_resets ESP.demo_blocked_ap AT_CWMODE_CUR_STA).1 (by decide!)⟩,
   ⟨by decide!, (C26_send_failure_resets ESP.demo_blocked_ap AT_CWMODE_CUR_STA).2.1 (by decide!)⟩,
   ⟨by decide!, by decide!, (C26_send_failure_resets ESP.demo_blocked_ap AT_CWMODE_CUR_STA).2.2.1 (by decide!) (by decide!)⟩,
   ⟨by decide!, (C26_send_failure_resets ESP.demo_blocked_ap AT_CWMODE_CUR_STA).2.2.2.1 (by decide!)⟩,
   ⟨by decide!, (C26_send_failure_resets ESP.demo_blocked_ap AT_CWMODE_CUR_STA).2.2.2.2.1 (by decide!)⟩,
   ⟨by decide!, (C26_send_failure_resets ESP.demo_blocked_ap AT_CWMODE_CUR_STA).2.2.2.2.2.1 (by decide!)⟩,
   ⟨by decide!, (C26_send_failure_resets ESP.demo_blocked_ap AT_CWMODE_CUR_STA).2.2.2.2.2.2.1 (by decide!)⟩,
   ⟨by decide!, (C26_send_failure_resets ESP.demo_blocked_ap AT_CWMODE_CUR_STA).2.2.2.2.2.2.2.1 (by decide!)⟩,
   ⟨by decide!, by decide!, (C26_send_failure_resets ESP.demo_blocked_ap AT_CWMODE_CUR_STA).2.2.2.2.2.2.2.2.1 (by decide!) (by decide!)⟩,
   ⟨by decide!, by decide!, (C26_send_failure_resets ESP.demo_blocked_ap AT_CWMODE_CUR_STA).2.2.2.2.2.2.2.2.2.1 (by decide!) (by decide!)⟩,
   ⟨by decide!, (C26_send_failure_resets ESP.demo_blocked_ap AT_CWMODE_CUR_STA).2.2.2.2.2.2.2.2.2.2.1 (by decide!)⟩,
   ⟨by decide!, (C26_send_failure_resets ESP.demo_blocked_ap AT_CWMODE_CUR_STA).2.2.2.2.2.2.2.2.2.2.2.1 (by decide!)⟩,
   ⟨by decide!, (C26_send_failure_resets ESP.demo_blocked_ap AT_CWMODE_CUR_STA).2.2.2.2.2.2.2.2.2.2.2.2 (by decide!)⟩⟩

/-! ## No reply to ATE0 -/

/-- C27, counterexample: the driver enters `smModuleInitialization` and is polled
every 50 ms while the module stays silent. After 25 polls (1.25 s) the engine is
in `smModuleReset`, and `ATE0` has been sent once, not twice. -/
theorem C27_ATE0_sent_once :
    ((world.ctor ESP.demo_initialization (modem.ctor 0)).rounds_silent
      (List.replicate 25 50)).sent = [(230400, cs "ATE0\r\n")] ∧
    ((world.ctor ESP.demo_initialization (modem.ctor 0)).rounds_silent
      (List.replicate 25 50)).passed = [.smModuleInitialization, .smModuleReset] := by
  decide!

/-- C27, amended: in step 1 of `smModuleInitialization` an `OK` sets `ModuleReady`
and makes `smSelectModuleMode` the current state; without an `OK`, when the timer
has run out, the handler starts a timer of one second and goes to step 2, and
sends nothing. In step 2 the handler waits for that timer, whatever event is
pending, and then makes `smModuleReset` the current state; it sends nothing. -/
theorem C27_no_reply_to_ATE0 (s : ESP) (hc : s.SMStateChanged = false) :
    (s.STEP = 1 → s.IO_.ReceivedCommand = .OK →
      s.StateModuleInitialization_Process.Module.ModuleReady = true ∧
      s.StateModuleInitialization_Process.CurrentState = .smSelectModuleMode) ∧
    (s.STEP = 1 → s.IO_.ReceivedCommand ≠ .OK → s.StateTimer.Elapsed.1 = true →
      s.StateModuleInitialization_Process.STEP = 2 ∧
      s.StateModuleInitialization_Process.StateTimer =
        (s.StateTimer.Elapsed.2.Set _1sec_).Reset ∧
      s.StateModuleInitialization_Process.CurrentState = s.CurrentState ∧
      s.StateModuleInitialization_Process.ESP1_HUART = s.ESP1_HUART) ∧
    (s.STEP = 2 → s.StateTimer.Elapsed.1 = false →
      s.StateModuleInitialization_Process.STEP = 2 ∧
      s.StateModuleInitialization_Process.CurrentState = s.CurrentState ∧
      s.StateModuleInitialization_Process.ESP1_HUART = s.ESP1_HUART) ∧
    (s.STEP = 2 → s.StateTimer.Elapsed.1 = true →
      s.StateModuleInitialization_Process.CurrentState = .smModuleReset ∧
      s.StateModuleInitialization_Process.ESP1_HUART = s.ESP1_HUART) := by
  refine ⟨?_, ?_, ?_, ?_⟩
  · intro hs hr
    simp [ESP.StateModuleInitialization_Process, hc, hs, ESP.isCommandReceived, hr]
  · intro hs hr he
    have hr2 : ¬ (eAT.OK = s.IO_.ReceivedCommand) := fun h => hr h.symm
    simp [ESP.StateModuleInitialization_Process, hc, hs, ESP.isCommandReceived, hr2, he]
  · intro hs he
    simp [ESP.StateModuleInitialization_Process, hc, hs, he]
  · intro hs he
    simp [ESP.StateModuleInitialization_Process, hc, hs, he]

/-- C27, amended, at concrete states: `ESP.demo_timeout` with and without a
pending `OK` in step 1, and in step 2 with the timer running and run out. -/
theorem C27_no_reply_to_ATE0_witness :
    ((ESP.StateModuleInitialization_Process
        { ESP.demo_timeout with
          STEP := 1, IO_ := { ESP.demo_timeout.IO_ with ReceivedCommand := .OK } }).Module.ModuleReady =
        true ∧
      (ESP.StateModuleInitialization_Process
        { ESP.demo_timeout with
          STEP := 1, IO_ := { ESP.demo_timeout.IO_ with ReceivedCommand := .OK } }).CurrentState =
        .smSelectModuleMode) ∧
    (({ ESP.demo_timeout with STEP := 1 } : ESP).StateTimer.Elapsed.1 = true ∧
      (ESP.StateModuleInitialization_Process { ESP.demo_timeout with STEP := 1 }).STEP = 2) ∧
    (({ ESP.demo with SMStateChanged := false, STEP := 2 } : ESP).StateTimer.Elapsed.1 = false ∧
      (ESP.StateModuleInitialization_Process
        { ESP.demo with SMStateChanged := false, STEP := 2 }).STEP = 2) ∧
    (({ ESP.demo_timeout with STEP := 2 } : ESP).StateTimer.Elapsed.1 = true ∧
      (ESP.StateModuleInitialization_Process { ESP.demo_timeout with STEP := 2 }).CurrentState =
        .smModuleReset) :=
  ⟨(C27_no_reply_to_ATE0
      { ESP.demo_timeout with
        STEP := 1, IO_ := { ESP.demo_timeout.IO_ with ReceivedCommand := .OK } }
      (by decide)).1 (by decide) (by decide),
   ⟨by decide,
    ((C27_no_reply_to_ATE0 { ESP.demo_timeout with STEP := 1 } (by decide)).2.1
      (by decide) (by decide) (by decide)).1⟩,
   ⟨by decide,
    ((C27_no_reply_to_ATE0 { ESP.demo with SMStateChanged := false, STEP := 2 }
      (by decide)).2.2.1 (by decide) (by decide)).1⟩,
   ⟨by decide,
    ((C27_no_reply_to_ATE0 { ESP.demo_timeout with STEP := 2 } (by decide)).2.2.2
      (by decide) (by decide)).1⟩⟩

/-! ## The order of the requests in the state Standby -/

/-- The search for the first socket with a property finds one exactly when one
of the sockets has the property. -/
theorem ESP.findSocket_isSome (s : ESP) (n : Nat) (p : socket → Bool) :
    (s.findSocket n p).isSome = (List.range n).any (fun i => p (s.Socket i)) := by
  unfold ESP.findSocket
  generalize List.range n = l
  induction l with
  | nil => rfl
  | cons a l ih =>
    simp only [List.find?, List.any]
    cases h : p (s.Socket a) <;> simp [ih]

/-- The part of the handler of `smStandby` after the entry block does what the
ordered list says. -/
theorem ESP.StateStandby_connect_first_match (t : ESP)
    (h : t.IO_.ReceivedCommand = .SOCKET_CONNECT ∨ t.IO_.ReceivedCommand = .SOCKET_CLOSED →
      t.IO_.ReceivedParameter 0 < SocketsNum) :
    t.StateStandby_connect = Standby_first_match t := by
  unfold Standby_first_match Standby_order
  by_cases h1 : t.IO_.ReceivedCommand = .SOCKET_CONNECT
  · have hp := h (Or.inl h1)
    simp [ESP.StateStandby_connect, ESP.isCommandReceived, h1, hp, List.find?,
      Standby_request.matches, Standby_request.act, Standby_request.notify,
      ESP.StateStandby_notified, ESP.setSocket]
  · have h1b : ¬ (eAT.SOCKET_CONNECT = t.IO_.ReceivedCommand) := fun e => h1 e.symm
    by_cases h2 : t.IO_.ReceivedCommand = .SOCKET_CLOSED
    · have hp := h (Or.inr h2)
      simp [ESP.StateStandby_connect, ESP.StateStandby_closed, ESP.isCommandReceived, h2, hp,
        List.find?, Standby_request.matches, Standby_request.act, Standby_request.notify,
        ESP.StateStandby_notified, ESP.setSocket]
    · have h2b : ¬ (eAT.SOCKET_CLOSED = t.IO_.ReceivedCommand) := fun e => h2 e.symm
      have e3 : ((List.range SocketsNum).any fun i =>
            decide ((t.Socket i).State = .Connected ∧ (t.Socket i).TxLock = true ∧
              0 ≠ (t.Socket i).TxDataLen)) =
          ((List.range SocketsNum).any fun i =>
            decide ((t.Socket i).State = .Connected ∧ (t.Socket i).TxLock = true ∧
              (t.Socket i).TxDataLen ≠ 0)) := by
        congr 1
        funext i
        simp only [ne_comm]
      simp only [ESP.StateStandby_connect, ESP.StateStandby_closed, ESP.isCommandReceived, h1b,
        h2b, if_false, Bool.false_eq_true, List.find?, Standby_request.matches, h1, h2,
        decide_False, ESP.StateStandby_requests, ESP.findSocket_isSome,
        ESP.SetModuleConnectionType, e3]
      generalize ((List.range SocketsNum).any fun i =>
          decide ((t.Socket i).State = .Connected ∧ (t.Socket i).TxLock = true ∧
            (t.Socket i).TxDataLen ≠ 0)) = b3
      generalize ((List.range SocketsNum).any fun i =>
          decide ((t.Socket i).State = .ConnectRequested)) = b7
      generalize ((List.range SocketsNum).any fun i =>
          decide ((t.Socket i).State = .CloseRequested)) = b8
      cases b3
      · by_cases c4 : t.Module.ConnectionTypeRequest = t.Module.ConnectionTypeActual
        · by_cases c5 : t.Server.StartRequest = true
          · by_cases c5b : t.Module.ConnectionTypeActual = .Multiple <;>
              simp [c4, c5, c5b, Standby_request.act]
          · by_cases c6 : t.LocalAP.ChangeIPRequest = true
            · simp [c4, c5, c6, Standby_request.act]
            · cases b7
              · cases b8 <;> simp [c4, c5, c6, Standby_request.act]
              · simp [c4, c5, c6, Standby_request.act]
        · simp [c4, Standby_request.act]
      · simp [Standby_request.act]

/-- C28, counterexample: the engine enters `smStandby` while the notification
that socket 3 has been connected is pending. `Process` reports the change of the
state, the entry block of the handler drops the pending event, and socket 3
stays `Closed`: the first condition of the list is not acted on, where the
ordered list applied to the state the handler is called with makes the socket
`Connected`. -/
theorem C28_entry_drops_notification :
    (ESP.demo_entering_standby.Process_prepare env_alloc).SMStateChanged = true ∧
    (ESP.demo_entering_standby.Process_prepare env_alloc).CurrentState = .smStandby ∧
    (ESP.demo_entering_standby.Process_prepare env_alloc).IO_.ReceivedCommand =
      .SOCKET_CONNECT ∧
    (ESP.demo_entering_standby.Process_prepare env_alloc).IO_.ReceivedParameter 0 = 3 ∧
    (ESP.demo_entering_standby.poll_engine.Socket 3).State = .Closed ∧
    ESP.demo_entering_standby.poll_engine.IO_.ReceivedCommand = .NO_COMMAND_RECEIVED ∧
    ESP.demo_entering_standby.poll_engine.CurrentState = .smStandby ∧
    ((Standby_first_match (ESP.demo_entering_standby.Process_prepare env_alloc)).Socket
      3).State = .Connected := by
  decide!

/-- C28, amended: the handler of `smStandby` does what the ordered list of the
specification says: socket-connect notification, socket-closed notification,
data to send, connection type, server start, change of the address, socket to
open, socket to close. On the first call after the state has been entered the
list is applied after the step has been reset and a pending event dropped, so
that no notification is acted on in that call. A notification carries a socket
number below `SocketsNum`, as every notification the recognizer stores does. -/
theorem C28_Standby_priority (s : ESP)
    (h : s.IO_.ReceivedCommand = .SOCKET_CONNECT ∨ s.IO_.ReceivedCommand = .SOCKET_CLOSED →
      s.IO_.ReceivedParameter 0 < SocketsNum) :
    (s.SMStateChanged = false → s.StateStandby_Process = Standby_first_match s) ∧
    (s.SMStateChanged = true →
      s.StateStandby_Process =
        Standby_first_match
          { s with STEP := 0,
                   IO_ := { s.IO_ with ReceivedCommand := .NO_COMMAND_RECEIVED } }) := by
  constructor
  · intro hc
    unfold ESP.StateStandby_Process
    have he : s.StateStandby_enter = s := by
      simp [ESP.StateStandby_enter, hc]
    rw [he]
    exact ESP.StateStandby_connect_first_match s h
  · intro hc
    unfold ESP.StateStandby_Process
    have he : s.StateStandby_enter =
        { s with STEP := 0, IO_ := { s.IO_ with ReceivedCommand := .NO_COMMAND_RECEIVED } } := by
      simp [ESP.StateStandby_enter, hc, ESP.ClearLastCommand]
    rw [he]
    apply ESP.StateStandby_connect_first_match
    intro hh
    simp at hh

/-- C28, amended, at concrete states: the notification that socket 3 has been
connected is pending while socket 0 has data to send; the state has not changed,
and the state has just been entered. -/
theorem C28_Standby_priority_witness :
    ((ESP.demo_notified.IO_.ReceivedCommand = .SOCKET_CONNECT ∨
        ESP.demo_notified.IO_.ReceivedCommand = .SOCKET_CLOSED →
      ESP.demo_notified.IO_.ReceivedParameter 0 < SocketsNum) ∧
      ESP.demo_notified.SMStateChanged = false ∧
      ESP.demo_notified.StateStandby_Process = Standby_first_match ESP.demo_notified) ∧
    (({ ESP.demo_notified with SMStateChanged := true } : ESP).SMStateChanged = true ∧
      ESP.StateStandby_Process { ESP.demo_notified with SMStateChanged := true } =
        Standby_first_match
          { ESP.demo_notified with
            SMStateChanged := true, STEP := 0,
            IO_ := { ESP.demo_notified.IO_ with ReceivedCommand := .NO_COMMAND_RECEIVED } }) :=
  ⟨⟨fun _ => by decide, by decide,
    (C28_Standby_priority ESP.demo_notified (fun _ => by decide)).1 (by decide)⟩,
   ⟨by decide,
    (C28_Standby_priority { ESP.demo_notified with SMStateChanged := true }
      (fun _ => by decide)).2 (by decide)⟩⟩

/-! ## The module is busy -/

/-- C29, counterexample: `SocketSend(0, 5000, 10)` with a module that answers
`busy p...` to the first five commands `AT+CIPSEND`; the driver is polled every
50 ms. The module receives the command five times, the first and four repeats,
and the send ends with `SendFail` and `smStandby` after the fifth `busy p...`:
the command is not issued a fifth time again, which the module would have
accepted. -/
theorem C29_four_repeats :
    ((world.ctor ESP.demo_send (modem.demo_busy 5)).rounds
      (List.replicate 120 50)).mdm.commands = List.replicate 5 (cs "AT+CIPSEND=0,10\r\n") ∧
    (((world.ctor ESP.demo_send (modem.demo_busy 5)).rounds
      (List.replicate 120 50)).esp.Socket 0).TxState = .SendFail ∧
    (((world.ctor ESP.demo_send (modem.demo_busy 5)).rounds
      (List.replicate 120 50)).esp.Socket 0).TxLock = false ∧
    ((world.ctor ESP.demo_send (modem.demo_busy 5)).rounds
      (List.replicate 120 50)).mdm.busy = 0 ∧
    ((world.ctor ESP.demo_send (modem.demo_busy 5)).rounds
      (List.replicate 120 50)).esp.CurrentState = .smStandby := by
  decide!

/-- C29, amended: the handler of `smSendData` sets its retry counter to 5 when
the state is entered. A reply `busy`, `busy p...` or `busy s...` in step 2 (no
prompt seen, timer running) decrements the counter, starts a timer of one second
and leads to step 5, and nothing is sent. When that timer has run out, step 5
goes back to step 1, which issues the command again, if the counter is not
zero; if it is zero the send status becomes `SendFail`, `TxLock` and
`TxDataLen` are cleared and the next state is `smStandby`. The fifth busy reply
makes the counter zero: the command is issued again four times at most. -/
theorem C29_retry_counter (s : ESP) :
    (s.SMStateChanged = true → s.StateSendData_enter.smSendData_RetryCounter = 5) ∧
    (s.SMStateChanged = false → s.STEP = 2 → s.IO_.ListenToTxData = false →
      s.StateTimer.Elapsed.1 = false →
      s.IO_.ReceivedCommand = .BUSY ∨ s.IO_.ReceivedCommand = .BUSY_P ∨
        s.IO_.ReceivedCommand = .BUSY_S →
      s.StateSendData_Process.STEP = 5 ∧
      s.StateSendData_Process.smSendData_RetryCounter =
        dec_wrap U8_MOD s.smSendData_RetryCounter ∧
      s.StateSendData_Process.StateTimer = (s.StateTimer.Set _1sec_).Reset ∧
      s.StateSendData_Process.ESP1_HUART = s.ESP1_HUART ∧
      s.StateSendData_Process.CurrentState = s.CurrentState) ∧
    (s.SMStateChanged = false → s.STEP = 5 → s.StateTimer.Elapsed.1 = true →
      s.smSendData_RetryCounter ≠ 0 →
      s.StateSendData_Process.STEP = 1 ∧
      s.StateSendData_Process.smSendData_RetryCounter = s.smSendData_RetryCounter ∧
      s.StateSendData_Process.CurrentState = s.CurrentState) ∧
    (s.SMStateChanged = false → s.STEP = 5 → s.StateTimer.Elapsed.1 = true →
      s.smSendData_RetryCounter = 0 →
      s.StateSendData_Process.txSocket.TxState = .SendFail ∧
      s.StateSendData_Process.txSocket.TxLock = false ∧
      s.StateSendData_Process.txSocket.TxDataLen = 0 ∧
      s.StateSendData_Process.CurrentState = .smStandby) ∧
    dec_wrap U8_MOD (dec_wrap U8_MOD (dec_wrap U8_MOD (dec_wrap U8_MOD 5))) ≠ 0 ∧
    dec_wrap U8_MOD (dec_wrap U8_MOD (dec_wrap U8_MOD (dec_wrap U8_MOD (dec_wrap U8_MOD 5)))) =
      0 := by
  refine ⟨?_, ?_, ?_, ?_, by decide, by decide⟩
  · intro hc
    simp [ESP.StateSendData_enter, hc, ESP.ClearLastCommand]
  · intro hc hs hl he hr
    have hT : s.StateTimer.Elapsed.2 = s.StateTimer := by
      simp only [Timer.Elapsed] at he ⊢
      simp [he]
    rcases hr with hr | hr | hr <;>
      simp [ESP.StateSendData_Process, ESP.StateSendData_enter, hc, ESP.StateSendData_switch, hs,
        ESP.StateSendData_step2, ESP.StateSendData_prompt, ESP.onCommandElse, ESP.onElapsed,
        ESP.isCommandReceived, hr, he, hl, ESP.StateSendData_replies, ESP.onCommands,
        ESP.isCommandReceivedAny, ESP.startTimer, hT]
  · intro hc hs he hn
    simp [ESP.StateSendData_Process, ESP.StateSendData_enter, hc, ESP.StateSendData_switch, hs,
      ESP.StateSendData_step5, ESP.onElapsed, he, hn]
  · intro hc hs he hn
    simp [ESP.StateSendData_Process, ESP.StateSendData_enter, hc, ESP.StateSendData_switch, hs,
      ESP.StateSendData_step5, ESP.onElapsed, he, hn, ESP.StateSendData_fail, ESP.txSocket,
      ESP.setTxSocket, ESP.setSocket]

/-- C29, amended, at concrete states: the fifth `busy p...` arrives in step 2 with
the counter 1, and the timer of step 5 runs out with the counter 0. -/
theorem C29_retry_counter_witness :
    ((ESP.demo_sending_step 2 1 .BUSY_P false).StateSendData_Process.STEP = 5 ∧
      (ESP.demo_sending_step 2 1 .BUSY_P false).StateSendData_Process.smSendData_RetryCounter =
        dec_wrap U8_MOD (ESP.demo_sending_step 2 1 .BUSY_P false).smSendData_RetryCounter) ∧
    ((ESP.demo_sending_step 5 1 .NO_COMMAND_RECEIVED true).StateTimer.Elapsed.1 = true ∧
      (ESP.demo_sending_step 5 1 .NO_COMMAND_RECEIVED true).StateSendData_Process.STEP = 1) ∧
    ((ESP.demo_sending_step 5 0 .NO_COMMAND_RECEIVED true).smSendData_RetryCounter = 0 ∧
      (ESP.demo_sending_step 5 0
        .NO_COMMAND_RECEIVED true).StateSendData_Process.txSocket.TxState = .SendFail) :=
  ⟨⟨((C29_retry_counter (ESP.demo_sending_step 2 1 .BUSY_P false)).2.1 (by decide) (by decide)
      (by decide) (by decide) (by decide)).1,
    ((C29_retry_counter (ESP.demo_sending_step 2 1 .BUSY_P false)).2.1 (by decide) (by decide)
      (by decide) (by decide) (by decide)).2.1⟩,
   ⟨by decide,
    ((C29_retry_counter (ESP.demo_sending_step 5 1 .NO_COMMAND_RECEIVED true)).2.2.1 (by decide)
      (by decide) (by decide) (by decide)).1⟩,
   ⟨by decide,
    ((C29_retry_counter (ESP.demo_sending_step 5 0 .NO_COMMAND_RECEIVED true)).2.2.2.1
      (by decide) (by decide) (by decide) (by decide)).1⟩⟩

/-! ## The comparison with the configuration the module reports -/

/-- C30, counterexample: the access point `MyAP_3` with the password `secret12`,
channel 1 and WPA2_PSK is requested, and the module reports the configuration
`"MyAP_3","otherpwd",11,0`. After four rounds of `Process` the access point is
`Started` and the engine is in `smStandby`; nothing has been sent, although
password, channel and encryption differ. -/
theorem C30_same_name_other_parameters_skipped :
    ESP.demo_ap_reported.LocalAP.State = .Started ∧
    ESP.demo_ap_reported.CurrentState = .smStandby ∧
    ESP.demo_ap_reported.ESP1_HUART.pTxBuffPtr.count = 0 ∧
    ESP.demo_ap_reported.LocalAP.pPassword = cs "secret12" ∧
    ESP.demo_ap_reported.LocalAP.Channel = 1 ∧
    ESP.demo_ap_reported.LocalAP.ecn = .WPA2_PSK ∧
    ESP.demo_ap_reported.IO_.ReceivedParameter 0 = 11 ∧
    ESP.demo_ap_reported.IO_.ReceivedParameter 1 = 0 := by
  decide!

/-- C30, amended: step 3 of `smSetApParameters` compares the requested name (with
the postfix, as printed to `IO.CommandString`) with the name the module has
reported, and nothing else. When the names are equal the access point is
`Started`, the next state is `smStandby` and nothing is sent; when they differ
the handler goes to step 4, which sends the command. -/
theorem C30_only_name_compared (s : ESP) (hn : s.LocalAP.CheckNameAndPassword = true) :
    (strcmp_eq s.StateSetApParameters_name.commandString
        s.StateSetApParameters_name.receivedParameterStr = true →
      s.StateSetApParameters_step3.LocalAP.State = .Started ∧
      s.StateSetApParameters_step3.CurrentState = .smStandby ∧
      s.StateSetApParameters_step3.ESP1_HUART = s.ESP1_HUART) ∧
    (strcmp_eq s.StateSetApParameters_name.commandString
        s.StateSetApParameters_name.receivedParameterStr = false →
      s.StateSetApParameters_step3.STEP = 4 ∧
      s.StateSetApParameters_step3.CurrentState = s.CurrentState ∧
      s.StateSetApParameters_step3.ESP1_HUART = s.ESP1_HUART) := by
  constructor
  · intro h
    simp only [ESP.StateSetApParameters_step3, hn, h, if_true]
    unfold ESP.StateSetApParameters_renew ESP.StateSetApParameters_name ESP.printCommand
    refine ⟨?_, ?_, ?_⟩ <;> first | trivial | rfl | (split <;> rfl)
  · intro h
    simp only [ESP.StateSetApParameters_step3, hn, h, if_true, Bool.false_eq_true, if_false]
    unfold ESP.StateSetApParameters_name ESP.printCommand
    refine ⟨?_, ?_, ?_⟩ <;> first | trivial | rfl | (split <;> rfl)

/-- C30, amended, at concrete states: the module has reported the requested name
`MyAP_3`, and another name. -/
theorem C30_only_name_compared_witness :
    ((ESP.demo_ap (cs "MyAP_3")).LocalAP.CheckNameAndPassword = true ∧
      strcmp_eq (ESP.demo_ap (cs "MyAP_3")).StateSetApParameters_name.commandString
        (ESP.demo_ap (cs "MyAP_3")).StateSetApParameters_name.receivedParameterStr = true ∧
      (ESP.demo_ap (cs "MyAP_3")).StateSetApParameters_step3.LocalAP.State = .Started) ∧
    (strcmp_eq (ESP.demo_ap (cs "ESP_1A2B3C")).StateSetApParameters_name.commandString
        (ESP.demo_ap (cs "ESP_1A2B3C")).StateSetApParameters_name.receivedParameterStr = false ∧
      (ESP.demo_ap (cs "ESP_1A2B3C")).StateSetApParameters_step3.STEP = 4) :=
  ⟨⟨by decide!, by decide!,
    ((C30_only_name_compared (ESP.demo_ap (cs "MyAP_3")) (by decide!)).1 (by decide!)).1⟩,
   ⟨by decide!,
    ((C30_only_name_compared (ESP.demo_ap (cs "ESP_1A2B3C")) (by decide!)).2 (by decide!)).1⟩⟩

/-! ## The search for a free name -/

/-- The entry block of `smFindFreeSSID` leaves the module record, the UART and
the current state as they are. -/
theorem ESP.StateFindFreeSSID_enter_frame (s : ESP) :
    s.StateFindFreeSSID_enter.Module = s.Module ∧
    s.StateFindFreeSSID_enter.ESP1_HUART = s.ESP1_HUART ∧
    s.StateFindFreeSSID_enter.CurrentState = s.CurrentState := by
  unfold ESP.StateFindFreeSSID_enter
  split <;> exact ⟨rfl, rfl, rfl⟩

/-- Step 0 of `smFindFreeSSID` leaves the module record as it is. -/
theorem ESP.StateFindFreeSSID_step0_Module (t : ESP) :
    t.StateFindFreeSSID_step0.Module = t.Module := by
  unfold ESP.StateFindFreeSSID_step0
  split
  · split
    · simp [ESP.StateFindFreeSSID_send, ESP.sendCommand, ESP.HuartSend, ESP.startTimer,
        ESP.StateFindFreeSSID_command]
      split <;> simp [ESP.printCommand]
    · simp [ESP.StateFindFreeSSID_send, ESP.sendCommand, ESP.HuartSend,
        ESP.StateFindFreeSSID_command]
      split <;> simp [ESP.printCommand]
  · rfl

/-- Step 1 of `smFindFreeSSID`, with the event `CWLAP` pending. -/
theorem ESP.StateFindFreeSSID_step1_taken (t : ESP) (h : t.IO_.ReceivedCommand = .CWLAP) :
    t.StateFindFreeSSID_step1 =
      ESP.StateFindFreeSSID_taken
        { t with IO_ := { t.IO_ with ReceivedCommand := .NO_COMMAND_RECEIVED } } := by
  simp [ESP.StateFindFreeSSID_step1, ESP.onCommandElse, ESP.isCommandReceived, h]

/-- Step 1 of `smFindFreeSSID` without the event `CWLAP`, and step 2: the module
record and the UART stay as they are. -/
theorem ESP.StateFindFreeSSID_wait_frame (t : ESP) :
    (t.IO_.ReceivedCommand ≠ .CWLAP →
      t.StateFindFreeSSID_step1.Module = t.Module ∧
      t.StateFindFreeSSID_step1.ESP1_HUART = t.ESP1_HUART) ∧
    ((t.onCommand .OK (fun u => { u with STEP := 0 })).onElapsed
        (fun u => { u with STEP := 0 })).Module = t.Module ∧
    ((t.onCommand .OK (fun u => { u with STEP := 0 })).onElapsed
        (fun u => { u with STEP := 0 })).ESP1_HUART = t.ESP1_HUART := by
  refine ⟨?_, ?_, ?_⟩
  · intro h
    have h2 : ¬ (eAT.CWLAP = t.IO_.ReceivedCommand) := fun e => h e.symm
    simp only [ESP.StateFindFreeSSID_step1, ESP.onCommandElse, ESP.isCommandReceived, h2,
      if_false, Bool.false_eq_true, ESP.onCommand, ESP.onElapsed]
    constructor <;> (repeat' split) <;> rfl
  · simp only [ESP.onCommand, ESP.isCommandReceived, ESP.onElapsed]
    (repeat' split) <;> rfl
  · simp only [ESP.onCommand, ESP.isCommandReceived, ESP.onElapsed]
    (repeat' split) <;> rfl

/-- C31: the handler of `smFindFreeSSID`, for every state whose postfix is at
most 200. A `CWLAP` event in step 1 increments the postfix by one and sends
nothing; the handler then goes to step 2 or, when the new postfix exceeds 200,
to `smModuleReset`. Without that event the postfix stays as it is. After the
handler the postfix is at most 200 or the current state is `smModuleReset`, and
only step 0 hands bytes to the UART: the query printed from the postfix of that
moment. In the run of the last part the names `MyAP_199` and `MyAP_200` are
found taken: the queries for them are the only ones sent, and the engine goes
to `smModuleReset` with the postfix 201. -/
theorem C31_FindFreeSSID_search (s : ESP) (hp : s.Module.AP_NamePostfix ≤ 200) :
    (s.StateFindFreeSSID_enter.STEP = 1 → s.StateFindFreeSSID_enter.IO_.ReceivedCommand = .CWLAP →
      s.StateFindFreeSSID_Process.Module.AP_NamePostfix = s.Module.AP_NamePostfix + 1 ∧
      s.StateFindFreeSSID_Process.ESP1_HUART = s.ESP1_HUART ∧
      (200 < s.Module.AP_NamePostfix + 1 →
        s.StateFindFreeSSID_Process.CurrentState = .smModuleReset) ∧
      (s.Module.AP_NamePostfix + 1 ≤ 200 →
        s.StateFindFreeSSID_Process.STEP = 2 ∧
        s.StateFindFreeSSID_Process.CurrentState = s.CurrentState)) ∧
    (¬ (s.StateFindFreeSSID_enter.STEP = 1 ∧
        s.StateFindFreeSSID_enter.IO_.ReceivedCommand = .CWLAP) →
      s.StateFindFreeSSID_Process.Module.AP_NamePostfix = s.Module.AP_NamePostfix) ∧
    (s.StateFindFreeSSID_Process.Module.AP_NamePostfix ≤ 200 ∨
      s.StateFindFreeSSID_Process.CurrentState = .smModuleReset) ∧
    (s.StateFindFreeSSID_enter.STEP ≠ 0 →
      s.StateFindFreeSSID_Process.ESP1_HUART = s.ESP1_HUART) ∧
    (s.StateFindFreeSSID_enter.STEP = 0 →
      s.StateFindFreeSSID_Process = s.StateFindFreeSSID_enter.StateFindFreeSSID_step0 ∧
      s.StateFindFreeSSID_enter.Module.AP_NamePostfix = s.Module.AP_NamePostfix) ∧
    ((world.ctor ESP.demo_ap_search (modem.demo_taken 5)).rounds
        (List.replicate 7 50)).mdm.commands.reverse =
      [cs "AT+CWLAP=\"MyAP_199\"\r\n", cs "AT+CWLAP=\"MyAP_200\"\r\n"] ∧
    ((world.ctor ESP.demo_ap_search (modem.demo_taken 5)).rounds
        (List.replicate 7 50)).esp.Module.AP_NamePostfix = 201 ∧
    ((world.ctor ESP.demo_ap_search (modem.demo_taken 5)).rounds
        (List.replicate 7 50)).passed = [.smFindFreeSSID, .smModuleReset] := by
  obtain ⟨hm, hu, hcs⟩ := s.StateFindFreeSSID_enter_frame
  have hpm : (s.Module.AP_NamePostfix + 1) % U8_MOD = s.Module.AP_NamePostfix + 1 :=
    Nat.mod_eq_of_lt (by unfold U8_MOD; omega)
  have h1 : s.StateFindFreeSSID_enter.STEP = 1 →
      s.StateFindFreeSSID_enter.IO_.ReceivedCommand = .CWLAP →
      s.StateFindFreeSSID_Process.Module.AP_NamePostfix = s.Module.AP_NamePostfix + 1 ∧
      s.StateFindFreeSSID_Process.ESP1_HUART = s.ESP1_HUART ∧
      (200 < s.Module.AP_NamePostfix + 1 →
        s.StateFindFreeSSID_Process.CurrentState = .smModuleReset) ∧
      (s.Module.AP_NamePostfix + 1 ≤ 200 →
        s.StateFindFreeSSID_Process.STEP = 2 ∧
        s.StateFindFreeSSID_Process.CurrentState = s.CurrentState) := by
    intro hs hr
    unfold ESP.StateFindFreeSSID_Process
    rw [if_neg (by rw [hs]; decide), if_pos hs, ESP.StateFindFreeSSID_step1_taken _ hr]
    unfold ESP.StateFindFreeSSID_taken
    simp only [hm, hpm]
    by_cases hb : 200 < s.Module.AP_NamePostfix + 1
    · rw [if_pos hb]
      exact ⟨rfl, hu, fun _ => rfl, fun h => absurd hb (by omega)⟩
    · rw [if_neg hb]
      exact ⟨rfl, hu, fun h => absurd h hb, fun _ => ⟨rfl, hcs⟩⟩
  have h2 : ¬ (s.StateFindFreeSSID_enter.STEP = 1 ∧
        s.StateFindFreeSSID_enter.IO_.ReceivedCommand = .CWLAP) →
      s.StateFindFreeSSID_Process.Module.AP_NamePostfix = s.Module.AP_NamePostfix := by
    intro hn
    unfold ESP.StateFindFreeSSID_Process
    split
    · rw [ESP.StateFindFreeSSID_step0_Module, hm]
    · split
      · rename_i hs
        have hr : s.StateFindFreeSSID_enter.IO_.ReceivedCommand ≠ .CWLAP :=
          fun e => hn ⟨hs, e⟩
        rw [((ESP.StateFindFreeSSID_wait_frame _).1 hr).1, hm]
      · split
        · rw [(ESP.StateFindFreeSSID_wait_frame _).2.1, hm]
        · show s.StateFindFreeSSID_enter.Module.AP_NamePostfix = _
          rw [hm]
  have h4 : s.StateFindFreeSSID_enter.STEP ≠ 0 →
      s.StateFindFreeSSID_Process.ESP1_HUART = s.ESP1_HUART := by
    intro hs
    by_cases hc : s.StateFindFreeSSID_enter.STEP = 1 ∧
        s.StateFindFreeSSID_enter.IO_.ReceivedCommand = .CWLAP
    · exact (h1 hc.1 hc.2).2.1
    · unfold ESP.StateFindFreeSSID_Process
      rw [if_neg hs]
      split
      · rename_i hs1
        have hr : s.StateFindFreeSSID_enter.IO_.ReceivedCommand ≠ .CWLAP :=
          fun e => hc ⟨hs1, e⟩
        rw [((ESP.StateFindFreeSSID_wait_frame _).1 hr).2, hu]
      · split
        · rw [(ESP.StateFindFreeSSID_wait_frame _).2.2, hu]
        · exact hu
  refine ⟨h1, h2, ?_, h4, ?_, ?_⟩
  · by_cases hc : s.StateFindFreeSSID_enter.STEP = 1 ∧
        s.StateFindFreeSSID_enter.IO_.ReceivedCommand = .CWLAP
    · by_cases hb : 200 < s.Module.AP_NamePostfix + 1
      · exact Or.inr ((h1 hc.1 hc.2).2.2.1 hb)
      · exact Or.inl (by rw [(h1 hc.1 hc.2).1]; omega)
    · exact Or.inl (by rw [h2 hc]; exact hp)
  · intro hs
    refine ⟨?_, by rw [hm]⟩
    unfold ESP.StateFindFreeSSID_Process
    rw [if_pos hs]
  · decide!

/-- C31, at a concrete state: the postfix is 200 and the name is found taken. -/
theorem C31_FindFreeSSID_search_witness :
    ESP.demo_ap_taken.Module.AP_NamePostfix ≤ 200 ∧
    ESP.demo_ap_taken.StateFindFreeSSID_enter.STEP = 1 ∧
    ESP.demo_ap_taken.StateFindFreeSSID_enter.IO_.ReceivedCommand = .CWLAP ∧
    ESP.demo_ap_taken.StateFindFreeSSID_Process.Module.AP_NamePostfix =
      ESP.demo_ap_taken.Module.AP_NamePostfix + 1 ∧
    ESP.demo_ap_taken.StateFindFreeSSID_Process.CurrentState = .smModuleReset :=
  ⟨by decide, by decide, by decide,
   ((C31_FindFreeSSID_search ESP.demo_ap_taken (by decide)).1 (by decide) (by decide)).1,
   ((C31_FindFreeSSID_search ESP.demo_ap_taken (by decide)).1 (by decide) (by decide)).2.2.1
     (by decide)⟩

/-! ## The replies to AT+CIPSTART -/

/-- C32: step 2 of `smOpenSocket`. While the timer runs, `OK` makes the socket
`Connected` with `NoError` and the next state `smStandby`; `ERROR` makes it
`Closed` with `FailToConnect` and the next state `smStandby`; `NOIP` makes it
`Closed` with `NoAccessPoint`, the station `Disconnected` and the next state
`smJoinAP`. When the timer has run out the socket is `Closed` with `Timeout`. No
other socket record is changed. -/
theorem C32_OpenSocket_replies (malloc : Nat → Nat) (s : ESP) (hc : s.SMStateChanged = false)
    (hs : s.STEP = 2) :
    (s.StateTimer.Elapsed.1 = false →
      (s.IO_.ReceivedCommand = .OK →
        ((s.StateOpenSocket_Process malloc).Socket s.smOpenSocket_SocketId).State = .Connected ∧
        ((s.StateOpenSocket_Process malloc).Socket s.smOpenSocket_SocketId).ErrorFlag = .NoError ∧
        (s.StateOpenSocket_Process malloc).CurrentState = .smStandby) ∧
      (s.IO_.ReceivedCommand = .AT_ERROR →
        ((s.StateOpenSocket_Process malloc).Socket s.smOpenSocket_SocketId).State = .Closed ∧
        ((s.StateOpenSocket_Process malloc).Socket s.smOpenSocket_SocketId).ErrorFlag =
          .FailToConnect ∧
        (s.StateOpenSocket_Process malloc).CurrentState = .smStandby) ∧
      (s.IO_.ReceivedCommand = .NOIP →
        ((s.StateOpenSocket_Process malloc).Socket s.smOpenSocket_SocketId).State = .Closed ∧
        ((s.StateOpenSocket_Process malloc).Socket s.smOpenSocket_SocketId).ErrorFlag =
          .NoAccessPoint ∧
        (s.StateOpenSocket_Process malloc).RemoteAP.StationState = .Disconnected ∧
        (s.StateOpenSocket_Process malloc).CurrentState = .smJoinAP)) ∧
    (s.StateTimer.Elapsed.1 = true →
      ((s.StateOpenSocket_Process malloc).Socket s.smOpenSocket_SocketId).State = .Closed ∧
      ((s.StateOpenSocket_Process malloc).Socket s.smOpenSocket_SocketId).ErrorFlag = .Timeout) ∧
    (∀ j, j ≠ s.smOpenSocket_SocketId →
      (s.StateOpenSocket_Process malloc).Socket j = s.Socket j) := by
  have hP : s.StateOpenSocket_Process malloc = s.StateOpenSocket_step2 := by
    simp [ESP.StateOpenSocket_Process, ESP.StateOpenSocket_enter, hc, hs]
  rw [hP]
  refine ⟨?_, ?_, ?_⟩
  · intro he
    refine ⟨?_, ?_, ?_⟩ <;> intro hr <;>
      simp [ESP.StateOpenSocket_step2, he, ESP.onCommandElse, ESP.onCommand,
        ESP.isCommandReceived, hr, ESP.setOpenSocket, ESP.setSocket, ESP.openSocket,
        ESP.StateOpenSocket_reject]
  · intro he
    simp [ESP.StateOpenSocket_step2, he, ESP.setOpenSocket, ESP.setSocket, ESP.openSocket]
  · intro j hj
    unfold ESP.StateOpenSocket_step2
    split
    · simp [ESP.setOpenSocket, ESP.setSocket, hj]
    · simp only [ESP.onCommandElse, ESP.onCommand, ESP.isCommandReceived]
      (repeat' split) <;>
        simp [ESP.setOpenSocket, ESP.setSocket, ESP.StateOpenSocket_reject, hj]

/-- C32, at concrete states: socket 0 is being connected, the timer runs, and the
module has answered `OK`, or `no ip`. -/
theorem C32_OpenSocket_replies_witness :
    ((ESP.demo_connecting .OK).StateTimer.Elapsed.1 = false ∧
      (((ESP.demo_connecting .OK).StateOpenSocket_Process env_alloc).Socket
        (ESP.demo_connecting .OK).smOpenSocket_SocketId).State = .Connected) ∧
    ((ESP.demo_connecting .NOIP).StateTimer.Elapsed.1 = false ∧
      (((ESP.demo_connecting .NOIP).StateOpenSocket_Process env_alloc).Socket
        (ESP.demo_connecting .NOIP).smOpenSocket_SocketId).State = .Closed) :=
  ⟨⟨by decide,
    (((C32_OpenSocket_replies env_alloc (ESP.demo_connecting .OK) (by decide) (by decide)).1
      (by decide)).1 (by decide)).1⟩,
   ⟨by decide,
    (((C32_OpenSocket_replies env_alloc (ESP.demo_connecting .NOIP) (by decide) (by decide)).1
      (by decide)).2.2 (by decide)).1⟩⟩

/-! ## The records after ModuleReInit -/

/-- C33: step 1 of `smModuleReset` with the timer run out calls `ModuleReInit`.
After the handler every socket is `Closed` with no lock, no buffer and the send
status `Idle`, and equals a constructed socket; the module record, the access
point, the station and the server equal the constructed records, with the modes
and connection types `Undefined`, the postfix 0, empty names and passwords, the
states `NotStarted`, `NotConnected` and `Undefined` and no start request; the
recognizer is idle and no event is pending; the current state is
`smStartModule`. -/
theorem C33_ModuleReInit (s : ESP) (hc : s.SMStateChanged = false) (hs : s.STEP = 1)
    (he : s.StateTimer.Elapsed.1 = true) :
    (∀ i, s.StateModuleReset_Process.Socket i = socket.ctor ∧
      (s.StateModuleReset_Process.Socket i).State = .Closed ∧
      (s.StateModuleReset_Process.Socket i).RxLock = false ∧
      (s.StateModuleReset_Process.Socket i).TxLock = false ∧
      (s.StateModuleReset_Process.Socket i).DataRx = 0 ∧
      (s.StateModuleReset_Process.Socket i).DataTx = 0 ∧
      (s.StateModuleReset_Process.Socket i).TxState = .Idle) ∧
    (s.StateModuleReset_Process.Module = module.ctor ∧
      s.StateModuleReset_Process.Module.ModeActual = .Undefined ∧
      s.StateModuleReset_Process.Module.ModeRequest = .Undefined ∧
      s.StateModuleReset_Process.Module.ConnectionTypeActual = .Undefined ∧
      s.StateModuleReset_Process.Module.ConnectionTypeRequest = .Undefined ∧
      s.StateModuleReset_Process.Module.AP_NamePostfix = 0) ∧
    (s.StateModuleReset_Process.LocalAP = AccessPoint.ctor ∧
      s.StateModuleReset_Process.LocalAP.State = .NotStarted ∧
      s.StateModuleReset_Process.LocalAP.pName = [] ∧
      s.StateModuleReset_Process.LocalAP.pPassword = []) ∧
    (s.StateModuleReset_Process.RemoteAP = Station.ctor ∧
      s.StateModuleReset_Process.RemoteAP.StationState = .NotConnected ∧
      s.StateModuleReset_Process.RemoteAP.pName = [] ∧
      s.StateModuleReset_Process.RemoteAP.pPassword = []) ∧
    (s.StateModuleReset_Process.Server = server.ctor ∧
      s.StateModuleReset_Process.Server.State = .Undefined ∧
      s.StateModuleReset_Process.Server.StartRequest = false) ∧
    s.StateModuleReset_Process.idle ∧
    s.StateModuleReset_Process.IO_.ListenToTxData = false ∧
    s.StateModuleReset_Process.IO_.RxOverflowFlag = false ∧
    s.StateModuleReset_Process.CurrentState = .smStartModule := by
  have hP : s.StateModuleReset_Process =
      ESP.ModuleReInit
        { s.StateModuleReset_enter with StateTimer := s.StateModuleReset_enter.StateTimer.Elapsed.2 } := by
    have ht : s.StateModuleReset_enter.StateTimer = s.StateTimer := by
      simp only [ESP.StateModuleReset_enter, hc, ESP.ClearReceivingErrors]
      rfl
    have hst : s.StateModuleReset_enter.STEP = 1 := by
      simp only [ESP.StateModuleReset_enter, hc, ESP.ClearReceivingErrors]
      exact hs
    simp [ESP.StateModuleReset_Process, ESP.StateModuleReset_switch, hst, ESP.onElapsed, ht, he]
  rw [hP]
  refine ⟨fun i => ⟨rfl, rfl, rfl, rfl, rfl, rfl, rfl⟩, ⟨rfl, rfl, rfl, rfl, rfl, rfl⟩,
    ⟨rfl, rfl, ?_, ?_⟩, ⟨rfl, rfl, ?_, ?_⟩, ⟨rfl, rfl, rfl⟩, ?_, rfl, rfl, rfl⟩
  · exact (by decide : AccessPoint.ctor.pName = [])
  · exact (by decide : AccessPoint.ctor.pPassword = [])
  · exact (by decide : Station.ctor.pName = [])
  · exact (by decide : Station.ctor.pPassword = [])
  · exact ⟨rfl, rfl, rfl, rfl, rfl, rfl, rfl, rfl⟩

/-- C33, at a concrete state: the records of `ESP.demo_reset` are in use when the
timer of `smModuleReset` runs out. -/
theorem C33_ModuleReInit_witness :
    ESP.demo_reset.StateTimer.Elapsed.1 = true ∧
    (ESP.demo_reset.Socket 0).State = .Connected ∧
    ESP.demo_reset.StateModuleReset_Process.Socket 0 = socket.ctor ∧
    ESP.demo_reset.StateModuleReset_Process.CurrentState = .smStartModule :=
  ⟨by decide, by decide,
   ((C33_ModuleReInit ESP.demo_reset (by decide) (by decide) (by decide)).1 0).1,
   (C33_ModuleReInit ESP.demo_reset (by decide) (by decide) (by decide)).2.2.2.2.2.2.2.2⟩

/-! ## The credentials -/

/-- C34: the engine enters `smJoinAP` with the credentials `MyNet`, `secret12`.
The first poll finds them valid in step 0 and goes to step 1. The application
then calls `SwitchToStationMode("", "")`, which returns `SUCCESS` and leaves an
empty name, for which `CheckNameAndPassword` is false. The second poll sends
`AT+CWJAP="",""` all the same: step 1 does not look at the credentials again. -/
theorem C34_JoinAP_sends_unchecked_credentials :
    ((world.ctor ESP.demo_join (modem.ctor 230400)).round 50).esp.STEP = 1 ∧
    ((world.ctor ESP.demo_join (modem.ctor 230400)).round 50).esp.RemoteAP.CheckNameAndPassword =
      true ∧
    ((world.ctor ESP.demo_join (modem.ctor 230400)).round 50).sent = [] ∧
    (((world.ctor ESP.demo_join (modem.ctor 230400)).round 50).esp.SwitchToStationMode
      [] []).1 = SUCCESS ∧
    (((world.ctor ESP.demo_join (modem.ctor 230400)).round 50).call
      (fun s => (s.SwitchToStationMode [] []).2)).esp.RemoteAP.CheckNameAndPassword = false ∧
    ((((world.ctor ESP.demo_join (modem.ctor 230400)).round 50).call
      (fun s => (s.SwitchToStationMode [] []).2)).round 50).sent =
      [(230400, cs "AT+CWJAP=\"\",\"\"\r\n")] := by
  decide!

/-- C35: `SwitchToStationMode` and `SwitchToAccessPointMode` return `SUCCESS` for
an empty name, for a name of 43 bytes and for a password of 43 bytes, and
`CheckNameAndPassword` is false afterwards. Both copy the password with the
bound `PasswordSize`, which is the size of the name array, 44: with the
password `secret12` the bytes at the indices 40 to 43, after the end of the
password array of 40 bytes, are set to zero. -/
theorem C35_SUCCESS_with_invalid_credentials :
    ((ESP.demo.SwitchToStationMode [] (cs "secret12")).1 = SUCCESS ∧
      (ESP.demo.SwitchToStationMode [] (cs "secret12")).2.RemoteAP.CheckNameAndPassword = false) ∧
    ((ESP.demo.SwitchToStationMode (List.replicate 43 110) (cs "secret12")).1 = SUCCESS ∧
      (ESP.demo.SwitchToStationMode (List.replicate 43 110)
        (cs "secret12")).2.RemoteAP.CheckNameAndPassword = false) ∧
    ((ESP.demo.SwitchToStationMode (cs "MyNet") (List.replicate 43 112)).1 = SUCCESS ∧
      (ESP.demo.SwitchToStationMode (cs "MyNet")
        (List.replicate 43 112)).2.RemoteAP.CheckNameAndPassword = false ∧
      (ESP.demo.SwitchToStationMode (cs "MyNet")
        (List.replicate 43 112)).2.RemoteAP.Password 42 = 112) ∧
    ((ESP.demo.SwitchToAccessPointMode [] (cs "secret12") 1 .WPA2_PSK).1 = SUCCESS ∧
      (ESP.demo.SwitchToAccessPointMode [] (cs "secret12") 1
        .WPA2_PSK).2.LocalAP.CheckNameAndPassword = false) ∧
    ((ESP.demo.SwitchToAccessPointMode (cs "MyAP") (List.replicate 43 112) 1 .WPA2_PSK).1 =
        SUCCESS ∧
      (ESP.demo.SwitchToAccessPointMode (cs "MyAP") (List.replicate 43 112) 1
        .WPA2_PSK).2.LocalAP.CheckNameAndPassword = false) ∧
    (ESP8266_AP_PWD_LEN = 40 ∧ AccessPoint.PasswordSize = 44 ∧
      ESP.demo_marked.RemoteAP.Password 40 = 7 ∧ ESP.demo_marked.RemoteAP.Password 43 = 7 ∧
      (ESP.demo_marked.SwitchToStationMode (cs "MyNet") (cs "secret12")).1 = SUCCESS ∧
      (ESP.demo_marked.SwitchToStationMode (cs "MyNet") (cs "secret12")).2.RemoteAP.Password 40 =
        0 ∧
      (ESP.demo_marked.SwitchToStationMode (cs "MyNet") (cs "secret12")).2.RemoteAP.Password 43 =
        0 ∧
      (ESP.demo_marked.SwitchToStationMode (cs "MyNet") (cs "secret12")).2.RemoteAP.Password 44 =
        7 ∧
      (ESP.demo_marked.SwitchToAccessPointMode (cs "MyAP") (cs "secret12") 1 .WPA2_PSK).1 =
        SUCCESS ∧
      (ESP.demo_marked.SwitchToAccessPointMode (cs "MyAP") (cs "secret12") 1
        .WPA2_PSK).2.LocalAP.Password 43 = 0) := by
  decide!

/-! ## The line buffer, the send status, the port and the addresses -/

/-- C36: the line buffer holds the six bytes `xyz\r\r\n`, a record that ends like
an echo and matches no known echo. The echo branch sets `NoMatchFound` and
resets `IO.RxBuffCounter` to 0; no event is stored, so the semaphore is clear
and the test for the end of a line that follows reads the line buffer at the
indices `IO.RxBuffCounter - 1` and `IO.RxBuffCounter - 2`, which are -1 and -2. -/
theorem C36_line_end_test_reads_below_the_buffer :
    ESP.demo_unknown_echo.IO_.RxBuffCounter = 6 ∧
    ESP.demo_unknown_echo.rxLine = cs "xyz\r\r\n" ∧
    ESP.demo_unknown_echo.echo_received ∧
    (ESP.demo_unknown_echo.RxHandler_echo 0).2 = 1 ∧
    (ESP.demo_unknown_echo.RxHandler_echo 0).1.resetCounter.NewCommandSemaphore = false ∧
    (ESP.demo_unknown_echo.RxHandler_echo 0).1.resetCounter.line_received_indices = [-1, -2] ∧
    ((ESP.demo_unknown_echo.RxHandler_echo 0).1.resetCounter.line_received ↔
      (ESP.demo_unknown_echo.RxHandler_echo 0).1.resetCounter.IO_.RxBuffer_at (-1) = '\n'.toNat ∧
      (ESP.demo_unknown_echo.RxHandler_echo 0).1.resetCounter.IO_.RxBuffer_at (-2) =
        '\r'.toNat) ∧
    ESP.demo_unknown_echo.RxHandler_line3 0 =
      ESP.RxHandler_after_echo
        ((ESP.demo_unknown_echo.RxHandler_echo 0).1.resetCounter,
         (ESP.demo_unknown_echo.RxHandler_echo 0).2) := by
  refine ⟨by decide!, by decide!, by decide!, by decide!, by decide!, by decide!, ?_, ?_⟩
  · exact Iff.rfl
  · unfold ESP.RxHandler_line3
    rw [if_neg (by decide!), if_pos (by decide!)]

/-- C37: a successful `SocketSend` leaves the send status of the socket as it
was: `GetDataSendStatus` returns what it returned before the call. -/
theorem C37_SocketSend_keeps_send_status (s : ESP) (SocketID Data DataLen : Nat)
    (h : (s.SocketSend SocketID Data DataLen).1 = SUCCESS) :
    (s.SocketSend SocketID Data DataLen).2.GetDataSendStatus SocketID =
      s.GetDataSendStatus SocketID := by
  unfold ESP.SocketSend at h ⊢
  by_cases h1 : SocketID ≥ SocketsNum
  · rw [if_pos h1] at h
    exact absurd (show ERROR = SUCCESS from h) (by decide)
  · rw [if_neg h1] at h ⊢
    dsimp only at h ⊢
    split at h
    · rename_i h2
      rw [if_pos h2]
      simp [ESP.GetDataSendStatus, ESP.setSocket, h1]
    · exact absurd (show ERROR = SUCCESS from h) (by decide)

/-- C37, at a concrete state: the last send on socket 0 has ended with
`SendSuccess`; after `SocketSend(0, 5000, 10)` has returned `SUCCESS`, and after
the next poll, `GetDataSendStatus(0)` still returns `SendSuccess`. -/
theorem C37_SocketSend_keeps_send_status_witness :
    (ESP.demo_sent.SocketSend 0 5000 10).1 = SUCCESS ∧
    (ESP.demo_sent.SocketSend 0 5000 10).2.GetDataSendStatus 0 = .SendSuccess ∧
    ((world.ctor (ESP.demo_sent.SocketSend 0 5000 10).2 (modem.ctor 230400)).round
      50).esp.GetDataSendStatus 0 = .SendSuccess ∧
    ((world.ctor (ESP.demo_sent.SocketSend 0 5000 10).2 (modem.ctor 230400)).round
      50).esp.CurrentState = .smSendData :=
  ⟨by decide!,
   (C37_SocketSend_keeps_send_status ESP.demo_sent 0 5000 10 (by decide!)).trans (by decide!),
   by decide!, by decide!⟩

/-- C38: the sockets 0 and 1 are connected; `SocketSend(0, 5000, 0)` and
`SocketSend(1, 5000, 10)` both return `SUCCESS`. The handler of `smStandby` goes
to `smSendData` because of socket 1; step 0 of `smSendData` takes socket 0, the
first connected socket with `TxLock`, whose `TxDataLen` is 0, and step 1 sends
`AT+CIPSEND=0,0`. -/
theorem C38_CIPSEND_of_zero_bytes :
    ((ESP.demo_standby.setSocket 1 { socket.ctor with State := .Connected }).SocketSend
      0 5000 0).1 = SUCCESS ∧
    ((world.ctor ESP.demo_send_nothing (modem.ctor 230400)).round 50).esp.CurrentState =
      .smSendData ∧
    ((world.ctor ESP.demo_send_nothing (modem.ctor 230400)).rounds
      [50, 50]).esp.smSendData_SocketId = 0 ∧
    ((world.ctor ESP.demo_send_nothing (modem.ctor 230400)).rounds
      [50, 50]).esp.txSocket.TxDataLen = 0 ∧
    ((world.ctor ESP.demo_send_nothing (modem.ctor 230400)).rounds [50, 50, 50]).sent =
      [(230400, cs "AT+CIPSEND=0,0\r\n")] := by
  decide!

/-- C39: `ConnectSocket(0, 6000, 65536)` on the open socket 0 returns `SUCCESS`
and stores the port 0 in the `uint16_t` member. The handler of `smOpenSocket`
then finds the port 0 and closes the socket with `InternalError`; nothing is
sent. -/
theorem C39_port_65536_stored_as_zero :
    (ESP.demo_open.ConnectSocket 0 6000 65536).1 = SUCCESS ∧
    ((ESP.demo_open.ConnectSocket 0 6000 65536).2.Socket 0).Port = 0 ∧
    ((ESP.demo_open.ConnectSocket 0 6000 65536).2.Socket 0).State = .ConnectRequested ∧
    ((world.ctor (ESP.demo_open.ConnectSocket 0 6000 65536).2 (modem.ctor 230400)).rounds
      [50, 50, 50]).passed = [.smOpenSocket, .smStandby] ∧
    (((world.ctor (ESP.demo_open.ConnectSocket 0 6000 65536).2 (modem.ctor 230400)).rounds
      [50, 50, 50]).esp.Socket 0).State = .Closed ∧
    (((world.ctor (ESP.demo_open.ConnectSocket 0 6000 65536).2 (modem.ctor 230400)).rounds
      [50, 50, 50]).esp.Socket 0).ErrorFlag = .InternalError ∧
    ((world.ctor (ESP.demo_open.ConnectSocket 0 6000 65536).2 (modem.ctor 230400)).rounds
      [50, 50, 50]).sent = [] := by
  decide!

/-- A byte shifted to its place passes the mask for that place. -/
theorem Nat.shift_and_mask (p k : Nat) (hp : p ≤ 255) : (p <<< k) &&& (0xFF <<< k) = p <<< k := by
  apply Nat.eq_of_testBit_eq
  intro i
  have e : (0xFF : Nat) = 2 ^ 8 - 1 := by decide
  rw [Nat.testBit_and, Nat.testBit_shiftLeft, Nat.testBit_shiftLeft, e,
    Nat.testBit_two_pow_sub_one]
  by_cases h1 : i ≥ k
  · by_cases h2 : i - k < 8
    · simp [h1, h2]
    · have : p.testBit (i - k) = false :=
        Nat.testBit_lt_two_pow (Nat.lt_of_lt_of_le (by omega : p < 2 ^ 8)
          (Nat.pow_le_pow_right (by decide) (by omega)))
      simp [this]
  · simp [h1]

/-- A shifted number and a number below the shift have no bit in common. -/
theorem Nat.shift_or_low (a b k : Nat) (hb : b < 2 ^ k) : a <<< k ||| b = a * 2 ^ k + b := by
  rw [Nat.shiftLeft_eq, Nat.mul_comm, Nat.mul_add_lt_is_or hb]

/-- The expression of `StateGetApIP` on four bytes. -/
theorem Nat.pack_bytes (a b c d : Nat) (ha : a ≤ 255) (hb : b ≤ 255) (hc : c ≤ 255)
    (hd : d ≤ 255) :
    d ||| ((c <<< 8) &&& 0xFF00) ||| ((b <<< 16) &&& 0xFF0000) ||| ((a <<< 24) &&& 0xFF000000) =
      a <<< 24 ||| b <<< 16 ||| c <<< 8 ||| d ∧
    d ||| ((c <<< 8) &&& 0xFF00) ||| ((b <<< 16) &&& 0xFF0000) ||| ((a <<< 24) &&& 0xFF000000) =
      a * 2 ^ 24 + b * 2 ^ 16 + c * 2 ^ 8 + d := by
  have e1 : (0xFF00 : Nat) = 0xFF <<< 8 := by decide
  have e2 : (0xFF0000 : Nat) = 0xFF <<< 16 := by decide
  have e3 : (0xFF000000 : Nat) = 0xFF <<< 24 := by decide
  rw [e1, e2, e3, Nat.shift_and_mask c 8 hc, Nat.shift_and_mask b 16 hb,
    Nat.shift_and_mask a 24 ha]
  have h1 : c <<< 8 ||| d = c * 2 ^ 8 + d := Nat.shift_or_low c d 8 (by omega)
  have h2 : b <<< 16 ||| (c * 2 ^ 8 + d) = b * 2 ^ 16 + (c * 2 ^ 8 + d) :=
    Nat.shift_or_low b _ 16 (by omega)
  have h3 : a <<< 24 ||| (b * 2 ^ 16 + (c * 2 ^ 8 + d)) =
      a * 2 ^ 24 + (b * 2 ^ 16 + (c * 2 ^ 8 + d)) := Nat.shift_or_low a _ 24 (by omega)
  have hl : d ||| c <<< 8 ||| b <<< 16 ||| a <<< 24 =
      a * 2 ^ 24 + (b * 2 ^ 16 + (c * 2 ^ 8 + d)) := by
    rw [Nat.lor_comm d, h1, Nat.lor_comm _ (b <<< 16), h2, Nat.lor_comm _ (a <<< 24), h3]
  have hr : a <<< 24 ||| b <<< 16 ||| c <<< 8 ||| d =
      a * 2 ^ 24 + (b * 2 ^ 16 + (c * 2 ^ 8 + d)) := by
    rw [Nat.lor_assoc, Nat.lor_assoc, h1, h2, h3]
  refine ⟨by rw [hl, hr], ?_⟩
  rw [hl]; omega

/-- The byte of a number at the bit position `k`. -/
theorem Nat.shift_and_byte (ip k : Nat) : (ip >>> k) &&& 0xFF = ip / 2 ^ k % 256 := by
  have e : (0xFF : Nat) = 2 ^ 8 - 1 := by decide
  rw [e, Nat.and_pow_two_sub_one_eq_mod, Nat.shiftRight_eq_div_pow]

/-- C40: when the four received parameters are the four numbers that
`StateChangeAPIP` prints for an address `ip` of 32 bits, the expression of
`StateGetApIP` gives `ip`; and for any four received parameters of at most 255
it gives `a<<24 | b<<16 | c<<8 | d`. -/
theorem C40_IPv4_round_trip (x : io) :
    (∀ ip, ip < 2 ^ 32 →
      ip_args ip = [.num (x.ReceivedParameter 0), .num (x.ReceivedParameter 1),
        .num (x.ReceivedParameter 2), .num (x.ReceivedParameter 3)] →
      x.APIP = ip) ∧
    ((∀ i, i < 4 → x.ReceivedParameter i ≤ 255) →
      x.APIP = x.ReceivedParameter 0 <<< 24 ||| x.ReceivedParameter 1 <<< 16 |||
        x.ReceivedParameter 2 <<< 8 ||| x.ReceivedParameter 3) := by
  constructor
  · intro ip h hx
    simp only [ip_args, List.cons.injEq, print_arg.num.injEq, and_true] at hx
    obtain ⟨h0, h1, h2, h3⟩ := hx
    have h3b : ip &&& 0xFF = ip % 256 := by
      have := Nat.shift_and_byte ip 0
      simpa using this
    rw [Nat.shift_and_byte] at h0 h1 h2
    rw [h3b] at h3
    unfold io.APIP
    rw [(Nat.pack_bytes (x.ReceivedParameter 0) (x.ReceivedParameter 1) (x.ReceivedParameter 2)
      (x.ReceivedParameter 3) (by omega) (by omega) (by omega) (by omega)).2]
    omega
  · intro hx
    unfold io.APIP
    exact (Nat.pack_bytes _ _ _ _ (hx 0 (by decide)) (hx 1 (by decide)) (hx 2 (by decide))
      (hx 3 (by decide))).1

/-- C40, at a concrete record: the address 192.168.4.1. -/
theorem C40_IPv4_round_trip_witness :
    (3232236545 < 2 ^ 32 ∧
      ip_args 3232236545 = [.num (io.demo_address.ReceivedParameter 0),
        .num (io.demo_address.ReceivedParameter 1), .num (io.demo_address.ReceivedParameter 2),
        .num (io.demo_address.ReceivedParameter 3)] ∧
      io.demo_address.APIP = 3232236545) ∧
    ((∀ i, i < 4 → io.demo_address.ReceivedParameter i ≤ 255) ∧
      io.demo_address.APIP = io.demo_address.ReceivedParameter 0 <<< 24 |||
        io.demo_address.ReceivedParameter 1 <<< 16 ||| io.demo_address.ReceivedParameter 2 <<< 8 |||
        io.demo_address.ReceivedParameter 3) :=
  ⟨⟨by decide, rfl,
    (C40_IPv4_round_trip io.demo_address).1 3232236545 (by decide) rfl⟩,
   ⟨by decide, (C40_IPv4_round_trip io.demo_address).2 (by decide)⟩⟩

/-! ## The ring buffer and the cut frame outside the ranges of their theorems -/

/-- C2, counterexample: `cb_init(2^31 + 1, 2)`. The product of capacity and
element size is 2 in `size_t` arithmetic, so a block of two bytes is asked for
and `cb_init` returns `SUCCESS`. The second element is stored over the first,
and `cb_pop_front` returns the second element, where the queue returns the
first. -/
theorem C2_wrapped_allocation_overwrites :
    (cb_init (fun _ => 1000) circular_buffer.zero 2147483649 2).1 = SUCCESS ∧
    (cb_init (fun _ => 1000) circular_buffer.zero 2147483649 2).2.buffer_end = 1002 ∧
    (cb_run (cb_init (fun _ => 1000) circular_buffer.zero 2147483649 2).2 cb_op.demo_two).1 =
      [(SUCCESS, []), (SUCCESS, []), (SUCCESS, [8, 8])] ∧
    (fifo_run 2 ⟨2147483649, []⟩ cb_op.demo_two).1 =
      [(SUCCESS, []), (SUCCESS, []), (SUCCESS, [7, 7])] := by
  decide!

/-- C12, counterexample. First part: socket 0 was closed with the error flag
`Timeout` by a connection attempt that timed out, then connected by the
notification `0,CONNECT` and listened to with a buffer of 16 bytes; the flag is
still set. A frame of 20 bytes is cut as the claim says, but `SocketRecv`
returns 0, not 0xFFFF. Second part: a frame that announces 65537 bytes, on a
socket without an error flag; the length is stored in a `uint16_t`, one byte is
written, `RxDataLen` is 1 and `DataCutFlag` stays false. -/
theorem C12_cut_frame_outside_the_ranges :
    ((ESP.demo_timed_out.Socket 0).State = .Closed ∧
      (ESP.demo_timed_out.Socket 0).ErrorFlag = .Timeout ∧
      (ESP.demo_listening_flagged.Socket 0).State = .Connected ∧
      (ESP.demo_listening_flagged.Socket 0).ErrorFlag = .Timeout ∧
      (ESP.demo_listening_flagged.Socket 0).DataRx = 7000 ∧
      (ESP.demo_listening_flagged.Socket 0).RxBuffSize = 16 ∧
      (ESP.demo_listening_flagged.Socket 0).RxLock = false ∧
      bytesAt (ESP.demo_listening_flagged.feed
        [cs "+IPD,0,20:ABCDEFGH", cs "IJKLMNOPQRST"]).RxHandler.RxHandler.app_mem 7000 16 =
        cs "ABCDEFGHIJKLMNOP" ∧
      ((ESP.demo_listening_flagged.feed
        [cs "+IPD,0,20:ABCDEFGH", cs "IJKLMNOPQRST"]).RxHandler.RxHandler.Socket 0).RxDataLen =
        16 ∧
      ((ESP.demo_listening_flagged.feed
        [cs "+IPD,0,20:ABCDEFGH", cs "IJKLMNOPQRST"]).RxHandler.RxHandler.Socket 0).RxLock =
        true ∧
      ((ESP.demo_listening_flagged.feed
        [cs "+IPD,0,20:ABCDEFGH", cs "IJKLMNOPQRST"]).RxHandler.RxHandler.Socket 0).DataCutFlag =
        true ∧
      (ESP.demo_listening_flagged.feed
        [cs "+IPD,0,20:ABCDEFGH", cs "IJKLMNOPQRST"]).RxHandler.RxHandler.IO_.RxIgnoreCounter =
        0 ∧
      (ESP.demo_listening_flagged.feed
        [cs "+IPD,0,20:ABCDEFGH", cs "IJKLMNOPQRST"]).RxHandler.RxHandler.SocketRecv 0 = 0) ∧
    (((ESP.demo_listening.withRx []).Socket 0).ErrorFlag = .NoError ∧
      bytesAt ((ESP.demo_listening.withRx []).feed
        [cs "+IPD,0,65537:ABCDEFGH", cs "IJKLMNOPQRST"]).RxHandler.RxHandler.app_mem 7000 16 =
        65 :: List.replicate 15 0 ∧
      (((ESP.demo_listening.withRx []).feed
        [cs "+IPD,0,65537:ABCDEFGH", cs "IJKLMNOPQRST"]).RxHandler.RxHandler.Socket 0).RxDataLen =
        1 ∧
      (((ESP.demo_listening.withRx []).feed
        [cs "+IPD,0,65537:ABCDEFGH", cs "IJKLMNOPQRST"]).RxHandler.RxHandler.Socket
          0).DataCutFlag = false ∧
      ((ESP.demo_listening.withRx []).feed
        [cs "+IPD,0,65537:ABCDEFGH", cs "IJKLMNOPQRST"]).RxHandler.RxHandler.SocketRecv 0 =
        1) := by
  decide!
